import Mathlib

/-!
# openffucontrol-particleserver: the particle counter agent

A shallow embedding of `src/particlecounter.cpp` (class `ParticleCounter`) and of the
parts of its collaborators that the agent calls, followed by theorems about the
register-level protocol handling.

Conventions of the embedding.

* Machine integers are natural numbers or integers; every place where the C++ code
  truncates (assignment to `quint16`, `quint32`, the 16-bit register counter of the
  response loops) carries an explicit `%`.
* A value of a 16-bit protocol word (`quint16 rawdata`) is a `Nat`; theorems that depend
  on the range state `rawdata < 65536` as a hypothesis.
* Qt signals and calls into the log handler are recorded, in program order, in a list of
  `Signal` values returned next to the new state.
* `QDateTime::currentDateTime()` is an explicit argument `now`.
* The local `ArchiveDataset archiveDataset;` of `slot_receivedInputRegisterData` has no
  initialiser in the source; its indeterminate start value is an explicit argument.
-/

/-! ## Qt value types used by the agent -/

/-- Value of a `QTime`: `none` is the null (invalid) time, `some mds` holds the
milliseconds since the start of the day. -/
abbrev QTime := Option Nat

/-- Qt: `QTime::isValid(h, m, s)`. -/
def QTime.isValidHMS (h m s : Nat) : Bool :=
  decide (h < 24) && decide (m < 60) && decide (s < 60)

/-- Qt: `QTime::setHMS(h, m, s)` on a fresh `QTime`; an invalid triple gives the null time. -/
def QTime.setHMS (h m s : Nat) : QTime :=
  if QTime.isValidHMS h m s then some ((h * 3600 + m * 60 + s) * 1000) else none

/-- Calendar date held by a valid `QDate`. -/
structure YMD where
  year : Int
  month : Nat
  day : Nat
deriving DecidableEq, Repr

/-- Value of a `QDate`: `none` is the null (invalid) date. -/
abbrev QDate := Option YMD

/-- Qt: `QDate::isLeapYear` (proleptic Gregorian calendar, no year 0). -/
def QDate.isLeapYear (y : Int) : Bool :=
  let y := if y < 1 then y + 1 else y
  (decide (y % 4 = 0) && decide (y % 100 ≠ 0)) || decide (y % 400 = 0)

/-- Qt: the `monthDays` table of `qdatetime.cpp`. -/
def QDate.monthDays (month : Nat) : Nat :=
  match month with
  | 1 => 31 | 2 => 28 | 3 => 31 | 4 => 30 | 5 => 31 | 6 => 30
  | 7 => 31 | 8 => 31 | 9 => 30 | 10 => 31 | 11 => 30 | 12 => 31
  | _ => 0

/-- Qt: `QDate::isValid(year, month, day)`. -/
def QDate.isValidYMD (year : Int) (month day : Nat) : Bool :=
  if year = 0 then false
  else
    (decide (0 < day) && decide (0 < month) && decide (month ≤ 12)) &&
      (decide (day ≤ QDate.monthDays month) ||
        (decide (day = 29) && decide (month = 2) && QDate.isLeapYear year))

/-- Qt: `QDate::setDate(year, month, day)`; an invalid triple gives the null date. -/
def QDate.setDate (year : Int) (month day : Nat) : QDate :=
  if QDate.isValidYMD year month day then some ⟨year, month, day⟩ else none

/-- Qt: `Qt::TimeSpec`, as far as the agent uses it. -/
inductive TimeSpec where
  | LocalTime
  | UTC
deriving DecidableEq, Repr

/-- Value of a `QDateTime`: a date part, a time part and the time specification. -/
structure QDateTime where
  date : QDate
  time : QTime
  spec : TimeSpec
deriving DecidableEq, Repr

namespace QDateTime

/-- Qt: `QDateTime()`, the null date-time (local time specification). -/
def null : QDateTime := ⟨none, none, TimeSpec.LocalTime⟩

/-- Qt: `QDateTime::setTimeSpec`. -/
def setTimeSpec (dt : QDateTime) (spec : TimeSpec) : QDateTime :=
  { dt with spec := spec }

/-- Qt: the static helper `setDateTime` of `qdatetime.cpp`: with a valid date and an
invalid time the time becomes the start of the day. -/
def setDateTime (dt : QDateTime) (date : QDate) (time : QTime) : QDateTime :=
  let useTime : QTime := if time.isNone && date.isSome then some 0 else time
  { dt with date := date, time := useTime }

/-- Qt: `QDateTime::setDate`. -/
def setDate (dt : QDateTime) (date : QDate) : QDateTime :=
  setDateTime dt date dt.time

/-- Qt: `QDateTime::setTime`. -/
def setTime (dt : QDateTime) (time : QTime) : QDateTime :=
  setDateTime dt dt.date time

end QDateTime

/-! ## Data model of `particlecounter.h` -/

/-- Source: `ParticleCounter::ChannelStatus`. The field `ChannelData.status` stores the
raw word that the source casts to the enum, so the enumerators are given as numbers. -/
def ChannelStatus.OFF : Nat := 0

/-- Source: enumerator `OK` of `ParticleCounter::ChannelStatus`. -/
def ChannelStatus.OK : Nat := 1

/-- Source: enumerator `WARNING` of `ParticleCounter::ChannelStatus`. -/
def ChannelStatus.WARNING : Nat := 2

/-- Source: enumerator `ALARM` of `ParticleCounter::ChannelStatus`. -/
def ChannelStatus.ALARM : Nat := 3

/-- Source: `ParticleCounter::ChannelData`. -/
structure ChannelData where
  status : Nat
  channel : Nat
  count : Nat
deriving DecidableEq, Repr

/-- Source: `ParticleCounter::OutputDataFormat`. -/
inductive OutputDataFormat where
  | DISTRIBUTIVE
  | CUMULATIVE
deriving DecidableEq, Repr

/-- Numeric value of an `OutputDataFormat` enumerator. -/
def OutputDataFormat.toNat : OutputDataFormat → Nat
  | OutputDataFormat.DISTRIBUTIVE => 0
  | OutputDataFormat.CUMULATIVE => 1

/-- Source: the cast `(OutputDataFormat) (rawdata & 0x01)`. -/
def OutputDataFormat.ofBit (b : Nat) : OutputDataFormat :=
  if b = 1 then OutputDataFormat.CUMULATIVE else OutputDataFormat.DISTRIBUTIVE

/-- Source: `ParticleCounter::ActualData`. -/
structure ActualData where
  online : Bool
  lostTelegrams : Nat
  lastSeen : QDateTime
  clockSettingLostCount : Nat
  statusString : String
  channelData : Fin 8 → ChannelData
  timestamp : QDateTime

/-- Source: `ParticleCounter::ArchiveDataset`. -/
structure ArchiveDataset where
  timestamp : QDateTime
  samplingTimeInSeconds : Nat
  outputDataFormat : OutputDataFormat
  addupCount : Nat
  channelData : Fin 8 → ChannelData

/-- Source: `ParticleCounter::DeviceInfo`; a `QString` built by `append(QChar(rawdata))`
is the list of its 16-bit code units. -/
structure DeviceInfo where
  deviceInfoString : List Nat
  deviceIdString : List Nat
  modbusRegistersetVersion : String

/-- Source: `ParticleCounter::ConfigData`. -/
structure ConfigData where
  outputDataFormat : OutputDataFormat
  addupCount : Nat
  firstRinsingTimeInSeconds : Nat
  subsequentRinsingTimeInSeconds : Nat
  samplingTimeInSeconds : Nat
  valid : Bool
deriving DecidableEq, Repr

/-- Source: `ParticleCounter::StatusRegister`. -/
structure StatusRegister where
  deviceActive : Bool
  currentlySampling : Bool
  currentlyRinsing : Bool
  dataReady : Bool
deriving DecidableEq, Repr

/-- Source: `ParticleCounter::ErrorstateRegister`. -/
structure ErrorstateRegister where
  temperatureError : Bool
  sdCardError : Bool
  counterSettings : Bool
  acquisitionSettings : Bool
  remoteSettings : Bool
  filterSettings : Bool
  detectorLoop : Bool
  laserError : Bool
  flowError : Bool
deriving DecidableEq, Repr

/-- Source: `LogEntry::LoggingCategory` of the log handler. -/
inductive LoggingCategory where
  | Info
  | Warning
  | Error
deriving DecidableEq, Repr

/-- Observable outputs of the agent: calls into the log handler and emitted Qt signals. -/
inductive Signal where
  | newEntry (category : LoggingCategory) (module text : String)
  | entryGone (category : LoggingCategory) (module text : String)
  | needsSaving
  | ActualDataReceived (id : Int) (data : ActualData)
  | ArchiveDataReceived (id : Int) (data : ArchiveDataset)

/-- The `ActualDataReceived` emissions of a signal trace, in order. -/
def actualEmissions : List Signal → List (Int × ActualData)
  | [] => []
  | Signal.ActualDataReceived id data :: rest => (id, data) :: actualEmissions rest
  | _ :: rest => actualEmissions rest

/-- The `ArchiveDataReceived` emissions of a signal trace, in order. -/
def archiveEmissions : List Signal → List (Int × ArchiveDataset)
  | [] => []
  | Signal.ArchiveDataReceived id data :: rest => (id, data) :: archiveEmissions rest
  | _ :: rest => archiveEmissions rest

/-- Source: the member variables of class `ParticleCounter`. -/
structure ParticleCounter where
  m_transactionIDs : List Nat
  m_id : Int
  m_busID : Int
  m_modbusAddress : Int
  m_actualData : ActualData
  m_configData : ConfigData
  m_deviceInfo : DeviceInfo
  m_statusRegister : StatusRegister
  m_errorstateRegister : ErrorstateRegister
  m_physicalUnit : List Nat
  m_samplingEnabled : Bool
  m_dataChanged : Bool
  m_autosave : Bool
  m_filepath : String

/-! ## Construction and liveness -/

namespace ParticleCounter

/-- Source: `"Particle Counter id=" + QString().setNum(m_id)`, the module name of every
log entry of the agent. -/
def logModule (pc : ParticleCounter) : String :=
  "Particle Counter id=" ++ toString pc.m_id

/-- Source: the constructor `ParticleCounter::ParticleCounter`. The fields the
constructor leaves untouched (`online`, `m_filepath`) start as `false` and empty. -/
def new : ParticleCounter where
  m_transactionIDs := []
  m_id := -1
  m_busID := -1
  m_modbusAddress := -1
  m_actualData :=
    { online := false
      lostTelegrams := 0
      lastSeen := QDateTime.null
      clockSettingLostCount := 0
      statusString := ""
      channelData := fun i => { status := ChannelStatus.OFF, channel := i.val + 1, count := 0 }
      timestamp := QDateTime.null }
  m_configData :=
    { outputDataFormat := OutputDataFormat.CUMULATIVE
      addupCount := 1
      firstRinsingTimeInSeconds := 60
      subsequentRinsingTimeInSeconds := 30
      samplingTimeInSeconds := 59
      valid := true }
  m_deviceInfo := { deviceInfoString := [], deviceIdString := [], modbusRegistersetVersion := "" }
  m_statusRegister :=
    { deviceActive := false, currentlySampling := false, currentlyRinsing := false,
      dataReady := false }
  m_errorstateRegister :=
    { temperatureError := false, sdCardError := false, counterSettings := false,
      acquisitionSettings := false, remoteSettings := false, filterSettings := false,
      detectorLoop := false, laserError := false, flowError := false }
  m_physicalUnit := []
  m_samplingEnabled := false
  m_dataChanged := false
  m_autosave := false
  m_filepath := ""

/-- Source: `ParticleCounter::markAsOnline`. -/
def markAsOnline (pc : ParticleCounter) (now : QDateTime) : ParticleCounter × List Signal :=
  if !pc.m_actualData.online then
    ({ pc with m_actualData := { pc.m_actualData with online := true, lastSeen := now } },
      [Signal.entryGone LoggingCategory.Error pc.logModule "Not online."])
  else
    ({ pc with m_actualData := { pc.m_actualData with lastSeen := now } }, [])

end ParticleCounter

/-! ## Input-register responses -/

/-- Update of one element of a `ChannelData[8]` array. -/
def modifyChannel (cd : Fin 8 → ChannelData) (i : Fin 8) (f : ChannelData → ChannelData) :
    Fin 8 → ChannelData :=
  fun j => if j = i then f (cd j) else cd j

/-- Source: `channelData[i].channel = ch; channelData[i].status = (ChannelStatus) rawdata;`. -/
def setChannelStatus (cd : Fin 8 → ChannelData) (i : Fin 8) (ch rawdata : Nat) :
    Fin 8 → ChannelData :=
  modifyChannel cd i (fun c => { c with channel := ch, status := rawdata })

/-- Source: `channelData[i].count = rawdata;` (low word of the 32-bit count). -/
def setCountLow (cd : Fin 8 → ChannelData) (i : Fin 8) (rawdata : Nat) : Fin 8 → ChannelData :=
  modifyChannel cd i (fun c => { c with count := rawdata })

/-- Source: `channelData[i].count += rawdata << 16;` on a `quint32` count: the shifted
word is added modulo 2^32. -/
def addCountHigh (cd : Fin 8 → ChannelData) (i : Fin 8) (rawdata : Nat) : Fin 8 → ChannelData :=
  modifyChannel cd i (fun c => { c with count := (c.count + (rawdata <<< 16)) % 4294967296 })

/-- State of the `foreach` loop of `slot_receivedInputRegisterData`: the instrument, the
signals emitted so far and the local variables of the function. -/
structure InputLoopState where
  pc : ParticleCounter
  signals : List Signal
  samplingTimestamp : QDateTime
  samplingTime : QTime
  samplingDate : QDate
  seconds : Nat
  minutes : Nat
  hours : Nat
  days : Nat
  months : Nat
  years : Nat
  archiveDataset : ArchiveDataset

namespace InputLoopState

/-- Replace the live channel array of the instrument. -/
def setLive (st : InputLoopState) (f : (Fin 8 → ChannelData) → (Fin 8 → ChannelData)) :
    InputLoopState :=
  { st with pc := { st.pc with m_actualData :=
      { st.pc.m_actualData with channelData := f st.pc.m_actualData.channelData } } }

/-- Replace the channel array of the local archive dataset. -/
def setArchive (st : InputLoopState) (f : (Fin 8 → ChannelData) → (Fin 8 → ChannelData)) :
    InputLoopState :=
  { st with archiveDataset :=
      { st.archiveDataset with channelData := f st.archiveDataset.channelData } }

/-- Append one signal to the trace. -/
def emit (st : InputLoopState) (s : Signal) : InputLoopState :=
  { st with signals := st.signals ++ [s] }

end InputLoopState

/-- Source: the three `if (reg == ...) ....clear();` statements at the head of the loop
body of `slot_receivedInputRegisterData`. -/
def inputClearStrings (st : InputLoopState) (reg : Nat) : InputLoopState :=
  let st1 : InputLoopState :=
    if reg = 0 then
      { st with pc := { st.pc with m_deviceInfo := { st.pc.m_deviceInfo with deviceInfoString := [] } } }
    else st
  let st2 : InputLoopState :=
    if reg = 64 then
      { st1 with pc := { st1.pc with m_deviceInfo := { st1.pc.m_deviceInfo with deviceIdString := [] } } }
    else st1
  if reg = 96 then { st2 with pc := { st2.pc with m_physicalUnit := [] } } else st2

/-- Source: `QString().sprintf("%i.%i", rawdata / 100, rawdata % 100)`. -/
def registersetVersionString (rawdata : Nat) : String :=
  toString (rawdata / 100) ++ "." ++ toString (rawdata % 100)

/-- Source: case `INPUT_REG_0089_StatusRegister`. -/
def decodeStatusRegister (rawdata : Nat) : StatusRegister :=
  { deviceActive := (rawdata &&& (1 <<< 0)) != 0
    currentlySampling := (rawdata &&& (1 <<< 1)) != 0
    currentlyRinsing := (rawdata &&& (1 <<< 2)) != 0
    dataReady := (rawdata &&& (1 <<< 3)) != 0 }

/-- Source: the nine flag assignments of case `INPUT_REG_0096_ErrorstateRegister`. -/
def decodeErrorstateRegister (rawdata : Nat) : ErrorstateRegister :=
  { temperatureError := (rawdata &&& (1 <<< 0)) != 0
    sdCardError := (rawdata &&& (1 <<< 1)) != 0
    counterSettings := (rawdata &&& (1 <<< 2)) != 0
    acquisitionSettings := (rawdata &&& (1 <<< 3)) != 0
    remoteSettings := (rawdata &&& (1 <<< 4)) != 0
    filterSettings := (rawdata &&& (1 <<< 5)) != 0
    detectorLoop := (rawdata &&& (1 <<< 6)) != 0
    laserError := (rawdata &&& (1 <<< 7)) != 0
    flowError := (rawdata &&& (1 <<< 9)) != 0 }

/-- Source: case `INPUT_REG_0096_ErrorstateRegister` of the input switch. -/
def inputErrorstate (st : InputLoopState) (rawdata : Nat) : InputLoopState :=
  let pc1 : ParticleCounter := { st.pc with m_errorstateRegister := decodeErrorstateRegister rawdata }
  if rawdata = 0 then
    { st with
      pc := { pc1 with m_actualData := { pc1.m_actualData with statusString := "healthy" } }
      signals := st.signals ++
        [Signal.entryGone LoggingCategory.Error st.pc.logModule "Status error present."] }
  else
    { st with
      pc := { pc1 with m_actualData := { pc1.m_actualData with statusString := "problem" } }
      signals := st.signals ++
        [Signal.newEntry LoggingCategory.Error st.pc.logModule "Status error present."] }

/-- Source: the statements of the two `...TimestampYears` cases up to the assignment of
the finished timestamp: `years = rawdata + 2000` on a `quint16`, `setDate` on the local
date, then `setDate` and `setTime` on the local timestamp. -/
def inputYears (st : InputLoopState) (rawdata : Nat) : InputLoopState :=
  let years := (rawdata + 2000) % 65536
  let samplingDate := QDate.setDate (years : Int) st.months st.days
  let ts := (st.samplingTimestamp.setDate samplingDate).setTime st.samplingTime
  { st with years := years, samplingDate := samplingDate, samplingTimestamp := ts }

/-- Source: the `switch (reg)` of `slot_receivedInputRegisterData`, one case per `case`
label of the source; the three `case A ... B:` ranges come first. -/
def inputSwitch (st : InputLoopState) (reg rawdata : Nat) : InputLoopState :=
  if reg ≤ 0 + 48 - 1 then
    { st with pc := { st.pc with m_deviceInfo :=
        { st.pc.m_deviceInfo with
          deviceInfoString := st.pc.m_deviceInfo.deviceInfoString ++ [rawdata] } } }
  else if 64 ≤ reg ∧ reg ≤ 64 + 16 - 1 then
    { st with pc := { st.pc with m_deviceInfo :=
        { st.pc.m_deviceInfo with
          deviceIdString := st.pc.m_deviceInfo.deviceIdString ++ [rawdata] } } }
  else if 96 ≤ reg ∧ reg ≤ 96 + 16 - 1 then
    { st with pc := { st.pc with m_physicalUnit := st.pc.m_physicalUnit ++ [rawdata] } }
  else if reg = 81 then
    { st with pc := { st.pc with m_deviceInfo :=
        { st.pc.m_deviceInfo with
          modbusRegistersetVersion := registersetVersionString rawdata } } }
  else if reg = 88 then { st with pc := { st.pc with m_statusRegister := decodeStatusRegister rawdata } }
  else if reg = 95 then inputErrorstate st rawdata
  else if reg = 256 then { st with seconds := rawdata }
  else if reg = 257 then { st with minutes := rawdata }
  else if reg = 258 then
    { st with hours := rawdata, samplingTime := QTime.setHMS rawdata st.minutes st.seconds }
  else if reg = 259 then { st with days := rawdata }
  else if reg = 260 then { st with months := rawdata }
  else if reg = 261 then
    let st1 := inputYears st rawdata
    { st1 with pc := { st1.pc with m_actualData :=
        { st1.pc.m_actualData with timestamp := st1.samplingTimestamp } } }
  else if reg = 262 then st.setLive (fun cd => setChannelStatus cd 0 1 rawdata)
  else if reg = 263 then st.setLive (fun cd => setCountLow cd 0 rawdata)
  else if reg = 264 then st.setLive (fun cd => addCountHigh cd 0 rawdata)
  else if reg = 265 then st.setLive (fun cd => setChannelStatus cd 1 2 rawdata)
  else if reg = 266 then st.setLive (fun cd => setCountLow cd 1 rawdata)
  else if reg = 267 then st.setLive (fun cd => addCountHigh cd 1 rawdata)
  else if reg = 268 then st.setLive (fun cd => setChannelStatus cd 2 3 rawdata)
  else if reg = 269 then st.setLive (fun cd => setCountLow cd 2 rawdata)
  else if reg = 270 then st.setLive (fun cd => addCountHigh cd 2 rawdata)
  else if reg = 271 then st.setLive (fun cd => setChannelStatus cd 3 4 rawdata)
  else if reg = 272 then st.setLive (fun cd => setCountLow cd 3 rawdata)
  else if reg = 273 then st.setLive (fun cd => addCountHigh cd 3 rawdata)
  else if reg = 274 then st.setLive (fun cd => setChannelStatus cd 4 5 rawdata)
  else if reg = 275 then st.setLive (fun cd => setCountLow cd 4 rawdata)
  else if reg = 276 then st.setLive (fun cd => addCountHigh cd 4 rawdata)
  else if reg = 277 then st.setLive (fun cd => setChannelStatus cd 5 6 rawdata)
  else if reg = 278 then st.setLive (fun cd => setCountLow cd 5 rawdata)
  else if reg = 279 then st.setLive (fun cd => addCountHigh cd 5 rawdata)
  else if reg = 280 then st.setLive (fun cd => setChannelStatus cd 6 7 rawdata)
  else if reg = 281 then st.setLive (fun cd => setCountLow cd 6 rawdata)
  else if reg = 282 then st.setLive (fun cd => addCountHigh cd 6 rawdata)
  else if reg = 283 then st.setLive (fun cd => setChannelStatus cd 7 8 rawdata)
  else if reg = 284 then st.setLive (fun cd => setCountLow cd 7 rawdata)
  else if reg = 285 then
    let st1 := st.setLive (fun cd => addCountHigh cd 7 rawdata)
    st1.emit (Signal.ActualDataReceived st1.pc.m_id st1.pc.m_actualData)
  else if reg = 512 then { st with seconds := rawdata }
  else if reg = 513 then { st with minutes := rawdata }
  else if reg = 514 then
    { st with hours := rawdata, samplingTime := QTime.setHMS rawdata st.minutes st.seconds }
  else if reg = 515 then { st with days := rawdata }
  else if reg = 516 then { st with months := rawdata }
  else if reg = 517 then
    let st1 := inputYears st rawdata
    { st1 with archiveDataset := { st1.archiveDataset with timestamp := st1.samplingTimestamp } }
  else if reg = 518 then { st with archiveDataset := { st.archiveDataset with samplingTimeInSeconds := rawdata } }
  else if reg = 519 then
    { st with archiveDataset :=
        { st.archiveDataset with
          outputDataFormat := OutputDataFormat.ofBit (rawdata &&& 0x01)
          addupCount := (rawdata &&& 0xff) >>> 2 } }
  else if reg = 520 then st.setArchive (fun cd => setChannelStatus cd 0 1 rawdata)
  else if reg = 521 then st.setArchive (fun cd => setCountLow cd 0 rawdata)
  else if reg = 522 then st.setArchive (fun cd => addCountHigh cd 0 rawdata)
  else if reg = 523 then st.setArchive (fun cd => setChannelStatus cd 1 2 rawdata)
  else if reg = 524 then st.setArchive (fun cd => setCountLow cd 1 rawdata)
  else if reg = 525 then st.setArchive (fun cd => addCountHigh cd 1 rawdata)
  else if reg = 526 then st.setArchive (fun cd => setChannelStatus cd 2 3 rawdata)
  else if reg = 527 then st.setArchive (fun cd => setCountLow cd 2 rawdata)
  else if reg = 528 then st.setArchive (fun cd => addCountHigh cd 2 rawdata)
  else if reg = 529 then st.setArchive (fun cd => setChannelStatus cd 3 4 rawdata)
  else if reg = 530 then st.setArchive (fun cd => setCountLow cd 3 rawdata)
  else if reg = 531 then st.setArchive (fun cd => addCountHigh cd 3 rawdata)
  else if reg = 532 then st.setArchive (fun cd => setChannelStatus cd 4 5 rawdata)
  else if reg = 533 then st.setArchive (fun cd => setCountLow cd 4 rawdata)
  else if reg = 534 then st.setArchive (fun cd => addCountHigh cd 4 rawdata)
  else if reg = 535 then st.setArchive (fun cd => setChannelStatus cd 5 6 rawdata)
  else if reg = 536 then st.setArchive (fun cd => setCountLow cd 5 rawdata)
  else if reg = 537 then st.setArchive (fun cd => addCountHigh cd 5 rawdata)
  else if reg = 538 then st.setArchive (fun cd => setChannelStatus cd 6 7 rawdata)
  else if reg = 539 then st.setArchive (fun cd => setCountLow cd 6 rawdata)
  else if reg = 540 then st.setArchive (fun cd => addCountHigh cd 6 rawdata)
  else if reg = 541 then st.setArchive (fun cd => setChannelStatus cd 7 8 rawdata)
  else if reg = 542 then st.setArchive (fun cd => setCountLow cd 7 rawdata)
  else if reg = 543 then
    let st1 := st.setArchive (fun cd => addCountHigh cd 7 rawdata)
    if (st1.archiveDataset.channelData 0).count ≠ 0xffffffff then
      st1.emit (Signal.ArchiveDataReceived st1.pc.m_id st1.archiveDataset)
    else st1
  else st


/-- Source: one pass through the body of the `foreach` loop of
`slot_receivedInputRegisterData` (without the final `reg++`). -/
def inputStep (st : InputLoopState) (reg rawdata : Nat) : InputLoopState :=
  inputSwitch (inputClearStrings st reg) reg rawdata

/-- Source: the `foreach (quint16 rawdata, data)` loop of `slot_receivedInputRegisterData`;
`reg++` acts on a `quint16`. -/
def inputLoop (st : InputLoopState) (reg : Nat) : List Nat → InputLoopState
  | [] => st
  | rawdata :: rest => inputLoop (inputStep st reg rawdata) ((reg + 1) % 65536) rest

/-- The loop state on entry to the `foreach` loop of `slot_receivedInputRegisterData`:
the instrument after `markAsOnline`, a null timestamp with UTC time specification, null
time and date, six zeroed time words and the indeterminate `archiveDataset`. -/
def inputLoopStart (pc : ParticleCounter) (now : QDateTime) (uninit : ArchiveDataset) :
    InputLoopState :=
  { pc := (pc.markAsOnline now).1
    signals := (pc.markAsOnline now).2
    samplingTimestamp := QDateTime.null.setTimeSpec TimeSpec.UTC
    samplingTime := none
    samplingDate := none
    seconds := 0
    minutes := 0
    hours := 0
    days := 0
    months := 0
    years := 0
    archiveDataset := uninit }

/-- Source: `ParticleCounter::slot_receivedInputRegisterData`. The result is the
instrument afterwards and the signals emitted, in order. -/
def ParticleCounter.slot_receivedInputRegisterData (pc : ParticleCounter) (now : QDateTime)
    (uninit : ArchiveDataset) (_telegramID adr reg : Nat) (data : List Nat) :
    ParticleCounter × List Signal :=
  if (adr : Int) ≠ pc.m_modbusAddress then (pc, [])
  else
    let st := inputLoop (inputLoopStart pc now uninit) reg data
    (st.pc, st.signals)

/-! ### A structured view of the input switch

The switch above lists its 70 labels one by one. For reasoning about an arbitrary
register the same function is given a second time, grouped by kind of register
(`classifyInputRegister`, `inputDispatch`); `inputSwitch_eq_dispatch` below proves that
the two agree on every register. -/

/-- The six words of a timestamp block. -/
inductive TimeField where
  | seconds | minutes | hours | days | months | years
deriving DecidableEq

/-- The three words of a channel block. -/
inductive ChannelPart where
  | status | low | high
deriving DecidableEq

/-- Kinds of input registers the switch distinguishes. -/
inductive InputCase where
  | deviceInfoString
  | deviceIDString
  | physicalUnitString
  | registersetVersion
  | statusRegister
  | errorstateRegister
  | liveTime (f : TimeField)
  | liveChannel (k : Fin 8) (part : ChannelPart)
  | archiveTime (f : TimeField)
  | archiveSamplingTime
  | archiveOutputDataFormat
  | archiveChannel (k : Fin 8) (part : ChannelPart)
  | other
deriving DecidableEq

/-- Word `i` of a timestamp block. -/
def TimeField.ofIndex (i : Nat) : TimeField :=
  if i = 0 then TimeField.seconds
  else if i = 1 then TimeField.minutes
  else if i = 2 then TimeField.hours
  else if i = 3 then TimeField.days
  else if i = 4 then TimeField.months
  else TimeField.years

/-- Word `i` of a channel block. -/
def ChannelPart.ofIndex (i : Nat) : ChannelPart :=
  if i = 0 then ChannelPart.status
  else if i = 1 then ChannelPart.low
  else ChannelPart.high

/-- Position of a word in its timestamp block. -/
def TimeField.toIndex : TimeField → Nat
  | TimeField.seconds => 0
  | TimeField.minutes => 1
  | TimeField.hours => 2
  | TimeField.days => 3
  | TimeField.months => 4
  | TimeField.years => 5

/-- Position of a word in its channel block. -/
def ChannelPart.toIndex : ChannelPart → Nat
  | ChannelPart.status => 0
  | ChannelPart.low => 1
  | ChannelPart.high => 2

/-- The kind of an input register, by arithmetic on the register number. -/
def classifyInputRegister (reg : Nat) : InputCase :=
  if reg ≤ 47 then InputCase.deviceInfoString
  else if 64 ≤ reg ∧ reg ≤ 79 then InputCase.deviceIDString
  else if 96 ≤ reg ∧ reg ≤ 111 then InputCase.physicalUnitString
  else if reg = 81 then InputCase.registersetVersion
  else if reg = 88 then InputCase.statusRegister
  else if reg = 95 then InputCase.errorstateRegister
  else if 256 ≤ reg ∧ reg ≤ 261 then InputCase.liveTime (TimeField.ofIndex (reg - 256))
  else if h : 262 ≤ reg ∧ reg ≤ 285 then
    InputCase.liveChannel ⟨(reg - 262) / 3, by omega⟩ (ChannelPart.ofIndex ((reg - 262) % 3))
  else if 512 ≤ reg ∧ reg ≤ 517 then InputCase.archiveTime (TimeField.ofIndex (reg - 512))
  else if reg = 518 then InputCase.archiveSamplingTime
  else if reg = 519 then InputCase.archiveOutputDataFormat
  else if h : 520 ≤ reg ∧ reg ≤ 543 then
    InputCase.archiveChannel ⟨(reg - 520) / 3, by omega⟩ (ChannelPart.ofIndex ((reg - 520) % 3))
  else InputCase.other

/-- The registers of each kind. -/
def InputCase.covers (c : InputCase) (reg : Nat) : Prop :=
  match c with
  | InputCase.deviceInfoString => reg ≤ 47
  | InputCase.deviceIDString => 64 ≤ reg ∧ reg ≤ 79
  | InputCase.physicalUnitString => 96 ≤ reg ∧ reg ≤ 111
  | InputCase.registersetVersion => reg = 81
  | InputCase.statusRegister => reg = 88
  | InputCase.errorstateRegister => reg = 95
  | InputCase.liveTime f => reg = 256 + f.toIndex
  | InputCase.liveChannel k part => reg = 262 + 3 * k.val + part.toIndex
  | InputCase.archiveTime f => reg = 512 + f.toIndex
  | InputCase.archiveSamplingTime => reg = 518
  | InputCase.archiveOutputDataFormat => reg = 519
  | InputCase.archiveChannel k part => reg = 520 + 3 * k.val + part.toIndex
  | InputCase.other =>
    47 < reg ∧ reg ≠ 81 ∧ reg ≠ 88 ∧ reg ≠ 95 ∧ ¬ (64 ≤ reg ∧ reg ≤ 79) ∧
      ¬ (96 ≤ reg ∧ reg ≤ 111) ∧ ¬ (256 ≤ reg ∧ reg ≤ 285) ∧ ¬ (512 ≤ reg ∧ reg ≤ 543)

/-- The six timestamp cases of either block, up to the assignment of the finished
timestamp (which differs between the live and the archive block). -/
def inputTimeField (st : InputLoopState) (f : TimeField) (rawdata : Nat) : InputLoopState :=
  match f with
  | TimeField.seconds => { st with seconds := rawdata }
  | TimeField.minutes => { st with minutes := rawdata }
  | TimeField.hours =>
    { st with hours := rawdata, samplingTime := QTime.setHMS rawdata st.minutes st.seconds }
  | TimeField.days => { st with days := rawdata }
  | TimeField.months => { st with months := rawdata }
  | TimeField.years => inputYears st rawdata

/-- The three cases of a channel block, on an arbitrary channel array. -/
def inputChannelPart (cd : Fin 8 → ChannelData) (k : Fin 8) (part : ChannelPart)
    (rawdata : Nat) : Fin 8 → ChannelData :=
  match part with
  | ChannelPart.status => setChannelStatus cd k (k.val + 1) rawdata
  | ChannelPart.low => setCountLow cd k rawdata
  | ChannelPart.high => addCountHigh cd k rawdata

/-- The effect of one case of the input switch, by kind of register. -/
def inputDispatch (st : InputLoopState) (c : InputCase) (rawdata : Nat) : InputLoopState :=
  match c with
  | InputCase.deviceInfoString =>
    { st with pc := { st.pc with m_deviceInfo :=
        { st.pc.m_deviceInfo with
          deviceInfoString := st.pc.m_deviceInfo.deviceInfoString ++ [rawdata] } } }
  | InputCase.deviceIDString =>
    { st with pc := { st.pc with m_deviceInfo :=
        { st.pc.m_deviceInfo with
          deviceIdString := st.pc.m_deviceInfo.deviceIdString ++ [rawdata] } } }
  | InputCase.physicalUnitString =>
    { st with pc := { st.pc with m_physicalUnit := st.pc.m_physicalUnit ++ [rawdata] } }
  | InputCase.registersetVersion =>
    { st with pc := { st.pc with m_deviceInfo :=
        { st.pc.m_deviceInfo with
          modbusRegistersetVersion := registersetVersionString rawdata } } }
  | InputCase.statusRegister =>
    { st with pc := { st.pc with m_statusRegister := decodeStatusRegister rawdata } }
  | InputCase.errorstateRegister => inputErrorstate st rawdata
  | InputCase.liveTime f =>
    let st1 := inputTimeField st f rawdata
    if f = TimeField.years then
      { st1 with pc := { st1.pc with m_actualData :=
          { st1.pc.m_actualData with timestamp := st1.samplingTimestamp } } }
    else st1
  | InputCase.liveChannel k part =>
    let st1 := st.setLive (fun cd => inputChannelPart cd k part rawdata)
    if k = 7 ∧ part = ChannelPart.high then
      st1.emit (Signal.ActualDataReceived st1.pc.m_id st1.pc.m_actualData)
    else st1
  | InputCase.archiveTime f =>
    let st1 := inputTimeField st f rawdata
    if f = TimeField.years then
      { st1 with archiveDataset := { st1.archiveDataset with timestamp := st1.samplingTimestamp } }
    else st1
  | InputCase.archiveSamplingTime =>
    { st with archiveDataset := { st.archiveDataset with samplingTimeInSeconds := rawdata } }
  | InputCase.archiveOutputDataFormat =>
    { st with archiveDataset :=
        { st.archiveDataset with
          outputDataFormat := OutputDataFormat.ofBit (rawdata &&& 0x01)
          addupCount := (rawdata &&& 0xff) >>> 2 } }
  | InputCase.archiveChannel k part =>
    let st1 := st.setArchive (fun cd => inputChannelPart cd k part rawdata)
    if k = 7 ∧ part = ChannelPart.high then
      if (st1.archiveDataset.channelData 0).count ≠ 0xffffffff then
        st1.emit (Signal.ArchiveDataReceived st1.pc.m_id st1.archiveDataset)
      else st1
    else st1
  | InputCase.other => st

/-! ## Holding-register responses -/

/-- State of the `foreach` loop of `slot_receivedHoldingRegisterData`: the instrument and
the local variables of the function. -/
structure HoldingLoopState where
  pc : ParticleCounter
  deviceRTC : QDateTime
  deviceTime : QTime
  deviceDate : QDate
  seconds : Nat
  minutes : Nat
  hours : Nat
  days : Nat
  months : Nat
  years : Nat

/-- Replace the configuration of the instrument held by a loop state. -/
def HoldingLoopState.setConfig (st : HoldingLoopState) (f : ConfigData → ConfigData) :
    HoldingLoopState :=
  { st with pc := { st.pc with m_configData := f st.pc.m_configData } }

/-- Source: the `switch (reg)` of `slot_receivedHoldingRegisterData`. Every label of the
source that is not listed here (`HOLDING_REG_0001_AlarmEnable`, the limit and delay
registers 32..79, `HOLDING_REG_0100_Command`, `default`) only executes `break`. -/
def holdingSwitch (st : HoldingLoopState) (reg rawdata : Nat) : HoldingLoopState :=
  -- HOLDING_REG_0002_OutputDataFormat
  if reg = 1 then
    if (rawdata &&& 0x01) = 1 then
      st.setConfig (fun c => { c with outputDataFormat := OutputDataFormat.CUMULATIVE })
    else
      st.setConfig (fun c => { c with outputDataFormat := OutputDataFormat.DISTRIBUTIVE })
  -- HOLDING_REG_0003_FirstRinsingTimeInSeconds
  else if reg = 2 then
    st.setConfig (fun c => { c with firstRinsingTimeInSeconds := (rawdata &&& 0xff) >>> 2 })
  -- HOLDING_REG_0004_SubsequentRinsingTimeInSeconds
  else if reg = 3 then
    st.setConfig (fun c => { c with subsequentRinsingTimeInSeconds := rawdata })
  -- HOLDING_REG_0005_SamplingTimeInSeconds (`processConfigData()` has an empty body)
  else if reg = 4 then
    st.setConfig (fun c => { c with samplingTimeInSeconds := rawdata })
  -- HOLDING_REG_0017_RtcSeconds
  else if reg = 16 then { st with seconds := rawdata }
  -- HOLDING_REG_0018_RtcMinutes
  else if reg = 17 then { st with minutes := rawdata }
  -- HOLDING_REG_0019_RtcHours
  else if reg = 18 then
    { st with hours := rawdata, deviceTime := QTime.setHMS rawdata st.minutes st.seconds }
  -- HOLDING_REG_0020_RtcDays
  else if reg = 19 then { st with days := rawdata }
  -- HOLDING_REG_0021_RtcMonths
  else if reg = 20 then { st with months := rawdata }
  -- HOLDING_REG_0022_RtcYears
  else if reg = 21 then
    let deviceDate := QDate.setDate (rawdata : Int) st.months st.days
    { st with
      years := rawdata
      deviceDate := deviceDate
      deviceRTC := (st.deviceRTC.setDate deviceDate).setTime st.deviceTime }
  else st

/-- Source: the `foreach (quint16 rawdata, data)` loop of
`slot_receivedHoldingRegisterData`; `reg++` acts on a `quint16`. -/
def holdingLoop (st : HoldingLoopState) (reg : Nat) : List Nat → HoldingLoopState
  | [] => st
  | rawdata :: rest => holdingLoop (holdingSwitch st reg rawdata) ((reg + 1) % 65536) rest

/-- The loop state on entry to the `foreach` loop of `slot_receivedHoldingRegisterData`. -/
def holdingLoopStart (pc : ParticleCounter) (now : QDateTime) : HoldingLoopState :=
  { pc := (pc.markAsOnline now).1
    deviceRTC := QDateTime.null
    deviceTime := none
    deviceDate := none
    seconds := 0
    minutes := 0
    hours := 0
    days := 0
    months := 0
    years := 0 }

/-- Source: `ParticleCounter::slot_receivedHoldingRegisterData`. The result is the
instrument afterwards and the signals emitted, in order. -/
def ParticleCounter.slot_receivedHoldingRegisterData (pc : ParticleCounter) (now : QDateTime)
    (_telegramID adr reg : Nat) (data : List Nat) : ParticleCounter × List Signal :=
  if (adr : Int) ≠ pc.m_modbusAddress then (pc, [])
  else ((holdingLoop (holdingLoopStart pc now) reg data).pc, (pc.markAsOnline now).2)

/-! ## The bus driver and bus requests -/

/-- A request handed to the external bus driver (`ModBus`). -/
inductive Telegram where
  | readHoldingRegisters (slaveAddress : Int) (dataStartAddress count : Nat)
  | readInputRegisters (slaveAddress : Int) (dataStartAddress count : Nat)
  | writeSingleRegister (slaveAddress : Int) (dataAddress value : Nat)
deriving DecidableEq

/-- The external bus driver `ModBus`, as far as the agent observes it: the telegrams
submitted so far, each with the transaction id the driver returned for it, and the
sequence `idOf` of the ids the driver hands out (`idOf n` for its n-th request). -/
structure ModBus where
  idOf : Nat → Nat
  telegrams : List (Nat × Telegram)

/-- Submitting one request to the driver: the returned transaction id and the driver
afterwards. -/
def ModBus.submit (bus : ModBus) (t : Telegram) : Nat × ModBus :=
  (bus.idOf bus.telegrams.length,
    { bus with telegrams := bus.telegrams ++ [(bus.idOf bus.telegrams.length, t)] })

/-- Source: the members of class `ParticleCounterModbusSystem` the agent uses. -/
structure ParticleCounterModbusSystem where
  m_pcModbuslist : List ModBus

/-- Result of `getBusByID`: the null pointer, a pointer to the bus at an index of the
list, or an access to `QList::at` outside the list. -/
inductive BusLookup where
  | nullptr
  | bus (index : Nat)
  | outOfRange
deriving DecidableEq

/-- Source: `ParticleCounterModbusSystem::getBusByID`. -/
def ParticleCounterModbusSystem.getBusByID (sys : ParticleCounterModbusSystem) (busID : Int) :
    BusLookup :=
  if (sys.m_pcModbuslist.length : Int) ≤ busID then BusLookup.nullptr
  else if busID < 0 then BusLookup.outOfRange
  else BusLookup.bus busID.toNat

/-- Source: `ParticleCounter::isConfigured`. -/
def ParticleCounter.isConfigured (pc : ParticleCounter) : Bool :=
  if pc.m_modbusAddress = -1 ∨ pc.m_busID = -1 then false else true

/-- Source: one statement `m_transactionIDs.append(bus->...(...))`: the request is
submitted to the bus at `index` and the returned id is appended to the pending ids. -/
def ParticleCounter.request (pc : ParticleCounter) (sys : ParticleCounterModbusSystem)
    (index : Nat) (t : Telegram) : ParticleCounter × ParticleCounterModbusSystem :=
  match sys.m_pcModbuslist[index]? with
  | none => (pc, sys)
  | some bus =>
    ({ pc with m_transactionIDs := pc.m_transactionIDs ++ [(bus.submit t).1] },
      { sys with m_pcModbuslist := sys.m_pcModbuslist.set index (bus.submit t).2 })

/-- Source: the value `data.outputDataFormat + ((data.addupCount * 4) & 0xff)` that
`setConfigData` passes for `HOLDING_REG_0002_OutputDataFormat`, converted to the
`quint16` parameter of `writeSingleRegister`. -/
def ConfigData.outputDataFormatWord (data : ConfigData) : Nat :=
  (data.outputDataFormat.toNat + ((data.addupCount * 4) &&& 0xff)) % 65536

/-- Source: `ParticleCounter::setConfigData`. The result is `none` when `getBusByID`
reads outside the bus list. -/
def ParticleCounter.setConfigData (pc : ParticleCounter) (sys : ParticleCounterModbusSystem)
    (data : ConfigData) : Option (ParticleCounter × ParticleCounterModbusSystem) :=
  if !pc.isConfigured then some (pc, sys)
  else
    match sys.getBusByID pc.m_busID with
    | BusLookup.nullptr => some (pc, sys)
    | BusLookup.outOfRange => none
    | BusLookup.bus i =>
      let r1 := pc.request sys i
        (Telegram.writeSingleRegister pc.m_modbusAddress 1 data.outputDataFormatWord)
      let r2 := r1.1.request r1.2 i
        (Telegram.writeSingleRegister pc.m_modbusAddress 2 (data.firstRinsingTimeInSeconds % 65536))
      let r3 := r2.1.request r2.2 i
        (Telegram.writeSingleRegister pc.m_modbusAddress 3
          (data.subsequentRinsingTimeInSeconds % 65536))
      let r4 := r3.1.request r3.2 i
        (Telegram.writeSingleRegister pc.m_modbusAddress 4 (data.samplingTimeInSeconds % 65536))
      some r4

/-! ## Pending transactions -/

/-- Qt: `QList::removeOne`: `indexOf` followed by `removeAt` when the value occurs. -/
def QList.removeOne (l : List Nat) (t : Nat) : List Nat :=
  if t ∈ l then l.eraseIdx (l.indexOf t) else l

/-- Source: `ParticleCounter::isThisYourTelegram`: the returned flag and the instrument
afterwards. -/
def ParticleCounter.isThisYourTelegram (pc : ParticleCounter) (telegramID : Nat)
    (deleteID : Bool) : Bool × ParticleCounter :=
  let found : Bool := pc.m_transactionIDs.contains telegramID
  if found && deleteID then
    (found, { pc with m_transactionIDs := QList.removeOne pc.m_transactionIDs telegramID })
  else (found, pc)

/-! ## Persistence: `save` and `load`

Text is a list of characters. The Qt string functions are modelled as far as `save`
and `load` use them. -/

/-- C: the decimal digits of a natural number, most significant first (`fuel` bounds the
number of digits). -/
def decimalDigits : Nat → Nat → List Char
  | 0, _ => []
  | fuel + 1, n =>
    if n < 10 then [Char.ofNat (48 + n)]
    else decimalDigits fuel (n / 10) ++ [Char.ofNat (48 + n % 10)]

/-- C: `sprintf("%i", v)` for an `int` argument. -/
def sprintf_i (v : Int) : List Char :=
  if v < 0 then '-' :: decimalDigits 20 v.natAbs else decimalDigits 20 v.natAbs

/-- C: the `int` that `%i` reads when it is handed a 32-bit unsigned value. -/
def asInt32 (v : Nat) : Int :=
  if v % 4294967296 < 2147483648 then ((v % 4294967296 : Nat) : Int)
  else ((v % 4294967296 : Nat) : Int) - 4294967296

/-- Source: the text `wdata` that `ParticleCounter::save` builds and writes. -/
def ParticleCounter.saveText (pc : ParticleCounter) : List Char :=
  "id=".toList ++ sprintf_i pc.m_id ++ " ".toList ++
  "bus=".toList ++ sprintf_i pc.m_busID ++ " ".toList ++
  "modbusAddress=".toList ++ sprintf_i pc.m_modbusAddress ++ " ".toList ++
  "clockSettingLostCount=".toList ++
    sprintf_i (asInt32 pc.m_actualData.clockSettingLostCount) ++ " ".toList ++
  "outputDataFormat=".toList ++ sprintf_i pc.m_configData.outputDataFormat.toNat ++ " ".toList ++
  "addupCount=".toList ++ sprintf_i pc.m_configData.addupCount ++ " ".toList ++
  "firstRinsingTimeInSeconds=".toList ++
    sprintf_i pc.m_configData.firstRinsingTimeInSeconds ++ " ".toList ++
  "subsequentRinsingTimeInSeconds=".toList ++
    sprintf_i pc.m_configData.subsequentRinsingTimeInSeconds ++ "\n".toList ++
  "samplingTimeInSeconds=".toList ++
    sprintf_i pc.m_configData.samplingTimeInSeconds ++ "\n".toList ++
  "samplingEnabled=".toList ++ sprintf_i (if pc.m_samplingEnabled then 1 else 0) ++ "\n".toList

/-- Source: `ParticleCounter::save`: the content written to the instrument's file, or
`none` when nothing is written (no change pending, or the file cannot be opened). -/
def ParticleCounter.save (pc : ParticleCounter) (fileOpens : Bool) : Option (List Char) :=
  if !pc.m_dataChanged then none
  else if !fileOpens then none
  else some pc.saveText

/-- Qt: `QIODevice::readLine`: the text up to and including the first line feed. -/
def readLine : List Char → List Char
  | [] => []
  | c :: rest => if c = '\n' then [c] else c :: readLine rest

/-- Qt: `QString::split(sep)` for a one-character separator (empty parts are kept). -/
def QString.split (sep : Char) : List Char → List (List Char)
  | [] => [[]]
  | c :: rest =>
    if c = sep then [] :: QString.split sep rest
    else
      match QString.split sep rest with
      | [] => [[c]]
      | p :: ps => (c :: p) :: ps

/-- Qt: `QChar::isSpace` on the characters that occur in the files. -/
def QString.isSpace (c : Char) : Bool :=
  c = ' ' || c = '\t' || c = '\n' || c = '\r' || c.toNat = 11 || c.toNat = 12

/-- Qt: removal of leading and trailing white space before a number is parsed. -/
def QString.trimmed (s : List Char) : List Char :=
  ((s.dropWhile QString.isSpace).reverse.dropWhile QString.isSpace).reverse

/-- Value of a string of decimal digits; `none` when a character is not a digit. -/
def parseDigits (acc : Nat) : List Char → Option Nat
  | [] => some acc
  | c :: rest =>
    if 48 ≤ c.toNat ∧ c.toNat ≤ 57 then parseDigits (acc * 10 + (c.toNat - 48)) rest
    else none

/-- Qt: the number a string denotes for `toInt` and `toUInt`: optional white space, an
optional sign, at least one decimal digit, optional white space. -/
def QString.toNumber (s : List Char) : Option Int :=
  match QString.trimmed s with
  | [] => none
  | '-' :: ds => if ds = [] then none else (parseDigits 0 ds).map (fun n => -(n : Int))
  | '+' :: ds => if ds = [] then none else (parseDigits 0 ds).map (fun n => (n : Int))
  | ds => (parseDigits 0 ds).map (fun n => (n : Int))

/-- Qt: `QString::toInt()`: 0 when the text is no number or does not fit an `int`. -/
def QString.toInt (s : List Char) : Int :=
  match QString.toNumber s with
  | some v => if -2147483648 ≤ v ∧ v ≤ 2147483647 then v else 0
  | none => 0

/-- Qt: `QString::toUInt()`: 0 when the text is no number, is negative or does not fit an
`unsigned int`. -/
def QString.toUInt (s : List Char) : Nat :=
  match QString.toNumber s with
  | some v => if 0 ≤ v ∧ v ≤ 4294967295 then v.toNat else 0
  | none => 0

/-- Source: the body of the `foreach` loop of `ParticleCounter::load` for a chunk that
split into exactly `key` and `value`. -/
def ParticleCounter.loadPair (pc : ParticleCounter) (key value : List Char) : ParticleCounter :=
  let pc := if key = "id".toList then { pc with m_id := QString.toInt value } else pc
  let pc := if key = "bus".toList then { pc with m_busID := QString.toInt value } else pc
  let pc :=
    if key = "modbusAddress".toList then { pc with m_modbusAddress := QString.toInt value }
    else pc
  let pc :=
    if key = "clockSettingLostCount".toList then
      { pc with m_actualData :=
          { pc.m_actualData with
            clockSettingLostCount := (QString.toInt value % 4294967296).toNat } }
    else pc
  let pc :=
    if key = "outputDataFormat".toList then
      if QString.toUInt value = OutputDataFormat.DISTRIBUTIVE.toNat then
        { pc with m_configData :=
            { pc.m_configData with outputDataFormat := OutputDataFormat.DISTRIBUTIVE } }
      else if QString.toUInt value = OutputDataFormat.CUMULATIVE.toNat then
        { pc with m_configData :=
            { pc.m_configData with outputDataFormat := OutputDataFormat.CUMULATIVE } }
      else pc
    else pc
  let pc :=
    if key = "addupCount".toList then
      { pc with m_configData :=
          { pc.m_configData with addupCount := (QString.toInt value % 65536).toNat } }
    else pc
  let pc :=
    if key = "firstRinsingTimeInSeconds".toList then
      { pc with m_configData :=
          { pc.m_configData with
            firstRinsingTimeInSeconds := (QString.toInt value % 65536).toNat } }
    else pc
  let pc :=
    if key = "subsequentRinsingTimeInSeconds".toList then
      { pc with m_configData :=
          { pc.m_configData with
            subsequentRinsingTimeInSeconds := (QString.toInt value % 65536).toNat } }
    else pc
  let pc :=
    if key = "samplingTimeInSeconds".toList then
      { pc with m_configData :=
          { pc.m_configData with samplingTimeInSeconds := (QString.toInt value % 65536).toNat } }
    else pc
  if key = "samplingEnabled".toList then
    { pc with m_samplingEnabled := decide (QString.toInt value ≠ 0) }
  else pc

/-- Source: the `foreach (QString data, dataList)` loop of `ParticleCounter::load`. -/
def ParticleCounter.loadChunks (pc : ParticleCounter) : List (List Char) → ParticleCounter
  | [] => pc
  | data :: rest =>
    match QString.split '=' data with
    | [key, value] => ParticleCounter.loadChunks (pc.loadPair key value) rest
    | _ => ParticleCounter.loadChunks pc rest

/-- Source: `ParticleCounter::load`; `content` is the content of the file, `none` when
the file cannot be opened. -/
def ParticleCounter.load (pc : ParticleCounter) (content : Option (List Char)) :
    ParticleCounter :=
  match content with
  | none => pc
  | some text => pc.loadChunks (QString.split ' ' (readLine text))

/-! ## Construction with an indeterminate `online` flag and lost transactions -/

/-- Source: the constructor `ParticleCounter::ParticleCounter`, which assigns every member
of `m_actualData` except `online`; the value that member holds after construction is the
explicit argument `online`. -/
def ParticleCounter.newWith (online : Bool) : ParticleCounter :=
  { ParticleCounter.new with
    m_actualData := { ParticleCounter.new.m_actualData with online := online } }

/-- Source: `ParticleCounter::slot_transactionLost`; `lostTelegrams++` acts on a
`quint64`. -/
def ParticleCounter.slot_transactionLost (pc : ParticleCounter) (_id : Nat) :
    ParticleCounter × List Signal :=
  let pc1 : ParticleCounter :=
    { pc with m_actualData :=
        { pc.m_actualData with
          lostTelegrams := (pc.m_actualData.lostTelegrams + 1) % 18446744073709551616 } }
  if pc1.m_actualData.online then
    ({ pc1 with m_actualData := { pc1.m_actualData with online := false } },
      [Signal.newEntry LoggingCategory.Error pc.logModule "Not online."])
  else (pc1, [])

/-- Number of calls `slot_entryGone(LogEntry::Error, ..., "Not online.")` in a trace. -/
def notOnlineCleared : List Signal → Nat
  | [] => 0
  | Signal.entryGone LoggingCategory.Error _ text :: rest =>
    (if text = "Not online." then 1 else 0) + notOnlineCleared rest
  | _ :: rest => notOnlineCleared rest

/-- Number of calls `slot_newEntry(LogEntry::Error, ..., "Status error present.")` in a
trace. -/
def statusErrorRaised : List Signal → Nat
  | [] => 0
  | Signal.newEntry LoggingCategory.Error _ text :: rest =>
    (if text = "Status error present." then 1 else 0) + statusErrorRaised rest
  | _ :: rest => statusErrorRaised rest

/-- Number of calls `slot_entryGone(LogEntry::Error, ..., "Status error present.")` in a
trace. -/
def statusErrorCleared : List Signal → Nat
  | [] => 0
  | Signal.entryGone LoggingCategory.Error _ text :: rest =>
    (if text = "Status error present." then 1 else 0) + statusErrorCleared rest
  | _ :: rest => statusErrorCleared rest

/-! ## The remaining bus requests -/

/-- Outcome of the two checks at the head of an operation that contacts the bus. -/
inductive BusAccess where
  | failed (signals : List Signal)
  | outOfRange
  | bus (index : Nat)

/-- Source: the head shared by `storeSettingsToFlash`, `requestDeviceInfo`,
`requestStatus`, `requestArchiveDataset` and `requestNextArchive`: the check of
`isConfigured()` and of the bus pointer, each with its log entry. -/
def ParticleCounter.checkedBus (pc : ParticleCounter) (sys : ParticleCounterModbusSystem) :
    BusAccess :=
  if !pc.isConfigured then
    BusAccess.failed [Signal.newEntry LoggingCategory.Error pc.logModule " not configured."]
  else
    match sys.getBusByID pc.m_busID with
    | BusLookup.nullptr =>
      BusAccess.failed [Signal.newEntry LoggingCategory.Error pc.logModule
        (" Bus id " ++ toString pc.m_busID ++ " not found.")]
    | BusLookup.outOfRange => BusAccess.outOfRange
    | BusLookup.bus i => BusAccess.bus i

/-- Source: the head shared by `requestConfig`, `requestClock` and `setClock` (and
`setConfigData`): the same two checks, each followed by a plain `return`. -/
def ParticleCounter.silentBus (pc : ParticleCounter) (sys : ParticleCounterModbusSystem) :
    BusAccess :=
  if !pc.isConfigured then BusAccess.failed []
  else
    match sys.getBusByID pc.m_busID with
    | BusLookup.nullptr => BusAccess.failed []
    | BusLookup.outOfRange => BusAccess.outOfRange
    | BusLookup.bus i => BusAccess.bus i

/-- A run of statements `m_transactionIDs.append(bus->...(...))` on one bus. -/
def ParticleCounter.requests (pc : ParticleCounter) (sys : ParticleCounterModbusSystem)
    (index : Nat) : List Telegram → ParticleCounter × ParticleCounterModbusSystem
  | [] => (pc, sys)
  | t :: rest => ParticleCounter.requests (pc.request sys index t).1 (pc.request sys index t).2
      index rest

/-- Result of an operation that contacts the bus: the instrument, the buses and the log
calls afterwards, or `none` when `getBusByID` reads outside the bus list. -/
abbrev RequestResult := Option (ParticleCounter × ParticleCounterModbusSystem × List Signal)

/-- Source: the telegrams of `ParticleCounter::requestConfig`. -/
def ParticleCounter.configTelegrams (pc : ParticleCounter) : List Telegram :=
  [Telegram.readHoldingRegisters pc.m_modbusAddress 1 1,
    Telegram.readHoldingRegisters pc.m_modbusAddress 2 1,
    Telegram.readHoldingRegisters pc.m_modbusAddress 3 1,
    Telegram.readHoldingRegisters pc.m_modbusAddress 4 1]

/-- Source: `ParticleCounter::requestConfig`. -/
def ParticleCounter.requestConfig (pc : ParticleCounter) (sys : ParticleCounterModbusSystem) :
    RequestResult :=
  match pc.silentBus sys with
  | BusAccess.failed signals => some (pc, sys, signals)
  | BusAccess.outOfRange => none
  | BusAccess.bus i =>
    some ((pc.requests sys i pc.configTelegrams).1, (pc.requests sys i pc.configTelegrams).2, [])

/-- Source: the statement `if (!m_configData.valid) requestConfig();` followed by the
requests `ts` of an operation whose two checks have passed with the bus at `i`. -/
def ParticleCounter.configThenRequests (pc : ParticleCounter)
    (sys : ParticleCounterModbusSystem) (i : Nat) (ts : List Telegram) : RequestResult :=
  if !pc.m_configData.valid then
    match pc.requestConfig sys with
    | none => none
    | some (pc1, sys1, signals) =>
      some ((pc1.requests sys1 i ts).1, (pc1.requests sys1 i ts).2, signals)
  else some ((pc.requests sys i ts).1, (pc.requests sys i ts).2, [])

/-- Source: the body shared by the five logging operations, with the requests `ts` that
the operation makes once both checks have passed. -/
def ParticleCounter.checkedRequests (pc : ParticleCounter) (sys : ParticleCounterModbusSystem)
    (ts : List Telegram) : RequestResult :=
  match pc.checkedBus sys with
  | BusAccess.failed signals => some (pc, sys, signals)
  | BusAccess.outOfRange => none
  | BusAccess.bus i => pc.configThenRequests sys i ts

/-- Source: the telegram of `ParticleCounter::storeSettingsToFlash`
(`COMMAND_0009_SaveAcquisitionRegistersToNonvolatileMemory` to `HOLDING_REG_0100_Command`). -/
def ParticleCounter.storeTelegrams (pc : ParticleCounter) : List Telegram :=
  [Telegram.writeSingleRegister pc.m_modbusAddress 99 9]

/-- Source: `ParticleCounter::storeSettingsToFlash`. -/
def ParticleCounter.storeSettingsToFlash (pc : ParticleCounter)
    (sys : ParticleCounterModbusSystem) : RequestResult :=
  pc.checkedRequests sys pc.storeTelegrams

/-- Source: the telegrams of `ParticleCounter::requestDeviceInfo`. -/
def ParticleCounter.deviceInfoTelegrams (pc : ParticleCounter) : List Telegram :=
  [Telegram.readInputRegisters pc.m_modbusAddress 0 48,
    Telegram.readInputRegisters pc.m_modbusAddress 64 16,
    Telegram.readInputRegisters pc.m_modbusAddress 81 1]

/-- Source: `ParticleCounter::requestDeviceInfo` (which does not call `requestConfig`). -/
def ParticleCounter.requestDeviceInfo (pc : ParticleCounter)
    (sys : ParticleCounterModbusSystem) : RequestResult :=
  match pc.checkedBus sys with
  | BusAccess.failed signals => some (pc, sys, signals)
  | BusAccess.outOfRange => none
  | BusAccess.bus i =>
    some ((pc.requests sys i pc.deviceInfoTelegrams).1,
      (pc.requests sys i pc.deviceInfoTelegrams).2, [])

/-- Source: the telegrams of `ParticleCounter::requestStatus`: the start or stop command
(17 or 16) to `HOLDING_REG_0100_Command`, then the status register, the error-state
register and the physical unit. -/
def ParticleCounter.statusTelegrams (pc : ParticleCounter) : List Telegram :=
  [Telegram.writeSingleRegister pc.m_modbusAddress 99 (if pc.m_samplingEnabled then 17 else 16),
    Telegram.readInputRegisters pc.m_modbusAddress 88 1,
    Telegram.readInputRegisters pc.m_modbusAddress 95 1,
    Telegram.readInputRegisters pc.m_modbusAddress 96 16]

/-- Source: `ParticleCounter::requestStatus`. -/
def ParticleCounter.requestStatus (pc : ParticleCounter) (sys : ParticleCounterModbusSystem) :
    RequestResult :=
  pc.checkedRequests sys pc.statusTelegrams

/-- Source: the telegram of `ParticleCounter::requestArchiveDataset`: registers 512 up to
`542 + 1`, that is `542 + 1 - 512 + 1 = 32` registers. -/
def ParticleCounter.archiveTelegrams (pc : ParticleCounter) : List Telegram :=
  [Telegram.readInputRegisters pc.m_modbusAddress 512 (542 + 1 - 512 + 1)]

/-- Source: `ParticleCounter::requestArchiveDataset`. -/
def ParticleCounter.requestArchiveDataset (pc : ParticleCounter)
    (sys : ParticleCounterModbusSystem) : RequestResult :=
  pc.checkedRequests sys pc.archiveTelegrams

/-- Source: the telegram of `ParticleCounter::requestNextArchive`
(`COMMAND_0099_LoadNextArchiveDataSet` to `HOLDING_REG_0100_Command`). -/
def ParticleCounter.nextArchiveTelegrams (pc : ParticleCounter) : List Telegram :=
  [Telegram.writeSingleRegister pc.m_modbusAddress 99 99]

/-- Source: `ParticleCounter::requestNextArchive`. -/
def ParticleCounter.requestNextArchive (pc : ParticleCounter)
    (sys : ParticleCounterModbusSystem) : RequestResult :=
  pc.checkedRequests sys pc.nextArchiveTelegrams

/-- Source: the telegram of `ParticleCounter::requestClock`: `21 - 16 + 1 = 6` holding
registers from `HOLDING_REG_0017_RtcSeconds`. -/
def ParticleCounter.clockTelegrams (pc : ParticleCounter) : List Telegram :=
  [Telegram.readHoldingRegisters pc.m_modbusAddress 16 (21 - 16 + 1)]

/-- Source: `ParticleCounter::requestClock`. -/
def ParticleCounter.requestClock (pc : ParticleCounter) (sys : ParticleCounterModbusSystem) :
    RequestResult :=
  match pc.silentBus sys with
  | BusAccess.failed signals => some (pc, sys, signals)
  | BusAccess.outOfRange => none
  | BusAccess.bus i =>
    some ((pc.requests sys i pc.clockTelegrams).1, (pc.requests sys i pc.clockTelegrams).2, [])

/-- C++: conversion of an `int` argument to a `quint16` parameter. -/
def toQuint16 (v : Int) : Nat := (v % 65536).toNat

/-- Qt: `QTime::hour()`, -1 for the null time. -/
def QTime.hour (t : QTime) : Int :=
  match t with
  | none => -1
  | some mds => ((mds / 3600000 : Nat) : Int)

/-- Qt: `QTime::minute()`, -1 for the null time. -/
def QTime.minute (t : QTime) : Int :=
  match t with
  | none => -1
  | some mds => ((mds % 3600000 / 60000 : Nat) : Int)

/-- Qt: `QTime::second()`, -1 for the null time. -/
def QTime.second (t : QTime) : Int :=
  match t with
  | none => -1
  | some mds => ((mds / 1000 % 60 : Nat) : Int)

/-- Qt: `QDate::year()`, 0 for the null date. -/
def QDate.year (d : QDate) : Int :=
  match d with
  | none => 0
  | some ymd => ymd.year

/-- Qt: `QDate::month()`, 0 for the null date. -/
def QDate.month (d : QDate) : Int :=
  match d with
  | none => 0
  | some ymd => (ymd.month : Int)

/-- Qt: `QDate::day()`, 0 for the null date. -/
def QDate.day (d : QDate) : Int :=
  match d with
  | none => 0
  | some ymd => (ymd.day : Int)

/-- Source: the telegrams of `ParticleCounter::setClock` for the value `dt` of
`QDateTime::currentDateTimeUtc()`. -/
def ParticleCounter.setClockTelegrams (pc : ParticleCounter) (dt : QDateTime) : List Telegram :=
  [Telegram.writeSingleRegister pc.m_modbusAddress 16 (toQuint16 (QTime.second dt.time)),
    Telegram.writeSingleRegister pc.m_modbusAddress 17 (toQuint16 (QTime.minute dt.time)),
    Telegram.writeSingleRegister pc.m_modbusAddress 18 (toQuint16 (QTime.hour dt.time)),
    Telegram.writeSingleRegister pc.m_modbusAddress 19 (toQuint16 (QDate.day dt.date)),
    Telegram.writeSingleRegister pc.m_modbusAddress 20 (toQuint16 (QDate.month dt.date)),
    Telegram.writeSingleRegister pc.m_modbusAddress 21 (toQuint16 (QDate.year dt.date - 2000)),
    Telegram.writeSingleRegister pc.m_modbusAddress 99 1]

/-- Source: `ParticleCounter::setClock`. -/
def ParticleCounter.setClock (pc : ParticleCounter) (sys : ParticleCounterModbusSystem)
    (dt : QDateTime) : RequestResult :=
  match pc.silentBus sys with
  | BusAccess.failed signals => some (pc, sys, signals)
  | BusAccess.outOfRange => none
  | BusAccess.bus i =>
    some ((pc.requests sys i (pc.setClockTelegrams dt)).1,
      (pc.requests sys i (pc.setClockTelegrams dt)).2, [])

/-! ## The registry: `particlecounterdatabase.cpp`

The registry holds its instruments in the list `m_particlecounters`; an instrument is
identified by its position in that list. -/

/-- Source: the members of class `ParticleCounterDatabase` that the handlers below use. -/
structure ParticleCounterDatabase where
  m_particlecounters : List ParticleCounter

/-- Source: the `foreach` loop of `ParticleCounterDatabase::getParticleCounterByTelegramID`
(`isThisYourTelegram` is called with its default `deleteID = true`): the position of the
instrument returned, `none` for `nullptr`, and the instruments afterwards. -/
def getParticleCounterByTelegramIDLoop :
    List ParticleCounter → Nat → Option Nat × List ParticleCounter
  | [], _ => (none, [])
  | pc :: rest, telegramID =>
    if (pc.isThisYourTelegram telegramID true).1 then
      (some 0, (pc.isThisYourTelegram telegramID true).2 :: rest)
    else
      ((getParticleCounterByTelegramIDLoop rest telegramID).1.map (fun i => i + 1),
        (pc.isThisYourTelegram telegramID true).2 ::
          (getParticleCounterByTelegramIDLoop rest telegramID).2)

/-- Source: `ParticleCounterDatabase::getParticleCounterByTelegramID`. -/
def ParticleCounterDatabase.getParticleCounterByTelegramID (db : ParticleCounterDatabase)
    (telegramID : Nat) : Option Nat × ParticleCounterDatabase :=
  ((getParticleCounterByTelegramIDLoop db.m_particlecounters telegramID).1,
    { db with m_particlecounters :=
        (getParticleCounterByTelegramIDLoop db.m_particlecounters telegramID).2 })

/-- A call of a member function on the instrument at position `i`: the instrument is
replaced by the one the call leaves, and the call's signals are returned. -/
def ParticleCounterDatabase.callAt (db : ParticleCounterDatabase) (i : Nat)
    (f : ParticleCounter → ParticleCounter × List Signal) :
    ParticleCounterDatabase × List Signal :=
  match db.m_particlecounters[i]? with
  | none => (db, [])
  | some pc => ({ db with m_particlecounters := db.m_particlecounters.set i (f pc).1 }, (f pc).2)

/-- Source: `ParticleCounterDatabase::slot_transactionFinished` ("Do nothing"). -/
def ParticleCounterDatabase.slot_transactionFinished (db : ParticleCounterDatabase) :
    ParticleCounterDatabase × List Signal :=
  (db, [])

/-- Source: `ParticleCounterDatabase::slot_transactionLost`. -/
def ParticleCounterDatabase.slot_transactionLost (db : ParticleCounterDatabase)
    (telegramID : Nat) : ParticleCounterDatabase × List Signal :=
  match (db.getParticleCounterByTelegramID telegramID).1 with
  | none =>
    ((db.getParticleCounterByTelegramID telegramID).2,
      [Signal.newEntry LoggingCategory.Error "ParticleCounterDatabase slot_transactionLost"
        "Telegram id mismatch."])
  | some i =>
    (db.getParticleCounterByTelegramID telegramID).2.callAt i
      (fun pc => pc.slot_transactionLost telegramID)

/-- Source: `ParticleCounterDatabase::slot_receivedHoldingRegisterData`. -/
def ParticleCounterDatabase.slot_receivedHoldingRegisterData (db : ParticleCounterDatabase)
    (now : QDateTime) (telegramID adr reg : Nat) (data : List Nat) :
    ParticleCounterDatabase × List Signal :=
  match (db.getParticleCounterByTelegramID telegramID).1 with
  | none =>
    ((db.getParticleCounterByTelegramID telegramID).2,
      [Signal.newEntry LoggingCategory.Error
        "ParticleCounterDatabase slot_receivedHoldingRegisterData" "Telegram id mismatch."])
  | some i =>
    (db.getParticleCounterByTelegramID telegramID).2.callAt i
      (fun pc => pc.slot_receivedHoldingRegisterData now telegramID adr reg data)

/-- Source: `ParticleCounterDatabase::slot_receivedInputRegisterData`. -/
def ParticleCounterDatabase.slot_receivedInputRegisterData (db : ParticleCounterDatabase)
    (now : QDateTime) (uninit : ArchiveDataset) (telegramID adr reg : Nat) (data : List Nat) :
    ParticleCounterDatabase × List Signal :=
  match (db.getParticleCounterByTelegramID telegramID).1 with
  | none =>
    ((db.getParticleCounterByTelegramID telegramID).2,
      [Signal.newEntry LoggingCategory.Error
        "ParticleCounterDatabase slot_receivedInputRegisterData" "Telegram id mismatch."])
  | some i =>
    (db.getParticleCounterByTelegramID telegramID).2.callAt i
      (fun pc => pc.slot_receivedInputRegisterData now uninit telegramID adr reg data)

/-- An event the bus driver reports to the registry. -/
inductive BusEvent where
  | transactionLost (telegramID : Nat)
  | holdingRegisterData (telegramID adr reg : Nat) (data : List Nat)
  | inputRegisterData (telegramID adr reg : Nat) (data : List Nat)
  | transactionFinished

/-- The transaction id an event carries; `signal_transactionFinished()` carries none. -/
def BusEvent.telegramID : BusEvent → Option Nat
  | BusEvent.transactionLost t => some t
  | BusEvent.holdingRegisterData t _ _ _ => some t
  | BusEvent.inputRegisterData t _ _ _ => some t
  | BusEvent.transactionFinished => none

/-- The handler of the instrument that the registry calls for an event. -/
def BusEvent.forward (e : BusEvent) (now : QDateTime) (uninit : ArchiveDataset)
    (pc : ParticleCounter) : ParticleCounter × List Signal :=
  match e with
  | BusEvent.transactionLost t => pc.slot_transactionLost t
  | BusEvent.holdingRegisterData t adr reg data =>
    pc.slot_receivedHoldingRegisterData now t adr reg data
  | BusEvent.inputRegisterData t adr reg data =>
    pc.slot_receivedInputRegisterData now uninit t adr reg data
  | BusEvent.transactionFinished => (pc, [])

/-- The slot of the registry that an event of the bus driver reaches. -/
def ParticleCounterDatabase.handle (db : ParticleCounterDatabase) (now : QDateTime)
    (uninit : ArchiveDataset) (e : BusEvent) : ParticleCounterDatabase × List Signal :=
  match e with
  | BusEvent.transactionLost t => db.slot_transactionLost t
  | BusEvent.holdingRegisterData t adr reg data =>
    db.slot_receivedHoldingRegisterData now t adr reg data
  | BusEvent.inputRegisterData t adr reg data =>
    db.slot_receivedInputRegisterData now uninit t adr reg data
  | BusEvent.transactionFinished => db.slot_transactionFinished

/-! ## The archive sink -/

/-- A record handed to `InfluxDB::write`, given by the values its payload text is built
from: the measurement name, the instrument id (twice in the text, as tag and as field),
the channel number and count of the channel, and the timestamp of the archive. -/
structure InfluxRecord where
  measurementName : String
  id : Int
  channel : Nat
  counts : Nat
  timestamp : QDateTime
deriving DecidableEq

/-- Source: the body of the `for (int ch=0; ch<8; ch++)` loop of
`slot_ParticleCounterArchiveDataReceived`, for the channels `chs` still to visit. -/
def archiveDataLoop (measurementName : String) (id : Int) (archiveData : ArchiveDataset) :
    List (Fin 8) → List InfluxRecord
  | [] => []
  | ch :: rest =>
    if (archiveData.channelData ch).status = ChannelStatus.OFF then
      archiveDataLoop measurementName id archiveData rest
    else
      { measurementName := measurementName
        id := id
        channel := (archiveData.channelData ch).channel
        counts := (archiveData.channelData ch).count
        timestamp := archiveData.timestamp } ::
        archiveDataLoop measurementName id archiveData rest

/-- Source: `ParticleCounterDatabase::slot_ParticleCounterArchiveDataReceived`: the
records written to the time-series database, in order. -/
def slot_ParticleCounterArchiveDataReceived (measurementName : String) (id : Int)
    (archiveData : ArchiveDataset) : List InfluxRecord :=
  archiveDataLoop measurementName id archiveData (List.finRange 8)

/-! ## The status poll -/

/-- Source: the three calls `pc->requestStatus(); pc->requestArchiveDataset();
pc->requestNextArchive();` of `slot_timer_pollStatus_fired`. -/
def ParticleCounter.poll (pc : ParticleCounter) (sys : ParticleCounterModbusSystem) :
    RequestResult :=
  match pc.requestStatus sys with
  | none => none
  | some (pc1, sys1, s1) =>
    match pc1.requestArchiveDataset sys1 with
    | none => none
    | some (pc2, sys2, s2) =>
      match pc2.requestNextArchive sys2 with
      | none => none
      | some (pc3, sys3, s3) => some (pc3, sys3, s1 ++ s2 ++ s3)

/-- Source: the inner loop `foreach(ParticleCounter* pc, m_particlecounters)` of
`slot_timer_pollStatus_fired` for the bus at position `b`. -/
def pollInstruments (b : Nat) (sys : ParticleCounterModbusSystem) :
    List ParticleCounter →
      Option (List ParticleCounter × ParticleCounterModbusSystem × List Signal)
  | [] => some ([], sys, [])
  | pc :: rest =>
    if (b : Int) = pc.m_busID then
      match pc.poll sys with
      | none => none
      | some (pc1, sys1, s1) =>
        match pollInstruments b sys1 rest with
        | none => none
        | some (rest1, sys2, s2) => some (pc1 :: rest1, sys2, s1 ++ s2)
    else
      match pollInstruments b sys rest with
      | none => none
      | some (rest1, sys2, s2) => some (pc :: rest1, sys2, s2)

/-- Source: the outer loop `foreach (ModBus* modBus, *m_pcModbusList)` of
`slot_timer_pollStatus_fired` over the bus positions `bs`; `depth b highPriority` is the
value that `getSizeOfTelegramQueue(highPriority)` of the bus at `b` returns when the
loop reaches it. -/
def pollBuses (depth : Nat → Bool → Int) :
    List Nat → List ParticleCounter → ParticleCounterModbusSystem →
      Option (List ParticleCounter × ParticleCounterModbusSystem × List Signal)
  | [], pcs, sys => some (pcs, sys, [])
  | b :: bs, pcs, sys =>
    if max (depth b false) (depth b true) < 20 then
      match pollInstruments b sys pcs with
      | none => none
      | some (pcs1, sys1, s1) =>
        match pollBuses depth bs pcs1 sys1 with
        | none => none
        | some (pcs2, sys2, s2) => some (pcs2, sys2, s1 ++ s2)
    else pollBuses depth bs pcs sys

/-- Source: `ParticleCounterDatabase::slot_timer_pollStatus_fired`. -/
def ParticleCounterDatabase.slot_timer_pollStatus_fired (db : ParticleCounterDatabase)
    (sys : ParticleCounterModbusSystem) (depth : Nat → Bool → Int) :
    Option (ParticleCounterDatabase × ParticleCounterModbusSystem × List Signal) :=
  match pollBuses depth (List.range sys.m_pcModbuslist.length) db.m_particlecounters sys with
  | none => none
  | some (pcs, sys1, signals) => some ({ db with m_particlecounters := pcs }, sys1, signals)

/-- The telegrams submitted so far to the bus at position `b`, in order. -/
def ParticleCounterModbusSystem.telegramsOf (sys : ParticleCounterModbusSystem) (b : Nat) :
    List Telegram :=
  match sys.m_pcModbuslist[b]? with
  | none => []
  | some bus => bus.telegrams.map Prod.snd

/-- Two instrument states that differ at most in the pending transaction ids. -/
def ParticleCounter.sameExceptPending (p q : ParticleCounter) : Prop :=
  q = { p with m_transactionIDs := q.m_transactionIDs }

/-- The telegrams of the three calls of one poll for an instrument whose two checks
pass: each call is preceded by the four reads of `requestConfig` when the configuration is
not valid. -/
def ParticleCounter.pollTelegrams (pc : ParticleCounter) : List Telegram :=
  (if pc.m_configData.valid then [] else pc.configTelegrams) ++ pc.statusTelegrams ++
    ((if pc.m_configData.valid then [] else pc.configTelegrams) ++ pc.archiveTelegrams) ++
    ((if pc.m_configData.valid then [] else pc.configTelegrams) ++ pc.nextArchiveTelegrams)

/-- The telegrams that one visit of the bus at position `b` by the status poll submits to
that bus: those of the instruments whose bus index is `b`, in the order of the registry;
an instrument without unit address submits none. -/
def pollBusTelegrams (b : Nat) (pcs : List ParticleCounter) : List Telegram :=
  (pcs.filter (fun pc => decide ((b : Int) = pc.m_busID))).flatMap
    (fun pc => if pc.isConfigured then pc.pollTelegrams else [])

/-! ## Setters, file names and `init` -/

/-- A file written by `save`: its path and its content. -/
structure FileWrite where
  path : List Char
  content : List Char
deriving DecidableEq

/-- C: the digits of `n`, padded with zeros on the left to at least `width` characters. -/
def zeroPadded (width n : Nat) : List Char :=
  List.replicate (width - (decimalDigits 20 n).length) '0' ++ decimalDigits 20 n

/-- C: `sprintf("%06i", v)` for an `int` argument: the sign counts towards the width. -/
def sprintf_06i (v : Int) : List Char :=
  if v < 0 then '-' :: zeroPadded 5 v.natAbs else zeroPadded 6 v.natAbs

/-- Source: `ParticleCounter::myFilename`. -/
def ParticleCounter.myFilename (pc : ParticleCounter) : List Char :=
  pc.m_filepath.toList ++ "particlecounter-".toList ++ sprintf_06i pc.m_id ++ ".csv".toList

/-- Source: `ParticleCounter::setFiledirectory` (the directory is also created). -/
def ParticleCounter.setFiledirectory (pc : ParticleCounter) (path : String) : ParticleCounter :=
  { pc with m_filepath := if path.toList.getLast? = some '/' then path else path ++ "/" }

/-- Source: `ParticleCounter::setAutoSave`: the flag decides whether `signal_needsSaving`
is connected to `slot_save`. -/
def ParticleCounter.setAutoSave (pc : ParticleCounter) (enable : Bool) : ParticleCounter :=
  { pc with m_autosave := enable }

/-- Source: `emit signal_needsSaving()`: with the connection made by `setAutoSave(true)`
the signal runs `slot_save`, that is `save`. The result is the file written, if any. -/
def ParticleCounter.needsSaving (pc : ParticleCounter) (fileOpens : Bool) : List FileWrite :=
  if pc.m_autosave then
    match pc.save fileOpens with
    | some text => [{ path := pc.myFilename, content := text }]
    | none => []
  else []

/-- Source: `ParticleCounter::setId`. -/
def ParticleCounter.setId (pc : ParticleCounter) (id : Int) (fileOpens : Bool) :
    ParticleCounter × List FileWrite :=
  if id ≠ pc.m_id then
    ({ pc with m_id := id, m_dataChanged := true },
      ParticleCounter.needsSaving { pc with m_id := id, m_dataChanged := true } fileOpens)
  else (pc, [])

/-- Source: `ParticleCounter::setBusID`. -/
def ParticleCounter.setBusID (pc : ParticleCounter) (busID : Int) (fileOpens : Bool) :
    ParticleCounter × List FileWrite :=
  if busID ≠ pc.m_busID then
    ({ pc with m_busID := busID, m_dataChanged := true },
      ParticleCounter.needsSaving { pc with m_busID := busID, m_dataChanged := true } fileOpens)
  else (pc, [])

/-- Source: `ParticleCounter::setModbusAddress`. -/
def ParticleCounter.setModbusAddress (pc : ParticleCounter) (modbusAddress : Int)
    (fileOpens : Bool) : ParticleCounter × List FileWrite :=
  if pc.m_modbusAddress ≠ modbusAddress then
    ({ pc with m_modbusAddress := modbusAddress, m_dataChanged := true },
      ParticleCounter.needsSaving
        { pc with m_modbusAddress := modbusAddress, m_dataChanged := true } fileOpens)
  else (pc, [])

/-- Source: `ParticleCounter::setData`. -/
def ParticleCounter.setData (pc : ParticleCounter) (key value : List Char) (fileOpens : Bool) :
    ParticleCounter × List FileWrite :=
  if key = "busID".toList then pc.setBusID (QString.toInt value) fileOpens
  else if key = "unit".toList then pc.setModbusAddress (QString.toInt value) fileOpens
  else (pc, [])

/-- Source: `ParticleCounter::setSamplingEnabled`. -/
def ParticleCounter.setSamplingEnabled (pc : ParticleCounter)
    (sys : ParticleCounterModbusSystem) (enable : Bool) : RequestResult :=
  match pc.checkedBus sys with
  | BusAccess.failed signals => some (pc, sys, signals)
  | BusAccess.outOfRange => none
  | BusAccess.bus i =>
    match pc.configThenRequests sys i [] with
    | none => none
    | some (pc1, sys1, signals) => some ({ pc1 with m_samplingEnabled := enable }, sys1, signals)

/-- Source: `ParticleCounter::init`; `dt` is the value of
`QDateTime::currentDateTimeUtc()` in `setClock`. -/
def ParticleCounter.init (pc : ParticleCounter) (sys : ParticleCounterModbusSystem)
    (dt : QDateTime) : RequestResult :=
  match pc.setClock sys dt with
  | none => none
  | some (pc1, sys1, s1) =>
    match pc1.setConfigData sys1 pc1.m_configData with
    | none => none
    | some (pc2, sys2) =>
      match pc2.requestDeviceInfo sys2 with
      | none => none
      | some (pc3, sys3, s3) =>
        match pc3.setSamplingEnabled sys3 true with
        | none => none
        | some (pc4, sys4, s4) =>
          match pc4.storeSettingsToFlash sys4 with
          | none => none
          | some (pc5, sys5, s5) =>
            match pc5.requestStatus sys5 with
            | none => none
            | some (pc6, sys6, s6) => some (pc6, sys6, s1 ++ s3 ++ s4 ++ s5 ++ s6)

/-- Source: the four telegrams of `ParticleCounter::setConfigData`. -/
def ParticleCounter.setConfigTelegrams (pc : ParticleCounter) (data : ConfigData) :
    List Telegram :=
  [Telegram.writeSingleRegister pc.m_modbusAddress 1 data.outputDataFormatWord,
    Telegram.writeSingleRegister pc.m_modbusAddress 2 (data.firstRinsingTimeInSeconds % 65536),
    Telegram.writeSingleRegister pc.m_modbusAddress 3
      (data.subsequentRinsingTimeInSeconds % 65536),
    Telegram.writeSingleRegister pc.m_modbusAddress 4 (data.samplingTimeInSeconds % 65536)]

/-! ## Adding and deleting instruments -/

/-- Source: the directory that `ParticleCounterDatabase::loadFromHdd` enumerates for
`*.csv` files. -/
def ParticleCounterDatabase.loadDirectory : String := "/var/openffucontrol/particlecounters/"

/-- Result of `addParticleCounter`: the registry and the buses afterwards, the files
written, the log calls and the returned status text. -/
structure AddResult where
  db : ParticleCounterDatabase
  sys : ParticleCounterModbusSystem
  writes : List FileWrite
  signals : List Signal
  response : List Char

/-- Source: `ParticleCounterDatabase::addParticleCounter`; `online` is the value the
member `online` of the new instrument holds after construction, `dt` the time `init`
reads. The result is `none` when `init` reads outside the bus list. -/
def ParticleCounterDatabase.addParticleCounter (db : ParticleCounterDatabase)
    (sys : ParticleCounterModbusSystem) (online fileOpens : Bool) (dt : QDateTime)
    (id busID modbusAddress : Int) : Option AddResult :=
  let pc0 := (ParticleCounter.newWith online).setFiledirectory "/var/openffucontrol/ocufans/"
  let pc1 := pc0.setAutoSave false
  let r2 := pc1.setId id fileOpens
  let r3 := r2.1.setBusID busID fileOpens
  let r4 := r3.1.setModbusAddress modbusAddress fileOpens
  let pc5 := r4.1.setAutoSave true
  let saved : List FileWrite :=
    match pc5.save fileOpens with
    | some text => [{ path := pc5.myFilename, content := text }]
    | none => []
  match pc5.init sys dt with
  | none => none
  | some (pc6, sys1, signals) =>
    some
      { db := { db with m_particlecounters := db.m_particlecounters ++ [pc6] }
        sys := sys1
        writes := r2.2 ++ r3.2 ++ r4.2 ++ saved
        signals := signals
        response := "OK[ParticleCounterDatabase]: Added ID ".toList ++ sprintf_i id }

/-- Source: the `foreach` loop of `ParticleCounterDatabase::getParticleCounterByID`: the
position of the first instrument with the id, `none` for `nullptr`. -/
def getParticleCounterByIDLoop : List ParticleCounter → Int → Option Nat
  | [], _ => none
  | pc :: rest, id =>
    if pc.m_id = id then some 0 else (getParticleCounterByIDLoop rest id).map (fun i => i + 1)

/-- Source: `ParticleCounter::deleteAllErrors`. -/
def ParticleCounter.deleteAllErrors (pc : ParticleCounter) : List Signal :=
  [Signal.entryGone LoggingCategory.Error pc.logModule "Not online.",
    Signal.entryGone LoggingCategory.Warning pc.logModule "Warnings present."]

/-- Result of `deleteParticleCounter`: the registry afterwards, the files removed, the
log calls and the returned status text. -/
structure DeleteResult where
  db : ParticleCounterDatabase
  removed : List (List Char)
  signals : List Signal
  response : List Char

/-- Source: `ParticleCounterDatabase::deleteParticleCounter`; `removeOne(pc)` removes the
pointer that `getParticleCounterByID` returned, that is the instrument at the position
found. -/
def ParticleCounterDatabase.deleteParticleCounter (db : ParticleCounterDatabase) (id : Int) :
    DeleteResult :=
  match getParticleCounterByIDLoop db.m_particlecounters id with
  | none =>
    { db := db, removed := [], signals := []
      response := "Warning[ParticleCounterDatabase]: ID ".toList ++ sprintf_i id ++
        " not found.".toList }
  | some i =>
    match db.m_particlecounters[i]? with
    | none =>
      { db := db, removed := [], signals := []
        response := "Warning[ParticleCounterDatabase]: ID ".toList ++ sprintf_i id ++
          " not found.".toList }
    | some pc =>
      { db := { db with m_particlecounters := db.m_particlecounters.eraseIdx i }
        removed := [pc.myFilename]
        signals := pc.deleteAllErrors
        response := "OK[ParticleCounterDatabase]: Removed ID ".toList ++ sprintf_i id }

/-- Source: `ParticleCounterDatabase::getParticleCounters`. -/
def ParticleCounterDatabase.getParticleCounters (db : ParticleCounterDatabase) (busNr : Int) :
    List ParticleCounter :=
  if busNr = -1 then db.m_particlecounters
  else db.m_particlecounters.filter (fun pc => decide (pc.m_busID = busNr))

/-- Source: the loop `response += m_pcDB->deleteParticleCounter(pc->getId()) + "\n"` of
the command `delete-particlecounter` over the ids of the instruments still to visit. -/
def deleteByIds (db : ParticleCounterDatabase) : List Int → DeleteResult
  | [] => { db := db, removed := [], signals := [], response := [] }
  | id :: rest =>
    let r1 := db.deleteParticleCounter id
    let r2 := deleteByIds r1.db rest
    { db := r2.db
      removed := r1.removed ++ r2.removed
      signals := r1.signals ++ r2.signals
      response := r1.response ++ "\n".toList ++ r2.response }

/-- Source: the branch of the command `delete-particlecounter` of
`RemoteClientHandler::slot_read_ready` for a `bus` parameter that parses to `bus`:
`foreach (ParticleCounter* pc, m_pcDB->getParticleCounters(bus))`. -/
def ParticleCounterDatabase.deleteOnBus (db : ParticleCounterDatabase) (bus : Int) :
    DeleteResult :=
  deleteByIds db ((db.getParticleCounters bus).map (fun pc => pc.m_id))

/-! ## Queries: `getData` and `getParticleCounterData` -/

/-- C: the `long long` that `%lli` reads when it is handed a 64-bit unsigned value. -/
def asInt64 (v : Nat) : Int :=
  if v % 18446744073709551616 < 9223372036854775808 then ((v % 18446744073709551616 : Nat) : Int)
  else ((v % 18446744073709551616 : Nat) : Int) - 18446744073709551616

/-- A `QString` given by its UTF-16 code units, as text. -/
def unitsToText (units : List Nat) : List Char := units.map Char.ofNat

/-- Qt: the year field `yyyy` of a date format: four digits, with a leading minus sign
for a negative year. -/
def formatYear (y : Int) : List Char :=
  if y < 0 then '-' :: zeroPadded 4 y.natAbs else zeroPadded 4 y.natAbs

/-- Qt: `QDateTime::toString("yyyy.MM.dd-hh:mm:ss.zzz")`; the empty string for a
date-time that is not valid. -/
def QDateTime.toStringLastSeen (dt : QDateTime) : List Char :=
  match dt.date, dt.time with
  | some d, some mds =>
    formatYear d.year ++ ".".toList ++ zeroPadded 2 d.month ++ ".".toList ++
      zeroPadded 2 d.day ++ "-".toList ++ zeroPadded 2 (mds / 3600000) ++ ":".toList ++
      zeroPadded 2 (mds % 3600000 / 60000) ++ ":".toList ++ zeroPadded 2 (mds / 1000 % 60) ++
      ".".toList ++ zeroPadded 3 (mds % 1000)
  | _, _ => []

/-- Source: the text that the branch `errorstring` of `getData` builds. -/
def ParticleCounter.errorstring (pc : ParticleCounter) : List Char :=
  let s : List Char :=
    (if pc.m_errorstateRegister.temperatureError then "error_temperatureError=1_".toList else []) ++
    (if pc.m_errorstateRegister.sdCardError then "error_sdCardError=1_".toList else []) ++
    (if pc.m_errorstateRegister.counterSettings then "error_counterSettings=1_".toList else []) ++
    (if pc.m_errorstateRegister.acquisitionSettings then
      "error_acquisitionSettings=1_".toList else []) ++
    (if pc.m_errorstateRegister.remoteSettings then "error_remoteSettings=1_".toList else []) ++
    (if pc.m_errorstateRegister.filterSettings then "error_filterSettings=1_".toList else []) ++
    (if pc.m_errorstateRegister.detectorLoop then "error_detectorLoop=1_".toList else []) ++
    (if pc.m_errorstateRegister.laserError then "error_laserError=1_".toList else []) ++
    (if pc.m_errorstateRegister.flowError then "error_flowError=1_".toList else [])
  if s = [] then "noError".toList else s

/-- Source: `ParticleCounter::getData`. -/
def ParticleCounter.getData (pc : ParticleCounter) (key : List Char) : List Char :=
  if key = "id".toList then sprintf_i pc.m_id
  else if key = "busID".toList then sprintf_i pc.m_busID
  else if key = "unit".toList then sprintf_i pc.m_modbusAddress
  else if key = "online".toList then sprintf_i (if pc.m_actualData.online then 1 else 0)
  else if key = "lostTelegrams".toList then sprintf_i (asInt64 pc.m_actualData.lostTelegrams)
  else if key = "lastSeen".toList then pc.m_actualData.lastSeen.toStringLastSeen
  else if key = "clockSettingLostCount".toList then
    sprintf_i (asInt32 pc.m_actualData.clockSettingLostCount)
  else if key = "deviceInfo".toList then
    "\"".toList ++ unitsToText pc.m_deviceInfo.deviceInfoString ++ "\"".toList
  else if key = "deviceID".toList then
    "\"".toList ++ unitsToText pc.m_deviceInfo.deviceIdString ++ "\"".toList
  else if key = "modbusRegistersetVersion".toList then
    "\"".toList ++ pc.m_deviceInfo.modbusRegistersetVersion.toList ++ "\"".toList
  else if key = "errorstring".toList then pc.errorstring
  else "Error[Particle Counter]: Key ".toList ++ key ++ " not available".toList

/-- Source: `ParticleCounter::getActualKeys`. -/
def ParticleCounter.getActualKeys : List (List Char) :=
  ["online".toList, "lostTelegrams".toList, "lastSeen".toList,
    "clockSettingLostCount".toList, "statusString".toList, "countChannel_1".toList,
    "countChannel_2".toList, "countChannel_3".toList, "countChannel_4".toList,
    "countChannel_5".toList, "countChannel_6".toList, "countChannel_7".toList,
    "countChannel_8".toList, "timestamp".toList]

/-- A `QMap<QString, QString>`, given by its entries; the keys of the entries are
pairwise distinct. The list holds the entries in the order of first insertion, while Qt
iterates a map in ascending key order: the order of the list carries no meaning, and what
is stated about a map is stated about its entries, whatever their order. -/
abbrev QMap := List (List Char × List Char)

/-- Qt: `QMap::insert`: the value of an existing key is replaced. -/
def QMap.insert (m : QMap) (key value : List Char) : QMap :=
  if m.any (fun e => decide (e.1 = key)) then
    m.map (fun e => if e.1 = key then (key, value) else e)
  else m ++ [(key, value)]

/-- The keys of a map. -/
def QMap.keys (m : QMap) : List (List Char) := m.map Prod.fst

/-- Qt: `QDate::toJulianDay` for a valid date (`julianDayFromDate` of `qdatetime.cpp`). -/
def YMD.toJulianDay (d : YMD) : Int :=
  let year : Int := if d.year < 0 then d.year + 1 else d.year
  let a : Int := (14 - (d.month : Int)) / 12
  let y : Int := year + 4800 - a
  let m : Int := (d.month : Int) + 12 * a - 3
  (d.day : Int) + (153 * m + 2) / 5 + 365 * y + y / 4 - y / 100 + y / 400 - 32045

/-- Qt: `QDateTime::toMSecsSinceEpoch`: the days since 1970-01-01 (0 without a valid
date) times the milliseconds of a day plus the milliseconds of the time (0 without a
valid time); for a local time the offset of the time zone, `utcOffsetSeconds`, is
taken off. -/
def QDateTime.toMSecsSinceEpoch (dt : QDateTime) (utcOffsetSeconds : Int) : Int :=
  let days : Int := match dt.date with
    | some d => d.toJulianDay - 2440588
    | none => 0
  let ds : Int := match dt.time with
    | some mds => (mds : Int)
    | none => 0
  match dt.spec with
  | TimeSpec.UTC => days * 86400000 + ds
  | TimeSpec.LocalTime => days * 86400000 + ds - utcOffsetSeconds * 1000

/-- Source: the payload that the loop body of `slot_ParticleCounterArchiveDataReceived`
builds for one record. A `QByteArray` is given by its bytes, each as the character with
that code. The last statement, `payload.append(qint64)`, resolves to
`QByteArray::append(char)`: it appends the one byte to which the number converts. -/
def InfluxRecord.payload (r : InfluxRecord) (utcOffsetSeconds : Int) : List Char :=
  r.measurementName.toList ++ ",".toList ++
  "tag_id=".toList ++ sprintf_i r.id ++ ",".toList ++
  "tag_channel=".toList ++ sprintf_i r.channel ++ ",".toList ++
  " ".toList ++
  "id=".toList ++ sprintf_i r.id ++ "i,".toList ++
  "channel=".toList ++ sprintf_i r.channel ++ "i,".toList ++
  "counts=".toList ++ sprintf_i r.counts ++ "i ".toList ++
  [Char.ofNat ((r.timestamp.toMSecsSinceEpoch utcOffsetSeconds * 1000000) % 256).toNat]

/-- Source: the keys that `ParticleCounter::load` compares a key with. -/
def ParticleCounter.persistedKeys : List (List Char) :=
  ["id".toList, "bus".toList, "modbusAddress".toList, "clockSettingLostCount".toList,
    "outputDataFormat".toList, "addupCount".toList, "firstRinsingTimeInSeconds".toList,
    "subsequentRinsingTimeInSeconds".toList, "samplingTimeInSeconds".toList,
    "samplingEnabled".toList]

/-- Source: `pair.at(0)` of a chunk of `load` with `pair.count() == 2`: the key of a chunk
that splits at '=' into exactly a key and a value. -/
def chunkKey (chunk : List Char) : Option (List Char) :=
  match QString.split '=' chunk with
  | [key, _] => some key
  | _ => none

/-- The keys of the `key=value` pairs of the first line of a file. -/
def loadedKeys (text : List Char) : List (List Char) :=
  (QString.split ' ' (readLine text)).filterMap chunkKey

/-- Two instrument states that differ at most in the ten members that `save` writes and
`load` reads. -/
def ParticleCounter.persistedOnly (p q : ParticleCounter) : Prop :=
  q = { p with
        m_id := q.m_id
        m_busID := q.m_busID
        m_modbusAddress := q.m_modbusAddress
        m_actualData := { p.m_actualData with
          clockSettingLostCount := q.m_actualData.clockSettingLostCount }
        m_configData := { p.m_configData with
          outputDataFormat := q.m_configData.outputDataFormat
          addupCount := q.m_configData.addupCount
          firstRinsingTimeInSeconds := q.m_configData.firstRinsingTimeInSeconds
          subsequentRinsingTimeInSeconds := q.m_configData.subsequentRinsingTimeInSeconds
          samplingTimeInSeconds := q.m_configData.samplingTimeInSeconds }
        m_samplingEnabled := q.m_samplingEnabled }

/-! ## Sequences of input-register responses and the lengths of the strings -/

/-- One delivery of `signal_receivedInputRegisterData` to an instrument: the arguments of
the slot together with the two external reads of the handler (the current time and the
indeterminate start value of the local archive dataset). -/
structure InputResponse where
  now : QDateTime
  uninit : ArchiveDataset
  telegramID : Nat
  adr : Nat
  reg : Nat
  data : List Nat

/-- The instrument after a sequence of input-register responses, handled in order by
`slot_receivedInputRegisterData`. -/
def ParticleCounter.afterInputResponses (pc : ParticleCounter) :
    List InputResponse → ParticleCounter
  | [] => pc
  | r :: rest =>
    ParticleCounter.afterInputResponses
      (pc.slot_receivedInputRegisterData r.now r.uninit r.telegramID r.adr r.reg r.data).1 rest

/-- The sizes of the three register ranges as bounds of the three strings: 48 characters
of device info, 16 of device id and 16 of physical unit. -/
abbrev ParticleCounter.stringsBounded (pc : ParticleCounter) : Prop :=
  pc.m_deviceInfo.deviceInfoString.length ≤ 48 ∧
  pc.m_deviceInfo.deviceIdString.length ≤ 16 ∧
  pc.m_physicalUnit.length ≤ 16

/-- A start register that does not lie inside a string range behind its first register
(registers 1 to 47, 65 to 79 and 97 to 111). -/
abbrev entersStringsAtStart (reg : Nat) : Prop :=
  ¬ (1 ≤ reg ∧ reg ≤ 47) ∧ ¬ (65 ≤ reg ∧ reg ≤ 79) ∧ ¬ (97 ≤ reg ∧ reg ≤ 111)

/-- Invariant of the `foreach` loop of `slot_receivedInputRegisterData` for the lengths of
the strings: before the word for register `reg` is handled every string is within its
bound, and a string whose range the loop is inside of holds at most one character per
register passed since the first register of the range. -/
def stringInvariant (st : InputLoopState) (reg : Nat) : Prop :=
  st.pc.m_deviceInfo.deviceInfoString.length ≤ 48 ∧
  (1 ≤ reg ∧ reg ≤ 47 → st.pc.m_deviceInfo.deviceInfoString.length ≤ reg) ∧
  st.pc.m_deviceInfo.deviceIdString.length ≤ 16 ∧
  (65 ≤ reg ∧ reg ≤ 79 → st.pc.m_deviceInfo.deviceIdString.length ≤ reg - 64) ∧
  st.pc.m_physicalUnit.length ≤ 16 ∧
  (97 ≤ reg ∧ reg ≤ 111 → st.pc.m_physicalUnit.length ≤ reg - 96)

/-! ## The command line of a remote client (`remoteclienthandler.cpp`) -/

/-- Qt: `QString::indexOf(ch)`: the position of the first occurrence of `ch`, or -1. -/
def QString.indexOf (ch : Char) : List Char → Int
  | [] => -1
  | c :: rest =>
    if c = ch then 0
    else if QString.indexOf ch rest = -1 then -1
    else QString.indexOf ch rest + 1

/-- Source: `line.remove(QRegExp("[\\r\\n]"))`: every carriage return and every line feed
is taken out of the line. -/
def removeNewlines (line : List Char) : List Char :=
  line.filter (fun c => decide (¬ (c = '\r' ∨ c = '\n')))

/-- Source: `int commandLength = line.indexOf(' '); if (commandLength == -1)
commandLength = line.length();`. -/
def commandLength (line : List Char) : Int :=
  if QString.indexOf ' ' line = -1 then (line.length : Int) else QString.indexOf ' ' line

/-- Qt: `QString::split(sep, QString::SkipEmptyParts)` for a one-character separator. -/
def QString.splitSkipEmptyParts (sep : Char) (s : List Char) : List (List Char) :=
  (QString.split sep s).filter (fun p => decide (p ≠ []))

/-- State of the `foreach` loop over the chunks of a command line: the map `data` and the
lines written to the socket. -/
structure ParseState where
  data : QMap
  written : List String

/-- Source: the body of the loop `foreach(QString commandChunk, commandChunks)` of
`RemoteClientHandler::slot_read_ready`. -/
def parseChunk (s : ParseState) (commandChunk : List Char) : ParseState :=
  let key_value_pair := QString.split '=' commandChunk
  if key_value_pair.length > 2 ∨ key_value_pair.length < 1 then
    { s with written := s.written ++ ["ERROR: key_value_pair length invalid\r\n"] }
  else
    let key := key_value_pair.getD 0 []
    if key.take 2 = ['-', '-'] then
      if key_value_pair.length = 2 then
        { s with data := QMap.insert s.data (key.drop 2) (key_value_pair.getD 1 []) }
      else { s with data := QMap.insert s.data (key.drop 2) "query".toList }
    else s

/-- The command word, the key/value map and the lines written to the socket when
`slot_read_ready` has parsed one line. -/
structure ParsedLine where
  command : List Char
  data : QMap
  written : List String

/-- Source: the parsing of one line in `RemoteClientHandler::slot_read_ready`, from
`readLine` up to the dispatch on the command word. -/
def parseLine (raw : List Char) : ParsedLine :=
  let line := removeNewlines raw
  let n := commandLength line
  let command := line.take n.toNat
  let line2 := line.drop (n + 1).toNat
  let commandChunks := QString.splitSkipEmptyParts ' ' line2
  let s := commandChunks.foldl parseChunk { data := [], written := [] }
  { command := command, data := s.data, written := s.written }

/-- The entries that the loop body puts into an empty map for one chunk: none for a chunk
that is skipped, one for a flag. -/
def chunkEntries (commandChunk : List Char) : QMap :=
  (parseChunk { data := [], written := [] } commandChunk).data

/-- The flags of a command line as text: every flag follows one space and `gap` further
spaces. -/
def flagsText : List (Nat × List Char) → List Char
  | [] => []
  | (gap, flag) :: rest => List.replicate (gap + 1) ' ' ++ flag ++ flagsText rest

/-- A command line as a client sends it: the command word, the flags with the spaces in
front of each, `trailing` spaces after the last flag and the end of the line. -/
def commandLine (command : List Char) (flags : List (Nat × List Char)) (trailing : Nat)
    (eol : List Char) : List Char :=
  command ++ flagsText flags ++ List.replicate trailing ' ' ++ eol

/-! ## Sample values

Concrete values at which the theorems below are instantiated. -/

/-- A start value for the local `archiveDataset`: every field zero. -/
def sampleUninit : ArchiveDataset :=
  { timestamp := QDateTime.null
    samplingTimeInSeconds := 0
    outputDataFormat := OutputDataFormat.DISTRIBUTIVE
    addupCount := 0
    channelData := fun _ => { status := 0, channel := 0, count := 0 } }

/-- An instrument as `addParticleCounter` sets it up: id 7 on bus 0 with unit address 3. -/
def sampleCounter : ParticleCounter :=
  { ParticleCounter.new with m_id := 7, m_busID := 0, m_modbusAddress := 3, m_dataChanged := true }

/-- A point in time for `QDateTime::currentDateTime()`. -/
def sampleNow : QDateTime :=
  { date := some ⟨2024, 3, 1⟩, time := some 36930000, spec := TimeSpec.LocalTime }


/-! # Theorems -/

/-! ## The structured view of the input switch -/

theorem classifyInputRegister_other (reg : Nat) (h1 : ¬ reg ≤ 47) (h2 : ¬ (64 ≤ reg ∧ reg ≤ 79))
    (h3 : ¬ (96 ≤ reg ∧ reg ≤ 111)) (h4 : reg ≠ 81) (h5 : reg ≠ 88) (h6 : reg ≠ 95)
    (h7 : ¬ (256 ≤ reg ∧ reg ≤ 285)) (h8 : ¬ (512 ≤ reg ∧ reg ≤ 543)) :
    classifyInputRegister reg = InputCase.other := by
  unfold classifyInputRegister
  rw [if_neg h1, if_neg h2, if_neg h3, if_neg h4, if_neg h5, if_neg h6,
    if_neg (by omega), dif_neg (by omega), if_neg (by omega), if_neg (by omega),
    if_neg (by omega), dif_neg (by omega)]

/-- The switch of the source and its structured view agree on every register. -/
theorem inputSwitch_eq_dispatch (st : InputLoopState) (reg rawdata : Nat) :
    inputSwitch st reg rawdata = inputDispatch st (classifyInputRegister reg) rawdata := by
  unfold inputSwitch
  by_cases h1 : reg ≤ 0 + 48 - 1
  · rw [if_pos h1]
    have : classifyInputRegister reg = InputCase.deviceInfoString := by
      unfold classifyInputRegister; rw [if_pos (by omega)]
    rw [this]; rfl
  rw [if_neg h1]
  by_cases h2 : 64 ≤ reg ∧ reg ≤ 64 + 16 - 1
  · rw [if_pos h2]
    have : classifyInputRegister reg = InputCase.deviceIDString := by
      unfold classifyInputRegister; rw [if_neg (by omega), if_pos (by omega)]
    rw [this]; rfl
  rw [if_neg h2]
  by_cases h3 : 96 ≤ reg ∧ reg ≤ 96 + 16 - 1
  · rw [if_pos h3]
    have : classifyInputRegister reg = InputCase.physicalUnitString := by
      unfold classifyInputRegister; rw [if_neg (by omega), if_neg (by omega), if_pos (by omega)]
    rw [this]; rfl
  rw [if_neg h3]
  by_cases c81 : reg = 81
  · subst c81; rfl
  rw [if_neg c81]
  by_cases c88 : reg = 88
  · subst c88; rfl
  rw [if_neg c88]
  by_cases c95 : reg = 95
  · subst c95; rfl
  rw [if_neg c95]
  by_cases c256 : reg = 256
  · subst c256; rfl
  rw [if_neg c256]
  by_cases c257 : reg = 257
  · subst c257; rfl
  rw [if_neg c257]
  by_cases c258 : reg = 258
  · subst c258; rfl
  rw [if_neg c258]
  by_cases c259 : reg = 259
  · subst c259; rfl
  rw [if_neg c259]
  by_cases c260 : reg = 260
  · subst c260; rfl
  rw [if_neg c260]
  by_cases c261 : reg = 261
  · subst c261; rfl
  rw [if_neg c261]
  by_cases c262 : reg = 262
  · subst c262; rfl
  rw [if_neg c262]
  by_cases c263 : reg = 263
  · subst c263; rfl
  rw [if_neg c263]
  by_cases c264 : reg = 264
  · subst c264; rfl
  rw [if_neg c264]
  by_cases c265 : reg = 265
  · subst c265; rfl
  rw [if_neg c265]
  by_cases c266 : reg = 266
  · subst c266; rfl
  rw [if_neg c266]
  by_cases c267 : reg = 267
  · subst c267; rfl
  rw [if_neg c267]
  by_cases c268 : reg = 268
  · subst c268; rfl
  rw [if_neg c268]
  by_cases c269 : reg = 269
  · subst c269; rfl
  rw [if_neg c269]
  by_cases c270 : reg = 270
  · subst c270; rfl
  rw [if_neg c270]
  by_cases c271 : reg = 271
  · subst c271; rfl
  rw [if_neg c271]
  by_cases c272 : reg = 272
  · subst c272; rfl
  rw [if_neg c272]
  by_cases c273 : reg = 273
  · subst c273; rfl
  rw [if_neg c273]
  by_cases c274 : reg = 274
  · subst c274; rfl
  rw [if_neg c274]
  by_cases c275 : reg = 275
  · subst c275; rfl
  rw [if_neg c275]
  by_cases c276 : reg = 276
  · subst c276; rfl
  rw [if_neg c276]
  by_cases c277 : reg = 277
  · subst c277; rfl
  rw [if_neg c277]
  by_cases c278 : reg = 278
  · subst c278; rfl
  rw [if_neg c278]
  by_cases c279 : reg = 279
  · subst c279; rfl
  rw [if_neg c279]
  by_cases c280 : reg = 280
  · subst c280; rfl
  rw [if_neg c280]
  by_cases c281 : reg = 281
  · subst c281; rfl
  rw [if_neg c281]
  by_cases c282 : reg = 282
  · subst c282; rfl
  rw [if_neg c282]
  by_cases c283 : reg = 283
  · subst c283; rfl
  rw [if_neg c283]
  by_cases c284 : reg = 284
  · subst c284; rfl
  rw [if_neg c284]
  by_cases c285 : reg = 285
  · subst c285; rfl
  rw [if_neg c285]
  by_cases c512 : reg = 512
  · subst c512; rfl
  rw [if_neg c512]
  by_cases c513 : reg = 513
  · subst c513; rfl
  rw [if_neg c513]
  by_cases c514 : reg = 514
  · subst c514; rfl
  rw [if_neg c514]
  by_cases c515 : reg = 515
  · subst c515; rfl
  rw [if_neg c515]
  by_cases c516 : reg = 516
  · subst c516; rfl
  rw [if_neg c516]
  by_cases c517 : reg = 517
  · subst c517; rfl
  rw [if_neg c517]
  by_cases c518 : reg = 518
  · subst c518; rfl
  rw [if_neg c518]
  by_cases c519 : reg = 519
  · subst c519; rfl
  rw [if_neg c519]
  by_cases c520 : reg = 520
  · subst c520; rfl
  rw [if_neg c520]
  by_cases c521 : reg = 521
  · subst c521; rfl
  rw [if_neg c521]
  by_cases c522 : reg = 522
  · subst c522; rfl
  rw [if_neg c522]
  by_cases c523 : reg = 523
  · subst c523; rfl
  rw [if_neg c523]
  by_cases c524 : reg = 524
  · subst c524; rfl
  rw [if_neg c524]
  by_cases c525 : reg = 525
  · subst c525; rfl
  rw [if_neg c525]
  by_cases c526 : reg = 526
  · subst c526; rfl
  rw [if_neg c526]
  by_cases c527 : reg = 527
  · subst c527; rfl
  rw [if_neg c527]
  by_cases c528 : reg = 528
  · subst c528; rfl
  rw [if_neg c528]
  by_cases c529 : reg = 529
  · subst c529; rfl
  rw [if_neg c529]
  by_cases c530 : reg = 530
  · subst c530; rfl
  rw [if_neg c530]
  by_cases c531 : reg = 531
  · subst c531; rfl
  rw [if_neg c531]
  by_cases c532 : reg = 532
  · subst c532; rfl
  rw [if_neg c532]
  by_cases c533 : reg = 533
  · subst c533; rfl
  rw [if_neg c533]
  by_cases c534 : reg = 534
  · subst c534; rfl
  rw [if_neg c534]
  by_cases c535 : reg = 535
  · subst c535; rfl
  rw [if_neg c535]
  by_cases c536 : reg = 536
  · subst c536; rfl
  rw [if_neg c536]
  by_cases c537 : reg = 537
  · subst c537; rfl
  rw [if_neg c537]
  by_cases c538 : reg = 538
  · subst c538; rfl
  rw [if_neg c538]
  by_cases c539 : reg = 539
  · subst c539; rfl
  rw [if_neg c539]
  by_cases c540 : reg = 540
  · subst c540; rfl
  rw [if_neg c540]
  by_cases c541 : reg = 541
  · subst c541; rfl
  rw [if_neg c541]
  by_cases c542 : reg = 542
  · subst c542; rfl
  rw [if_neg c542]
  by_cases c543 : reg = 543
  · subst c543; rfl
  rw [if_neg c543]
  rw [classifyInputRegister_other reg (by omega) (by omega) (by omega) (by omega) (by omega)
    (by omega) (by omega) (by omega)]
  rfl

/-! ## Evaluation of one loop step at the registers of the live and archive blocks -/

theorem inputStep_256 (st : InputLoopState) (w : Nat) :
    inputStep st 256 w = { st with seconds := w } := rfl

theorem inputStep_257 (st : InputLoopState) (w : Nat) :
    inputStep st 257 w = { st with minutes := w } := rfl

theorem inputStep_258 (st : InputLoopState) (w : Nat) :
    inputStep st 258 w = { st with hours := w, samplingTime := QTime.setHMS w st.minutes st.seconds } := rfl

theorem inputStep_259 (st : InputLoopState) (w : Nat) :
    inputStep st 259 w = { st with days := w } := rfl

theorem inputStep_260 (st : InputLoopState) (w : Nat) :
    inputStep st 260 w = { st with months := w } := rfl

theorem inputStep_261 (st : InputLoopState) (w : Nat) :
    inputStep st 261 w = { inputYears st w with pc := { (inputYears st w).pc with m_actualData :=
        { (inputYears st w).pc.m_actualData with
          timestamp := (inputYears st w).samplingTimestamp } } } := rfl

theorem inputStep_262 (st : InputLoopState) (w : Nat) :
    inputStep st 262 w = st.setLive (fun cd => setChannelStatus cd 0 1 w) := rfl

theorem inputStep_263 (st : InputLoopState) (w : Nat) :
    inputStep st 263 w = st.setLive (fun cd => setCountLow cd 0 w) := rfl

theorem inputStep_264 (st : InputLoopState) (w : Nat) :
    inputStep st 264 w = st.setLive (fun cd => addCountHigh cd 0 w) := rfl

theorem inputStep_265 (st : InputLoopState) (w : Nat) :
    inputStep st 265 w = st.setLive (fun cd => setChannelStatus cd 1 2 w) := rfl

theorem inputStep_266 (st : InputLoopState) (w : Nat) :
    inputStep st 266 w = st.setLive (fun cd => setCountLow cd 1 w) := rfl

theorem inputStep_267 (st : InputLoopState) (w : Nat) :
    inputStep st 267 w = st.setLive (fun cd => addCountHigh cd 1 w) := rfl

theorem inputStep_268 (st : InputLoopState) (w : Nat) :
    inputStep st 268 w = st.setLive (fun cd => setChannelStatus cd 2 3 w) := rfl

theorem inputStep_269 (st : InputLoopState) (w : Nat) :
    inputStep st 269 w = st.setLive (fun cd => setCountLow cd 2 w) := rfl

theorem inputStep_270 (st : InputLoopState) (w : Nat) :
    inputStep st 270 w = st.setLive (fun cd => addCountHigh cd 2 w) := rfl

theorem inputStep_271 (st : InputLoopState) (w : Nat) :
    inputStep st 271 w = st.setLive (fun cd => setChannelStatus cd 3 4 w) := rfl

theorem inputStep_272 (st : InputLoopState) (w : Nat) :
    inputStep st 272 w = st.setLive (fun cd => setCountLow cd 3 w) := rfl

theorem inputStep_273 (st : InputLoopState) (w : Nat) :
    inputStep st 273 w = st.setLive (fun cd => addCountHigh cd 3 w) := rfl

theorem inputStep_274 (st : InputLoopState) (w : Nat) :
    inputStep st 274 w = st.setLive (fun cd => setChannelStatus cd 4 5 w) := rfl

theorem inputStep_275 (st : InputLoopState) (w : Nat) :
    inputStep st 275 w = st.setLive (fun cd => setCountLow cd 4 w) := rfl

theorem inputStep_276 (st : InputLoopState) (w : Nat) :
    inputStep st 276 w = st.setLive (fun cd => addCountHigh cd 4 w) := rfl

theorem inputStep_277 (st : InputLoopState) (w : Nat) :
    inputStep st 277 w = st.setLive (fun cd => setChannelStatus cd 5 6 w) := rfl

theorem inputStep_278 (st : InputLoopState) (w : Nat) :
    inputStep st 278 w = st.setLive (fun cd => setCountLow cd 5 w) := rfl

theorem inputStep_279 (st : InputLoopState) (w : Nat) :
    inputStep st 279 w = st.setLive (fun cd => addCountHigh cd 5 w) := rfl

theorem inputStep_280 (st : InputLoopState) (w : Nat) :
    inputStep st 280 w = st.setLive (fun cd => setChannelStatus cd 6 7 w) := rfl

theorem inputStep_281 (st : InputLoopState) (w : Nat) :
    inputStep st 281 w = st.setLive (fun cd => setCountLow cd 6 w) := rfl

theorem inputStep_282 (st : InputLoopState) (w : Nat) :
    inputStep st 282 w = st.setLive (fun cd => addCountHigh cd 6 w) := rfl

theorem inputStep_283 (st : InputLoopState) (w : Nat) :
    inputStep st 283 w = st.setLive (fun cd => setChannelStatus cd 7 8 w) := rfl

theorem inputStep_284 (st : InputLoopState) (w : Nat) :
    inputStep st 284 w = st.setLive (fun cd => setCountLow cd 7 w) := rfl

theorem inputStep_285 (st : InputLoopState) (w : Nat) :
    inputStep st 285 w = (st.setLive (fun cd => addCountHigh cd 7 w)).emit
        (Signal.ActualDataReceived (st.setLive (fun cd => addCountHigh cd 7 w)).pc.m_id
          (st.setLive (fun cd => addCountHigh cd 7 w)).pc.m_actualData) := rfl

theorem inputStep_512 (st : InputLoopState) (w : Nat) :
    inputStep st 512 w = { st with seconds := w } := rfl

theorem inputStep_513 (st : InputLoopState) (w : Nat) :
    inputStep st 513 w = { st with minutes := w } := rfl

theorem inputStep_514 (st : InputLoopState) (w : Nat) :
    inputStep st 514 w = { st with hours := w, samplingTime := QTime.setHMS w st.minutes st.seconds } := rfl

theorem inputStep_515 (st : InputLoopState) (w : Nat) :
    inputStep st 515 w = { st with days := w } := rfl

theorem inputStep_516 (st : InputLoopState) (w : Nat) :
    inputStep st 516 w = { st with months := w } := rfl

theorem inputStep_517 (st : InputLoopState) (w : Nat) :
    inputStep st 517 w = { inputYears st w with archiveDataset :=
        { (inputYears st w).archiveDataset with
          timestamp := (inputYears st w).samplingTimestamp } } := rfl

theorem inputStep_518 (st : InputLoopState) (w : Nat) :
    inputStep st 518 w = { st with archiveDataset := { st.archiveDataset with samplingTimeInSeconds := w } } := rfl

theorem inputStep_519 (st : InputLoopState) (w : Nat) :
    inputStep st 519 w = { st with archiveDataset :=
        { st.archiveDataset with
          outputDataFormat := OutputDataFormat.ofBit (w &&& 0x01)
          addupCount := (w &&& 0xff) >>> 2 } } := rfl

theorem inputStep_520 (st : InputLoopState) (w : Nat) :
    inputStep st 520 w = st.setArchive (fun cd => setChannelStatus cd 0 1 w) := rfl

theorem inputStep_521 (st : InputLoopState) (w : Nat) :
    inputStep st 521 w = st.setArchive (fun cd => setCountLow cd 0 w) := rfl

theorem inputStep_522 (st : InputLoopState) (w : Nat) :
    inputStep st 522 w = st.setArchive (fun cd => addCountHigh cd 0 w) := rfl

theorem inputStep_523 (st : InputLoopState) (w : Nat) :
    inputStep st 523 w = st.setArchive (fun cd => setChannelStatus cd 1 2 w) := rfl

theorem inputStep_524 (st : InputLoopState) (w : Nat) :
    inputStep st 524 w = st.setArchive (fun cd => setCountLow cd 1 w) := rfl

theorem inputStep_525 (st : InputLoopState) (w : Nat) :
    inputStep st 525 w = st.setArchive (fun cd => addCountHigh cd 1 w) := rfl

theorem inputStep_526 (st : InputLoopState) (w : Nat) :
    inputStep st 526 w = st.setArchive (fun cd => setChannelStatus cd 2 3 w) := rfl

theorem inputStep_527 (st : InputLoopState) (w : Nat) :
    inputStep st 527 w = st.setArchive (fun cd => setCountLow cd 2 w) := rfl

theorem inputStep_528 (st : InputLoopState) (w : Nat) :
    inputStep st 528 w = st.setArchive (fun cd => addCountHigh cd 2 w) := rfl

theorem inputStep_529 (st : InputLoopState) (w : Nat) :
    inputStep st 529 w = st.setArchive (fun cd => setChannelStatus cd 3 4 w) := rfl

theorem inputStep_530 (st : InputLoopState) (w : Nat) :
    inputStep st 530 w = st.setArchive (fun cd => setCountLow cd 3 w) := rfl

theorem inputStep_531 (st : InputLoopState) (w : Nat) :
    inputStep st 531 w = st.setArchive (fun cd => addCountHigh cd 3 w) := rfl

theorem inputStep_532 (st : InputLoopState) (w : Nat) :
    inputStep st 532 w = st.setArchive (fun cd => setChannelStatus cd 4 5 w) := rfl

theorem inputStep_533 (st : InputLoopState) (w : Nat) :
    inputStep st 533 w = st.setArchive (fun cd => setCountLow cd 4 w) := rfl

theorem inputStep_534 (st : InputLoopState) (w : Nat) :
    inputStep st 534 w = st.setArchive (fun cd => addCountHigh cd 4 w) := rfl

theorem inputStep_535 (st : InputLoopState) (w : Nat) :
    inputStep st 535 w = st.setArchive (fun cd => setChannelStatus cd 5 6 w) := rfl

theorem inputStep_536 (st : InputLoopState) (w : Nat) :
    inputStep st 536 w = st.setArchive (fun cd => setCountLow cd 5 w) := rfl

theorem inputStep_537 (st : InputLoopState) (w : Nat) :
    inputStep st 537 w = st.setArchive (fun cd => addCountHigh cd 5 w) := rfl

theorem inputStep_538 (st : InputLoopState) (w : Nat) :
    inputStep st 538 w = st.setArchive (fun cd => setChannelStatus cd 6 7 w) := rfl

theorem inputStep_539 (st : InputLoopState) (w : Nat) :
    inputStep st 539 w = st.setArchive (fun cd => setCountLow cd 6 w) := rfl

theorem inputStep_540 (st : InputLoopState) (w : Nat) :
    inputStep st 540 w = st.setArchive (fun cd => addCountHigh cd 6 w) := rfl

theorem inputStep_541 (st : InputLoopState) (w : Nat) :
    inputStep st 541 w = st.setArchive (fun cd => setChannelStatus cd 7 8 w) := rfl

theorem inputStep_542 (st : InputLoopState) (w : Nat) :
    inputStep st 542 w = st.setArchive (fun cd => setCountLow cd 7 w) := rfl

theorem inputStep_543 (st : InputLoopState) (w : Nat) :
    inputStep st 543 w = (if ((st.setArchive (fun cd => addCountHigh cd 7 w)).archiveDataset.channelData 0).count
          ≠ 0xffffffff then
        (st.setArchive (fun cd => addCountHigh cd 7 w)).emit
          (Signal.ArchiveDataReceived (st.setArchive (fun cd => addCountHigh cd 7 w)).pc.m_id
            (st.setArchive (fun cd => addCountHigh cd 7 w)).archiveDataset)
      else st.setArchive (fun cd => addCountHigh cd 7 w)) := rfl

/-! ## The response loop -/

theorem inputLoop_nil (st : InputLoopState) (reg : Nat) : inputLoop st reg [] = st := rfl

theorem inputLoop_cons (st : InputLoopState) (reg w : Nat) (rest : List Nat) :
    inputLoop st reg (w :: rest) = inputLoop (inputStep st reg w) ((reg + 1) % 65536) rest := rfl

theorem inputLoop_append (st : InputLoopState) (reg : Nat) (hreg : reg < 65536)
    (xs ys : List Nat) :
    inputLoop st reg (xs ++ ys) =
      inputLoop (inputLoop st reg xs) ((reg + xs.length) % 65536) ys := by
  induction xs generalizing st reg with
  | nil => simp [inputLoop_nil, Nat.mod_eq_of_lt hreg]
  | cons x rest ih =>
    rw [List.cons_append, inputLoop_cons, inputLoop_cons, ih _ _ (Nat.mod_lt _ (by norm_num))]
    congr 1
    simp only [List.length_cons]
    omega

/-! ## Reassembly of 32-bit counts -/

theorem count_reassembly_arith (lo hi : Nat) (hlo : lo < 65536) (hhi : hi < 65536) :
    (lo + (hi <<< 16)) % 4294967296 = lo + 65536 * hi ∧
      lo + 65536 * hi = lo ||| (hi <<< 16) := by
  have h1 : hi <<< 16 = 65536 * hi := by rw [Nat.shiftLeft_eq]; omega
  have h2 : 2 ^ 16 * hi + lo = 2 ^ 16 * hi ||| lo :=
    Nat.mul_add_lt_is_or (by omega) hi
  refine ⟨by rw [h1]; omega, ?_⟩
  rw [h1, Nat.or_comm]
  have h3 : (2 : Nat) ^ 16 = 65536 := by norm_num
  rw [h3] at h2
  omega

theorem liveCount_low_high (st : InputLoopState) (k : Fin 8) (lo hi : Nat) :
    ((inputLoop st (263 + 3 * k.val) [lo, hi]).pc.m_actualData.channelData k).count =
      (lo + (hi <<< 16)) % 4294967296 := by
  fin_cases k <;>
    simp [inputLoop_cons, inputLoop_nil, inputStep_263, inputStep_264, inputStep_266,
      inputStep_267, inputStep_269, inputStep_270, inputStep_272, inputStep_273, inputStep_275,
      inputStep_276, inputStep_278, inputStep_279, inputStep_281, inputStep_282, inputStep_284,
      inputStep_285, InputLoopState.setLive, InputLoopState.emit, setCountLow, addCountHigh,
      modifyChannel]

theorem archiveCount_low_high (st : InputLoopState) (k : Fin 8) (lo hi : Nat) :
    ((inputLoop st (521 + 3 * k.val) [lo, hi]).archiveDataset.channelData k).count =
      (lo + (hi <<< 16)) % 4294967296 := by
  fin_cases k <;>
    simp [inputLoop_cons, inputLoop_nil, inputStep_521, inputStep_522, inputStep_524,
      inputStep_525, inputStep_527, inputStep_528, inputStep_530, inputStep_531, inputStep_533,
      inputStep_534, inputStep_536, inputStep_537, inputStep_539, inputStep_540, inputStep_542,
      inputStep_543, InputLoopState.setArchive, InputLoopState.emit, setCountLow, addCountHigh,
      modifyChannel]
  split <;> simp [modifyChannel]

/-- C1: when a response delivers `lo` at the count low-word register of channel `k + 1`
(live register `263 + 3k`, archive register `521 + 3k`) and `hi` at the next register,
the 32-bit count of that channel is `lo + 65536 * hi = lo | (hi << 16)` once the two
words are consumed, whatever the loop state (and so the count) was before and also for
`hi ≥ 0x8000`; for the live block this is the count the instrument holds when the
handler returns from a response that ends with the two words. -/
theorem C1_count_reassembly (st : InputLoopState) (s : Nat) (pre : List Nat) (k : Fin 8)
    (lo hi : Nat) (hs : s < 65536) (hlo : lo < 65536) (hhi : hi < 65536) :
    ((s + pre.length) % 65536 = 263 + 3 * k.val →
      ((inputLoop st s (pre ++ [lo, hi])).pc.m_actualData.channelData k).count
        = lo + 65536 * hi) ∧
    ((s + pre.length) % 65536 = 521 + 3 * k.val →
      ((inputLoop st s (pre ++ [lo, hi])).archiveDataset.channelData k).count
        = lo + 65536 * hi) ∧
    (∀ (pc : ParticleCounter) (now : QDateTime) (uninit : ArchiveDataset) (tid adr : Nat),
      (adr : Int) = pc.m_modbusAddress → (s + pre.length) % 65536 = 263 + 3 * k.val →
      (((pc.slot_receivedInputRegisterData now uninit tid adr s (pre ++ [lo, hi])).1).m_actualData.channelData
        k).count = lo + 65536 * hi) ∧
    lo + 65536 * hi = lo ||| (hi <<< 16) := by
  have harith := count_reassembly_arith lo hi hlo hhi
  refine ⟨?_, ?_, ?_, harith.2⟩
  · intro hreg
    rw [inputLoop_append st s hs, hreg, liveCount_low_high, harith.1]
  · intro hreg
    rw [inputLoop_append st s hs, hreg, archiveCount_low_high, harith.1]
  · intro pc now uninit tid adr hadr hreg
    unfold ParticleCounter.slot_receivedInputRegisterData
    rw [if_neg (by simpa using hadr)]
    show ((inputLoop (inputLoopStart pc now uninit) s (pre ++ [lo, hi])).pc.m_actualData.channelData
      k).count = _
    rw [inputLoop_append _ s hs, hreg, liveCount_low_high, harith.1]

/-- C1 at a concrete response: words `0xFFFF, 0xFFFF` for channel 1 of a live read and of
an archive read that start at the head of their blocks give the count `0xFFFFFFFF`. -/
theorem C1_count_reassembly_witness :
    ((inputLoop (inputLoopStart sampleCounter sampleNow sampleUninit) 256
        ([30, 15, 10, 1, 3, 24, 1] ++ [65535, 65535])).pc.m_actualData.channelData 0).count
      = 4294967295 ∧
    ((inputLoop (inputLoopStart sampleCounter sampleNow sampleUninit) 512
        ([30, 15, 10, 1, 3, 24, 59, 5, 1] ++ [65535, 65535])).archiveDataset.channelData 0).count
      = 4294967295 ∧
    (((sampleCounter.slot_receivedInputRegisterData sampleNow sampleUninit 0 3 256
        ([30, 15, 10, 1, 3, 24, 1] ++ [65535, 65535])).1).m_actualData.channelData 0).count
      = 4294967295 :=
  ⟨(C1_count_reassembly (inputLoopStart sampleCounter sampleNow sampleUninit) 256
      [30, 15, 10, 1, 3, 24, 1] 0 65535 65535 (by decide) (by decide) (by decide)).1 (by decide),
   (C1_count_reassembly (inputLoopStart sampleCounter sampleNow sampleUninit) 512
      [30, 15, 10, 1, 3, 24, 59, 5, 1] 0 65535 65535 (by decide) (by decide) (by decide)).2.1
      (by decide),
   (C1_count_reassembly (inputLoopStart sampleCounter sampleNow sampleUninit) 256
      [30, 15, 10, 1, 3, 24, 1] 0 65535 65535 (by decide) (by decide) (by decide)).2.2.1
      sampleCounter sampleNow sampleUninit 0 3 (by decide) (by decide)⟩

/-! ## Signal traces -/

theorem actualEmissions_append (xs ys : List Signal) :
    actualEmissions (xs ++ ys) = actualEmissions xs ++ actualEmissions ys := by
  induction xs with
  | nil => rfl
  | cons x rest ih => cases x <;> simp [actualEmissions, ih]

theorem archiveEmissions_append (xs ys : List Signal) :
    archiveEmissions (xs ++ ys) = archiveEmissions xs ++ archiveEmissions ys := by
  induction xs with
  | nil => rfl
  | cons x rest ih => cases x <;> simp [archiveEmissions, ih]

theorem markAsOnline_actualEmissions (pc : ParticleCounter) (now : QDateTime) :
    actualEmissions (pc.markAsOnline now).2 = [] := by
  unfold ParticleCounter.markAsOnline
  split <;> rfl

theorem markAsOnline_archiveEmissions (pc : ParticleCounter) (now : QDateTime) :
    archiveEmissions (pc.markAsOnline now).2 = [] := by
  unfold ParticleCounter.markAsOnline
  split <;> rfl

theorem markAsOnline_id (pc : ParticleCounter) (now : QDateTime) :
    (pc.markAsOnline now).1.m_id = pc.m_id := by
  unfold ParticleCounter.markAsOnline
  split <;> rfl

theorem markAsOnline_channelData (pc : ParticleCounter) (now : QDateTime) :
    (pc.markAsOnline now).1.m_actualData.channelData = pc.m_actualData.channelData := by
  unfold ParticleCounter.markAsOnline
  split <;> rfl

theorem markAsOnline_timestamp (pc : ParticleCounter) (now : QDateTime) :
    (pc.markAsOnline now).1.m_actualData.timestamp = pc.m_actualData.timestamp := by
  unfold ParticleCounter.markAsOnline
  split <;> rfl

/-! ## Lists of a known length -/

theorem exists_cons_of_length_succ {n : Nat} (l : List Nat) (h : l.length = n + 1) :
    ∃ x xs, l = x :: xs ∧ xs.length = n := by
  cases l with
  | nil => simp at h
  | cons x xs => exact ⟨x, xs, rfl, by simpa using h⟩

theorem list_of_length_30 (l : List Nat) (h : l.length = 30) :
    ∃ w0 w1 w2 w3 w4 w5 w6 w7 w8 w9 w10 w11 w12 w13 w14 w15 w16 w17 w18 w19 w20 w21 w22 w23 w24 w25 w26 w27 w28 w29 : Nat,
      l = [w0, w1, w2, w3, w4, w5, w6, w7, w8, w9, w10, w11, w12, w13, w14, w15, w16, w17, w18, w19, w20, w21, w22, w23, w24, w25, w26, w27, w28, w29] := by
  obtain ⟨w0, l0, rfl, h0⟩ := @exists_cons_of_length_succ 29 l h
  obtain ⟨w1, l1, rfl, h1⟩ := @exists_cons_of_length_succ 28 l0 h0
  obtain ⟨w2, l2, rfl, h2⟩ := @exists_cons_of_length_succ 27 l1 h1
  obtain ⟨w3, l3, rfl, h3⟩ := @exists_cons_of_length_succ 26 l2 h2
  obtain ⟨w4, l4, rfl, h4⟩ := @exists_cons_of_length_succ 25 l3 h3
  obtain ⟨w5, l5, rfl, h5⟩ := @exists_cons_of_length_succ 24 l4 h4
  obtain ⟨w6, l6, rfl, h6⟩ := @exists_cons_of_length_succ 23 l5 h5
  obtain ⟨w7, l7, rfl, h7⟩ := @exists_cons_of_length_succ 22 l6 h6
  obtain ⟨w8, l8, rfl, h8⟩ := @exists_cons_of_length_succ 21 l7 h7
  obtain ⟨w9, l9, rfl, h9⟩ := @exists_cons_of_length_succ 20 l8 h8
  obtain ⟨w10, l10, rfl, h10⟩ := @exists_cons_of_length_succ 19 l9 h9
  obtain ⟨w11, l11, rfl, h11⟩ := @exists_cons_of_length_succ 18 l10 h10
  obtain ⟨w12, l12, rfl, h12⟩ := @exists_cons_of_length_succ 17 l11 h11
  obtain ⟨w13, l13, rfl, h13⟩ := @exists_cons_of_length_succ 16 l12 h12
  obtain ⟨w14, l14, rfl, h14⟩ := @exists_cons_of_length_succ 15 l13 h13
  obtain ⟨w15, l15, rfl, h15⟩ := @exists_cons_of_length_succ 14 l14 h14
  obtain ⟨w16, l16, rfl, h16⟩ := @exists_cons_of_length_succ 13 l15 h15
  obtain ⟨w17, l17, rfl, h17⟩ := @exists_cons_of_length_succ 12 l16 h16
  obtain ⟨w18, l18, rfl, h18⟩ := @exists_cons_of_length_succ 11 l17 h17
  obtain ⟨w19, l19, rfl, h19⟩ := @exists_cons_of_length_succ 10 l18 h18
  obtain ⟨w20, l20, rfl, h20⟩ := @exists_cons_of_length_succ 9 l19 h19
  obtain ⟨w21, l21, rfl, h21⟩ := @exists_cons_of_length_succ 8 l20 h20
  obtain ⟨w22, l22, rfl, h22⟩ := @exists_cons_of_length_succ 7 l21 h21
  obtain ⟨w23, l23, rfl, h23⟩ := @exists_cons_of_length_succ 6 l22 h22
  obtain ⟨w24, l24, rfl, h24⟩ := @exists_cons_of_length_succ 5 l23 h23
  obtain ⟨w25, l25, rfl, h25⟩ := @exists_cons_of_length_succ 4 l24 h24
  obtain ⟨w26, l26, rfl, h26⟩ := @exists_cons_of_length_succ 3 l25 h25
  obtain ⟨w27, l27, rfl, h27⟩ := @exists_cons_of_length_succ 2 l26 h26
  obtain ⟨w28, l28, rfl, h28⟩ := @exists_cons_of_length_succ 1 l27 h27
  obtain ⟨w29, l29, rfl, h29⟩ := @exists_cons_of_length_succ 0 l28 h28
  have hnil : l29 = [] := List.length_eq_zero.mp h29
  subst hnil
  exact ⟨w0, w1, w2, w3, w4, w5, w6, w7, w8, w9, w10, w11, w12, w13, w14, w15, w16, w17, w18, w19, w20, w21, w22, w23, w24, w25, w26, w27, w28, w29, rfl⟩

theorem list_of_length_32 (l : List Nat) (h : l.length = 32) :
    ∃ w0 w1 w2 w3 w4 w5 w6 w7 w8 w9 w10 w11 w12 w13 w14 w15 w16 w17 w18 w19 w20 w21 w22 w23 w24 w25 w26 w27 w28 w29 w30 w31 : Nat,
      l = [w0, w1, w2, w3, w4, w5, w6, w7, w8, w9, w10, w11, w12, w13, w14, w15, w16, w17, w18, w19, w20, w21, w22, w23, w24, w25, w26, w27, w28, w29, w30, w31] := by
  obtain ⟨w0, l0, rfl, h0⟩ := @exists_cons_of_length_succ 31 l h
  obtain ⟨w1, l1, rfl, h1⟩ := @exists_cons_of_length_succ 30 l0 h0
  obtain ⟨w2, l2, rfl, h2⟩ := @exists_cons_of_length_succ 29 l1 h1
  obtain ⟨w3, l3, rfl, h3⟩ := @exists_cons_of_length_succ 28 l2 h2
  obtain ⟨w4, l4, rfl, h4⟩ := @exists_cons_of_length_succ 27 l3 h3
  obtain ⟨w5, l5, rfl, h5⟩ := @exists_cons_of_length_succ 26 l4 h4
  obtain ⟨w6, l6, rfl, h6⟩ := @exists_cons_of_length_succ 25 l5 h5
  obtain ⟨w7, l7, rfl, h7⟩ := @exists_cons_of_length_succ 24 l6 h6
  obtain ⟨w8, l8, rfl, h8⟩ := @exists_cons_of_length_succ 23 l7 h7
  obtain ⟨w9, l9, rfl, h9⟩ := @exists_cons_of_length_succ 22 l8 h8
  obtain ⟨w10, l10, rfl, h10⟩ := @exists_cons_of_length_succ 21 l9 h9
  obtain ⟨w11, l11, rfl, h11⟩ := @exists_cons_of_length_succ 20 l10 h10
  obtain ⟨w12, l12, rfl, h12⟩ := @exists_cons_of_length_succ 19 l11 h11
  obtain ⟨w13, l13, rfl, h13⟩ := @exists_cons_of_length_succ 18 l12 h12
  obtain ⟨w14, l14, rfl, h14⟩ := @exists_cons_of_length_succ 17 l13 h13
  obtain ⟨w15, l15, rfl, h15⟩ := @exists_cons_of_length_succ 16 l14 h14
  obtain ⟨w16, l16, rfl, h16⟩ := @exists_cons_of_length_succ 15 l15 h15
  obtain ⟨w17, l17, rfl, h17⟩ := @exists_cons_of_length_succ 14 l16 h16
  obtain ⟨w18, l18, rfl, h18⟩ := @exists_cons_of_length_succ 13 l17 h17
  obtain ⟨w19, l19, rfl, h19⟩ := @exists_cons_of_length_succ 12 l18 h18
  obtain ⟨w20, l20, rfl, h20⟩ := @exists_cons_of_length_succ 11 l19 h19
  obtain ⟨w21, l21, rfl, h21⟩ := @exists_cons_of_length_succ 10 l20 h20
  obtain ⟨w22, l22, rfl, h22⟩ := @exists_cons_of_length_succ 9 l21 h21
  obtain ⟨w23, l23, rfl, h23⟩ := @exists_cons_of_length_succ 8 l22 h22
  obtain ⟨w24, l24, rfl, h24⟩ := @exists_cons_of_length_succ 7 l23 h23
  obtain ⟨w25, l25, rfl, h25⟩ := @exists_cons_of_length_succ 6 l24 h24
  obtain ⟨w26, l26, rfl, h26⟩ := @exists_cons_of_length_succ 5 l25 h25
  obtain ⟨w27, l27, rfl, h27⟩ := @exists_cons_of_length_succ 4 l26 h26
  obtain ⟨w28, l28, rfl, h28⟩ := @exists_cons_of_length_succ 3 l27 h27
  obtain ⟨w29, l29, rfl, h29⟩ := @exists_cons_of_length_succ 2 l28 h28
  obtain ⟨w30, l30, rfl, h30⟩ := @exists_cons_of_length_succ 1 l29 h29
  obtain ⟨w31, l31, rfl, h31⟩ := @exists_cons_of_length_succ 0 l30 h30
  have hnil : l31 = [] := List.length_eq_zero.mp h31
  subst hnil
  exact ⟨w0, w1, w2, w3, w4, w5, w6, w7, w8, w9, w10, w11, w12, w13, w14, w15, w16, w17, w18, w19, w20, w21, w22, w23, w24, w25, w26, w27, w28, w29, w30, w31, rfl⟩

/-! ## Registers of each kind -/

theorem timeField_toIndex_ofIndex (i : Nat) (h : i ≤ 5) :
    (TimeField.ofIndex i).toIndex = i := by
  interval_cases i <;> rfl

theorem channelPart_toIndex_ofIndex (i : Nat) (h : i ≤ 2) :
    (ChannelPart.ofIndex i).toIndex = i := by
  interval_cases i <;> rfl

/-- Every register is of the kind `classifyInputRegister` assigns to it. -/
theorem classifyInputRegister_covers (reg : Nat) :
    (classifyInputRegister reg).covers reg := by
  unfold classifyInputRegister
  by_cases h1 : reg ≤ 47
  · rw [if_pos h1]; exact h1
  rw [if_neg h1]
  by_cases h2 : 64 ≤ reg ∧ reg ≤ 79
  · rw [if_pos h2]; exact h2
  rw [if_neg h2]
  by_cases h3 : 96 ≤ reg ∧ reg ≤ 111
  · rw [if_pos h3]; exact h3
  rw [if_neg h3]
  by_cases h4 : reg = 81
  · rw [if_pos h4]; exact h4
  rw [if_neg h4]
  by_cases h5 : reg = 88
  · rw [if_pos h5]; exact h5
  rw [if_neg h5]
  by_cases h6 : reg = 95
  · rw [if_pos h6]; exact h6
  rw [if_neg h6]
  by_cases h7 : 256 ≤ reg ∧ reg ≤ 261
  · rw [if_pos h7]
    show reg = 256 + (TimeField.ofIndex (reg - 256)).toIndex
    rw [timeField_toIndex_ofIndex _ (by omega)]
    omega
  rw [if_neg h7]
  by_cases h8 : 262 ≤ reg ∧ reg ≤ 285
  · rw [dif_pos h8]
    show reg = 262 + 3 * ((reg - 262) / 3) + (ChannelPart.ofIndex ((reg - 262) % 3)).toIndex
    rw [channelPart_toIndex_ofIndex _ (by omega)]
    omega
  rw [dif_neg h8]
  by_cases h9 : 512 ≤ reg ∧ reg ≤ 517
  · rw [if_pos h9]
    show reg = 512 + (TimeField.ofIndex (reg - 512)).toIndex
    rw [timeField_toIndex_ofIndex _ (by omega)]
    omega
  rw [if_neg h9]
  by_cases h10 : reg = 518
  · rw [if_pos h10]; exact h10
  rw [if_neg h10]
  by_cases h11 : reg = 519
  · rw [if_pos h11]; exact h11
  rw [if_neg h11]
  by_cases h12 : 520 ≤ reg ∧ reg ≤ 543
  · rw [dif_pos h12]
    show reg = 520 + 3 * ((reg - 520) / 3) + (ChannelPart.ofIndex ((reg - 520) % 3)).toIndex
    rw [channelPart_toIndex_ofIndex _ (by omega)]
    omega
  rw [dif_neg h12]
  exact ⟨by omega, h4, h5, h6, h2, h3, by omega, by omega⟩

/-- Case analysis on the kind of the register of one loop step. -/
theorem inputStep_cases (P : InputLoopState → Prop) (st : InputLoopState) (reg w : Nat)
    (h : ∀ c : InputCase, c.covers reg → P (inputDispatch (inputClearStrings st reg) c w)) :
    P (inputStep st reg w) := by
  unfold inputStep
  rw [inputSwitch_eq_dispatch]
  exact h _ (classifyInputRegister_covers reg)

theorem inputClearStrings_signals (st : InputLoopState) (reg : Nat) :
    (inputClearStrings st reg).signals = st.signals := by
  unfold inputClearStrings
  split <;> split <;> split <;> rfl

theorem inputClearStrings_archiveDataset (st : InputLoopState) (reg : Nat) :
    (inputClearStrings st reg).archiveDataset = st.archiveDataset := by
  unfold inputClearStrings
  split <;> split <;> split <;> rfl

theorem inputClearStrings_actualData (st : InputLoopState) (reg : Nat) :
    (inputClearStrings st reg).pc.m_actualData = st.pc.m_actualData := by
  unfold inputClearStrings
  split <;> split <;> split <;> rfl

theorem inputClearStrings_id (st : InputLoopState) (reg : Nat) :
    (inputClearStrings st reg).pc.m_id = st.pc.m_id := by
  unfold inputClearStrings
  split <;> split <;> split <;> rfl

/-! ## Frame properties of one loop step -/

theorem inputTimeField_signals (st : InputLoopState) (f : TimeField) (w : Nat) :
    (inputTimeField st f w).signals = st.signals := by
  cases f <;> simp only [inputTimeField, inputYears]

theorem inputTimeField_archiveChannels (st : InputLoopState) (f : TimeField) (w : Nat) :
    (inputTimeField st f w).archiveDataset.channelData = st.archiveDataset.channelData := by
  cases f <;> rfl

theorem inputTimeField_pc (st : InputLoopState) (f : TimeField) (w : Nat) :
    (inputTimeField st f w).pc = st.pc := by
  cases f <;> simp only [inputTimeField, inputYears]

theorem inputErrorstate_signals (st : InputLoopState) (w : Nat) :
    ∃ s, (inputErrorstate st w).signals = st.signals ++ [s] ∧
      (∀ id d, s ≠ Signal.ActualDataReceived id d) ∧
      (∀ id d, s ≠ Signal.ArchiveDataReceived id d) := by
  unfold inputErrorstate
  by_cases h : w = 0
  · rw [if_pos h]
    exact ⟨_, rfl, fun _ _ h => Signal.noConfusion h, fun _ _ h => Signal.noConfusion h⟩
  · rw [if_neg h]
    exact ⟨_, rfl, fun _ _ h => Signal.noConfusion h, fun _ _ h => Signal.noConfusion h⟩

theorem archiveEmissions_snoc_other (xs : List Signal) (s : Signal)
    (h : ∀ id d, s ≠ Signal.ArchiveDataReceived id d) :
    archiveEmissions (xs ++ [s]) = archiveEmissions xs := by
  rw [archiveEmissions_append]
  cases s with
  | ArchiveDataReceived id d => exact absurd rfl (h id d)
  | _ => simp [archiveEmissions]

theorem actualEmissions_snoc_other (xs : List Signal) (s : Signal)
    (h : ∀ id d, s ≠ Signal.ActualDataReceived id d) :
    actualEmissions (xs ++ [s]) = actualEmissions xs := by
  rw [actualEmissions_append]
  cases s with
  | ActualDataReceived id d => exact absurd rfl (h id d)
  | _ => simp [actualEmissions]

/-- Only the case of register 543 adds an `ArchiveDataReceived` emission. -/
theorem inputDispatch_archiveEmissions (st : InputLoopState) (c : InputCase) (w : Nat)
    (h : c ≠ InputCase.archiveChannel 7 ChannelPart.high) :
    archiveEmissions (inputDispatch st c w).signals = archiveEmissions st.signals := by
  cases c with
  | liveTime f =>
    simp only [inputDispatch]
    split
    · exact congrArg archiveEmissions (inputTimeField_signals st f w)
    · exact congrArg archiveEmissions (inputTimeField_signals st f w)
  | archiveTime f =>
    simp only [inputDispatch]
    split
    · exact congrArg archiveEmissions (inputTimeField_signals st f w)
    · exact congrArg archiveEmissions (inputTimeField_signals st f w)
  | liveChannel k part =>
    simp only [inputDispatch]
    split
    · exact archiveEmissions_snoc_other _ _ (fun _ _ h => Signal.noConfusion h)
    · rfl
  | archiveChannel k part =>
    have hne : ¬ (k = 7 ∧ part = ChannelPart.high) := by
      rintro ⟨rfl, rfl⟩
      exact h rfl
    simp only [inputDispatch, if_neg hne]
    rfl
  | errorstateRegister =>
    obtain ⟨s, hs, _, h2⟩ := inputErrorstate_signals st w
    show archiveEmissions (inputErrorstate st w).signals = _
    rw [hs]
    exact archiveEmissions_snoc_other _ _ h2
  | _ => rfl

/-- Only the case of register 285 adds an `ActualDataReceived` emission. -/
theorem inputDispatch_actualEmissions (st : InputLoopState) (c : InputCase) (w : Nat)
    (h : c ≠ InputCase.liveChannel 7 ChannelPart.high) :
    actualEmissions (inputDispatch st c w).signals = actualEmissions st.signals := by
  cases c with
  | liveTime f =>
    simp only [inputDispatch]
    split
    · exact congrArg actualEmissions (inputTimeField_signals st f w)
    · exact congrArg actualEmissions (inputTimeField_signals st f w)
  | archiveTime f =>
    simp only [inputDispatch]
    split
    · exact congrArg actualEmissions (inputTimeField_signals st f w)
    · exact congrArg actualEmissions (inputTimeField_signals st f w)
  | archiveChannel k part =>
    simp only [inputDispatch]
    split
    · split
      · exact actualEmissions_snoc_other _ _ (fun _ _ h => Signal.noConfusion h)
      · rfl
    · rfl
  | liveChannel k part =>
    have hne : ¬ (k = 7 ∧ part = ChannelPart.high) := by
      rintro ⟨rfl, rfl⟩
      exact h rfl
    simp only [inputDispatch, if_neg hne]
    rfl
  | errorstateRegister =>
    obtain ⟨s, hs, h1, _⟩ := inputErrorstate_signals st w
    show actualEmissions (inputErrorstate st w).signals = _
    rw [hs]
    exact actualEmissions_snoc_other _ _ h1
  | _ => rfl

theorem inputStep_archiveEmissions_of_ne (st : InputLoopState) (reg w : Nat) (h : reg ≠ 543) :
    archiveEmissions (inputStep st reg w).signals = archiveEmissions st.signals := by
  refine inputStep_cases (fun s => archiveEmissions s.signals = archiveEmissions st.signals)
    st reg w ?_
  intro c hc
  show archiveEmissions (inputDispatch (inputClearStrings st reg) c w).signals = _
  rw [← inputClearStrings_signals st reg]
  apply inputDispatch_archiveEmissions
  rintro rfl
  exact h hc

theorem inputStep_actualEmissions_of_ne (st : InputLoopState) (reg w : Nat) (h : reg ≠ 285) :
    actualEmissions (inputStep st reg w).signals = actualEmissions st.signals := by
  refine inputStep_cases (fun s => actualEmissions s.signals = actualEmissions st.signals)
    st reg w ?_
  intro c hc
  show actualEmissions (inputDispatch (inputClearStrings st reg) c w).signals = _
  rw [← inputClearStrings_signals st reg]
  apply inputDispatch_actualEmissions
  rintro rfl
  exact h hc
/-! ## Configuration word, holding responses, persistence, pending ids -/

theorem outputDataFormatWord_eq (data : ConfigData) (h : data.addupCount ≤ 63) :
    data.outputDataFormatWord =
      (data.addupCount <<< 2) ||| (data.outputDataFormat.toNat &&& 1) := by
  unfold ConfigData.outputDataFormatWord
  have hfmt : data.outputDataFormat.toNat < 2 := by
    cases data.outputDataFormat <;> decide
  generalize data.outputDataFormat.toNat = f at hfmt ⊢
  generalize data.addupCount = a at h ⊢
  interval_cases a <;> interval_cases f <;> rfl

theorem request_of_bus (pc : ParticleCounter) (sys : ParticleCounterModbusSystem) (i : Nat)
    (t : Telegram) (b : ModBus) (hb : sys.m_pcModbuslist[i]? = some b) :
    pc.request sys i t =
      ({ pc with m_transactionIDs := pc.m_transactionIDs ++ [(b.submit t).1] },
        { sys with m_pcModbuslist := sys.m_pcModbuslist.set i (b.submit t).2 }) := by
  unfold ParticleCounter.request
  rw [hb]

theorem request_bus_after (pc : ParticleCounter) (sys : ParticleCounterModbusSystem) (i : Nat)
    (t : Telegram) (b : ModBus) (hb : sys.m_pcModbuslist[i]? = some b) :
    (pc.request sys i t).2.m_pcModbuslist[i]? = some (b.submit t).2 := by
  rw [request_of_bus pc sys i t b hb]
  have hi : i < sys.m_pcModbuslist.length := by
    rcases Nat.lt_or_ge i sys.m_pcModbuslist.length with h | h
    · exact h
    · rw [List.getElem?_eq_none h] at hb
      exact Option.noConfusion hb
  simp [List.getElem?_set, hi]

theorem getBusByID_bus (sys : ParticleCounterModbusSystem) (busID : Int) (i : Nat)
    (h : sys.getBusByID busID = BusLookup.bus i) :
    ∃ b, sys.m_pcModbuslist[i]? = some b := by
  unfold ParticleCounterModbusSystem.getBusByID at h
  split at h
  · exact BusLookup.noConfusion h
  · split at h
    · exact BusLookup.noConfusion h
    · have hi : i = busID.toNat := (BusLookup.bus.inj h).symm
      have hlt : i < sys.m_pcModbuslist.length := by omega
      exact ⟨sys.m_pcModbuslist[i], List.getElem?_eq_getElem hlt⟩

theorem request_spec (pc : ParticleCounter) (sys : ParticleCounterModbusSystem) (i : Nat)
    (t : Telegram) (b : ModBus) (hb : sys.m_pcModbuslist[i]? = some b) :
    ∃ pc1 sys1, pc.request sys i t = (pc1, sys1) ∧
      sys1.m_pcModbuslist[i]? = some (b.submit t).2 ∧
      pc1.m_transactionIDs = pc.m_transactionIDs ++ [(b.submit t).1] ∧
      pc1.m_modbusAddress = pc.m_modbusAddress := by
  refine ⟨_, _, request_of_bus pc sys i t b hb, ?_, rfl, rfl⟩
  have h := request_bus_after pc sys i t b hb
  rw [request_of_bus pc sys i t b hb] at h
  exact h

/-- C6: for every addupCount in 0..63 and both output formats, `setConfigData` on a
configured instrument whose bus exists submits, as its first request, a write of holding
register H0002 (0-based 1) at the instrument's unit address with the value
`(addupCount << 2) | (outputDataFormat & 1)`. -/
theorem C6_outputDataFormat_word (pc : ParticleCounter) (sys : ParticleCounterModbusSystem)
    (data : ConfigData) (i : Nat) (hconf : pc.isConfigured = true)
    (hbus : sys.getBusByID pc.m_busID = BusLookup.bus i) (h63 : data.addupCount ≤ 63) :
    data.outputDataFormatWord =
        (data.addupCount <<< 2) ||| (data.outputDataFormat.toNat &&& 1) ∧
      ∃ b r b4, sys.m_pcModbuslist[i]? = some b ∧ pc.setConfigData sys data = some r ∧
        r.2.m_pcModbuslist[i]? = some b4 ∧
        (b4.telegrams.drop b.telegrams.length).map Prod.snd =
          [Telegram.writeSingleRegister pc.m_modbusAddress 1
              ((data.addupCount <<< 2) ||| (data.outputDataFormat.toNat &&& 1)),
            Telegram.writeSingleRegister pc.m_modbusAddress 2
              (data.firstRinsingTimeInSeconds % 65536),
            Telegram.writeSingleRegister pc.m_modbusAddress 3
              (data.subsequentRinsingTimeInSeconds % 65536),
            Telegram.writeSingleRegister pc.m_modbusAddress 4
              (data.samplingTimeInSeconds % 65536)] := by
  refine ⟨outputDataFormatWord_eq data h63, ?_⟩
  obtain ⟨b, hb⟩ := getBusByID_bus sys pc.m_busID i hbus
  obtain ⟨pc1, sys1, e1, h1, -, -⟩ := request_spec pc sys i
    (Telegram.writeSingleRegister pc.m_modbusAddress 1 data.outputDataFormatWord) b hb
  obtain ⟨pc2, sys2, e2, h2, -, -⟩ := request_spec pc1 sys1 i
    (Telegram.writeSingleRegister pc.m_modbusAddress 2 (data.firstRinsingTimeInSeconds % 65536))
    _ h1
  obtain ⟨pc3, sys3, e3, h3, -, -⟩ := request_spec pc2 sys2 i
    (Telegram.writeSingleRegister pc.m_modbusAddress 3
      (data.subsequentRinsingTimeInSeconds % 65536)) _ h2
  obtain ⟨pc4, sys4, e4, h4, -, -⟩ := request_spec pc3 sys3 i
    (Telegram.writeSingleRegister pc.m_modbusAddress 4 (data.samplingTimeInSeconds % 65536))
    _ h3
  refine ⟨b, (pc4, sys4), _, hb, ?_, h4, ?_⟩
  · unfold ParticleCounter.setConfigData
    rw [hconf, hbus]
    simp only [Bool.not_true, Bool.false_eq_true, if_false]
    rw [e1]
    simp only []
    rw [e2]
    simp only []
    rw [e3]
    simp only []
    rw [e4]
  · rw [← outputDataFormatWord_eq data h63]
    simp [ModBus.submit]

theorem C6_outputDataFormat_word_witness :
    ({ ParticleCounter.new.m_configData with addupCount := 5 } : ConfigData).outputDataFormatWord
      = 21 :=
  (C6_outputDataFormat_word sampleCounter ⟨[⟨fun n => n, []⟩]⟩
    { ParticleCounter.new.m_configData with addupCount := 5 } 0 (by decide) (by decide)
    (by decide)).1

/-- C7: evaluation of the code at the failing input. The H0002 word for addupCount 5 and
format DISTRIBUTIVE is 20; delivered to an instrument whose configuration holds
addupCount 1 and format CUMULATIVE, the holding-register handler sets the format to
DISTRIBUTIVE and leaves addupCount at 1. -/
theorem C7_addupCount_not_decoded :
    ({ ParticleCounter.new.m_configData with
        outputDataFormat := OutputDataFormat.DISTRIBUTIVE, addupCount := 5 }
      : ConfigData).outputDataFormatWord = 20 ∧
    sampleCounter.m_configData.addupCount = 1 ∧
    (sampleCounter.slot_receivedHoldingRegisterData sampleNow 0 3 1 [20]).1.m_configData.outputDataFormat
      = OutputDataFormat.DISTRIBUTIVE ∧
    (sampleCounter.slot_receivedHoldingRegisterData sampleNow 0 3 1 [20]).1.m_configData.addupCount
      = 1 :=
  ⟨by decide, rfl, rfl, rfl⟩

/-- C8: evaluation of the code at the failing input. `setConfigData` writes the word 60
for firstRinsingTimeInSeconds = 60; the four written words [5, 60, 30, 59] delivered back
for registers 1..4 leave firstRinsingTimeInSeconds = 15 in the configuration. -/
theorem C8_firstRinsingTime_not_restored :
    (∃ r b, sampleCounter.setConfigData ⟨[⟨fun n => n, []⟩]⟩ ParticleCounter.new.m_configData
        = some r ∧ r.2.m_pcModbuslist[0]? = some b ∧
      b.telegrams.map Prod.snd =
        [Telegram.writeSingleRegister 3 1 5, Telegram.writeSingleRegister 3 2 60,
          Telegram.writeSingleRegister 3 3 30, Telegram.writeSingleRegister 3 4 59]) ∧
    (sampleCounter.slot_receivedHoldingRegisterData sampleNow 0 3 1
      [5, 60, 30, 59]).1.m_configData.firstRinsingTimeInSeconds = 15 ∧
    ParticleCounter.new.m_configData.firstRinsingTimeInSeconds = 60 :=
  ⟨⟨_, _, rfl, rfl, by decide⟩, rfl, rfl⟩

set_option maxRecDepth 100000 in
/-- C9: evaluation of the code at the failing input. An instrument with
samplingTimeInSeconds = 100 and samplingEnabled = true is saved; the written text has
three lines, `load` reads the first line only, and the freshly constructed instrument
keeps its constructor values samplingTimeInSeconds = 59 and samplingEnabled = false. -/
theorem C9_save_load_loses_sampling :
    ({ sampleCounter with
        m_configData := { sampleCounter.m_configData with samplingTimeInSeconds := 100 }
        m_samplingEnabled := true } : ParticleCounter).save true =
      some ("id=7 bus=0 modbusAddress=3 clockSettingLostCount=0 outputDataFormat=1 ".toList ++
        "addupCount=1 firstRinsingTimeInSeconds=60 subsequentRinsingTimeInSeconds=30\n".toList ++
        "samplingTimeInSeconds=100\nsamplingEnabled=1\n".toList) ∧
    (ParticleCounter.new.load (({ sampleCounter with
        m_configData := { sampleCounter.m_configData with samplingTimeInSeconds := 100 }
        m_samplingEnabled := true } : ParticleCounter).save true)
      ).m_configData.samplingTimeInSeconds = 59 ∧
    (ParticleCounter.new.load (({ sampleCounter with
        m_configData := { sampleCounter.m_configData with samplingTimeInSeconds := 100 }
        m_samplingEnabled := true } : ParticleCounter).save true)
      ).m_samplingEnabled = false ∧
    (ParticleCounter.new.load (({ sampleCounter with
        m_configData := { sampleCounter.m_configData with samplingTimeInSeconds := 100 }
        m_samplingEnabled := true } : ParticleCounter).save true)
      ).m_id = 7 := by
  refine ⟨by decide, by decide, by decide, by decide⟩

theorem contains_iff_mem_nat {l : List Nat} {t : Nat} : l.contains t = true ↔ t ∈ l := by
  simp

theorem removeOne_spec (l : List Nat) (t : Nat) (h : t ∈ l) :
    ∃ l1 l2, l = l1 ++ t :: l2 ∧ t ∉ l1 ∧ QList.removeOne l t = l1 ++ l2 := by
  unfold QList.removeOne
  rw [if_pos h]
  induction l with
  | nil => cases h
  | cons x xs ih =>
    by_cases hx : x = t
    · subst hx
      exact ⟨[], xs, rfl, List.not_mem_nil _, by simp⟩
    · have hmem : t ∈ xs := by
        rcases List.mem_cons.mp h with h1 | h1
        · exact absurd h1.symm hx
        · exact h1
      obtain ⟨l1, l2, e, hn, he⟩ := ih hmem
      refine ⟨x :: l1, l2, by rw [e]; rfl, ?_, ?_⟩
      · intro hc
        rcases List.mem_cons.mp hc with h1 | h1
        · exact hx h1.symm
        · exact hn h1
      · rw [List.indexOf_cons_ne _ hx, List.eraseIdx_cons_succ, he]
        rfl

/-- C10: `isThisYourTelegram` returns true exactly when the id is among the pending
transaction ids; on a hit with deleteID = true the first occurrence of the id is removed,
every other pending id is kept in order and no other member changes; on a miss, or with
deleteID = false, the instrument is unchanged. -/
theorem C10_isThisYourTelegram (pc : ParticleCounter) (t : Nat) (deleteID : Bool) :
    ((pc.isThisYourTelegram t deleteID).1 = true ↔ t ∈ pc.m_transactionIDs) ∧
    (t ∈ pc.m_transactionIDs → deleteID = true →
      ∃ l1 l2, pc.m_transactionIDs = l1 ++ t :: l2 ∧ t ∉ l1 ∧
        (pc.isThisYourTelegram t deleteID).2 = { pc with m_transactionIDs := l1 ++ l2 }) ∧
    ((t ∉ pc.m_transactionIDs ∨ deleteID = false) →
      (pc.isThisYourTelegram t deleteID).2 = pc) := by
  refine ⟨?_, ?_, ?_⟩
  · unfold ParticleCounter.isThisYourTelegram
    by_cases h : (pc.m_transactionIDs.contains t && deleteID) = true
    · simp only [h, if_true]
      exact contains_iff_mem_nat
    · simp only [h]
      exact contains_iff_mem_nat
  · intro hmem hdel
    obtain ⟨l1, l2, e, hn, he⟩ := removeOne_spec pc.m_transactionIDs t hmem
    refine ⟨l1, l2, e, hn, ?_⟩
    unfold ParticleCounter.isThisYourTelegram
    have hc : pc.m_transactionIDs.contains t = true := contains_iff_mem_nat.mpr hmem
    simp only [hc, hdel, Bool.and_self, if_true]
    rw [he]
  · intro h
    unfold ParticleCounter.isThisYourTelegram
    have hf : (pc.m_transactionIDs.contains t && deleteID) = false := by
      rcases h with h | h
      · have : pc.m_transactionIDs.contains t = false := by
          rw [Bool.eq_false_iff]
          intro hc
          exact h (contains_iff_mem_nat.mp hc)
        rw [this]; rfl
      · rw [h]; exact Bool.and_false _
    simp only [hf, Bool.false_eq_true, if_false]

theorem C10_isThisYourTelegram_witness :
    (({ sampleCounter with m_transactionIDs := [4, 9, 4] } : ParticleCounter).isThisYourTelegram
        4 true).1 = true ∧
    ∃ l1 l2, [4, 9, 4] = l1 ++ 4 :: l2 ∧ 4 ∉ l1 ∧
      (({ sampleCounter with m_transactionIDs := [4, 9, 4] } : ParticleCounter).isThisYourTelegram
        4 true).2 = { sampleCounter with m_transactionIDs := l1 ++ l2 } :=
  ⟨(C10_isThisYourTelegram { sampleCounter with m_transactionIDs := [4, 9, 4] } 4 true).1.mpr
      (by decide),
    (C10_isThisYourTelegram { sampleCounter with m_transactionIDs := [4, 9, 4] } 4 true).2.1
      (by decide) rfl⟩

/-! ## Frame properties of the word loop -/

/-- A quantity that no step at a register satisfying `R` changes is unchanged by a loop
that only visits such registers. -/
theorem inputLoop_preserves {α : Type} (f : InputLoopState → α) (R : Nat → Prop)
    (hR : ∀ st r w, R r → f (inputStep st r w) = f st) (data : List Nat) :
    ∀ (st : InputLoopState) (reg : Nat), reg < 65536 →
      (∀ i, i < data.length → R ((reg + i) % 65536)) →
      f (inputLoop st reg data) = f st := by
  induction data with
  | nil => intro st reg _ _; rfl
  | cons w rest ih =>
    intro st reg hreg h
    rw [inputLoop_cons]
    have h0 : R reg := by
      have := h 0 (by simp)
      rwa [Nat.add_zero, Nat.mod_eq_of_lt hreg] at this
    rw [ih (inputStep st reg w) ((reg + 1) % 65536) (Nat.mod_lt _ (by decide)) ?_]
    · exact hR st reg w h0
    · intro i hi
      have := h (i + 1) (by simp; omega)
      have e : ((reg + 1) % 65536 + i) % 65536 = (reg + (i + 1)) % 65536 := by omega
      rwa [e]

theorem inputDispatch_archiveCount0 (st : InputLoopState) (c : InputCase) (w : Nat)
    (h1 : c ≠ InputCase.archiveChannel 0 ChannelPart.low)
    (h2 : c ≠ InputCase.archiveChannel 0 ChannelPart.high) :
    ((inputDispatch st c w).archiveDataset.channelData 0).count =
      (st.archiveDataset.channelData 0).count := by
  cases c with
  | liveTime f =>
    simp only [inputDispatch]
    split
    · exact congrArg (fun cd => (cd 0).count) (inputTimeField_archiveChannels st f w)
    · exact congrArg (fun cd => (cd 0).count) (inputTimeField_archiveChannels st f w)
  | archiveTime f =>
    simp only [inputDispatch]
    split
    · exact congrArg (fun cd => (cd 0).count) (inputTimeField_archiveChannels st f w)
    · exact congrArg (fun cd => (cd 0).count) (inputTimeField_archiveChannels st f w)
  | liveChannel k part =>
    simp only [inputDispatch]
    split <;> rfl
  | archiveChannel k part =>
    have key : ((st.setArchive (fun cd => inputChannelPart cd k part w)).archiveDataset.channelData
        0).count = (st.archiveDataset.channelData 0).count := by
      by_cases hk : (0 : Fin 8) = k
      · subst hk
        cases part with
        | status =>
          simp [InputLoopState.setArchive, inputChannelPart, setChannelStatus, modifyChannel]
        | low => exact absurd rfl h1
        | high => exact absurd rfl h2
      · cases part <;>
          simp [InputLoopState.setArchive, inputChannelPart, setChannelStatus, setCountLow,
            addCountHigh, modifyChannel, hk]
    simp only [inputDispatch]
    split
    · split
      · exact key
      · exact key
    · exact key
  | errorstateRegister =>
    simp only [inputDispatch, inputErrorstate]
    split <;> rfl
  | _ => rfl

theorem inputStep_archiveCount0 (st : InputLoopState) (reg w : Nat)
    (h : reg ≠ 521 ∧ reg ≠ 522) :
    ((inputStep st reg w).archiveDataset.channelData 0).count =
      (st.archiveDataset.channelData 0).count := by
  refine inputStep_cases (fun s => (s.archiveDataset.channelData 0).count =
    (st.archiveDataset.channelData 0).count) st reg w ?_
  intro c hc
  show ((inputDispatch (inputClearStrings st reg) c w).archiveDataset.channelData 0).count = _
  rw [← inputClearStrings_archiveDataset st reg]
  apply inputDispatch_archiveCount0
  · rintro rfl
    exact h.1 hc
  · rintro rfl
    exact h.2 hc

theorem inputDispatch_liveTimestamp (st : InputLoopState) (c : InputCase) (w : Nat)
    (h : c ≠ InputCase.liveTime TimeField.years) :
    (inputDispatch st c w).pc.m_actualData.timestamp = st.pc.m_actualData.timestamp := by
  cases c with
  | liveTime f =>
    have hne : ¬ f = TimeField.years := by
      rintro rfl
      exact h rfl
    simp only [inputDispatch, if_neg hne]
    rw [inputTimeField_pc]
  | archiveTime f =>
    simp only [inputDispatch]
    split
    · exact congrArg (fun p => p.m_actualData.timestamp) (inputTimeField_pc st f w)
    · exact congrArg (fun p => p.m_actualData.timestamp) (inputTimeField_pc st f w)
  | liveChannel k part =>
    simp only [inputDispatch]
    split <;> rfl
  | archiveChannel k part =>
    simp only [inputDispatch]
    split
    · split <;> rfl
    · rfl
  | errorstateRegister =>
    simp only [inputDispatch, inputErrorstate]
    split <;> rfl
  | _ => rfl

theorem inputStep_liveTimestamp (st : InputLoopState) (reg w : Nat) (h : reg ≠ 261) :
    (inputStep st reg w).pc.m_actualData.timestamp = st.pc.m_actualData.timestamp := by
  refine inputStep_cases (fun s => s.pc.m_actualData.timestamp =
    st.pc.m_actualData.timestamp) st reg w ?_
  intro c hc
  show (inputDispatch (inputClearStrings st reg) c w).pc.m_actualData.timestamp = _
  rw [← inputClearStrings_actualData st reg]
  apply inputDispatch_liveTimestamp
  rintro rfl
  exact h hc

theorem inputDispatch_id (st : InputLoopState) (c : InputCase) (w : Nat) :
    (inputDispatch st c w).pc.m_id = st.pc.m_id := by
  cases c with
  | liveTime f =>
    simp only [inputDispatch]
    split
    · exact congrArg (fun p => p.m_id) (inputTimeField_pc st f w)
    · exact congrArg (fun p => p.m_id) (inputTimeField_pc st f w)
  | archiveTime f =>
    simp only [inputDispatch]
    split
    · exact congrArg (fun p => p.m_id) (inputTimeField_pc st f w)
    · exact congrArg (fun p => p.m_id) (inputTimeField_pc st f w)
  | liveChannel k part =>
    simp only [inputDispatch]
    split <;> rfl
  | archiveChannel k part =>
    simp only [inputDispatch]
    split
    · split <;> rfl
    · rfl
  | errorstateRegister =>
    simp only [inputDispatch, inputErrorstate]
    split <;> rfl
  | _ => rfl

theorem inputStep_id (st : InputLoopState) (reg w : Nat) :
    (inputStep st reg w).pc.m_id = st.pc.m_id := by
  refine inputStep_cases (fun s => s.pc.m_id = st.pc.m_id) st reg w ?_
  intro c _
  show (inputDispatch (inputClearStrings st reg) c w).pc.m_id = _
  rw [← inputClearStrings_id st reg]
  exact inputDispatch_id _ c w

theorem inputLoop_id (st : InputLoopState) (reg : Nat) (data : List Nat) :
    (inputLoop st reg data).pc.m_id = st.pc.m_id := by
  induction data generalizing st reg with
  | nil => rfl
  | cons w rest ih => rw [inputLoop_cons, ih, inputStep_id]

/-- The archive emissions of a full archive read, in terms of the count of channel 1 that
the words at registers 521 and 522 leave in the local dataset. -/
theorem archiveRead_emissions (st : InputLoopState) (pre mid : List Nat) (lo hi last : Nat)
    (hpre : pre.length = 9) (hmid : mid.length = 20) :
    ((lo + (hi <<< 16)) % 4294967296 ≠ 0xffffffff →
      ∃ d, archiveEmissions (inputLoop st 512 (pre ++ ([lo, hi] ++ (mid ++ [last])))).signals =
          archiveEmissions st.signals ++ [(st.pc.m_id, d)] ∧
        (d.channelData 0).count = (lo + (hi <<< 16)) % 4294967296) ∧
    ((lo + (hi <<< 16)) % 4294967296 = 0xffffffff →
      archiveEmissions (inputLoop st 512 (pre ++ ([lo, hi] ++ (mid ++ [last])))).signals =
        archiveEmissions st.signals) := by
  have e1 : inputLoop st 512 (pre ++ ([lo, hi] ++ (mid ++ [last]))) =
      inputStep (inputLoop (inputLoop (inputLoop st 512 pre) 521 [lo, hi]) 523 mid) 543 last := by
    rw [inputLoop_append st 512 (by decide), hpre,
      inputLoop_append _ _ (Nat.mod_lt _ (by decide)),
      inputLoop_append _ _ (Nat.mod_lt _ (by decide)), hmid]
    rfl
  have hp1 : archiveEmissions (inputLoop st 512 pre).signals = archiveEmissions st.signals :=
    inputLoop_preserves (fun s => archiveEmissions s.signals) (fun r => r ≠ 543)
      (fun s r w hr => inputStep_archiveEmissions_of_ne s r w hr) pre st 512 (by decide)
      (by intro i hi; rw [hpre] at hi; show (512 + i) % 65536 ≠ 543; omega)
  have hp2 : archiveEmissions (inputLoop (inputLoop st 512 pre) 521 [lo, hi]).signals =
      archiveEmissions (inputLoop st 512 pre).signals :=
    inputLoop_preserves (fun s => archiveEmissions s.signals) (fun r => r ≠ 543)
      (fun s r w hr => inputStep_archiveEmissions_of_ne s r w hr) [lo, hi] _ 521 (by decide)
      (by intro i hi; simp at hi; show (521 + i) % 65536 ≠ 543; omega)
  have hp3 : archiveEmissions
      (inputLoop (inputLoop (inputLoop st 512 pre) 521 [lo, hi]) 523 mid).signals =
      archiveEmissions (inputLoop (inputLoop st 512 pre) 521 [lo, hi]).signals :=
    inputLoop_preserves (fun s => archiveEmissions s.signals) (fun r => r ≠ 543)
      (fun s r w hr => inputStep_archiveEmissions_of_ne s r w hr) mid _ 523 (by decide)
      (by intro i hi; rw [hmid] at hi; show (523 + i) % 65536 ≠ 543; omega)
  have hc2 : ((inputLoop (inputLoop st 512 pre) 521 [lo, hi]).archiveDataset.channelData
      0).count = (lo + (hi <<< 16)) % 4294967296 :=
    archiveCount_low_high (inputLoop st 512 pre) 0 lo hi
  have hc3 : ((inputLoop (inputLoop (inputLoop st 512 pre) 521 [lo, hi]) 523
      mid).archiveDataset.channelData 0).count =
      ((inputLoop (inputLoop st 512 pre) 521 [lo, hi]).archiveDataset.channelData 0).count :=
    inputLoop_preserves (fun s => (s.archiveDataset.channelData 0).count)
      (fun r => r ≠ 521 ∧ r ≠ 522)
      (fun s r w hr => inputStep_archiveCount0 s r w hr) mid _ 523 (by decide)
      (by intro i hi; rw [hmid] at hi; show (523 + i) % 65536 ≠ 521 ∧ (523 + i) % 65536 ≠ 522
          omega)
  have hid : (inputLoop (inputLoop (inputLoop st 512 pre) 521 [lo, hi]) 523 mid).pc.m_id =
      st.pc.m_id := by
    rw [inputLoop_id, inputLoop_id, inputLoop_id]
  generalize inputLoop (inputLoop (inputLoop st 512 pre) 521 [lo, hi]) 523 mid = s3 at *
  generalize inputLoop (inputLoop st 512 pre) 521 [lo, hi] = s2 at *
  generalize inputLoop st 512 pre = s1 at *
  have hcnt : (((s3.setArchive (fun cd => addCountHigh cd 7 last)).archiveDataset.channelData
      0).count) = (lo + (hi <<< 16)) % 4294967296 := by
    rw [← hc2, ← hc3]
    simp [InputLoopState.setArchive, addCountHigh, modifyChannel]
  rw [e1, inputStep_543]
  constructor
  · intro hne
    rw [if_pos (by rw [hcnt]; exact hne)]
    refine ⟨_, ?_, hcnt⟩
    simp only [InputLoopState.emit, archiveEmissions_append]
    rw [← hp1, ← hp2, ← hp3, ← hid]
    rfl
  · intro heq
    rw [if_neg (by rw [hcnt]; exact fun h => h heq)]
    rw [← hp1, ← hp2, ← hp3]
    rfl

/-- C2: a full archive read (start register 512, 32 words, matching unit address) emits
`ArchiveDataReceived` exactly once, with the id of the instrument and a dataset whose
channel-1 count is the reassembled one, if that count `lo + 65536 * hi` differs from
0xFFFFFFFF, and does not emit it at all if the low and the high word of channel 1 (words
9 and 10 of the response) are both 0xFFFF, whatever the other 30 words are. -/
theorem C2_archive_emission (pc : ParticleCounter) (now : QDateTime) (uninit : ArchiveDataset)
    (tid adr : Nat) (data : List Nat) (hadr : (adr : Int) = pc.m_modbusAddress)
    (hlen : data.length = 32) (hlo : data.getD 9 0 < 65536) (hhi : data.getD 10 0 < 65536) :
    (data.getD 9 0 + 65536 * data.getD 10 0 ≠ 0xFFFFFFFF →
      ∃ d, archiveEmissions (pc.slot_receivedInputRegisterData now uninit tid adr 512 data).2 =
          [(pc.m_id, d)] ∧
        (d.channelData 0).count = data.getD 9 0 + 65536 * data.getD 10 0) ∧
    (data.getD 9 0 = 0xFFFF ∧ data.getD 10 0 = 0xFFFF →
      archiveEmissions (pc.slot_receivedInputRegisterData now uninit tid adr 512 data).2 = []) := by
  obtain ⟨w0, w1, w2, w3, w4, w5, w6, w7, w8, w9, w10, w11, w12, w13, w14, w15, w16, w17, w18,
    w19, w20, w21, w22, w23, w24, w25, w26, w27, w28, w29, w30, w31, rfl⟩ :=
    list_of_length_32 data hlen
  have hlo1 : w9 < 65536 := hlo
  have hhi1 : w10 < 65536 := hhi
  have harith := (count_reassembly_arith w9 w10 hlo1 hhi1).1
  have hslot : (pc.slot_receivedInputRegisterData now uninit tid adr 512
      [w0, w1, w2, w3, w4, w5, w6, w7, w8, w9, w10, w11, w12, w13, w14, w15, w16, w17, w18,
        w19, w20, w21, w22, w23, w24, w25, w26, w27, w28, w29, w30, w31]).2 =
      (inputLoop (inputLoopStart pc now uninit) 512
        ([w0, w1, w2, w3, w4, w5, w6, w7, w8] ++ ([w9, w10] ++
          ([w11, w12, w13, w14, w15, w16, w17, w18, w19, w20, w21, w22, w23, w24, w25, w26,
            w27, w28, w29, w30] ++ [w31])))).signals := by
    unfold ParticleCounter.slot_receivedInputRegisterData
    rw [if_neg (by simpa using hadr)]
    rfl
  have hem := archiveRead_emissions (inputLoopStart pc now uninit)
    [w0, w1, w2, w3, w4, w5, w6, w7, w8]
    [w11, w12, w13, w14, w15, w16, w17, w18, w19, w20, w21, w22, w23, w24, w25, w26, w27, w28,
      w29, w30] w9 w10 w31 rfl rfl
  have hstart : archiveEmissions (inputLoopStart pc now uninit).signals = [] :=
    markAsOnline_archiveEmissions pc now
  have hid : (inputLoopStart pc now uninit).pc.m_id = pc.m_id := markAsOnline_id pc now
  rw [harith, hstart, hid] at hem
  rw [hslot]
  constructor
  · intro hne
    obtain ⟨d, h1, h2⟩ := hem.1 hne
    exact ⟨d, by rw [h1]; rfl, h2⟩
  · rintro ⟨h1, h2⟩
    have h3 : w9 = 0xFFFF := h1
    have h4 : w10 = 0xFFFF := h2
    apply hem.2
    rw [h3, h4]

/-- C2 at two concrete full archive reads: one with channel-1 count 0x00011234, which is
emitted once, and one with channel-1 words 0xFFFF, 0xFFFF, which is not emitted. -/
theorem C2_archive_emission_witness :
    (∃ d, archiveEmissions (sampleCounter.slot_receivedInputRegisterData sampleNow sampleUninit
        0 3 512 [30, 15, 10, 1, 3, 24, 59, 5, 1, 4660, 1, 1, 0, 0, 1, 0, 0, 1, 0, 0, 1, 0, 0, 1,
          0, 0, 1, 0, 0, 1, 0, 0]).2 = [(7, d)] ∧ (d.channelData 0).count = 70196) ∧
    archiveEmissions (sampleCounter.slot_receivedInputRegisterData sampleNow sampleUninit
        0 3 512 [30, 15, 10, 1, 3, 24, 59, 5, 1, 65535, 65535, 1, 0, 0, 1, 0, 0, 1, 0, 0, 1, 0,
          0, 1, 0, 0, 1, 0, 0, 1, 0, 0]).2 = [] :=
  ⟨(C2_archive_emission sampleCounter sampleNow sampleUninit 0 3
      [30, 15, 10, 1, 3, 24, 59, 5, 1, 4660, 1, 1, 0, 0, 1, 0, 0, 1, 0, 0, 1, 0, 0, 1,
        0, 0, 1, 0, 0, 1, 0, 0] (by decide) (by decide) (by decide) (by decide)).1 (by decide),
    (C2_archive_emission sampleCounter sampleNow sampleUninit 0 3
      [30, 15, 10, 1, 3, 24, 59, 5, 1, 65535, 65535, 1, 0, 0, 1, 0, 0, 1, 0, 0, 1, 0,
        0, 1, 0, 0, 1, 0, 0, 1, 0, 0] (by decide) (by decide) (by decide) (by decide)).2
      ⟨by decide, by decide⟩⟩

/-! ## Live reads -/

theorem list_split_two (data : List Nat) :
    ∀ j, j + 2 ≤ data.length →
      data = data.take j ++ ([data.getD j 0, data.getD (j + 1) 0] ++ data.drop (j + 2)) := by
  induction data with
  | nil => intro j h; simp at h
  | cons a rest ih =>
    intro j h
    cases j with
    | zero =>
      cases rest with
      | nil => simp at h
      | cons b rest2 => rfl
    | succ j =>
      have h2 : j + 2 ≤ rest.length := by simpa using h
      have := ih j h2
      simp only [List.take_succ_cons, List.getD_cons_succ, List.drop_succ_cons, List.cons_append]
      exact congrArg (List.cons a) this

theorem list_split_one (data : List Nat) :
    ∀ j, j + 1 ≤ data.length →
      data = data.take j ++ ([data.getD j 0] ++ data.drop (j + 1)) := by
  induction data with
  | nil => intro j h; simp at h
  | cons a rest ih =>
    intro j h
    cases j with
    | zero => rfl
    | succ j =>
      have h2 : j + 1 ≤ rest.length := by simpa using h
      have := ih j h2
      simp only [List.take_succ_cons, List.getD_cons_succ, List.drop_succ_cons, List.cons_append]
      exact congrArg (List.cons a) this

theorem inputDispatch_liveCount (st : InputLoopState) (c : InputCase) (w : Nat) (k : Fin 8)
    (h1 : c ≠ InputCase.liveChannel k ChannelPart.low)
    (h2 : c ≠ InputCase.liveChannel k ChannelPart.high) :
    ((inputDispatch st c w).pc.m_actualData.channelData k).count =
      (st.pc.m_actualData.channelData k).count := by
  cases c with
  | liveTime f =>
    simp only [inputDispatch]
    split
    · exact congrArg (fun p => (p.m_actualData.channelData k).count) (inputTimeField_pc st f w)
    · exact congrArg (fun p => (p.m_actualData.channelData k).count) (inputTimeField_pc st f w)
  | archiveTime f =>
    simp only [inputDispatch]
    split
    · exact congrArg (fun p => (p.m_actualData.channelData k).count) (inputTimeField_pc st f w)
    · exact congrArg (fun p => (p.m_actualData.channelData k).count) (inputTimeField_pc st f w)
  | archiveChannel j part =>
    simp only [inputDispatch]
    split
    · split <;> rfl
    · rfl
  | liveChannel j part =>
    have key : ((st.setLive (fun cd => inputChannelPart cd j part w)).pc.m_actualData.channelData
        k).count = (st.pc.m_actualData.channelData k).count := by
      by_cases hk : k = j
      · subst hk
        cases part with
        | status =>
          simp [InputLoopState.setLive, inputChannelPart, setChannelStatus, modifyChannel]
        | low => exact absurd rfl h1
        | high => exact absurd rfl h2
      · cases part <;>
          simp [InputLoopState.setLive, inputChannelPart, setChannelStatus, setCountLow,
            addCountHigh, modifyChannel, hk]
    simp only [inputDispatch]
    split
    · exact key
    · exact key
  | errorstateRegister =>
    simp only [inputDispatch, inputErrorstate]
    split <;> rfl
  | _ => rfl

theorem inputStep_liveCount (st : InputLoopState) (reg w : Nat) (k : Fin 8)
    (h : reg ≠ 263 + 3 * k.val ∧ reg ≠ 264 + 3 * k.val) :
    ((inputStep st reg w).pc.m_actualData.channelData k).count =
      (st.pc.m_actualData.channelData k).count := by
  refine inputStep_cases (fun s => (s.pc.m_actualData.channelData k).count =
    (st.pc.m_actualData.channelData k).count) st reg w ?_
  intro c hc
  show ((inputDispatch (inputClearStrings st reg) c w).pc.m_actualData.channelData k).count = _
  rw [← inputClearStrings_actualData st reg]
  apply inputDispatch_liveCount
  · rintro rfl
    apply h.1
    have : reg = 262 + 3 * k.val + 1 := hc
    omega
  · rintro rfl
    apply h.2
    have : reg = 262 + 3 * k.val + 2 := hc
    omega

/-- The live count of channel `k + 1` after a response that covers both count registers
of the channel and does not wrap around the 16-bit register counter. -/
theorem liveRead_count (st : InputLoopState) (s : Nat) (data : List Nat) (k : Fin 8)
    (hs : s ≤ 263 + 3 * k.val) (hcover : 264 + 3 * k.val < s + data.length)
    (hn : s + data.length ≤ 65536) :
    ((inputLoop st s data).pc.m_actualData.channelData k).count =
      (data.getD (263 + 3 * k.val - s) 0 + (data.getD (264 + 3 * k.val - s) 0 <<< 16))
        % 4294967296 := by
  have hsplit := list_split_two data (263 + 3 * k.val - s) (by omega)
  have hj : 263 + 3 * k.val - s + 1 = 264 + 3 * k.val - s := by omega
  rw [hj] at hsplit
  have hk := k.isLt
  generalize hpre : data.take (263 + 3 * k.val - s) = pre at hsplit
  generalize hpost : data.drop (263 + 3 * k.val - s + 2) = post at hsplit
  have hprelen : pre.length = 263 + 3 * k.val - s := by
    rw [← hpre, List.length_take]; omega
  have hpostlen : post.length = data.length - (263 + 3 * k.val - s + 2) := by
    rw [← hpost, List.length_drop]
  generalize data.getD (263 + 3 * k.val - s) 0 = lo at hsplit ⊢
  generalize data.getD (264 + 3 * k.val - s) 0 = hi at hsplit ⊢
  have hlen : data.length = pre.length + (2 + post.length) := by
    rw [hsplit]; simp; omega
  rw [hsplit, inputLoop_append st s (by omega), inputLoop_append _ _ (Nat.mod_lt _ (by decide))]
  have e1 : (s + pre.length) % 65536 = 263 + 3 * k.val := by
    rw [hprelen]; omega
  rw [e1]
  have e2 : (263 + 3 * k.val + [lo, hi].length) % 65536 = 265 + 3 * k.val := by
    simp only [List.length_cons, List.length_nil]; omega
  rw [e2]
  rw [inputLoop_preserves (fun s => (s.pc.m_actualData.channelData k).count)
    (fun r => r ≠ 263 + 3 * k.val ∧ r ≠ 264 + 3 * k.val)
    (fun s r w hr => inputStep_liveCount s r w k hr) post _ (265 + 3 * k.val) (by omega)
    (by
      intro i hi
      show (265 + 3 * k.val + i) % 65536 ≠ 263 + 3 * k.val ∧
        (265 + 3 * k.val + i) % 65536 ≠ 264 + 3 * k.val
      omega)]
  exact liveCount_low_high _ k lo hi

theorem take_succ_getD (data : List Nat) :
    ∀ j, j < data.length → data.take (j + 1) = data.take j ++ [data.getD j 0] := by
  induction data with
  | nil => intro j h; simp at h
  | cons a rest ih =>
    intro j h
    cases j with
    | zero => rfl
    | succ j =>
      have h2 : j < rest.length := by simpa using h
      have := ih j h2
      simp only [List.take_succ_cons, List.getD_cons_succ, List.cons_append]
      exact congrArg (List.cons a) this

/-- The live emissions of a response that does not wrap around the 16-bit register
counter: one emission, made by the step at register 285, if the response covers that
register, and none otherwise. -/
theorem liveRead_emissions (st : InputLoopState) (s : Nat) (data : List Nat)
    (hs : s < 65536) (hn : s + data.length ≤ 65536) :
    (s ≤ 285 ∧ 285 < s + data.length →
      actualEmissions (inputLoop st s data).signals =
        actualEmissions st.signals ++
          [(st.pc.m_id, (inputLoop st s (data.take (286 - s))).pc.m_actualData)]) ∧
    (¬ (s ≤ 285 ∧ 285 < s + data.length) →
      actualEmissions (inputLoop st s data).signals = actualEmissions st.signals) := by
  constructor
  · rintro ⟨h1, h2⟩
    have hsplit := list_split_one data (285 - s) (by omega)
    have htake : data.take (286 - s) = data.take (285 - s) ++ [data.getD (285 - s) 0] := by
      have e : 286 - s = 285 - s + 1 := by omega
      rw [e]
      exact take_succ_getD data (285 - s) (by omega)
    rw [htake]
    generalize hpre : data.take (285 - s) = pre at hsplit
    generalize hpost : data.drop (285 - s + 1) = post at hsplit
    have hprelen : pre.length = 285 - s := by
      rw [← hpre, List.length_take]; omega
    generalize data.getD (285 - s) 0 = w at hsplit ⊢
    have hlen : data.length = pre.length + (1 + post.length) := by
      rw [hsplit]; simp; omega
    have e1 : (s + pre.length) % 65536 = 285 := by rw [hprelen]; omega
    have hA : inputLoop st s (pre ++ [w]) = inputStep (inputLoop st s pre) 285 w := by
      rw [inputLoop_append st s (by omega), e1]
      rfl
    have hB : inputLoop st s (pre ++ ([w] ++ post)) =
        inputLoop (inputStep (inputLoop st s pre) 285 w) 286 post := by
      rw [inputLoop_append st s (by omega), e1,
        inputLoop_append _ _ (by decide)]
      rfl
    rw [hsplit, hB, hA]
    rw [inputLoop_preserves (fun s => actualEmissions s.signals) (fun r => r ≠ 285)
      (fun s r w hr => inputStep_actualEmissions_of_ne s r w hr) post _ 286 (by decide)
      (by intro i hi; show (286 + i) % 65536 ≠ 285; omega)]
    have hpre_em : actualEmissions (inputLoop st s pre).signals = actualEmissions st.signals :=
      inputLoop_preserves (fun s => actualEmissions s.signals) (fun r => r ≠ 285)
        (fun s r w hr => inputStep_actualEmissions_of_ne s r w hr) pre st s (by omega)
        (by intro i hi; show (s + i) % 65536 ≠ 285; omega)
    rw [inputStep_285]
    simp only [InputLoopState.emit, actualEmissions_append]
    rw [← hpre_em, ← inputLoop_id st s pre]
    rfl
  · intro h
    exact inputLoop_preserves (fun s => actualEmissions s.signals) (fun r => r ≠ 285)
      (fun s r w hr => inputStep_actualEmissions_of_ne s r w hr) data st s (by omega)
      (by intro i hi; show (s + i) % 65536 ≠ 285; omega)

/-- A response of 287 words that starts at register 65535 ends at register 285. -/
theorem wrap_emission (st : InputLoopState) (pre : List Nat) (w : Nat)
    (hlen : pre.length = 286) :
    ∃ d, actualEmissions (inputLoop st 65535 (pre ++ [w])).signals =
      actualEmissions st.signals ++ [(st.pc.m_id, d)] := by
  have hpre : actualEmissions (inputLoop st 65535 pre).signals = actualEmissions st.signals :=
    inputLoop_preserves (fun s => actualEmissions s.signals) (fun r => r ≠ 285)
      (fun s r w hr => inputStep_actualEmissions_of_ne s r w hr) pre st 65535 (by decide)
      (by
        intro i hi
        rw [hlen] at hi
        show (65535 + i) % 65536 ≠ 285
        omega)
  have hlast : inputLoop st 65535 (pre ++ [w]) = inputStep (inputLoop st 65535 pre) 285 w := by
    have e : (65535 + 286) % 65536 = 285 := by decide
    rw [inputLoop_append _ _ (by decide), hlen, e, inputLoop_cons, inputLoop_nil]
  have hid : (inputLoop st 65535 pre).pc.m_id = st.pc.m_id := inputLoop_id st 65535 pre
  rw [hlast, inputStep_285]
  generalize inputLoop st 65535 pre = S at hid hpre
  refine ⟨(S.setLive (fun cd => addCountHigh cd 7 w)).pc.m_actualData, ?_⟩
  show actualEmissions (S.signals ++ [Signal.ActualDataReceived S.pc.m_id _]) = _
  rw [actualEmissions_append, hpre, hid]
  rfl

/-- The bound of 286 words below cannot be raised: the 16-bit register counter wraps, so a
response with start register 65535 and 287 words would reach register 285 with its last
word and emit `ActualDataReceived` once although `s ≤ 285` does not hold. -/
theorem liveRead_wrap_287 :
    (List.replicate 286 0 ++ [0]).length = 287 ∧
    ¬ (65535 ≤ 285 ∧ 285 < 65535 + 287) ∧
    ∃ d, actualEmissions (sampleCounter.slot_receivedInputRegisterData sampleNow sampleUninit
      0 3 65535 (List.replicate 286 0 ++ [0])).2 = [(7, d)] := by
  refine ⟨by rw [List.length_append, List.length_replicate]; rfl, by decide, ?_⟩
  have hslot : (sampleCounter.slot_receivedInputRegisterData sampleNow sampleUninit
      0 3 65535 (List.replicate 286 0 ++ [0])).2 =
      (inputLoop (inputLoopStart sampleCounter sampleNow sampleUninit) 65535
        (List.replicate 286 0 ++ [0])).signals := by
    unfold ParticleCounter.slot_receivedInputRegisterData
    rw [if_neg (by decide)]
  obtain ⟨d, hd⟩ := wrap_emission (inputLoopStart sampleCounter sampleNow sampleUninit)
    (List.replicate 286 0) 0 (List.length_replicate 286 0)
  rw [hslot, hd]
  exact ⟨d, rfl⟩

/-- C3: for every input-register response with start register `s` and `n` words whose unit
address matches, `ActualDataReceived` is emitted exactly once if `s ≤ 285 < s + n` and not
at all otherwise. This holds for every response of at most 286 words, wherever it starts
and also if it runs past register 65535 (a Modbus read response carries at most 125
registers). A full live read (`s = 256`, `n = 30`) emits exactly once, the emitted data is
the live data the instrument holds after all 30 words, and its count of channel `k + 1` is
reassembled from words `7 + 3k` and `8 + 3k` of that response. -/
theorem C3_live_emission (pc : ParticleCounter) (now : QDateTime) (uninit : ArchiveDataset)
    (tid adr s : Nat) (data : List Nat) (hadr : (adr : Int) = pc.m_modbusAddress)
    (hs : s < 65536) (hn : data.length ≤ 286) :
    (s ≤ 285 ∧ 285 < s + data.length →
      ∃ d, actualEmissions (pc.slot_receivedInputRegisterData now uninit tid adr s data).2 =
        [(pc.m_id, d)]) ∧
    (¬ (s ≤ 285 ∧ 285 < s + data.length) →
      actualEmissions (pc.slot_receivedInputRegisterData now uninit tid adr s data).2 = []) ∧
    (s = 256 → data.length = 30 →
      actualEmissions (pc.slot_receivedInputRegisterData now uninit tid adr s data).2 =
        [(pc.m_id, (pc.slot_receivedInputRegisterData now uninit tid adr s data).1.m_actualData)] ∧
      ∀ k : Fin 8, data.getD (7 + 3 * k.val) 0 < 65536 → data.getD (8 + 3 * k.val) 0 < 65536 →
        ((pc.slot_receivedInputRegisterData now uninit tid adr s data).1.m_actualData.channelData
          k).count = data.getD (7 + 3 * k.val) 0 + 65536 * data.getD (8 + 3 * k.val) 0) := by
  have hslot : pc.slot_receivedInputRegisterData now uninit tid adr s data =
      ((inputLoop (inputLoopStart pc now uninit) s data).pc,
        (inputLoop (inputLoopStart pc now uninit) s data).signals) := by
    unfold ParticleCounter.slot_receivedInputRegisterData
    rw [if_neg (by simpa using hadr)]
  have hstart : actualEmissions (inputLoopStart pc now uninit).signals = [] :=
    markAsOnline_actualEmissions pc now
  have hid : (inputLoopStart pc now uninit).pc.m_id = pc.m_id := markAsOnline_id pc now
  rw [hslot]
  refine ⟨?_, ?_, ?_⟩
  · intro h
    have hem := liveRead_emissions (inputLoopStart pc now uninit) s data hs (by omega)
    rw [hstart, hid] at hem
    exact ⟨_, hem.1 h⟩
  · intro h
    by_cases hw : s + data.length ≤ 65536
    · have hem := liveRead_emissions (inputLoopStart pc now uninit) s data hs hw
      rw [hstart] at hem
      exact hem.2 h
    · show actualEmissions (inputLoop (inputLoopStart pc now uninit) s data).signals = []
      rw [inputLoop_preserves (fun s => actualEmissions s.signals) (fun r => r ≠ 285)
        (fun s r w hr => inputStep_actualEmissions_of_ne s r w hr) data _ s hs
        (by intro i hi; show (s + i) % 65536 ≠ 285; omega)]
      exact hstart
  · intro h256 hlen
    subst h256
    have hem := liveRead_emissions (inputLoopStart pc now uninit) 256 data hs (by omega)
    rw [hstart, hid] at hem
    constructor
    · have := hem.1 ⟨by omega, by omega⟩
      rw [List.take_of_length_le (by omega)] at this
      exact this
    · intro k hlo hhi
      have hk := k.isLt
      have hc := liveRead_count (inputLoopStart pc now uninit) 256 data k (by omega) (by omega)
        (by omega)
      have e1 : 263 + 3 * k.val - 256 = 7 + 3 * k.val := by omega
      have e2 : 264 + 3 * k.val - 256 = 8 + 3 * k.val := by omega
      rw [e1, e2] at hc
      show ((inputLoop (inputLoopStart pc now uninit) 256 data).pc.m_actualData.channelData
        k).count = _
      rw [hc]
      exact (count_reassembly_arith _ _ hlo hhi).1

/-- C3 at the full live read of the spec's example, at a status poll that does not reach
register 285 and at a response of 125 words that runs past register 65535. -/
theorem C3_live_emission_witness :
    (actualEmissions (sampleCounter.slot_receivedInputRegisterData sampleNow sampleUninit 0 3
        256 [30, 15, 10, 1, 3, 24, 1, 4660, 1, 1, 0, 0, 1, 0, 0, 1, 0, 0, 1, 0, 0, 1, 0, 0, 1, 0,
          0, 1, 0, 0]).2 =
      [(7, (sampleCounter.slot_receivedInputRegisterData sampleNow sampleUninit 0 3
        256 [30, 15, 10, 1, 3, 24, 1, 4660, 1, 1, 0, 0, 1, 0, 0, 1, 0, 0, 1, 0, 0, 1, 0, 0, 1, 0,
          0, 1, 0, 0]).1.m_actualData)] ∧
      ((sampleCounter.slot_receivedInputRegisterData sampleNow sampleUninit 0 3
        256 [30, 15, 10, 1, 3, 24, 1, 4660, 1, 1, 0, 0, 1, 0, 0, 1, 0, 0, 1, 0, 0, 1, 0, 0, 1, 0,
          0, 1, 0, 0]).1.m_actualData.channelData 0).count = 70196) ∧
    actualEmissions (sampleCounter.slot_receivedInputRegisterData sampleNow sampleUninit 0 3
        88 [1, 0, 0, 0, 0, 0, 0, 0]).2 = [] ∧
    actualEmissions (sampleCounter.slot_receivedInputRegisterData sampleNow sampleUninit 0 3
        65500 (List.replicate 125 0)).2 = [] :=
  ⟨⟨((C3_live_emission sampleCounter sampleNow sampleUninit 0 3 256
        [30, 15, 10, 1, 3, 24, 1, 4660, 1, 1, 0, 0, 1, 0, 0, 1, 0, 0, 1, 0, 0, 1, 0, 0, 1, 0,
          0, 1, 0, 0] (by decide) (by decide) (by decide)).2.2 rfl rfl).1,
      ((C3_live_emission sampleCounter sampleNow sampleUninit 0 3 256
        [30, 15, 10, 1, 3, 24, 1, 4660, 1, 1, 0, 0, 1, 0, 0, 1, 0, 0, 1, 0, 0, 1, 0, 0, 1, 0,
          0, 1, 0, 0] (by decide) (by decide) (by decide)).2.2 rfl rfl).2 0 (by decide)
        (by decide)⟩,
    (C3_live_emission sampleCounter sampleNow sampleUninit 0 3 88 [1, 0, 0, 0, 0, 0, 0, 0]
      (by decide) (by decide) (by decide)).2.1 (by decide),
    (C3_live_emission sampleCounter sampleNow sampleUninit 0 3 65500 (List.replicate 125 0)
      (by decide) (by decide) (by rw [List.length_replicate]; decide)).2.1
      (by rw [List.length_replicate]; decide)⟩

/-! ## The live timestamp -/

theorem liveTimestamp_six (st : InputLoopState) (sec min hour day month yy : Nat) :
    (inputLoop st 256 [sec, min, hour, day, month, yy]).pc.m_actualData.timestamp =
      ((st.samplingTimestamp.setDate
          (QDate.setDate (((yy + 2000) % 65536 : Nat) : Int) month day)).setTime
        (QTime.setHMS hour min sec)) := by
  simp only [inputLoop_cons, inputLoop_nil, Nat.reduceAdd, Nat.reduceMod, inputStep_256,
    inputStep_257, inputStep_258, inputStep_259, inputStep_260, inputStep_261, inputYears]

/-- C4 (as stated) fails for year words from 63536 on: the sum `rawdata + 2000` is stored
in a 16-bit variable. The words [30, 15, 10, 1, 3, 65535] form a valid time and, with
year 2000 + 65535, a valid calendar date, and the live timestamp afterwards has the year
1999. -/
theorem C4_year_wrap_counterexample :
    QTime.isValidHMS 10 15 30 = true ∧ QDate.isValidYMD (2000 + 65535) 3 1 = true ∧
    (sampleCounter.slot_receivedInputRegisterData sampleNow sampleUninit 0 3 256
      [30, 15, 10, 1, 3, 65535]).1.m_actualData.timestamp =
      { date := some ⟨1999, 3, 1⟩, time := some 36930000, spec := TimeSpec.UTC } := by
  refine ⟨by decide, by decide, ?_⟩
  decide

/-- C4 (amended): for a live read that starts at register 256 with at most 65536 words
whose first six words (sec, min, hour, day, month, yy) form a valid time: if the year word
is at most 63535 and (2000 + yy, month, day) is a valid calendar date, the live timestamp
afterwards is the UTC date-time with year `2000 + yy`, that month and day and that hour,
minute and second. The year is computed as `(yy + 2000)` modulo 65536, so for a year word
from 63536 on the timestamp carries the date with year `yy - 63536` if that year, month and
day form a valid calendar date, and no date otherwise; the year word 63536 gives the year
0, which no calendar date has. A response (with any start register) in which no word lands
on the years register 261 leaves the live timestamp unchanged. -/
theorem C4_live_timestamp (pc : ParticleCounter) (now : QDateTime) (uninit : ArchiveDataset)
    (tid adr : Nat) :
    (∀ (sec min hour day month yy : Nat) (rest : List Nat),
      (adr : Int) = pc.m_modbusAddress → rest.length + 6 ≤ 65536 → yy ≤ 63535 →
      QTime.isValidHMS hour min sec = true →
      QDate.isValidYMD (2000 + (yy : Int)) month day = true →
      (pc.slot_receivedInputRegisterData now uninit tid adr 256
        ([sec, min, hour, day, month, yy] ++ rest)).1.m_actualData.timestamp =
        { date := some ⟨2000 + (yy : Int), month, day⟩
          time := some ((hour * 3600 + min * 60 + sec) * 1000)
          spec := TimeSpec.UTC }) ∧
    (∀ (sec min hour day month yy : Nat) (rest : List Nat),
      (adr : Int) = pc.m_modbusAddress → rest.length + 6 ≤ 65536 →
      63536 ≤ yy → yy < 65536 → QTime.isValidHMS hour min sec = true →
      (QDate.isValidYMD ((yy : Int) - 63536) month day = true →
        (pc.slot_receivedInputRegisterData now uninit tid adr 256
          ([sec, min, hour, day, month, yy] ++ rest)).1.m_actualData.timestamp =
          { date := some ⟨(yy : Int) - 63536, month, day⟩
            time := some ((hour * 3600 + min * 60 + sec) * 1000)
            spec := TimeSpec.UTC }) ∧
      (QDate.isValidYMD ((yy : Int) - 63536) month day = false →
        (pc.slot_receivedInputRegisterData now uninit tid adr 256
          ([sec, min, hour, day, month, yy] ++ rest)).1.m_actualData.timestamp =
          { date := none
            time := some ((hour * 3600 + min * 60 + sec) * 1000)
            spec := TimeSpec.UTC }) ∧
      (yy = 63536 →
        (pc.slot_receivedInputRegisterData now uninit tid adr 256
          ([sec, min, hour, day, month, yy] ++ rest)).1.m_actualData.timestamp.date = none)) ∧
    (∀ (s : Nat) (data : List Nat), s < 65536 →
      (∀ i, i < data.length → (s + i) % 65536 ≠ 261) →
      (pc.slot_receivedInputRegisterData now uninit tid adr s data).1.m_actualData.timestamp =
        pc.m_actualData.timestamp) := by
  have hsix : ∀ (sec min hour day month yy : Nat) (rest : List Nat),
      (adr : Int) = pc.m_modbusAddress → rest.length + 6 ≤ 65536 →
      (pc.slot_receivedInputRegisterData now uninit tid adr 256
        ([sec, min, hour, day, month, yy] ++ rest)).1.m_actualData.timestamp =
      (((inputLoopStart pc now uninit).samplingTimestamp.setDate
          (QDate.setDate (((yy + 2000) % 65536 : Nat) : Int) month day)).setTime
        (QTime.setHMS hour min sec)) := by
    intro sec min hour day month yy rest hadr hlen
    unfold ParticleCounter.slot_receivedInputRegisterData
    rw [if_neg (by simpa using hadr)]
    show (inputLoop (inputLoopStart pc now uninit) 256
      ([sec, min, hour, day, month, yy] ++ rest)).pc.m_actualData.timestamp = _
    rw [inputLoop_append _ 256 (by decide)]
    have e : (256 + [sec, min, hour, day, month, yy].length) % 65536 = 262 := rfl
    rw [e]
    rw [inputLoop_preserves (fun s => s.pc.m_actualData.timestamp) (fun r => r ≠ 261)
      (fun s r w hr => inputStep_liveTimestamp s r w hr) rest _ 262 (by decide)
      (by intro i hi; show (262 + i) % 65536 ≠ 261; omega)]
    rw [liveTimestamp_six]
  refine ⟨?_, ?_, ?_⟩
  · intro sec min hour day month yy rest hadr hlen hyy htime hdate
    rw [hsix sec min hour day month yy rest hadr hlen]
    have hy : (((yy + 2000) % 65536 : Nat) : Int) = 2000 + (yy : Int) := by
      rw [Nat.mod_eq_of_lt (by omega)]
      push_cast
      ring
    rw [hy]
    simp [QDate.setDate, QTime.setHMS, htime, hdate, QDateTime.setDate, QDateTime.setTime,
      QDateTime.setDateTime, inputLoopStart, QDateTime.setTimeSpec, QDateTime.null]
  · intro sec min hour day month yy rest hadr hlen hlo hhi htime
    have hy : (((yy + 2000) % 65536 : Nat) : Int) = (yy : Int) - 63536 := by
      omega
    have hvalid : QDate.isValidYMD ((yy : Int) - 63536) month day = true →
        (pc.slot_receivedInputRegisterData now uninit tid adr 256
          ([sec, min, hour, day, month, yy] ++ rest)).1.m_actualData.timestamp =
          { date := some ⟨(yy : Int) - 63536, month, day⟩
            time := some ((hour * 3600 + min * 60 + sec) * 1000)
            spec := TimeSpec.UTC } := by
      intro hdate
      rw [hsix sec min hour day month yy rest hadr hlen, hy]
      simp [QDate.setDate, QTime.setHMS, htime, hdate, QDateTime.setDate, QDateTime.setTime,
        QDateTime.setDateTime, inputLoopStart, QDateTime.setTimeSpec, QDateTime.null]
    have hinvalid : QDate.isValidYMD ((yy : Int) - 63536) month day = false →
        (pc.slot_receivedInputRegisterData now uninit tid adr 256
          ([sec, min, hour, day, month, yy] ++ rest)).1.m_actualData.timestamp =
          { date := none
            time := some ((hour * 3600 + min * 60 + sec) * 1000)
            spec := TimeSpec.UTC } := by
      intro hdate
      rw [hsix sec min hour day month yy rest hadr hlen, hy]
      simp [QDate.setDate, QTime.setHMS, htime, hdate, QDateTime.setDate, QDateTime.setTime,
        QDateTime.setDateTime, inputLoopStart, QDateTime.setTimeSpec, QDateTime.null]
    refine ⟨hvalid, hinvalid, ?_⟩
    intro h0
    have hz : QDate.isValidYMD ((yy : Int) - 63536) month day = false := by
      subst h0
      simp [QDate.isValidYMD]
    rw [hinvalid hz]
  · intro s data hs hno
    unfold ParticleCounter.slot_receivedInputRegisterData
    split
    · rfl
    · show (inputLoop (inputLoopStart pc now uninit) s data).pc.m_actualData.timestamp = _
      rw [inputLoop_preserves (fun s => s.pc.m_actualData.timestamp) (fun r => r ≠ 261)
        (fun s r w hr => inputStep_liveTimestamp s r w hr) data _ s hs hno]
      exact markAsOnline_timestamp pc now

/-- C4 (amended) at the words of the spec's example, which give 2024-03-01 10:15:30Z, at
the year words 65535 and 63536, which give the year 1999 and no date, and at a status poll,
which leaves the timestamp of a new instrument null. -/
theorem C4_live_timestamp_witness :
    (sampleCounter.slot_receivedInputRegisterData sampleNow sampleUninit 0 3 256
      ([30, 15, 10, 1, 3, 24] ++ [1, 4660, 1])).1.m_actualData.timestamp =
      { date := some ⟨2000 + ((24 : Nat) : Int), 3, 1⟩
        time := some ((10 * 3600 + 15 * 60 + 30) * 1000)
        spec := TimeSpec.UTC } ∧
    (sampleCounter.slot_receivedInputRegisterData sampleNow sampleUninit 0 3 256
      ([30, 15, 10, 1, 3, 65535] ++ [])).1.m_actualData.timestamp =
      { date := some ⟨((65535 : Nat) : Int) - 63536, 3, 1⟩
        time := some ((10 * 3600 + 15 * 60 + 30) * 1000)
        spec := TimeSpec.UTC } ∧
    (sampleCounter.slot_receivedInputRegisterData sampleNow sampleUninit 0 3 256
      ([30, 15, 10, 1, 3, 63536] ++ [])).1.m_actualData.timestamp.date = none ∧
    (sampleCounter.slot_receivedInputRegisterData sampleNow sampleUninit 0 3 88
      [1, 0, 0, 0, 0, 0, 0, 0]).1.m_actualData.timestamp = sampleCounter.m_actualData.timestamp :=
  ⟨(C4_live_timestamp sampleCounter sampleNow sampleUninit 0 3).1 30 15 10 1 3 24 [1, 4660, 1]
      (by decide) (by decide) (by decide) (by decide) (by decide),
    ((C4_live_timestamp sampleCounter sampleNow sampleUninit 0 3).2.1 30 15 10 1 3 65535 []
      (by decide) (by decide) (by decide) (by decide) (by decide)).1 (by decide),
    ((C4_live_timestamp sampleCounter sampleNow sampleUninit 0 3).2.1 30 15 10 1 3 63536 []
      (by decide) (by decide) (by decide) (by decide) (by decide)).2.2 rfl,
    (C4_live_timestamp sampleCounter sampleNow sampleUninit 0 3).2.2 88 [1, 0, 0, 0, 0, 0, 0, 0]
      (by decide) (by
        intro i hi
        have : i < 8 := hi
        omega)⟩

/-- C5: evaluation of the code at the failing input. An archive response that consists of
the single word 0 for register 543 is handled with a local dataset that no statement has
initialised; with the start value `sampleUninit` for it, `ArchiveDataReceived` is emitted
with a dataset in which every `channelData[i].channel` is the start value 0, not
`i + 1`. -/
theorem C5_archive_channel_numbers_unset :
    ∃ d, archiveEmissions (sampleCounter.slot_receivedInputRegisterData sampleNow sampleUninit
        0 3 543 [0]).2 = [(7, d)] ∧
      (∀ i : Fin 8, (d.channelData i).channel = (sampleUninit.channelData i).channel) ∧
      (d.channelData 0).channel = 0 :=
  ⟨_, rfl, fun i => by fin_cases i <;> rfl, rfl⟩

/-! ## Liveness: lost transactions and parsed responses -/

/-- C14: when `slot_transactionLost` is delivered to an instrument, `lostTelegrams`
(a 64-bit counter) is incremented, which below its maximum is an increase by exactly 1; an
instrument that was online becomes offline and exactly one "Not online." error entry is
raised; an instrument that was offline stays offline and no log entry is raised; nothing
else of the instrument changes. -/
theorem C14_transactionLost (pc : ParticleCounter) (id : Nat) :
    (pc.slot_transactionLost id).1.m_actualData.lostTelegrams =
      (pc.m_actualData.lostTelegrams + 1) % 18446744073709551616 ∧
    (pc.m_actualData.lostTelegrams < 18446744073709551615 →
      (pc.slot_transactionLost id).1.m_actualData.lostTelegrams =
        pc.m_actualData.lostTelegrams + 1) ∧
    (pc.slot_transactionLost id).1.m_actualData.online = false ∧
    (pc.m_actualData.online = true →
      (pc.slot_transactionLost id).2 =
        [Signal.newEntry LoggingCategory.Error pc.logModule "Not online."]) ∧
    (pc.m_actualData.online = false → (pc.slot_transactionLost id).2 = []) ∧
    (pc.slot_transactionLost id).1 =
      { pc with m_actualData :=
          { pc.m_actualData with
            lostTelegrams := (pc.m_actualData.lostTelegrams + 1) % 18446744073709551616
            online := false } } := by
  unfold ParticleCounter.slot_transactionLost
  cases h : pc.m_actualData.online
  · refine ⟨by simp [h], fun hlt => ?_, by simp [h], by simp, by simp [h], ?_⟩
    · simp only [h]
      exact Nat.mod_eq_of_lt (by omega)
    · simp [h]
  · refine ⟨by simp [h], fun hlt => ?_, by simp [h], by simp [h], by simp, ?_⟩
    · simp only [h]
      exact Nat.mod_eq_of_lt (by omega)
    · simp [h]

theorem C14_transactionLost_witness :
    (({ sampleCounter with m_actualData := { sampleCounter.m_actualData with online := true } }
        : ParticleCounter).slot_transactionLost 5).1.m_actualData.lostTelegrams = 0 + 1 ∧
    (({ sampleCounter with m_actualData := { sampleCounter.m_actualData with online := true } }
        : ParticleCounter).slot_transactionLost 5).2 =
      [Signal.newEntry LoggingCategory.Error "Particle Counter id=7" "Not online."] ∧
    (sampleCounter.slot_transactionLost 5).2 = [] :=
  ⟨(C14_transactionLost { sampleCounter with
        m_actualData := { sampleCounter.m_actualData with online := true } } 5).2.1 (by decide),
    (C14_transactionLost { sampleCounter with
        m_actualData := { sampleCounter.m_actualData with online := true } } 5).2.2.2.1 rfl,
    (C14_transactionLost sampleCounter 5).2.2.2.2.1 rfl⟩

theorem notOnlineCleared_append (xs ys : List Signal) :
    notOnlineCleared (xs ++ ys) = notOnlineCleared xs + notOnlineCleared ys := by
  induction xs with
  | nil => simp [notOnlineCleared]
  | cons x rest ih =>
    cases x with
    | entryGone c m t =>
      cases c <;> simp [notOnlineCleared, ih, Nat.add_assoc]
    | _ => simp [notOnlineCleared, ih]

theorem markAsOnline_online (pc : ParticleCounter) (now : QDateTime) :
    (pc.markAsOnline now).1.m_actualData.online = true ∧
      (pc.markAsOnline now).1.m_actualData.lastSeen = now ∧
      notOnlineCleared (pc.markAsOnline now).2 = (if pc.m_actualData.online then 0 else 1) := by
  unfold ParticleCounter.markAsOnline
  cases h : pc.m_actualData.online <;> simp [notOnlineCleared, h]

/-- No case of the input switch touches the online flag or `lastSeen`, and none clears
the "Not online." entry. -/
theorem inputDispatch_liveness (st : InputLoopState) (c : InputCase) (w : Nat) :
    (inputDispatch st c w).pc.m_actualData.online = st.pc.m_actualData.online ∧
      (inputDispatch st c w).pc.m_actualData.lastSeen = st.pc.m_actualData.lastSeen ∧
      notOnlineCleared (inputDispatch st c w).signals = notOnlineCleared st.signals := by
  cases c with
  | liveTime f =>
    simp only [inputDispatch]
    split
    · exact ⟨congrArg (fun p => p.m_actualData.online) (inputTimeField_pc st f w),
        congrArg (fun p => p.m_actualData.lastSeen) (inputTimeField_pc st f w),
        congrArg notOnlineCleared (inputTimeField_signals st f w)⟩
    · exact ⟨congrArg (fun p => p.m_actualData.online) (inputTimeField_pc st f w),
        congrArg (fun p => p.m_actualData.lastSeen) (inputTimeField_pc st f w),
        congrArg notOnlineCleared (inputTimeField_signals st f w)⟩
  | archiveTime f =>
    simp only [inputDispatch]
    split
    · exact ⟨congrArg (fun p => p.m_actualData.online) (inputTimeField_pc st f w),
        congrArg (fun p => p.m_actualData.lastSeen) (inputTimeField_pc st f w),
        congrArg notOnlineCleared (inputTimeField_signals st f w)⟩
    · exact ⟨congrArg (fun p => p.m_actualData.online) (inputTimeField_pc st f w),
        congrArg (fun p => p.m_actualData.lastSeen) (inputTimeField_pc st f w),
        congrArg notOnlineCleared (inputTimeField_signals st f w)⟩
  | liveChannel k part =>
    simp only [inputDispatch]
    split
    · refine ⟨rfl, rfl, ?_⟩
      simp only [InputLoopState.emit, notOnlineCleared_append]
      rfl
    · exact ⟨rfl, rfl, rfl⟩
  | archiveChannel k part =>
    simp only [inputDispatch]
    split
    · split
      · refine ⟨rfl, rfl, ?_⟩
        simp only [InputLoopState.emit, notOnlineCleared_append]
        rfl
      · exact ⟨rfl, rfl, rfl⟩
    · exact ⟨rfl, rfl, rfl⟩
  | errorstateRegister =>
    simp only [inputDispatch, inputErrorstate]
    split
    · refine ⟨rfl, rfl, ?_⟩
      simp only [notOnlineCleared_append]
      simp [notOnlineCleared]
    · refine ⟨rfl, rfl, ?_⟩
      simp only [notOnlineCleared_append]
      simp [notOnlineCleared]
  | _ => exact ⟨rfl, rfl, rfl⟩

theorem inputStep_liveness (st : InputLoopState) (reg w : Nat) :
    (inputStep st reg w).pc.m_actualData.online = st.pc.m_actualData.online ∧
      (inputStep st reg w).pc.m_actualData.lastSeen = st.pc.m_actualData.lastSeen ∧
      notOnlineCleared (inputStep st reg w).signals = notOnlineCleared st.signals := by
  refine inputStep_cases (fun s => s.pc.m_actualData.online = st.pc.m_actualData.online ∧
      s.pc.m_actualData.lastSeen = st.pc.m_actualData.lastSeen ∧
      notOnlineCleared s.signals = notOnlineCleared st.signals) st reg w ?_
  intro c _
  show (inputDispatch (inputClearStrings st reg) c w).pc.m_actualData.online = _ ∧
    (inputDispatch (inputClearStrings st reg) c w).pc.m_actualData.lastSeen = _ ∧
    notOnlineCleared (inputDispatch (inputClearStrings st reg) c w).signals = _
  rw [← inputClearStrings_actualData st reg, ← inputClearStrings_signals st reg]
  exact inputDispatch_liveness _ c w

theorem inputLoop_liveness (st : InputLoopState) (reg : Nat) (data : List Nat) :
    (inputLoop st reg data).pc.m_actualData.online = st.pc.m_actualData.online ∧
      (inputLoop st reg data).pc.m_actualData.lastSeen = st.pc.m_actualData.lastSeen ∧
      notOnlineCleared (inputLoop st reg data).signals = notOnlineCleared st.signals := by
  induction data generalizing st reg with
  | nil => exact ⟨rfl, rfl, rfl⟩
  | cons w rest ih =>
    rw [inputLoop_cons]
    obtain ⟨h1, h2, h3⟩ := ih (inputStep st reg w) ((reg + 1) % 65536)
    obtain ⟨g1, g2, g3⟩ := inputStep_liveness st reg w
    exact ⟨h1.trans g1, h2.trans g2, h3.trans g3⟩

theorem holdingSwitch_actualData (st : HoldingLoopState) (reg w : Nat) :
    (holdingSwitch st reg w).pc.m_actualData = st.pc.m_actualData := by
  unfold holdingSwitch
  by_cases h1 : reg = 1
  · rw [if_pos h1]
    by_cases hb : (w &&& 0x01) = 1
    · rw [if_pos hb]; rfl
    · rw [if_neg hb]; rfl
  rw [if_neg h1]
  by_cases h2 : reg = 2
  · rw [if_pos h2]
    try rfl
  rw [if_neg h2]
  by_cases h3 : reg = 3
  · rw [if_pos h3]
    try rfl
  rw [if_neg h3]
  by_cases h4 : reg = 4
  · rw [if_pos h4]
    try rfl
  rw [if_neg h4]
  by_cases h16 : reg = 16
  · rw [if_pos h16]
    try rfl
  rw [if_neg h16]
  by_cases h17 : reg = 17
  · rw [if_pos h17]
    try rfl
  rw [if_neg h17]
  by_cases h18 : reg = 18
  · rw [if_pos h18]
    try rfl
  rw [if_neg h18]
  by_cases h19 : reg = 19
  · rw [if_pos h19]
    try rfl
  rw [if_neg h19]
  by_cases h20 : reg = 20
  · rw [if_pos h20]
    try rfl
  rw [if_neg h20]
  by_cases h21 : reg = 21
  · rw [if_pos h21]
    try rfl
  rw [if_neg h21]

theorem holdingLoop_actualData (st : HoldingLoopState) (reg : Nat) (data : List Nat) :
    (holdingLoop st reg data).pc.m_actualData = st.pc.m_actualData := by
  induction data generalizing st reg with
  | nil => rfl
  | cons w rest ih =>
    show (holdingLoop (holdingSwitch st reg w) ((reg + 1) % 65536) rest).pc.m_actualData = _
    rw [ih, holdingSwitch_actualData]

/-- C15: after a holding-register or input-register response whose unit address equals
the address of the instrument, whatever registers it carries, the instrument is online
and `lastSeen` is the handling time; the response clears the "Not online." entry exactly
once if the instrument was offline before and not at all if it was online. -/
theorem C15_response_marks_online (pc : ParticleCounter) (now : QDateTime)
    (uninit : ArchiveDataset) (tid adr reg : Nat) (data : List Nat)
    (hadr : (adr : Int) = pc.m_modbusAddress) :
    ((pc.slot_receivedHoldingRegisterData now tid adr reg data).1.m_actualData.online = true ∧
      (pc.slot_receivedHoldingRegisterData now tid adr reg data).1.m_actualData.lastSeen = now ∧
      notOnlineCleared (pc.slot_receivedHoldingRegisterData now tid adr reg data).2 =
        (if pc.m_actualData.online then 0 else 1)) ∧
    ((pc.slot_receivedInputRegisterData now uninit tid adr reg data).1.m_actualData.online
        = true ∧
      (pc.slot_receivedInputRegisterData now uninit tid adr reg data).1.m_actualData.lastSeen
        = now ∧
      notOnlineCleared (pc.slot_receivedInputRegisterData now uninit tid adr reg data).2 =
        (if pc.m_actualData.online then 0 else 1)) := by
  obtain ⟨m1, m2, m3⟩ := markAsOnline_online pc now
  constructor
  · unfold ParticleCounter.slot_receivedHoldingRegisterData
    rw [if_neg (by simpa using hadr)]
    show (holdingLoop (holdingLoopStart pc now) reg data).pc.m_actualData.online = true ∧
      (holdingLoop (holdingLoopStart pc now) reg data).pc.m_actualData.lastSeen = now ∧
      notOnlineCleared (pc.markAsOnline now).2 = _
    rw [holdingLoop_actualData]
    exact ⟨m1, m2, m3⟩
  · unfold ParticleCounter.slot_receivedInputRegisterData
    rw [if_neg (by simpa using hadr)]
    obtain ⟨h1, h2, h3⟩ := inputLoop_liveness (inputLoopStart pc now uninit) reg data
    show (inputLoop (inputLoopStart pc now uninit) reg data).pc.m_actualData.online = true ∧
      (inputLoop (inputLoopStart pc now uninit) reg data).pc.m_actualData.lastSeen = now ∧
      notOnlineCleared (inputLoop (inputLoopStart pc now uninit) reg data).signals = _
    rw [h1, h2, h3]
    exact ⟨m1, m2, m3⟩

/-- C15 at an offline instrument: a status response brings it online and clears the
entry once. -/
theorem C15_response_marks_online_witness :
    (sampleCounter.slot_receivedInputRegisterData sampleNow sampleUninit 0 3 88
        [1]).1.m_actualData.online = true ∧
    (sampleCounter.slot_receivedInputRegisterData sampleNow sampleUninit 0 3 88
        [1]).1.m_actualData.lastSeen = sampleNow ∧
    notOnlineCleared (sampleCounter.slot_receivedInputRegisterData sampleNow sampleUninit 0 3 88
        [1]).2 = (if sampleCounter.m_actualData.online then 0 else 1) :=
  (C15_response_marks_online sampleCounter sampleNow sampleUninit 0 3 88 [1] (by decide)).2

/-- C16: evaluation of the code at the failing input. The constructor assigns no value to
`m_actualData.online`; where that member holds `true` after construction, the new
instrument is online while `lastSeen` is the null date-time, and `load` changes neither
of the two. -/
theorem C16_online_not_initialised :
    (ParticleCounter.newWith true).m_actualData.online = true ∧
    (ParticleCounter.newWith true).m_actualData.lastSeen = QDateTime.null ∧
    ((ParticleCounter.newWith true).load (sampleCounter.save true)).m_actualData.online = true ∧
    ((ParticleCounter.newWith true).load (sampleCounter.save true)).m_actualData.lastSeen =
      QDateTime.null := by
  refine ⟨rfl, rfl, ?_, ?_⟩ <;> decide

theorem statusErrorRaised_append (xs ys : List Signal) :
    statusErrorRaised (xs ++ ys) = statusErrorRaised xs + statusErrorRaised ys := by
  induction xs with
  | nil => simp [statusErrorRaised]
  | cons x rest ih =>
    cases x with
    | newEntry c m t =>
      cases c <;> simp [statusErrorRaised, ih, Nat.add_assoc]
    | _ => simp [statusErrorRaised, ih]

theorem statusErrorCleared_append (xs ys : List Signal) :
    statusErrorCleared (xs ++ ys) = statusErrorCleared xs + statusErrorCleared ys := by
  induction xs with
  | nil => simp [statusErrorCleared]
  | cons x rest ih =>
    cases x with
    | entryGone c m t =>
      cases c <;> simp [statusErrorCleared, ih, Nat.add_assoc]
    | _ => simp [statusErrorCleared, ih]

theorem markAsOnline_statusError (pc : ParticleCounter) (now : QDateTime) :
    statusErrorRaised (pc.markAsOnline now).2 = 0 ∧
      statusErrorCleared (pc.markAsOnline now).2 = 0 := by
  unfold ParticleCounter.markAsOnline
  split <;> simp [statusErrorRaised, statusErrorCleared]

/-- Every read of the error-state register raises or clears the "Status error present."
entry: a response with matching unit address that carries the error-state register
(0-based 95) alone raises the entry exactly once and does not clear it when the value is
non-zero, and clears it exactly once and does not raise it when the value is zero,
whatever the instrument held before. -/
theorem statusError_per_read (pc : ParticleCounter) (now : QDateTime)
    (uninit : ArchiveDataset) (tid adr w : Nat) (hadr : (adr : Int) = pc.m_modbusAddress) :
    statusErrorRaised (pc.slot_receivedInputRegisterData now uninit tid adr 95 [w]).2 =
      (if w = 0 then 0 else 1) ∧
    statusErrorCleared (pc.slot_receivedInputRegisterData now uninit tid adr 95 [w]).2 =
      (if w = 0 then 1 else 0) := by
  obtain ⟨m1, m2⟩ := markAsOnline_statusError pc now
  have hslot : (pc.slot_receivedInputRegisterData now uninit tid adr 95 [w]).2 =
      (inputErrorstate (inputLoopStart pc now uninit) w).signals := by
    unfold ParticleCounter.slot_receivedInputRegisterData
    rw [if_neg (by simpa using hadr)]
    rfl
  rw [hslot]
  unfold inputErrorstate
  by_cases hw : w = 0
  · rw [if_pos hw, if_pos hw, if_pos hw]
    show statusErrorRaised ((pc.markAsOnline now).2 ++ _) = 0 ∧
      statusErrorCleared ((pc.markAsOnline now).2 ++ _) = 1
    rw [statusErrorRaised_append, statusErrorCleared_append, m1, m2]
    exact ⟨rfl, by simp [statusErrorCleared]⟩
  · rw [if_neg hw, if_neg hw, if_neg hw]
    show statusErrorRaised ((pc.markAsOnline now).2 ++ _) = 1 ∧
      statusErrorCleared ((pc.markAsOnline now).2 ++ _) = 0
    rw [statusErrorRaised_append, statusErrorCleared_append, m1, m2]
    exact ⟨by simp [statusErrorRaised], rfl⟩

/-- C17: evaluation of the code at the failing input. The "Status error present." entry is
not edge-triggered: two consecutive reads of the error-state register with the non-zero
value 1 raise it twice, once per read, and two consecutive reads of zero clear it twice.
The "Not online." entry of the same instrument is cleared on the transition only: by the
first of the two responses and not by the second. -/
theorem C17_status_error_raised_per_read :
    statusErrorRaised (sampleCounter.slot_receivedInputRegisterData sampleNow sampleUninit
      0 3 95 [1]).2 = 1 ∧
    statusErrorRaised ((sampleCounter.slot_receivedInputRegisterData sampleNow sampleUninit
      0 3 95 [1]).1.slot_receivedInputRegisterData sampleNow sampleUninit 1 3 95 [1]).2 = 1 ∧
    statusErrorCleared (sampleCounter.slot_receivedInputRegisterData sampleNow sampleUninit
      0 3 95 [0]).2 = 1 ∧
    statusErrorCleared ((sampleCounter.slot_receivedInputRegisterData sampleNow sampleUninit
      0 3 95 [0]).1.slot_receivedInputRegisterData sampleNow sampleUninit 1 3 95 [0]).2 = 1 ∧
    notOnlineCleared (sampleCounter.slot_receivedInputRegisterData sampleNow sampleUninit
      0 3 95 [0]).2 = 1 ∧
    notOnlineCleared ((sampleCounter.slot_receivedInputRegisterData sampleNow sampleUninit
      0 3 95 [0]).1.slot_receivedInputRegisterData sampleNow sampleUninit 1 3 95 [0]).2 = 0 := by
  refine ⟨?_, ?_, ?_, ?_, ?_, ?_⟩ <;> decide

/-! ## The registry: routing of bus events -/

theorem isThisYourTelegram_miss (pc : ParticleCounter) (t : Nat) (d : Bool)
    (h : t ∉ pc.m_transactionIDs) : pc.isThisYourTelegram t d = (false, pc) := by
  unfold ParticleCounter.isThisYourTelegram
  simp [h]

theorem isThisYourTelegram_hit (pc : ParticleCounter) (t : Nat) (h : t ∈ pc.m_transactionIDs) :
    pc.isThisYourTelegram t true =
      (true, { pc with m_transactionIDs := QList.removeOne pc.m_transactionIDs t }) := by
  unfold ParticleCounter.isThisYourTelegram
  simp [h]

theorem telegramLoop_miss (pcs : List ParticleCounter) (t : Nat)
    (h : ∀ pc ∈ pcs, t ∉ pc.m_transactionIDs) :
    getParticleCounterByTelegramIDLoop pcs t = (none, pcs) := by
  induction pcs with
  | nil => rfl
  | cons pc rest ih =>
    have h1 := isThisYourTelegram_miss pc t true (h pc (List.mem_cons_self _ _))
    have h2 := ih (fun q hq => h q (List.mem_cons_of_mem _ hq))
    simp [getParticleCounterByTelegramIDLoop, h1, h2]

theorem telegramLoop_hit (l1 l2 : List ParticleCounter) (a : ParticleCounter) (t : Nat)
    (h1 : ∀ pc ∈ l1, t ∉ pc.m_transactionIDs) (ha : t ∈ a.m_transactionIDs) :
    getParticleCounterByTelegramIDLoop (l1 ++ a :: l2) t =
      (some l1.length,
        l1 ++ { a with m_transactionIDs := QList.removeOne a.m_transactionIDs t } :: l2) := by
  induction l1 with
  | nil =>
    simp [getParticleCounterByTelegramIDLoop, isThisYourTelegram_hit a t ha]
  | cons pc rest ih =>
    have e1 := isThisYourTelegram_miss pc t true (h1 pc (List.mem_cons_self _ _))
    have e2 := ih (fun q hq => h1 q (List.mem_cons_of_mem _ hq))
    simp [getParticleCounterByTelegramIDLoop, e1, e2]

/-- C12: for every bus event (transaction lost, holding-register data, input-register
data) whose transaction id is pending in no instrument of the registry, the registry
raises exactly one log entry, the error "Telegram id mismatch.", no instrument handler
runs (no signal of an instrument is emitted) and every instrument is left as it was. -/
theorem C12_unrouted_event (db : ParticleCounterDatabase) (now : QDateTime)
    (uninit : ArchiveDataset) (t adr reg : Nat) (data : List Nat)
    (h : ∀ pc ∈ db.m_particlecounters, t ∉ pc.m_transactionIDs) :
    db.slot_transactionLost t =
      (db, [Signal.newEntry LoggingCategory.Error
        "ParticleCounterDatabase slot_transactionLost" "Telegram id mismatch."]) ∧
    db.slot_receivedHoldingRegisterData now t adr reg data =
      (db, [Signal.newEntry LoggingCategory.Error
        "ParticleCounterDatabase slot_receivedHoldingRegisterData" "Telegram id mismatch."]) ∧
    db.slot_receivedInputRegisterData now uninit t adr reg data =
      (db, [Signal.newEntry LoggingCategory.Error
        "ParticleCounterDatabase slot_receivedInputRegisterData" "Telegram id mismatch."]) := by
  have hl := telegramLoop_miss db.m_particlecounters t h
  refine ⟨?_, ?_, ?_⟩
  · simp [ParticleCounterDatabase.slot_transactionLost,
      ParticleCounterDatabase.getParticleCounterByTelegramID, hl]
  · simp [ParticleCounterDatabase.slot_receivedHoldingRegisterData,
      ParticleCounterDatabase.getParticleCounterByTelegramID, hl]
  · simp [ParticleCounterDatabase.slot_receivedInputRegisterData,
      ParticleCounterDatabase.getParticleCounterByTelegramID, hl]

/-- C12 at a registry with one instrument that has the ids 4 and 9 pending: a lost
transaction with id 5 is logged and dropped. -/
theorem C12_unrouted_event_witness :
    (⟨[{ sampleCounter with m_transactionIDs := [4, 9] }]⟩
        : ParticleCounterDatabase).slot_transactionLost 5 =
      (⟨[{ sampleCounter with m_transactionIDs := [4, 9] }]⟩,
        [Signal.newEntry LoggingCategory.Error
          "ParticleCounterDatabase slot_transactionLost" "Telegram id mismatch."]) :=
  (C12_unrouted_event ⟨[{ sampleCounter with m_transactionIDs := [4, 9] }]⟩ sampleNow
    sampleUninit 5 3 88 [1] (by
      intro pc hpc
      have : pc = { sampleCounter with m_transactionIDs := [4, 9] } := by simpa using hpc
      subst this
      decide)).1

theorem callAt_middle (l1 l2 : List ParticleCounter) (a : ParticleCounter)
    (f : ParticleCounter → ParticleCounter × List Signal) :
    (⟨l1 ++ a :: l2⟩ : ParticleCounterDatabase).callAt l1.length f =
      (⟨l1 ++ (f a).1 :: l2⟩, (f a).2) := by
  unfold ParticleCounterDatabase.callAt
  have h1 : (l1 ++ a :: l2)[l1.length]? = some a := by
    rw [List.getElem?_append_right (Nat.le_refl _)]
    simp
  have h2 : (l1 ++ a :: l2).set l1.length (f a).1 = l1 ++ (f a).1 :: l2 := by
    induction l1 with
    | nil => rfl
    | cons x rest ih => simp [List.set, ih]
  simp only [h1, h2]

theorem holdingSwitch_pc (st : HoldingLoopState) (reg w : Nat) :
    (holdingSwitch st reg w).pc =
      { st.pc with m_configData := (holdingSwitch st reg w).pc.m_configData } := by
  unfold holdingSwitch
  by_cases h1 : reg = 1
  · rw [if_pos h1]
    by_cases hb : (w &&& 0x01) = 1
    · rw [if_pos hb]; rfl
    · rw [if_neg hb]; rfl
  rw [if_neg h1]
  by_cases h2 : reg = 2
  · rw [if_pos h2]
    try rfl
  rw [if_neg h2]
  by_cases h3 : reg = 3
  · rw [if_pos h3]
    try rfl
  rw [if_neg h3]
  by_cases h4 : reg = 4
  · rw [if_pos h4]
    try rfl
  rw [if_neg h4]
  by_cases h16 : reg = 16
  · rw [if_pos h16]
  rw [if_neg h16]
  by_cases h17 : reg = 17
  · rw [if_pos h17]
  rw [if_neg h17]
  by_cases h18 : reg = 18
  · rw [if_pos h18]
  rw [if_neg h18]
  by_cases h19 : reg = 19
  · rw [if_pos h19]
  rw [if_neg h19]
  by_cases h20 : reg = 20
  · rw [if_pos h20]
  rw [if_neg h20]
  by_cases h21 : reg = 21
  · rw [if_pos h21]
  rw [if_neg h21]

theorem holdingLoop_transactionIDs (st : HoldingLoopState) (reg : Nat) (data : List Nat) :
    (holdingLoop st reg data).pc.m_transactionIDs = st.pc.m_transactionIDs := by
  induction data generalizing st reg with
  | nil => rfl
  | cons w rest ih =>
    show (holdingLoop (holdingSwitch st reg w) ((reg + 1) % 65536) rest).pc.m_transactionIDs = _
    rw [ih, holdingSwitch_pc]

theorem markAsOnline_transactionIDs (pc : ParticleCounter) (now : QDateTime) :
    (pc.markAsOnline now).1.m_transactionIDs = pc.m_transactionIDs := by
  unfold ParticleCounter.markAsOnline
  split <;> rfl

theorem inputClearStrings_transactionIDs (st : InputLoopState) (reg : Nat) :
    (inputClearStrings st reg).pc.m_transactionIDs = st.pc.m_transactionIDs := by
  unfold inputClearStrings
  split <;> split <;> split <;> rfl

theorem inputDispatch_transactionIDs (st : InputLoopState) (c : InputCase) (w : Nat) :
    (inputDispatch st c w).pc.m_transactionIDs = st.pc.m_transactionIDs := by
  cases c with
  | liveTime f =>
    simp only [inputDispatch]
    split
    · exact congrArg (fun p => p.m_transactionIDs) (inputTimeField_pc st f w)
    · exact congrArg (fun p => p.m_transactionIDs) (inputTimeField_pc st f w)
  | archiveTime f =>
    simp only [inputDispatch]
    split
    · exact congrArg (fun p => p.m_transactionIDs) (inputTimeField_pc st f w)
    · exact congrArg (fun p => p.m_transactionIDs) (inputTimeField_pc st f w)
  | liveChannel k part =>
    simp only [inputDispatch]
    split <;> rfl
  | archiveChannel k part =>
    simp only [inputDispatch]
    split
    · split <;> rfl
    · rfl
  | errorstateRegister =>
    simp only [inputDispatch, inputErrorstate]
    split <;> rfl
  | _ => rfl

theorem inputLoop_transactionIDs (st : InputLoopState) (reg : Nat) (data : List Nat) :
    (inputLoop st reg data).pc.m_transactionIDs = st.pc.m_transactionIDs := by
  induction data generalizing st reg with
  | nil => rfl
  | cons w rest ih =>
    rw [inputLoop_cons, ih]
    refine inputStep_cases (fun s => s.pc.m_transactionIDs = st.pc.m_transactionIDs) st reg w ?_
    intro c _
    show (inputDispatch (inputClearStrings st reg) c w).pc.m_transactionIDs = _
    rw [inputDispatch_transactionIDs, inputClearStrings_transactionIDs]

/-- No handler of an instrument changes its pending transaction ids. -/
theorem forward_transactionIDs (e : BusEvent) (now : QDateTime) (uninit : ArchiveDataset)
    (pc : ParticleCounter) :
    (e.forward now uninit pc).1.m_transactionIDs = pc.m_transactionIDs := by
  cases e with
  | transactionLost t =>
    show (pc.slot_transactionLost t).1.m_transactionIDs = _
    unfold ParticleCounter.slot_transactionLost
    simp only []
    split <;> rfl
  | holdingRegisterData t adr reg data =>
    show (pc.slot_receivedHoldingRegisterData now t adr reg data).1.m_transactionIDs = _
    unfold ParticleCounter.slot_receivedHoldingRegisterData
    split
    · rfl
    · show (holdingLoop (holdingLoopStart pc now) reg data).pc.m_transactionIDs = _
      rw [holdingLoop_transactionIDs]
      exact markAsOnline_transactionIDs pc now
  | inputRegisterData t adr reg data =>
    show (pc.slot_receivedInputRegisterData now uninit t adr reg data).1.m_transactionIDs = _
    unfold ParticleCounter.slot_receivedInputRegisterData
    split
    · rfl
    · show (inputLoop (inputLoopStart pc now uninit) reg data).pc.m_transactionIDs = _
      rw [inputLoop_transactionIDs]
      exact markAsOnline_transactionIDs pc now
  | transactionFinished => rfl

/-- C13: when the pending transaction lists of the instruments of the registry are
pairwise disjoint, a bus event whose transaction id is pending in the instrument `a` is
forwarded to `a` and to no other instrument: the signals of the event are those of the
handler of `a`, one occurrence of the id is removed from the pending list of `a`, and
every other instrument (its pending list, online flag, lostTelegrams counter and data)
is left as it was. -/
theorem C13_routed_event (l1 l2 : List ParticleCounter) (a : ParticleCounter)
    (now : QDateTime) (uninit : ArchiveDataset) (e : BusEvent) (t : Nat)
    (ht : e.telegramID = some t)
    (hdisj : (l1 ++ a :: l2).Pairwise
      (fun p q => ∀ x, x ∈ p.m_transactionIDs → x ∉ q.m_transactionIDs))
    (ha : t ∈ a.m_transactionIDs) :
    (⟨l1 ++ a :: l2⟩ : ParticleCounterDatabase).handle now uninit e =
      (⟨l1 ++ (e.forward now uninit
          { a with m_transactionIDs := QList.removeOne a.m_transactionIDs t }).1 :: l2⟩,
        (e.forward now uninit
          { a with m_transactionIDs := QList.removeOne a.m_transactionIDs t }).2) ∧
    (e.forward now uninit
        { a with m_transactionIDs := QList.removeOne a.m_transactionIDs t }).1.m_transactionIDs =
      QList.removeOne a.m_transactionIDs t ∧
    ∃ k1 k2, a.m_transactionIDs = k1 ++ t :: k2 ∧ t ∉ k1 ∧
      QList.removeOne a.m_transactionIDs t = k1 ++ k2 := by
  have h1 : ∀ pc ∈ l1, t ∉ pc.m_transactionIDs := by
    intro pc hpc hmem
    have := (List.pairwise_append.mp hdisj).2.2 pc hpc a (List.mem_cons_self _ _)
    exact this t hmem ha
  have hl := telegramLoop_hit l1 l2 a t h1 ha
  refine ⟨?_, forward_transactionIDs _ _ _ _, removeOne_spec _ _ ha⟩
  cases e with
  | transactionLost t1 =>
    have : t1 = t := Option.some.inj ht
    subst this
    simp only [ParticleCounterDatabase.handle, ParticleCounterDatabase.slot_transactionLost,
      ParticleCounterDatabase.getParticleCounterByTelegramID, hl]
    exact callAt_middle _ _ _ _
  | holdingRegisterData t1 adr reg data =>
    have : t1 = t := Option.some.inj ht
    subst this
    simp only [ParticleCounterDatabase.handle,
      ParticleCounterDatabase.slot_receivedHoldingRegisterData,
      ParticleCounterDatabase.getParticleCounterByTelegramID, hl]
    exact callAt_middle _ _ _ _
  | inputRegisterData t1 adr reg data =>
    have : t1 = t := Option.some.inj ht
    subst this
    simp only [ParticleCounterDatabase.handle,
      ParticleCounterDatabase.slot_receivedInputRegisterData,
      ParticleCounterDatabase.getParticleCounterByTelegramID, hl]
    exact callAt_middle _ _ _ _
  | transactionFinished => exact Option.noConfusion ht

/-- C13 at a registry of two instruments with the pending ids [1, 2] and [4, 9]: the loss
of transaction 4 reaches the second instrument only. -/
theorem C13_routed_event_witness :
    (⟨[{ ParticleCounter.new with m_transactionIDs := [1, 2] }] ++
        { sampleCounter with m_transactionIDs := [4, 9] } :: []⟩
      : ParticleCounterDatabase).handle sampleNow sampleUninit (BusEvent.transactionLost 4) =
      (⟨[{ ParticleCounter.new with m_transactionIDs := [1, 2] }] ++
          ((BusEvent.transactionLost 4).forward sampleNow sampleUninit
            { ({ sampleCounter with m_transactionIDs := [4, 9] } : ParticleCounter) with
              m_transactionIDs := QList.removeOne [4, 9] 4 }).1 :: []⟩,
        ((BusEvent.transactionLost 4).forward sampleNow sampleUninit
          { ({ sampleCounter with m_transactionIDs := [4, 9] } : ParticleCounter) with
            m_transactionIDs := QList.removeOne [4, 9] 4 }).2) :=
  (C13_routed_event [{ ParticleCounter.new with m_transactionIDs := [1, 2] }] []
    { sampleCounter with m_transactionIDs := [4, 9] } sampleNow sampleUninit
    (BusEvent.transactionLost 4) 4 rfl
    (List.Pairwise.cons
      (fun q hq x hx => by
        have hq1 : q = { sampleCounter with m_transactionIDs := [4, 9] } := by simpa using hq
        subst hq1
        have hx1 : x = 1 ∨ x = 2 := by simpa using hx
        rcases hx1 with rfl | rfl <;> decide)
      (List.Pairwise.cons (fun _ h => by simp at h) List.Pairwise.nil))
    (by decide)).1

/-- C11: evaluation of the code at the failing input. `setConfigData` on a configured
instrument issues four register writes and appends their four transaction ids to the
pending ids; the registry's handler for a finished transaction does nothing, so after
all four writes have completed the four ids are still pending: four pending ids against
four issued and four completed requests. -/
theorem C11_finished_writes_stay_pending :
    (∀ db : ParticleCounterDatabase, db.slot_transactionFinished = (db, [])) ∧
    ∃ r, sampleCounter.setConfigData ⟨[⟨fun n => n, []⟩]⟩ ParticleCounter.new.m_configData =
        some r ∧
      r.1.m_transactionIDs = [0, 1, 2, 3] ∧
      ((((((⟨[r.1]⟩ : ParticleCounterDatabase).handle sampleNow sampleUninit
          BusEvent.transactionFinished).1.handle sampleNow sampleUninit
          BusEvent.transactionFinished).1.handle sampleNow sampleUninit
          BusEvent.transactionFinished).1.handle sampleNow sampleUninit
          BusEvent.transactionFinished).1.m_particlecounters.map
        (fun pc => pc.m_transactionIDs.length)) = [4] :=
  ⟨fun _ => rfl, _, rfl, rfl, rfl⟩

/-! ## Operations on an instrument that cannot reach a bus -/

theorem checkedBus_failed (pc : ParticleCounter) (sys : ParticleCounterModbusSystem)
    (h : pc.isConfigured = false ∨ sys.getBusByID pc.m_busID = BusLookup.nullptr) :
    pc.checkedBus sys = BusAccess.failed
      [Signal.newEntry LoggingCategory.Error pc.logModule
        (if pc.isConfigured then " Bus id " ++ toString pc.m_busID ++ " not found."
          else " not configured.")] := by
  unfold ParticleCounter.checkedBus
  cases hc : pc.isConfigured
  · simp
  · rcases h with h | h
    · rw [hc] at h
      exact Bool.noConfusion h
    · simp [h]

theorem silentBus_failed (pc : ParticleCounter) (sys : ParticleCounterModbusSystem)
    (h : pc.isConfigured = false ∨ sys.getBusByID pc.m_busID = BusLookup.nullptr) :
    pc.silentBus sys = BusAccess.failed [] := by
  unfold ParticleCounter.silentBus
  cases hc : pc.isConfigured
  · simp
  · rcases h with h | h
    · rw [hc] at h
      exact Bool.noConfusion h
    · simp [h]

/-- If the bus index or the unit address of an instrument is unset (-1), or its bus index
is not below the number of buses, each of the nine operations submits no bus request and
leaves the instrument, with its pending transaction ids, and the buses unchanged;
`storeSettingsToFlash`, `requestDeviceInfo`, `requestStatus`, `requestArchiveDataset` and
`requestNextArchive` raise one error entry (" not configured." or " Bus id N not found."),
while `requestConfig`, `setConfigData`, `requestClock` and `setClock` return without a log
entry. -/
theorem unreachable_bus_operations (pc : ParticleCounter) (sys : ParticleCounterModbusSystem)
    (data : ConfigData) (dt : QDateTime)
    (h : pc.isConfigured = false ∨ sys.getBusByID pc.m_busID = BusLookup.nullptr) :
    (∀ r ∈ [pc.storeSettingsToFlash sys, pc.requestDeviceInfo sys, pc.requestStatus sys,
        pc.requestArchiveDataset sys, pc.requestNextArchive sys],
      r = some (pc, sys, [Signal.newEntry LoggingCategory.Error pc.logModule
        (if pc.isConfigured then " Bus id " ++ toString pc.m_busID ++ " not found."
          else " not configured.")])) ∧
    (∀ r ∈ [pc.requestConfig sys, pc.requestClock sys, pc.setClock sys dt],
      r = some (pc, sys, [])) ∧
    pc.setConfigData sys data = some (pc, sys) := by
  have hc := checkedBus_failed pc sys h
  have hs := silentBus_failed pc sys h
  refine ⟨?_, ?_, ?_⟩
  · intro r hr
    simp only [List.mem_cons, List.mem_singleton, List.not_mem_nil, or_false] at hr
    rcases hr with rfl | rfl | rfl | rfl | rfl
    · simp only [ParticleCounter.storeSettingsToFlash, ParticleCounter.checkedRequests, hc]
    · simp only [ParticleCounter.requestDeviceInfo, hc]
    · simp only [ParticleCounter.requestStatus, ParticleCounter.checkedRequests, hc]
    · simp only [ParticleCounter.requestArchiveDataset, ParticleCounter.checkedRequests, hc]
    · simp only [ParticleCounter.requestNextArchive, ParticleCounter.checkedRequests, hc]
  · intro r hr
    simp only [List.mem_cons, List.mem_singleton, List.not_mem_nil, or_false] at hr
    rcases hr with rfl | rfl | rfl
    · simp only [ParticleCounter.requestConfig, hs]
    · simp only [ParticleCounter.requestClock, hs]
    · simp only [ParticleCounter.setClock, hs]
  · unfold ParticleCounter.setConfigData
    cases hcfg : pc.isConfigured
    · simp
    · rcases h with h | h
      · rw [hcfg] at h
        exact Bool.noConfusion h
      · simp [h]

/-- C18: evaluation of the code at the failing inputs. On a new instrument, whose bus index
and unit address are -1, `requestConfig`, `requestClock`, `setClock` and `setConfigData`
return without a log entry (and submit nothing), while `requestStatus` raises the error
" not configured."; on an instrument whose bus does not exist the four operations again
return without a log entry, while `requestStatus` raises " Bus id 0 not found.". -/
theorem C18_silent_operations :
    ParticleCounter.new.isConfigured = false ∧
    ParticleCounter.new.requestConfig ⟨[⟨fun n => n, []⟩]⟩ =
      some (ParticleCounter.new, ⟨[⟨fun n => n, []⟩]⟩, []) ∧
    ParticleCounter.new.requestClock ⟨[⟨fun n => n, []⟩]⟩ =
      some (ParticleCounter.new, ⟨[⟨fun n => n, []⟩]⟩, []) ∧
    ParticleCounter.new.setClock ⟨[⟨fun n => n, []⟩]⟩ sampleNow =
      some (ParticleCounter.new, ⟨[⟨fun n => n, []⟩]⟩, []) ∧
    ParticleCounter.new.setConfigData ⟨[⟨fun n => n, []⟩]⟩ ParticleCounter.new.m_configData =
      some (ParticleCounter.new, ⟨[⟨fun n => n, []⟩]⟩) ∧
    ParticleCounter.new.requestStatus ⟨[⟨fun n => n, []⟩]⟩ =
      some (ParticleCounter.new, ⟨[⟨fun n => n, []⟩]⟩,
        [Signal.newEntry LoggingCategory.Error "Particle Counter id=-1" " not configured."]) ∧
    sampleCounter.isConfigured = true ∧
    sampleCounter.requestConfig ⟨[]⟩ = some (sampleCounter, ⟨[]⟩, []) ∧
    sampleCounter.requestClock ⟨[]⟩ = some (sampleCounter, ⟨[]⟩, []) ∧
    sampleCounter.setClock ⟨[]⟩ sampleNow = some (sampleCounter, ⟨[]⟩, []) ∧
    sampleCounter.setConfigData ⟨[]⟩ sampleCounter.m_configData = some (sampleCounter, ⟨[]⟩) ∧
    sampleCounter.requestStatus ⟨[]⟩ =
      some (sampleCounter, ⟨[]⟩,
        [Signal.newEntry LoggingCategory.Error "Particle Counter id=7" " Bus id 0 not found."]) := by
  refine ⟨rfl, rfl, rfl, rfl, rfl, ?_, rfl, rfl, rfl, rfl, rfl, ?_⟩
  · have h := (unreachable_bus_operations ParticleCounter.new ⟨[⟨fun n => n, []⟩]⟩
      ParticleCounter.new.m_configData sampleNow (Or.inl rfl)).1
        (ParticleCounter.new.requestStatus ⟨[⟨fun n => n, []⟩]⟩) (by simp)
    rw [h]
    have e1 : ParticleCounter.new.logModule = "Particle Counter id=-1" := by decide
    rw [e1]
    rfl
  · have h := (unreachable_bus_operations sampleCounter ⟨[]⟩
      ParticleCounter.new.m_configData sampleNow (Or.inr rfl)).1
        (sampleCounter.requestStatus ⟨[]⟩) (by simp)
    rw [h]
    have e1 : sampleCounter.logModule = "Particle Counter id=7" := by decide
    have e2 : (if sampleCounter.isConfigured then
        " Bus id " ++ toString sampleCounter.m_busID ++ " not found."
        else " not configured.") = " Bus id 0 not found." := by decide
    rw [e1, e2]

/-! ## The archive sink -/

theorem archiveDataLoop_eq (name : String) (id : Int) (archive : ArchiveDataset)
    (chs : List (Fin 8)) :
    archiveDataLoop name id archive chs =
      (chs.filter (fun c => decide ((archive.channelData c).status ≠ ChannelStatus.OFF))).map
        (fun c =>
          { measurementName := name
            id := id
            channel := (archive.channelData c).channel
            counts := (archive.channelData c).count
            timestamp := archive.timestamp }) := by
  induction chs with
  | nil => rfl
  | cons c rest ih =>
    unfold archiveDataLoop
    by_cases h : (archive.channelData c).status = ChannelStatus.OFF
    · rw [if_pos h, ih]
      simp [List.filter_cons, h]
    · rw [if_neg h, ih]
      simp [List.filter_cons, h]

/-- C20: `slot_ParticleCounterArchiveDataReceived` writes exactly one record for each
channel whose status differs from OFF, in increasing channel order, with the channel
number and count of that channel, and no record for a channel that is OFF; an archive
whose eight channels are all OFF writes nothing. -/
theorem C20_archive_records (name : String) (id : Int) (archive : ArchiveDataset) :
    slot_ParticleCounterArchiveDataReceived name id archive =
      ((List.finRange 8).filter
          (fun c => decide ((archive.channelData c).status ≠ ChannelStatus.OFF))).map
        (fun c =>
          { measurementName := name
            id := id
            channel := (archive.channelData c).channel
            counts := (archive.channelData c).count
            timestamp := archive.timestamp }) ∧
    (slot_ParticleCounterArchiveDataReceived name id archive).length =
      ((List.finRange 8).filter
        (fun c => decide ((archive.channelData c).status ≠ ChannelStatus.OFF))).length ∧
    ((∀ c : Fin 8, (archive.channelData c).status = ChannelStatus.OFF) →
      slot_ParticleCounterArchiveDataReceived name id archive = []) := by
  have e := archiveDataLoop_eq name id archive (List.finRange 8)
  refine ⟨e, ?_, ?_⟩
  · unfold slot_ParticleCounterArchiveDataReceived
    rw [e, List.length_map]
  · intro hoff
    unfold slot_ParticleCounterArchiveDataReceived
    rw [e]
    have : (List.finRange 8).filter
        (fun c => decide ((archive.channelData c).status ≠ ChannelStatus.OFF)) = [] := by
      rw [List.filter_eq_nil_iff]
      intro c _
      simp [hoff c]
    rw [this]
    rfl

/-- C20 at an archive whose channels are all OFF and at one with channels 1 and 3 on. -/
theorem C20_archive_records_witness :
    slot_ParticleCounterArchiveDataReceived "particles" 7 sampleUninit = [] ∧
    (slot_ParticleCounterArchiveDataReceived "particles" 7
      { sampleUninit with channelData := fun c =>
          { status := if c = 0 ∨ c = 2 then ChannelStatus.OK else ChannelStatus.OFF
            channel := c.val + 1, count := 10 * c.val } }).map (fun r => r.channel) = [1, 3] :=
  ⟨(C20_archive_records "particles" 7 sampleUninit).2.2 (fun _ => rfl), by decide⟩

/-! ## The status poll -/

theorem sameExceptPending_refl (p : ParticleCounter) : p.sameExceptPending p := rfl

theorem sameExceptPending_trans {p q r : ParticleCounter} (h1 : p.sameExceptPending q)
    (h2 : q.sameExceptPending r) : p.sameExceptPending r := by
  unfold ParticleCounter.sameExceptPending at *
  rw [h2, h1]

theorem telegramsOf_of_bus (sys : ParticleCounterModbusSystem) (i : Nat) (b : ModBus)
    (hb : sys.m_pcModbuslist[i]? = some b) : sys.telegramsOf i = b.telegrams.map Prod.snd := by
  unfold ParticleCounterModbusSystem.telegramsOf
  rw [hb]

theorem request_frame (pc : ParticleCounter) (sys : ParticleCounterModbusSystem) (i : Nat)
    (t : Telegram) (hi : i < sys.m_pcModbuslist.length) :
    (pc.request sys i t).2.m_pcModbuslist.length = sys.m_pcModbuslist.length ∧
    (∀ j, j ≠ i → (pc.request sys i t).2.m_pcModbuslist[j]? = sys.m_pcModbuslist[j]?) ∧
    (pc.request sys i t).2.telegramsOf i = sys.telegramsOf i ++ [t] ∧
    pc.sameExceptPending (pc.request sys i t).1 ∧
    (pc.request sys i t).1.m_transactionIDs.length = pc.m_transactionIDs.length + 1 := by
  have hb : sys.m_pcModbuslist[i]? = some sys.m_pcModbuslist[i] := List.getElem?_eq_getElem hi
  have e := request_of_bus pc sys i t _ hb
  have ha := request_bus_after pc sys i t _ hb
  refine ⟨?_, ?_, ?_, ?_, ?_⟩
  · rw [e]
    simp
  · intro j hj
    rw [e]
    simp [List.getElem?_set, Ne.symm hj]
  · rw [telegramsOf_of_bus _ i _ ha, telegramsOf_of_bus _ i _ hb]
    simp [ModBus.submit]
  · unfold ParticleCounter.sameExceptPending
    rw [e]
  · rw [e]
    simp

theorem requests_frame (ts : List Telegram) :
    ∀ (pc : ParticleCounter) (sys : ParticleCounterModbusSystem) (i : Nat),
      i < sys.m_pcModbuslist.length →
      (pc.requests sys i ts).2.m_pcModbuslist.length = sys.m_pcModbuslist.length ∧
      (∀ j, j ≠ i → (pc.requests sys i ts).2.m_pcModbuslist[j]? = sys.m_pcModbuslist[j]?) ∧
      (pc.requests sys i ts).2.telegramsOf i = sys.telegramsOf i ++ ts ∧
      pc.sameExceptPending (pc.requests sys i ts).1 ∧
      (pc.requests sys i ts).1.m_transactionIDs.length =
        pc.m_transactionIDs.length + ts.length := by
  induction ts with
  | nil =>
    intro pc sys i _
    exact ⟨rfl, fun _ _ => rfl, by simp [ParticleCounter.requests], rfl, rfl⟩
  | cons t rest ih =>
    intro pc sys i hi
    obtain ⟨a1, a2, a3, a4, a5⟩ := request_frame pc sys i t hi
    obtain ⟨b1, b2, b3, b4, b5⟩ := ih (pc.request sys i t).1 (pc.request sys i t).2 i
      (by rw [a1]; exact hi)
    have e : pc.requests sys i (t :: rest) =
        ParticleCounter.requests (pc.request sys i t).1 (pc.request sys i t).2 i rest := rfl
    rw [e]
    refine ⟨b1.trans a1, fun j hj => (b2 j hj).trans (a2 j hj), ?_,
      sameExceptPending_trans a4 b4, ?_⟩
    · rw [b3, a3]
      simp
    · rw [b5, a5]
      simp
      omega

theorem getBusByID_of_index (sys : ParticleCounterModbusSystem) (b : Nat)
    (hb : b < sys.m_pcModbuslist.length) : sys.getBusByID (b : Int) = BusLookup.bus b := by
  unfold ParticleCounterModbusSystem.getBusByID
  rw [if_neg (by omega), if_neg (by omega)]
  simp

theorem checkedBus_of_index (pc : ParticleCounter) (sys : ParticleCounterModbusSystem) (b : Nat)
    (hb : b < sys.m_pcModbuslist.length) (hbus : (b : Int) = pc.m_busID)
    (hc : pc.isConfigured = true) : pc.checkedBus sys = BusAccess.bus b := by
  unfold ParticleCounter.checkedBus
  rw [hc, ← hbus, getBusByID_of_index sys b hb]
  rfl

theorem silentBus_of_index (pc : ParticleCounter) (sys : ParticleCounterModbusSystem) (b : Nat)
    (hb : b < sys.m_pcModbuslist.length) (hbus : (b : Int) = pc.m_busID)
    (hc : pc.isConfigured = true) : pc.silentBus sys = BusAccess.bus b := by
  unfold ParticleCounter.silentBus
  rw [hc, ← hbus, getBusByID_of_index sys b hb]
  rfl

/-- Effect of one of the five logging operations on an instrument whose bus index is the
position `b` of an existing bus. -/
theorem checkedRequests_frame (pc : ParticleCounter) (sys : ParticleCounterModbusSystem)
    (b : Nat) (ts : List Telegram) (hb : b < sys.m_pcModbuslist.length)
    (hbus : (b : Int) = pc.m_busID) :
    ∃ pc1 sys1 sigs, pc.checkedRequests sys ts = some (pc1, sys1, sigs) ∧
      sys1.m_pcModbuslist.length = sys.m_pcModbuslist.length ∧
      (∀ j, j ≠ b → sys1.m_pcModbuslist[j]? = sys.m_pcModbuslist[j]?) ∧
      sys1.telegramsOf b = sys.telegramsOf b ++
        (if pc.isConfigured then
          (if pc.m_configData.valid then [] else pc.configTelegrams) ++ ts else []) ∧
      pc.sameExceptPending pc1 := by
  cases hc : pc.isConfigured
  · have h := checkedBus_failed pc sys (Or.inl hc)
    refine ⟨pc, sys, _, by simp only [ParticleCounter.checkedRequests, h]; rfl, rfl,
      fun _ _ => rfl, by simp, sameExceptPending_refl pc⟩
  · have h := checkedBus_of_index pc sys b hb hbus hc
    cases hv : pc.m_configData.valid
    · have hs := silentBus_of_index pc sys b hb hbus hc
      obtain ⟨a1, a2, a3, a4, -⟩ := requests_frame pc.configTelegrams pc sys b hb
      obtain ⟨b1, b2, b3, b4, -⟩ := requests_frame ts (pc.requests sys b pc.configTelegrams).1
        (pc.requests sys b pc.configTelegrams).2 b (by rw [a1]; exact hb)
      refine ⟨_, _, _, by
        simp only [ParticleCounter.checkedRequests, h, ParticleCounter.configThenRequests, hv,
          ParticleCounter.requestConfig, hs]
        rfl, b1.trans a1, fun j hj => (b2 j hj).trans (a2 j hj), ?_,
        sameExceptPending_trans a4 b4⟩
      rw [b3, a3]
      simp
    · obtain ⟨a1, a2, a3, a4, -⟩ := requests_frame ts pc sys b hb
      refine ⟨_, _, _, by
        simp only [ParticleCounter.checkedRequests, h, ParticleCounter.configThenRequests, hv]
        rfl, a1, a2, ?_, a4⟩
      rw [a3]
      simp

theorem sameExceptPending_fields {p q : ParticleCounter} (h : p.sameExceptPending q) :
    q.m_busID = p.m_busID ∧ q.isConfigured = p.isConfigured ∧
      q.m_configData = p.m_configData ∧ q.pollTelegrams = p.pollTelegrams ∧
      q.statusTelegrams = p.statusTelegrams ∧ q.archiveTelegrams = p.archiveTelegrams ∧
      q.nextArchiveTelegrams = p.nextArchiveTelegrams ∧ q.configTelegrams = p.configTelegrams := by
  unfold ParticleCounter.sameExceptPending at h
  rw [h]
  exact ⟨rfl, rfl, rfl, rfl, rfl, rfl, rfl, rfl⟩

/-- Effect of the three calls of one poll on an instrument whose bus index is the position
`b` of an existing bus. -/
theorem poll_frame (pc : ParticleCounter) (sys : ParticleCounterModbusSystem) (b : Nat)
    (hb : b < sys.m_pcModbuslist.length) (hbus : (b : Int) = pc.m_busID) :
    ∃ pc1 sys1 sigs, pc.poll sys = some (pc1, sys1, sigs) ∧
      sys1.m_pcModbuslist.length = sys.m_pcModbuslist.length ∧
      (∀ j, j ≠ b → sys1.m_pcModbuslist[j]? = sys.m_pcModbuslist[j]?) ∧
      sys1.telegramsOf b = sys.telegramsOf b ++
        (if pc.isConfigured then pc.pollTelegrams else []) ∧
      pc.sameExceptPending pc1 := by
  obtain ⟨p1, s1, g1, e1, a1, a2, a3, a4⟩ :=
    checkedRequests_frame pc sys b pc.statusTelegrams hb hbus
  obtain ⟨f1, f2, f3, -, -, f6, f7, -⟩ := sameExceptPending_fields a4
  obtain ⟨p2, s2, g2, e2, b1, b2, b3, b4⟩ :=
    checkedRequests_frame p1 s1 b p1.archiveTelegrams (by rw [a1]; exact hb)
      (by rw [f1]; exact hbus)
  have a5 := sameExceptPending_trans a4 b4
  obtain ⟨k1, k2, k3, -, -, -, k7, -⟩ := sameExceptPending_fields a5
  obtain ⟨p3, s3, g3, e3, c1, c2, c3, c4⟩ :=
    checkedRequests_frame p2 s2 b p2.nextArchiveTelegrams (by rw [b1, a1]; exact hb)
      (by rw [k1]; exact hbus)
  obtain ⟨-, -, -, -, -, -, -, f8⟩ := sameExceptPending_fields a4
  obtain ⟨-, -, -, -, -, -, -, k8⟩ := sameExceptPending_fields a5
  obtain ⟨-, m2, m3, -, -, -, -, -⟩ := sameExceptPending_fields b4
  refine ⟨p3, s3, g1 ++ g2 ++ g3, ?_, (c1.trans b1).trans a1,
    fun j hj => ((c2 j hj).trans (b2 j hj)).trans (a2 j hj), ?_,
    sameExceptPending_trans a5 c4⟩
  · unfold ParticleCounter.poll
    show (match pc.checkedRequests sys pc.statusTelegrams with
      | none => none
      | some (pc1, sys1, s1) =>
        match pc1.requestArchiveDataset sys1 with
        | none => none
        | some (pc2, sys2, s2) =>
          match pc2.requestNextArchive sys2 with
          | none => none
          | some (pc3, sys3, s3) => some (pc3, sys3, s1 ++ s2 ++ s3)) = _
    rw [e1]
    show (match p1.checkedRequests s1 p1.archiveTelegrams with
        | none => none
        | some (pc2, sys2, s2) =>
          match pc2.requestNextArchive sys2 with
          | none => none
          | some (pc3, sys3, s3) => some (pc3, sys3, g1 ++ s2 ++ s3)) = _
    rw [e2]
    show (match p2.checkedRequests s2 p2.nextArchiveTelegrams with
          | none => none
          | some (pc3, sys3, s3) => some (pc3, sys3, g1 ++ g2 ++ s3)) = _
    rw [e3]
  · rw [c3, b3, a3, k2, k3, k7, k8, f2, f3, f6, f8]
    unfold ParticleCounter.pollTelegrams
    cases pc.isConfigured <;> simp

theorem telegramsOf_congr (s1 s2 : ParticleCounterModbusSystem) (j : Nat)
    (h : s1.m_pcModbuslist[j]? = s2.m_pcModbuslist[j]?) : s1.telegramsOf j = s2.telegramsOf j := by
  unfold ParticleCounterModbusSystem.telegramsOf
  rw [h]

theorem pollBusTelegrams_cons (b : Nat) (pc : ParticleCounter) (rest : List ParticleCounter) :
    pollBusTelegrams b (pc :: rest) =
      (if (b : Int) = pc.m_busID then (if pc.isConfigured then pc.pollTelegrams else []) else [])
        ++ pollBusTelegrams b rest := by
  unfold pollBusTelegrams
  by_cases h : (b : Int) = pc.m_busID
  · simp [List.filter_cons, h]
  · simp [List.filter_cons, h]

theorem pollBusTelegrams_same (b : Nat) (l1 l2 : List ParticleCounter)
    (h : List.Forall₂ (fun p q => p.sameExceptPending q) l1 l2) :
    pollBusTelegrams b l2 = pollBusTelegrams b l1 := by
  induction h with
  | nil => rfl
  | cons hpq _ ih =>
    obtain ⟨f1, f2, -, f4, -⟩ := sameExceptPending_fields hpq
    rw [pollBusTelegrams_cons, pollBusTelegrams_cons, ih, f1, f2, f4]

theorem forall₂_weaken {R S : ParticleCounter → ParticleCounter → Prop}
    {l1 l2 : List ParticleCounter} (h : List.Forall₂ R l1 l2) (hRS : ∀ a b, R a b → S a b) :
    List.Forall₂ S l1 l2 := by
  induction h with
  | nil => exact List.Forall₂.nil
  | cons hab _ ih => exact List.Forall₂.cons (hRS _ _ hab) ih

theorem forall₂_compose {R1 R2 R : ParticleCounter → ParticleCounter → Prop}
    {l1 l2 l3 : List ParticleCounter} (h1 : List.Forall₂ R1 l1 l2)
    (h2 : List.Forall₂ R2 l2 l3) (h : ∀ a b c, R1 a b → R2 b c → R a c) :
    List.Forall₂ R l1 l3 := by
  induction h1 generalizing l3 with
  | nil =>
    cases h2
    exact List.Forall₂.nil
  | cons hab _ ih =>
    cases h2 with
    | cons hbc hrest => exact List.Forall₂.cons (h _ _ _ hab hbc) (ih hrest)

/-- Effect of the inner loop of the status poll for the bus at position `b`. -/
theorem pollInstruments_frame (b : Nat) (pcs : List ParticleCounter) :
    ∀ sys : ParticleCounterModbusSystem, b < sys.m_pcModbuslist.length →
      ∃ pcs1 sys1 sigs, pollInstruments b sys pcs = some (pcs1, sys1, sigs) ∧
        sys1.m_pcModbuslist.length = sys.m_pcModbuslist.length ∧
        (∀ j, j ≠ b → sys1.m_pcModbuslist[j]? = sys.m_pcModbuslist[j]?) ∧
        sys1.telegramsOf b = sys.telegramsOf b ++ pollBusTelegrams b pcs ∧
        List.Forall₂ (fun p q => p.sameExceptPending q ∧ ((b : Int) ≠ p.m_busID → q = p))
          pcs pcs1 := by
  induction pcs with
  | nil =>
    intro sys _
    exact ⟨[], sys, [], rfl, rfl, fun _ _ => rfl, by simp [pollBusTelegrams],
      List.Forall₂.nil⟩
  | cons pc rest ih =>
    intro sys hb
    by_cases hbus : (b : Int) = pc.m_busID
    · obtain ⟨p1, s1, g1, e1, a1, a2, a3, a4⟩ := poll_frame pc sys b hb hbus
      obtain ⟨r1, s2, g2, e2, b1, b2, b3, b4⟩ := ih s1 (by rw [a1]; exact hb)
      refine ⟨p1 :: r1, s2, g1 ++ g2, ?_, b1.trans a1,
        fun j hj => (b2 j hj).trans (a2 j hj), ?_,
        List.Forall₂.cons ⟨a4, fun hne => absurd hbus hne⟩ b4⟩
      · unfold pollInstruments
        rw [if_pos hbus, e1]
        simp only []
        rw [e2]
      · rw [b3, a3, pollBusTelegrams_cons, if_pos hbus]
        simp
    · obtain ⟨r1, s2, g2, e2, b1, b2, b3, b4⟩ := ih sys hb
      refine ⟨pc :: r1, s2, g2, ?_, b1, b2, ?_,
        List.Forall₂.cons ⟨sameExceptPending_refl pc, fun _ => rfl⟩ b4⟩
      · unfold pollInstruments
        rw [if_neg hbus, e2]
      · rw [b3, pollBusTelegrams_cons, if_neg hbus]
        simp

/-- Effect of the outer loop of the status poll over pairwise distinct bus positions. -/
theorem pollBuses_frame (depth : Nat → Bool → Int) (bs : List Nat) :
    ∀ (pcs : List ParticleCounter) (sys : ParticleCounterModbusSystem),
      (∀ b ∈ bs, b < sys.m_pcModbuslist.length) → bs.Nodup →
      ∃ pcs1 sys1 sigs, pollBuses depth bs pcs sys = some (pcs1, sys1, sigs) ∧
        sys1.m_pcModbuslist.length = sys.m_pcModbuslist.length ∧
        (∀ j, sys1.telegramsOf j = sys.telegramsOf j ++
          (if j ∈ bs ∧ max (depth j false) (depth j true) < 20 then pollBusTelegrams j pcs
            else [])) ∧
        List.Forall₂ (fun p q => p.sameExceptPending q ∧
            ((∀ b ∈ bs, (b : Int) = p.m_busID → ¬ max (depth b false) (depth b true) < 20) →
              q = p)) pcs pcs1 := by
  induction bs with
  | nil =>
    intro pcs sys _ _
    refine ⟨pcs, sys, [], rfl, rfl, fun j => by simp, ?_⟩
    exact List.forall₂_same.mpr (fun p _ => ⟨sameExceptPending_refl p, fun _ => rfl⟩)
  | cons b bs ih =>
    intro pcs sys hlt hnd
    have hb : b < sys.m_pcModbuslist.length := hlt b (List.mem_cons_self _ _)
    have hbs : ∀ c ∈ bs, c < sys.m_pcModbuslist.length :=
      fun c hc => hlt c (List.mem_cons_of_mem _ hc)
    have hnotin : b ∉ bs := (List.nodup_cons.mp hnd).1
    have hnd2 : bs.Nodup := (List.nodup_cons.mp hnd).2
    by_cases hok : max (depth b false) (depth b true) < 20
    · obtain ⟨p1, s1, g1, e1, a1, a2, a3, a4⟩ := pollInstruments_frame b pcs sys hb
      obtain ⟨p2, s2, g2, e2, b1, b3, b4⟩ := ih p1 s1 (fun c hc => by rw [a1]; exact hbs c hc) hnd2
      have hsame : List.Forall₂ (fun p q => p.sameExceptPending q) pcs p1 :=
        forall₂_weaken a4 (fun _ _ h => h.1)
      refine ⟨p2, s2, g1 ++ g2, ?_, b1.trans a1, ?_, ?_⟩
      · unfold pollBuses
        rw [if_pos hok, e1]
        simp only []
        rw [e2]
      · intro j
        rw [b3 j, pollBusTelegrams_same j pcs p1 hsame]
        by_cases hj : j = b
        · subst hj
          rw [a3]
          simp [hnotin, hok]
        · rw [telegramsOf_congr s1 sys j (a2 j hj)]
          simp [hj]
      · refine forall₂_compose a4 b4 ?_
        intro p q r hpq hqr
        refine ⟨sameExceptPending_trans hpq.1 hqr.1, fun hall => ?_⟩
        have hne : (b : Int) ≠ p.m_busID := fun he => hall b (List.mem_cons_self _ _) he hok
        have hq : q = p := hpq.2 hne
        subst hq
        exact hqr.2 (fun c hc he => hall c (List.mem_cons_of_mem _ hc) he)
    · obtain ⟨p2, s2, g2, e2, b1, b3, b4⟩ := ih pcs sys hbs hnd2
      refine ⟨p2, s2, g2, ?_, b1, ?_, ?_⟩
      · unfold pollBuses
        rw [if_neg hok, e2]
      · intro j
        rw [b3 j]
        by_cases hj : j = b
        · subst hj
          simp [hnotin, hok]
        · simp [hj]
      · refine forall₂_weaken b4 ?_
        intro p q hpq
        exact ⟨hpq.1, fun hall => hpq.2 (fun c hc he => hall c (List.mem_cons_of_mem _ hc) he)⟩

/-- C19: a status-poll tick returns; for every bus `b` whose two queue depths are both
below 20 (`max < 20`) the tick submits to `b`, for the instruments with bus index `b` in
registry order, the requests of RequestStatus, RequestArchiveDataset and
RequestNextArchive in that order, and nothing else; for a bus with a queue depth of 20 or
more it submits nothing to that bus; an instrument changes at most in its pending ids,
and an instrument whose bus is not polled (bus index not the position of a bus, or its
bus at depth 20 or more) is left as it was, whatever the depths of the other buses. -/
theorem C19_status_poll (db : ParticleCounterDatabase) (sys : ParticleCounterModbusSystem)
    (depth : Nat → Bool → Int) :
    ∃ db1 sys1 sigs, db.slot_timer_pollStatus_fired sys depth = some (db1, sys1, sigs) ∧
      (∀ b, b < sys.m_pcModbuslist.length →
        sys1.telegramsOf b = sys.telegramsOf b ++
          (if max (depth b false) (depth b true) < 20 then
            pollBusTelegrams b db.m_particlecounters else [])) ∧
      List.Forall₂ (fun p q => p.sameExceptPending q ∧
          ((∀ b, b < sys.m_pcModbuslist.length → (b : Int) = p.m_busID →
              ¬ max (depth b false) (depth b true) < 20) → q = p))
        db.m_particlecounters db1.m_particlecounters ∧
      (∀ pc : ParticleCounter, pc.m_configData.valid = true →
        pc.pollTelegrams = pc.statusTelegrams ++ pc.archiveTelegrams ++ pc.nextArchiveTelegrams) := by
  obtain ⟨p1, s1, g1, e1, -, a2, a3⟩ := pollBuses_frame depth
    (List.range sys.m_pcModbuslist.length) db.m_particlecounters sys
    (fun b hb => List.mem_range.mp hb) (List.nodup_range _)
  refine ⟨{ db with m_particlecounters := p1 }, s1, g1, ?_, ?_, ?_, ?_⟩
  · unfold ParticleCounterDatabase.slot_timer_pollStatus_fired
    rw [e1]
  · intro b hb
    rw [a2 b]
    simp [List.mem_range, hb]
  · refine forall₂_weaken a3 ?_
    intro p q hpq
    exact ⟨hpq.1, fun hall => hpq.2 (fun b hb he => hall b (List.mem_range.mp hb) he)⟩
  · intro pc hv
    unfold ParticleCounter.pollTelegrams
    rw [hv]
    simp

/-- C19 at a registry with one instrument on bus 0 and one on bus 1, bus 0 idle and bus 1
with 20 queued telegrams: bus 0 receives the status, archive and next-archive requests of
the first instrument, bus 1 receives nothing. -/
theorem C19_status_poll_witness :
    ∃ r, (⟨[sampleCounter, { sampleCounter with m_id := 8, m_busID := 1 }]⟩
        : ParticleCounterDatabase).slot_timer_pollStatus_fired
          ⟨[⟨fun n => n, []⟩, ⟨fun n => n, []⟩]⟩ (fun b _ => if b = 1 then 20 else 0) = some r ∧
      r.2.1.telegramsOf 0 =
        [Telegram.writeSingleRegister 3 99 16, Telegram.readInputRegisters 3 88 1,
          Telegram.readInputRegisters 3 95 1, Telegram.readInputRegisters 3 96 16,
          Telegram.readInputRegisters 3 512 32, Telegram.writeSingleRegister 3 99 99] ∧
      r.2.1.telegramsOf 1 = [] := by
  obtain ⟨db1, sys1, sigs, h, ht, -, -⟩ := C19_status_poll
    ⟨[sampleCounter, { sampleCounter with m_id := 8, m_busID := 1 }]⟩
    ⟨[⟨fun n => n, []⟩, ⟨fun n => n, []⟩]⟩ (fun b _ => if b = 1 then 20 else 0)
  refine ⟨_, h, ?_, ?_⟩
  · rw [ht 0 (by decide)]
    decide
  · rw [ht 1 (by decide)]
    decide

/-! ## The payload of an archive record -/

set_option maxRecDepth 100000 in
/-- C21: evaluation of the code at the failing input. For instrument 7, measurement
"particles", channel 2, count 15 and the archive timestamp 2023-03-09 18:55:36.783 UTC
(1678388136783 ms since the epoch) the payload is the expected line up to the blank
before the timestamp, followed by one byte (192, the low byte of the nanosecond count)
instead of the decimal number 1678388136783000000. -/
theorem C21_timestamp_is_one_byte :
    (slot_ParticleCounterArchiveDataReceived "particles" 7
      { sampleUninit with
        timestamp := { date := some ⟨2023, 3, 9⟩, time := some 68136783, spec := TimeSpec.UTC }
        channelData := fun c =>
          if c = 1 then { status := ChannelStatus.OK, channel := 2, count := 15 }
          else { status := ChannelStatus.OFF, channel := c.val + 1, count := 0 } }).map
        (fun r => r.payload 0) =
      ["particles,tag_id=7,tag_channel=2, id=7i,channel=2i,counts=15i ".toList ++
        [Char.ofNat 192]] ∧
    (QDateTime.toMSecsSinceEpoch
      { date := some ⟨2023, 3, 9⟩, time := some 68136783, spec := TimeSpec.UTC } 0) * 1000000 =
      1678388136783000000 ∧
    "particles,tag_id=7,tag_channel=2, id=7i,channel=2i,counts=15i ".toList ++ [Char.ofNat 192] ≠
      "particles,tag_id=7,tag_channel=2, id=7i,channel=2i,counts=15i 1678388136783000000".toList := by
  refine ⟨by decide, by decide, by decide⟩

/-! ## Queries -/

set_option maxRecDepth 100000 in
/-- C23: evaluation of the code at the failing input. `addParticleCounter(7, 0, 3)` twice
on the empty registry succeeds both times and leaves two instruments with the id 7. -/
theorem C23_duplicate_id_added :
    ∃ r1 r2,
      (⟨[]⟩ : ParticleCounterDatabase).addParticleCounter ⟨[⟨fun n => n, []⟩]⟩ false true
        sampleNow 7 0 3 = some r1 ∧
      r1.db.addParticleCounter r1.sys false true sampleNow 7 0 3 = some r2 ∧
      r2.db.m_particlecounters.map (fun pc => pc.m_id) = [7, 7] ∧
      r2.response = "OK[ParticleCounterDatabase]: Added ID 7".toList :=
  ⟨_, _, rfl, rfl, by decide, by decide⟩

set_option maxRecDepth 100000 in
/-- C25: evaluation of the code at the failing input. `addParticleCounter(7, 0, 3)` writes
the new instrument to `/var/openffucontrol/ocufans/particlecounter-000007.csv`, a file
outside the directory `/var/openffucontrol/particlecounters/` that `loadFromHdd`
enumerates. -/
theorem C25_added_instrument_saved_elsewhere :
    ∃ r, (⟨[]⟩ : ParticleCounterDatabase).addParticleCounter ⟨[⟨fun n => n, []⟩]⟩ false true
        sampleNow 7 0 3 = some r ∧
      r.writes.map (fun w => w.path) =
        ["/var/openffucontrol/ocufans/particlecounter-000007.csv".toList] ∧
      ParticleCounterDatabase.loadDirectory = "/var/openffucontrol/particlecounters/" ∧
      (r.writes.map (fun w =>
        ParticleCounterDatabase.loadDirectory.toList.isPrefixOf w.path)) = [false] :=
  ⟨_, rfl, by decide, rfl, by decide⟩

/-! ## The device clock and the bus lookup -/

/-- C29: evaluation of the code at the failing input. For the UTC time 2024-03-01
10:15:30 `setClock` writes the words 30, 15, 10, 1, 3, 24 to holding registers 16..21;
delivered back as one response that starts at register 16, the handler decodes the date
with the year 24, not 2024: the case of register 21 passes the year word to `setDate`
without adding 2000. -/
theorem C29_clock_year_not_restored :
    (sampleCounter.setClockTelegrams
        { date := some ⟨2024, 3, 1⟩, time := some 36930000, spec := TimeSpec.UTC }).take 6 =
      [Telegram.writeSingleRegister 3 16 30, Telegram.writeSingleRegister 3 17 15,
        Telegram.writeSingleRegister 3 18 10, Telegram.writeSingleRegister 3 19 1,
        Telegram.writeSingleRegister 3 20 3, Telegram.writeSingleRegister 3 21 24] ∧
    (holdingLoop (holdingLoopStart sampleCounter sampleNow) 16 [30, 15, 10, 1, 3, 24]).deviceRTC =
      { date := some ⟨24, 3, 1⟩, time := some 36930000, spec := TimeSpec.LocalTime } ∧
    (holdingLoop (holdingLoopStart sampleCounter sampleNow) 16 [30, 15, 10, 1, 3, 24]).years = 24 := by
  refine ⟨by decide, by decide, by decide⟩

/-- C30: evaluation of the code at the failing input. With one bus configured, the bus
index -2 passes the only check of `getBusByID` (`length <= busID`) and `QList::at(-2)`
reads outside the list; `setData("busID", "-2")` gives an instrument that bus index, for
which `isConfigured` holds, so `requestStatus` reaches the lookup. -/
theorem C30_negative_bus_index :
    (⟨[⟨fun n => n, []⟩]⟩ : ParticleCounterModbusSystem).getBusByID (-2) = BusLookup.outOfRange ∧
    (sampleCounter.setData "busID".toList "-2".toList true).1.m_busID = -2 ∧
    (sampleCounter.setData "busID".toList "-2".toList true).1.isConfigured = true ∧
    ((sampleCounter.setData "busID".toList "-2".toList true).1.requestStatus
      ⟨[⟨fun n => n, []⟩]⟩).isNone = true := by
  refine ⟨by decide, by decide, by decide, by decide⟩

/-! ## Load -/

theorem loadPair_unknown (pc : ParticleCounter) (key value : List Char)
    (h : key ∉ ParticleCounter.persistedKeys) : pc.loadPair key value = pc := by
  simp only [ParticleCounter.persistedKeys, List.mem_cons, List.mem_singleton, List.not_mem_nil,
    not_or, or_false] at h
  obtain ⟨h1, h2, h3, h4, h5, h6, h7, h8, h9, h10⟩ := h
  unfold ParticleCounter.loadPair
  simp only [if_neg h1, if_neg h2, if_neg h3, if_neg h4, if_neg h5, if_neg h6, if_neg h7,
    if_neg h8, if_neg h9, if_neg h10]

/-- A pair with a known key changes the member of that key and nothing else. -/
theorem loadPair_known (pc : ParticleCounter) (key value : List Char) :
    pc.loadPair key value =
      { pc with
        m_id := (pc.loadPair key value).m_id
        m_busID := (pc.loadPair key value).m_busID
        m_modbusAddress := (pc.loadPair key value).m_modbusAddress
        m_actualData := { pc.m_actualData with
          clockSettingLostCount := (pc.loadPair key value).m_actualData.clockSettingLostCount }
        m_configData := { pc.m_configData with
          outputDataFormat := (pc.loadPair key value).m_configData.outputDataFormat
          addupCount := (pc.loadPair key value).m_configData.addupCount
          firstRinsingTimeInSeconds := (pc.loadPair key value).m_configData.firstRinsingTimeInSeconds
          subsequentRinsingTimeInSeconds :=
            (pc.loadPair key value).m_configData.subsequentRinsingTimeInSeconds
          samplingTimeInSeconds := (pc.loadPair key value).m_configData.samplingTimeInSeconds }
        m_samplingEnabled := (pc.loadPair key value).m_samplingEnabled } ∧
    (key ≠ "id".toList → (pc.loadPair key value).m_id = pc.m_id) ∧
    (key ≠ "bus".toList → (pc.loadPair key value).m_busID = pc.m_busID) ∧
    (key ≠ "modbusAddress".toList →
      (pc.loadPair key value).m_modbusAddress = pc.m_modbusAddress) ∧
    (key ≠ "clockSettingLostCount".toList →
      (pc.loadPair key value).m_actualData.clockSettingLostCount =
        pc.m_actualData.clockSettingLostCount) ∧
    (key ≠ "outputDataFormat".toList →
      (pc.loadPair key value).m_configData.outputDataFormat = pc.m_configData.outputDataFormat) ∧
    (key ≠ "addupCount".toList →
      (pc.loadPair key value).m_configData.addupCount = pc.m_configData.addupCount) ∧
    (key ≠ "firstRinsingTimeInSeconds".toList →
      (pc.loadPair key value).m_configData.firstRinsingTimeInSeconds =
        pc.m_configData.firstRinsingTimeInSeconds) ∧
    (key ≠ "subsequentRinsingTimeInSeconds".toList →
      (pc.loadPair key value).m_configData.subsequentRinsingTimeInSeconds =
        pc.m_configData.subsequentRinsingTimeInSeconds) ∧
    (key ≠ "samplingTimeInSeconds".toList →
      (pc.loadPair key value).m_configData.samplingTimeInSeconds =
        pc.m_configData.samplingTimeInSeconds) ∧
    (key ≠ "samplingEnabled".toList →
      (pc.loadPair key value).m_samplingEnabled = pc.m_samplingEnabled) := by
  by_cases hk : key ∈ ParticleCounter.persistedKeys
  · simp only [ParticleCounter.persistedKeys, List.mem_cons, List.mem_singleton,
      List.not_mem_nil, or_false] at hk
    rcases hk with rfl | rfl | rfl | rfl | rfl | rfl | rfl | rfl | rfl | rfl
    · exact ⟨rfl, fun h => absurd rfl h, fun _ => rfl, fun _ => rfl, fun _ => rfl, fun _ => rfl,
        fun _ => rfl, fun _ => rfl, fun _ => rfl, fun _ => rfl, fun _ => rfl⟩
    · exact ⟨rfl, fun _ => rfl, fun h => absurd rfl h, fun _ => rfl, fun _ => rfl, fun _ => rfl,
        fun _ => rfl, fun _ => rfl, fun _ => rfl, fun _ => rfl, fun _ => rfl⟩
    · exact ⟨rfl, fun _ => rfl, fun _ => rfl, fun h => absurd rfl h, fun _ => rfl, fun _ => rfl,
        fun _ => rfl, fun _ => rfl, fun _ => rfl, fun _ => rfl, fun _ => rfl⟩
    · exact ⟨rfl, fun _ => rfl, fun _ => rfl, fun _ => rfl, fun h => absurd rfl h, fun _ => rfl,
        fun _ => rfl, fun _ => rfl, fun _ => rfl, fun _ => rfl, fun _ => rfl⟩
    · have e : pc.loadPair "outputDataFormat".toList value =
          (if QString.toUInt value = OutputDataFormat.DISTRIBUTIVE.toNat then
            { pc with m_configData :=
                { pc.m_configData with outputDataFormat := OutputDataFormat.DISTRIBUTIVE } }
          else if QString.toUInt value = OutputDataFormat.CUMULATIVE.toNat then
            { pc with m_configData :=
                { pc.m_configData with outputDataFormat := OutputDataFormat.CUMULATIVE } }
          else pc) := rfl
      rw [e]
      split
      · exact ⟨rfl, fun _ => rfl, fun _ => rfl, fun _ => rfl, fun _ => rfl,
          fun h => absurd rfl h, fun _ => rfl, fun _ => rfl, fun _ => rfl, fun _ => rfl,
          fun _ => rfl⟩
      · split
        · exact ⟨rfl, fun _ => rfl, fun _ => rfl, fun _ => rfl, fun _ => rfl,
            fun h => absurd rfl h, fun _ => rfl, fun _ => rfl, fun _ => rfl, fun _ => rfl,
            fun _ => rfl⟩
        · exact ⟨rfl, fun _ => rfl, fun _ => rfl, fun _ => rfl, fun _ => rfl,
            fun _ => rfl, fun _ => rfl, fun _ => rfl, fun _ => rfl, fun _ => rfl,
            fun _ => rfl⟩
    · exact ⟨rfl, fun _ => rfl, fun _ => rfl, fun _ => rfl, fun _ => rfl, fun _ => rfl,
        fun h => absurd rfl h, fun _ => rfl, fun _ => rfl, fun _ => rfl, fun _ => rfl⟩
    · exact ⟨rfl, fun _ => rfl, fun _ => rfl, fun _ => rfl, fun _ => rfl, fun _ => rfl,
        fun _ => rfl, fun h => absurd rfl h, fun _ => rfl, fun _ => rfl, fun _ => rfl⟩
    · exact ⟨rfl, fun _ => rfl, fun _ => rfl, fun _ => rfl, fun _ => rfl, fun _ => rfl,
        fun _ => rfl, fun _ => rfl, fun h => absurd rfl h, fun _ => rfl, fun _ => rfl⟩
    · exact ⟨rfl, fun _ => rfl, fun _ => rfl, fun _ => rfl, fun _ => rfl, fun _ => rfl,
        fun _ => rfl, fun _ => rfl, fun _ => rfl, fun h => absurd rfl h, fun _ => rfl⟩
    · exact ⟨rfl, fun _ => rfl, fun _ => rfl, fun _ => rfl, fun _ => rfl, fun _ => rfl,
        fun _ => rfl, fun _ => rfl, fun _ => rfl, fun _ => rfl, fun h => absurd rfl h⟩
  · rw [loadPair_unknown pc key value hk]
    exact ⟨rfl, fun _ => rfl, fun _ => rfl, fun _ => rfl, fun _ => rfl, fun _ => rfl,
      fun _ => rfl, fun _ => rfl, fun _ => rfl, fun _ => rfl, fun _ => rfl⟩

theorem persistedOnly_refl (p : ParticleCounter) : p.persistedOnly p := rfl

theorem persistedOnly_trans {p q r : ParticleCounter} (h1 : p.persistedOnly q)
    (h2 : q.persistedOnly r) : p.persistedOnly r := by
  unfold ParticleCounter.persistedOnly at *
  rw [h2, h1]

theorem chunkKey_of_split (chunk key value : List Char)
    (h : QString.split '=' chunk = [key, value]) : chunkKey chunk = some key := by
  unfold chunkKey
  rw [h]

theorem loadChunks_cons_pair (pc : ParticleCounter) (chunk key value : List Char)
    (rest : List (List Char)) (h : QString.split '=' chunk = [key, value]) :
    pc.loadChunks (chunk :: rest) = (pc.loadPair key value).loadChunks rest := by
  rw [ParticleCounter.loadChunks, h]

theorem loadChunks_cons_skip (pc : ParticleCounter) (chunk : List Char)
    (rest : List (List Char)) (h : chunkKey chunk = none) :
    pc.loadChunks (chunk :: rest) = pc.loadChunks rest := by
  rw [ParticleCounter.loadChunks]
  split
  · rename_i key value heq
    rw [chunkKey_of_split chunk key value heq] at h
    exact Option.noConfusion h
  · rfl

theorem chunk_cases (chunk : List Char) :
    chunkKey chunk = none ∨ ∃ key value, QString.split '=' chunk = [key, value] := by
  unfold chunkKey
  split
  · rename_i key value heq
    exact Or.inr ⟨key, value, heq⟩
  · exact Or.inl rfl

theorem loadChunks_persistedOnly (chunks : List (List Char)) :
    ∀ pc : ParticleCounter, pc.persistedOnly (pc.loadChunks chunks) := by
  induction chunks with
  | nil => intro pc; exact persistedOnly_refl pc
  | cons chunk rest ih =>
    intro pc
    rcases chunk_cases chunk with h | ⟨key, value, h⟩
    · rw [loadChunks_cons_skip pc chunk rest h]
      exact ih pc
    · rw [loadChunks_cons_pair pc chunk key value rest h]
      exact persistedOnly_trans (loadPair_known pc key value).1 (ih _)

/-- A member that only the pairs with key `k` change keeps its value when no chunk has
that key. -/
theorem loadChunks_keeps {α : Type} (f : ParticleCounter → α) (k : List Char)
    (hf : ∀ (pc : ParticleCounter) (key value : List Char), key ≠ k →
      f (pc.loadPair key value) = f pc)
    (chunks : List (List Char)) :
    ∀ pc : ParticleCounter, k ∉ chunks.filterMap chunkKey → f (pc.loadChunks chunks) = f pc := by
  induction chunks with
  | nil => intro pc _; rfl
  | cons chunk rest ih =>
    intro pc hk
    rcases chunk_cases chunk with h | ⟨key, value, h⟩
    · rw [loadChunks_cons_skip pc chunk rest h]
      apply ih
      intro hmem
      apply hk
      rw [List.filterMap_cons, h]
      exact hmem
    · have hck := chunkKey_of_split chunk key value h
      rw [loadChunks_cons_pair pc chunk key value rest h]
      rw [List.filterMap_cons, hck] at hk
      have hne : key ≠ k := fun e => hk (e ▸ List.mem_cons_self _ _)
      rw [ih _ (fun hmem => hk (List.mem_cons_of_mem _ hmem))]
      exact hf pc key value hne

/-- C26: `load` changes only members whose keys occur as `key=value` pairs in the first
line of the file: a pair with an unknown key changes nothing, a chunk that does not split
at '=' into exactly a key and a value is skipped, no member other than the ten persisted
ones ever changes, and a persisted member whose key is absent keeps the value it had
before (for a new instrument the value the constructor gave it); a file that cannot be
opened changes nothing. -/
theorem C26_load_frame (pc : ParticleCounter) (text : List Char) :
    (∀ key value, key ∉ ParticleCounter.persistedKeys → pc.loadPair key value = pc) ∧
    (∀ chunk rest, chunkKey chunk = none → pc.loadChunks (chunk :: rest) = pc.loadChunks rest) ∧
    pc.persistedOnly (pc.load (some text)) ∧
    pc.load none = pc ∧
    ("id".toList ∉ loadedKeys text → (pc.load (some text)).m_id = pc.m_id) ∧
    ("bus".toList ∉ loadedKeys text → (pc.load (some text)).m_busID = pc.m_busID) ∧
    ("modbusAddress".toList ∉ loadedKeys text →
      (pc.load (some text)).m_modbusAddress = pc.m_modbusAddress) ∧
    ("clockSettingLostCount".toList ∉ loadedKeys text →
      (pc.load (some text)).m_actualData.clockSettingLostCount =
        pc.m_actualData.clockSettingLostCount) ∧
    ("outputDataFormat".toList ∉ loadedKeys text →
      (pc.load (some text)).m_configData.outputDataFormat = pc.m_configData.outputDataFormat) ∧
    ("addupCount".toList ∉ loadedKeys text →
      (pc.load (some text)).m_configData.addupCount = pc.m_configData.addupCount) ∧
    ("firstRinsingTimeInSeconds".toList ∉ loadedKeys text →
      (pc.load (some text)).m_configData.firstRinsingTimeInSeconds =
        pc.m_configData.firstRinsingTimeInSeconds) ∧
    ("subsequentRinsingTimeInSeconds".toList ∉ loadedKeys text →
      (pc.load (some text)).m_configData.subsequentRinsingTimeInSeconds =
        pc.m_configData.subsequentRinsingTimeInSeconds) ∧
    ("samplingTimeInSeconds".toList ∉ loadedKeys text →
      (pc.load (some text)).m_configData.samplingTimeInSeconds =
        pc.m_configData.samplingTimeInSeconds) ∧
    ("samplingEnabled".toList ∉ loadedKeys text →
      (pc.load (some text)).m_samplingEnabled = pc.m_samplingEnabled) := by
  refine ⟨fun key value h => loadPair_unknown pc key value h,
    fun chunk rest h => loadChunks_cons_skip pc chunk rest h,
    loadChunks_persistedOnly _ pc, rfl, ?_, ?_, ?_, ?_, ?_, ?_, ?_, ?_, ?_, ?_⟩
  · exact loadChunks_keeps (fun p => p.m_id) _
      (fun p key value h => (loadPair_known p key value).2.1 h) _ pc
  · exact loadChunks_keeps (fun p => p.m_busID) _
      (fun p key value h => (loadPair_known p key value).2.2.1 h) _ pc
  · exact loadChunks_keeps (fun p => p.m_modbusAddress) _
      (fun p key value h => (loadPair_known p key value).2.2.2.1 h) _ pc
  · exact loadChunks_keeps (fun p => p.m_actualData.clockSettingLostCount) _
      (fun p key value h => (loadPair_known p key value).2.2.2.2.1 h) _ pc
  · exact loadChunks_keeps (fun p => p.m_configData.outputDataFormat) _
      (fun p key value h => (loadPair_known p key value).2.2.2.2.2.1 h) _ pc
  · exact loadChunks_keeps (fun p => p.m_configData.addupCount) _
      (fun p key value h => (loadPair_known p key value).2.2.2.2.2.2.1 h) _ pc
  · exact loadChunks_keeps (fun p => p.m_configData.firstRinsingTimeInSeconds) _
      (fun p key value h => (loadPair_known p key value).2.2.2.2.2.2.2.1 h) _ pc
  · exact loadChunks_keeps (fun p => p.m_configData.subsequentRinsingTimeInSeconds) _
      (fun p key value h => (loadPair_known p key value).2.2.2.2.2.2.2.2.1 h) _ pc
  · exact loadChunks_keeps (fun p => p.m_configData.samplingTimeInSeconds) _
      (fun p key value h => (loadPair_known p key value).2.2.2.2.2.2.2.2.2.1 h) _ pc
  · exact loadChunks_keeps (fun p => p.m_samplingEnabled) _
      (fun p key value h => (loadPair_known p key value).2.2.2.2.2.2.2.2.2.2 h) _ pc

set_option maxRecDepth 100000 in
/-- C26 at a file with an unknown key, a chunk without '=' and the key `bus`: a new
instrument keeps the sampling time 59 of the constructor. -/
theorem C26_load_frame_witness :
    (ParticleCounter.new.load (some "colour=red bus=2 junk x=1=2\n".toList)
      ).m_configData.samplingTimeInSeconds = ParticleCounter.new.m_configData.samplingTimeInSeconds ∧
    ParticleCounter.new.loadPair "colour".toList "red".toList = ParticleCounter.new :=
  ⟨(C26_load_frame ParticleCounter.new "colour=red bus=2 junk x=1=2\n".toList).2.2.2.2.2.2.2.2.2.2.2.2.1
      (by decide),
    (C26_load_frame ParticleCounter.new "colour=red bus=2 junk x=1=2\n".toList).1 _ _ (by decide)⟩

/-! ## The requests of `requestStatus` and `init` -/

/-- The requests of one run on the bus at `i`: the telegrams are appended to the record
of the bus, each with the id the bus returned, and those ids are appended to the pending
ids of the instrument. -/
theorem requests_exact (ts : List Telegram) :
    ∀ (pc : ParticleCounter) (sys : ParticleCounterModbusSystem) (i : Nat) (bus : ModBus),
      sys.m_pcModbuslist[i]? = some bus →
      ∃ (bus1 : ModBus) (added : List (Nat × Telegram)),
        (pc.requests sys i ts).2.m_pcModbuslist[i]? = some bus1 ∧
        added.map Prod.snd = ts ∧
        bus1.telegrams = bus.telegrams ++ added ∧
        (pc.requests sys i ts).1.m_transactionIDs = pc.m_transactionIDs ++ added.map Prod.fst ∧
        pc.sameExceptPending (pc.requests sys i ts).1 := by
  induction ts with
  | nil =>
    intro pc sys i bus hb
    exact ⟨bus, [], hb, rfl, by simp, by simp [ParticleCounter.requests],
      sameExceptPending_refl pc⟩
  | cons t rest ih =>
    intro pc sys i bus hb
    have e := request_of_bus pc sys i t bus hb
    have ha := request_bus_after pc sys i t bus hb
    obtain ⟨bus1, added, h1, h2, h3, h4, h5⟩ := ih (pc.request sys i t).1 (pc.request sys i t).2 i
      _ ha
    have e2 : pc.requests sys i (t :: rest) =
        ParticleCounter.requests (pc.request sys i t).1 (pc.request sys i t).2 i rest := rfl
    have hs : pc.sameExceptPending (pc.request sys i t).1 := by
      unfold ParticleCounter.sameExceptPending
      rw [e]
    rw [e2]
    refine ⟨bus1, (bus.idOf bus.telegrams.length, t) :: added, h1, by simp [h2], ?_, ?_,
      sameExceptPending_trans hs h5⟩
    · rw [h3]
      simp [ModBus.submit]
    · rw [h4, e]
      simp [ModBus.submit]

theorem sameExceptPending_more {p q : ParticleCounter} (h : p.sameExceptPending q) :
    q.m_modbusAddress = p.m_modbusAddress ∧ q.m_samplingEnabled = p.m_samplingEnabled ∧
      q.deviceInfoTelegrams = p.deviceInfoTelegrams ∧ q.storeTelegrams = p.storeTelegrams ∧
      (∀ data, q.setConfigTelegrams data = p.setConfigTelegrams data) := by
  unfold ParticleCounter.sameExceptPending at h
  rw [h]
  exact ⟨rfl, rfl, rfl, rfl, fun _ => rfl⟩

theorem checkedBus_of_bus (pc : ParticleCounter) (sys : ParticleCounterModbusSystem) (b : Nat)
    (bus : ModBus) (hb : sys.m_pcModbuslist[b]? = some bus) (hbus : (b : Int) = pc.m_busID)
    (hc : pc.isConfigured = true) :
    pc.checkedBus sys = BusAccess.bus b ∧ pc.silentBus sys = BusAccess.bus b ∧
      sys.getBusByID pc.m_busID = BusLookup.bus b := by
  have hlt : b < sys.m_pcModbuslist.length := by
    rcases Nat.lt_or_ge b sys.m_pcModbuslist.length with h | h
    · exact h
    · rw [List.getElem?_eq_none h] at hb
      exact Option.noConfusion hb
  refine ⟨checkedBus_of_index pc sys b hlt hbus hc, silentBus_of_index pc sys b hlt hbus hc, ?_⟩
  rw [← hbus]
  exact getBusByID_of_index sys b hlt

theorem checkedRequests_valid (pc : ParticleCounter) (sys : ParticleCounterModbusSystem)
    (b : Nat) (bus : ModBus) (ts : List Telegram) (hb : sys.m_pcModbuslist[b]? = some bus)
    (hbus : (b : Int) = pc.m_busID) (hc : pc.isConfigured = true)
    (hv : pc.m_configData.valid = true) :
    pc.checkedRequests sys ts = some ((pc.requests sys b ts).1, (pc.requests sys b ts).2, []) := by
  simp only [ParticleCounter.checkedRequests, (checkedBus_of_bus pc sys b bus hb hbus hc).1,
    ParticleCounter.configThenRequests, hv]
  rfl

/-- C27: on a configured instrument whose bus exists (and whose configuration is valid,
as it is in every state the program reaches), `requestStatus` submits exactly four
requests to that bus, in this order: a write of 17 to holding register 99 if the sampling
flag is set and of 16 if it is not, a read of 1 input register at 88, a read of 1 input
register at 95 and a read of 16 input registers at 96; the four ids the bus returns are
appended to the pending ids, nothing else of the instrument changes and nothing is
logged. The sampling flag is the value that the last `setSamplingEnabled` stored. -/
theorem C27_requestStatus (pc : ParticleCounter) (sys : ParticleCounterModbusSystem) (b : Nat)
    (bus : ModBus) (hb : sys.m_pcModbuslist[b]? = some bus) (hbus : (b : Int) = pc.m_busID)
    (hc : pc.isConfigured = true) (hv : pc.m_configData.valid = true) :
    (∃ (pc1 : ParticleCounter) (sys1 : ParticleCounterModbusSystem) (bus1 : ModBus)
        (added : List (Nat × Telegram)),
      pc.requestStatus sys = some (pc1, sys1, []) ∧
      sys1.m_pcModbuslist[b]? = some bus1 ∧
      bus1.telegrams = bus.telegrams ++ added ∧
      added.map Prod.snd =
        [Telegram.writeSingleRegister pc.m_modbusAddress 99
            (if pc.m_samplingEnabled then 17 else 16),
          Telegram.readInputRegisters pc.m_modbusAddress 88 1,
          Telegram.readInputRegisters pc.m_modbusAddress 95 1,
          Telegram.readInputRegisters pc.m_modbusAddress 96 16] ∧
      pc1.m_transactionIDs = pc.m_transactionIDs ++ added.map Prod.fst ∧
      pc.sameExceptPending pc1) ∧
    (∀ enable : Bool, pc.setSamplingEnabled sys enable =
      some ({ pc with m_samplingEnabled := enable }, sys, [])) := by
  constructor
  · obtain ⟨bus1, added, h1, h2, h3, h4, h5⟩ := requests_exact pc.statusTelegrams pc sys b bus hb
    exact ⟨_, _, bus1, added, checkedRequests_valid pc sys b bus _ hb hbus hc hv, h1, h3, h2,
      h4, h5⟩
  · intro enable
    simp only [ParticleCounter.setSamplingEnabled, (checkedBus_of_bus pc sys b bus hb hbus hc).1,
      ParticleCounter.configThenRequests, hv]
    rfl

/-- C27 at the sample instrument on an idle bus that numbers its requests from 0. -/
theorem C27_requestStatus_witness :
    ∃ (pc1 : ParticleCounter) (sys1 : ParticleCounterModbusSystem) (bus1 : ModBus)
        (added : List (Nat × Telegram)),
      sampleCounter.requestStatus ⟨[⟨fun n => n, []⟩]⟩ = some (pc1, sys1, []) ∧
      sys1.m_pcModbuslist[0]? = some bus1 ∧
      bus1.telegrams = [] ++ added ∧
      added.map Prod.snd =
        [Telegram.writeSingleRegister sampleCounter.m_modbusAddress 99
            (if sampleCounter.m_samplingEnabled then 17 else 16),
          Telegram.readInputRegisters sampleCounter.m_modbusAddress 88 1,
          Telegram.readInputRegisters sampleCounter.m_modbusAddress 95 1,
          Telegram.readInputRegisters sampleCounter.m_modbusAddress 96 16] ∧
      pc1.m_transactionIDs = sampleCounter.m_transactionIDs ++ added.map Prod.fst ∧
      sampleCounter.sameExceptPending pc1 :=
  (C27_requestStatus sampleCounter ⟨[⟨fun n => n, []⟩]⟩ 0 ⟨fun n => n, []⟩ rfl rfl rfl rfl).1

theorem setConfigData_valid (pc : ParticleCounter) (sys : ParticleCounterModbusSystem)
    (b : Nat) (bus : ModBus) (data : ConfigData) (hb : sys.m_pcModbuslist[b]? = some bus)
    (hbus : (b : Int) = pc.m_busID) (hc : pc.isConfigured = true) :
    pc.setConfigData sys data = some (pc.requests sys b (pc.setConfigTelegrams data)) := by
  unfold ParticleCounter.setConfigData
  rw [hc, (checkedBus_of_bus pc sys b bus hb hbus hc).2.2]
  rfl

theorem stage_facts {p q : ParticleCounter} (h : p.sameExceptPending q) (b : Nat)
    (hbus : (b : Int) = p.m_busID) (hc : p.isConfigured = true)
    (hv : p.m_configData.valid = true) :
    (b : Int) = q.m_busID ∧ q.isConfigured = true ∧ q.m_configData.valid = true := by
  obtain ⟨f1, f2, f3, -⟩ := sameExceptPending_fields h
  rw [f1, f2, f3]
  exact ⟨hbus, hc, hv⟩

/-- The requests of `init` in terms of the telegram lists of the six operations it calls:
on a configured instrument whose bus exists (and whose configuration is valid), `init`
submits the telegrams of `setClock`, `setConfigData`, `requestDeviceInfo`,
`storeSettingsToFlash` and `requestStatus` (with the start command 17) to that bus, appends
the 19 ids the bus returns to the pending ids, sets the sampling flag, changes nothing else
of the instrument and logs nothing. -/
theorem init_requests (pc : ParticleCounter) (sys : ParticleCounterModbusSystem) (b : Nat)
    (bus : ModBus) (dt : QDateTime) (hb : sys.m_pcModbuslist[b]? = some bus)
    (hbus : (b : Int) = pc.m_busID) (hc : pc.isConfigured = true)
    (hv : pc.m_configData.valid = true) :
    ∃ (pc1 : ParticleCounter) (sys1 : ParticleCounterModbusSystem) (bus1 : ModBus)
        (added : List (Nat × Telegram)),
      pc.init sys dt = some (pc1, sys1, []) ∧
      sys1.m_pcModbuslist[b]? = some bus1 ∧
      bus1.telegrams = bus.telegrams ++ added ∧
      added.map Prod.snd =
        pc.setClockTelegrams dt ++ pc.setConfigTelegrams pc.m_configData ++
          pc.deviceInfoTelegrams ++ pc.storeTelegrams ++
          [Telegram.writeSingleRegister pc.m_modbusAddress 99 17,
            Telegram.readInputRegisters pc.m_modbusAddress 88 1,
            Telegram.readInputRegisters pc.m_modbusAddress 95 1,
            Telegram.readInputRegisters pc.m_modbusAddress 96 16] ∧
      added.length = 19 ∧
      pc1 = { pc with
        m_transactionIDs := pc.m_transactionIDs ++ added.map Prod.fst
        m_samplingEnabled := true } := by
  -- setClock
  obtain ⟨bus1, a1, h11, h12, h13, h14, h15⟩ :=
    requests_exact (pc.setClockTelegrams dt) pc sys b bus hb
  have e1 : pc.setClock sys dt = some ((pc.requests sys b (pc.setClockTelegrams dt)).1,
      (pc.requests sys b (pc.setClockTelegrams dt)).2, []) := by
    simp only [ParticleCounter.setClock, (checkedBus_of_bus pc sys b bus hb hbus hc).2.1]
  generalize (pc.requests sys b (pc.setClockTelegrams dt)).1 = p1 at *
  generalize (pc.requests sys b (pc.setClockTelegrams dt)).2 = s1 at *
  obtain ⟨g1b, g1c, g1v⟩ := stage_facts h15 b hbus hc hv
  -- setConfigData
  obtain ⟨bus2, a2, h21, h22, h23, h24, h25⟩ :=
    requests_exact (p1.setConfigTelegrams p1.m_configData) p1 s1 b bus1 h11
  have e2 := setConfigData_valid p1 s1 b bus1 p1.m_configData h11 g1b g1c
  generalize (p1.requests s1 b (p1.setConfigTelegrams p1.m_configData)) = r2 at *
  obtain ⟨g2b, g2c, g2v⟩ := stage_facts h25 b g1b g1c g1v
  -- requestDeviceInfo
  obtain ⟨bus3, a3, h31, h32, h33, h34, h35⟩ :=
    requests_exact r2.1.deviceInfoTelegrams r2.1 r2.2 b bus2 h21
  have e3 : r2.1.requestDeviceInfo r2.2 = some ((r2.1.requests r2.2 b r2.1.deviceInfoTelegrams).1,
      (r2.1.requests r2.2 b r2.1.deviceInfoTelegrams).2, []) := by
    simp only [ParticleCounter.requestDeviceInfo,
      (checkedBus_of_bus r2.1 r2.2 b bus2 h21 g2b g2c).1]
  generalize (r2.1.requests r2.2 b r2.1.deviceInfoTelegrams).1 = p3 at *
  generalize (r2.1.requests r2.2 b r2.1.deviceInfoTelegrams).2 = s3 at *
  obtain ⟨g3b, g3c, g3v⟩ := stage_facts h35 b g2b g2c g2v
  -- setSamplingEnabled
  have e4 : p3.setSamplingEnabled s3 true = some ({ p3 with m_samplingEnabled := true }, s3, []) := by
    simp only [ParticleCounter.setSamplingEnabled,
      (checkedBus_of_bus p3 s3 b bus3 h31 g3b g3c).1, ParticleCounter.configThenRequests, g3v]
    rfl
  -- storeSettingsToFlash
  have g4b : (b : Int) = ({ p3 with m_samplingEnabled := true } : ParticleCounter).m_busID := g3b
  have g4c : ({ p3 with m_samplingEnabled := true } : ParticleCounter).isConfigured = true := g3c
  have g4v : ({ p3 with m_samplingEnabled := true } : ParticleCounter).m_configData.valid = true :=
    g3v
  generalize hp4 : ({ p3 with m_samplingEnabled := true } : ParticleCounter) = p4 at *
  obtain ⟨bus5, a5, h51, h52, h53, h54, h55⟩ :=
    requests_exact p4.storeTelegrams p4 s3 b bus3 h31
  have e5 : p4.storeSettingsToFlash s3 = some ((p4.requests s3 b p4.storeTelegrams).1,
      (p4.requests s3 b p4.storeTelegrams).2, []) :=
    checkedRequests_valid p4 s3 b bus3 _ h31 g4b g4c g4v
  generalize (p4.requests s3 b p4.storeTelegrams).1 = p5 at *
  generalize (p4.requests s3 b p4.storeTelegrams).2 = s5 at *
  obtain ⟨g5b, g5c, g5v⟩ := stage_facts h55 b g4b g4c g4v
  -- requestStatus
  obtain ⟨bus6, a6, h61, h62, h63, h64, h65⟩ :=
    requests_exact p5.statusTelegrams p5 s5 b bus5 h51
  have e6 : p5.requestStatus s5 = some ((p5.requests s5 b p5.statusTelegrams).1,
      (p5.requests s5 b p5.statusTelegrams).2, []) :=
    checkedRequests_valid p5 s5 b bus5 _ h51 g5b g5c g5v
  generalize (p5.requests s5 b p5.statusTelegrams).1 = p6 at *
  generalize (p5.requests s5 b p5.statusTelegrams).2 = s6 at *
  -- the members the telegrams are built from
  obtain ⟨m1a, -, -, -, m1e⟩ := sameExceptPending_more h15
  obtain ⟨-, -, m1cfg, -⟩ := sameExceptPending_fields h15
  obtain ⟨m2a, -, m2c, -, -⟩ := sameExceptPending_more h25
  obtain ⟨m3a, -, -, -, -⟩ := sameExceptPending_more h35
  have m4a : p4.m_modbusAddress = p3.m_modbusAddress := by rw [← hp4]
  have m4s : p4.m_samplingEnabled = true := by rw [← hp4]
  obtain ⟨m5a, m5s, -, -, -⟩ := sameExceptPending_more h55
  have hadr3 : p3.m_modbusAddress = pc.m_modbusAddress := by rw [m3a, m2a, m1a]
  have t2 : p1.setConfigTelegrams p1.m_configData = pc.setConfigTelegrams pc.m_configData := by
    rw [m1e, m1cfg]
  have t3 : r2.1.deviceInfoTelegrams = pc.deviceInfoTelegrams := by
    unfold ParticleCounter.deviceInfoTelegrams
    rw [m2a, m1a]
  have t5 : p4.storeTelegrams = pc.storeTelegrams := by
    unfold ParticleCounter.storeTelegrams
    rw [m4a, hadr3]
  have t6 : p5.statusTelegrams =
      [Telegram.writeSingleRegister pc.m_modbusAddress 99 17,
        Telegram.readInputRegisters pc.m_modbusAddress 88 1,
        Telegram.readInputRegisters pc.m_modbusAddress 95 1,
        Telegram.readInputRegisters pc.m_modbusAddress 96 16] := by
    unfold ParticleCounter.statusTelegrams
    rw [m5a, m5s, m4a, m4s, hadr3]
    rfl
  have hlen : (a1 ++ a2 ++ a3 ++ a5 ++ a6).length = 19 := by
    have l1 := congrArg List.length h12
    have l2 := congrArg List.length h22
    have l3 := congrArg List.length h32
    have l5 := congrArg List.length h52
    have l6 := congrArg List.length h62
    rw [List.length_map] at l1 l2 l3 l5 l6
    simp only [List.length_append, l1, l2, l3, l5, l6, t6]
    rfl
  refine ⟨p6, s6, bus6, a1 ++ a2 ++ a3 ++ a5 ++ a6, ?_, h61, ?_, ?_, hlen, ?_⟩
  · unfold ParticleCounter.init
    rw [e1]
    simp only []
    rw [e2]
    simp only []
    rw [e3]
    simp only []
    rw [e4]
    simp only []
    rw [e5]
    simp only []
    rw [e6]
    rfl
  · rw [h63, h53, h33, h23, h13]
    simp
  · simp only [List.map_append, h12, h22, h32, h52, h62, t2, t3, t5, t6]
  · have hids : p6.m_transactionIDs =
        pc.m_transactionIDs ++ (a1 ++ a2 ++ a3 ++ a5 ++ a6).map Prod.fst := by
      have h44 : p4.m_transactionIDs = p3.m_transactionIDs := by rw [← hp4]
      rw [h64, h54, h44, h34, h24, h14]
      simp only [List.map_append, List.append_assoc]
    have h03 := sameExceptPending_trans (sameExceptPending_trans h15 h25) h35
    have h46 := sameExceptPending_trans h55 h65
    unfold ParticleCounter.sameExceptPending at h03 h46
    rw [h46, hids, ← hp4, h03]

/-- C28: on a configured instrument whose bus exists (and whose configuration is valid),
`init` submits 19 requests to that bus, in this order: the six clock writes to holding
registers 16..21 (second, minute, hour, day, month, year - 2000 of the current UTC time) and
the write of command 1 to register 99; the four configuration writes to registers 1..4 from
the current configuration; the three device-info reads (input 0 x48, 64 x16, 81 x1); the
write of command 9 to register 99; and the four requests of `requestStatus`: the start
command 17 to register 99 and the reads of input 88 x1, 95 x1 and 96 x16. The 19 ids the
bus returns are appended to the pending ids, the sampling flag is true afterwards whatever
it was before, nothing else of the instrument changes and nothing is logged. -/
theorem C28_init (pc : ParticleCounter) (sys : ParticleCounterModbusSystem) (b : Nat)
    (bus : ModBus) (dt : QDateTime) (hb : sys.m_pcModbuslist[b]? = some bus)
    (hbus : (b : Int) = pc.m_busID) (hc : pc.isConfigured = true)
    (hv : pc.m_configData.valid = true) :
    ∃ (pc1 : ParticleCounter) (sys1 : ParticleCounterModbusSystem) (bus1 : ModBus)
        (added : List (Nat × Telegram)),
      pc.init sys dt = some (pc1, sys1, []) ∧
      sys1.m_pcModbuslist[b]? = some bus1 ∧
      bus1.telegrams = bus.telegrams ++ added ∧
      added.map Prod.snd =
        [Telegram.writeSingleRegister pc.m_modbusAddress 16 (toQuint16 (QTime.second dt.time)),
          Telegram.writeSingleRegister pc.m_modbusAddress 17 (toQuint16 (QTime.minute dt.time)),
          Telegram.writeSingleRegister pc.m_modbusAddress 18 (toQuint16 (QTime.hour dt.time)),
          Telegram.writeSingleRegister pc.m_modbusAddress 19 (toQuint16 (QDate.day dt.date)),
          Telegram.writeSingleRegister pc.m_modbusAddress 20 (toQuint16 (QDate.month dt.date)),
          Telegram.writeSingleRegister pc.m_modbusAddress 21
            (toQuint16 (QDate.year dt.date - 2000)),
          Telegram.writeSingleRegister pc.m_modbusAddress 99 1,
          Telegram.writeSingleRegister pc.m_modbusAddress 1
            ((pc.m_configData.outputDataFormat.toNat +
              ((pc.m_configData.addupCount * 4) &&& 0xff)) % 65536),
          Telegram.writeSingleRegister pc.m_modbusAddress 2
            (pc.m_configData.firstRinsingTimeInSeconds % 65536),
          Telegram.writeSingleRegister pc.m_modbusAddress 3
            (pc.m_configData.subsequentRinsingTimeInSeconds % 65536),
          Telegram.writeSingleRegister pc.m_modbusAddress 4
            (pc.m_configData.samplingTimeInSeconds % 65536),
          Telegram.readInputRegisters pc.m_modbusAddress 0 48,
          Telegram.readInputRegisters pc.m_modbusAddress 64 16,
          Telegram.readInputRegisters pc.m_modbusAddress 81 1,
          Telegram.writeSingleRegister pc.m_modbusAddress 99 9,
          Telegram.writeSingleRegister pc.m_modbusAddress 99 17,
          Telegram.readInputRegisters pc.m_modbusAddress 88 1,
          Telegram.readInputRegisters pc.m_modbusAddress 95 1,
          Telegram.readInputRegisters pc.m_modbusAddress 96 16] ∧
      added.length = 19 ∧
      pc1 = { pc with
        m_transactionIDs := pc.m_transactionIDs ++ added.map Prod.fst
        m_samplingEnabled := true } := by
  obtain ⟨pc1, sys1, bus1, added, h1, h2, h3, h4, h5, h6⟩ :=
    init_requests pc sys b bus dt hb hbus hc hv
  exact ⟨pc1, sys1, bus1, added, h1, h2, h3, h4, h5, h6⟩

/-- C28 at the sample instrument (unit address 3, configuration of a new instrument) on an
idle bus, at 2024-03-01 10:15:30: the 19 requests with their values. -/
theorem C28_init_witness :
    ∃ (pc1 : ParticleCounter) (sys1 : ParticleCounterModbusSystem) (bus1 : ModBus)
        (added : List (Nat × Telegram)),
      sampleCounter.init ⟨[⟨fun n => n, []⟩]⟩ sampleNow = some (pc1, sys1, []) ∧
      sys1.m_pcModbuslist[0]? = some bus1 ∧
      bus1.telegrams = added ∧
      added.map Prod.snd =
        [Telegram.writeSingleRegister 3 16 30, Telegram.writeSingleRegister 3 17 15,
          Telegram.writeSingleRegister 3 18 10, Telegram.writeSingleRegister 3 19 1,
          Telegram.writeSingleRegister 3 20 3, Telegram.writeSingleRegister 3 21 24,
          Telegram.writeSingleRegister 3 99 1,
          Telegram.writeSingleRegister 3 1 5, Telegram.writeSingleRegister 3 2 60,
          Telegram.writeSingleRegister 3 3 30, Telegram.writeSingleRegister 3 4 59,
          Telegram.readInputRegisters 3 0 48, Telegram.readInputRegisters 3 64 16,
          Telegram.readInputRegisters 3 81 1,
          Telegram.writeSingleRegister 3 99 9,
          Telegram.writeSingleRegister 3 99 17, Telegram.readInputRegisters 3 88 1,
          Telegram.readInputRegisters 3 95 1, Telegram.readInputRegisters 3 96 16] ∧
      added.length = 19 ∧
      pc1.m_samplingEnabled = true ∧
      pc1.m_transactionIDs = added.map Prod.fst := by
  obtain ⟨pc1, sys1, bus1, added, h1, h2, h3, h4, h5, h6⟩ :=
    C28_init sampleCounter ⟨[⟨fun n => n, []⟩]⟩ 0 ⟨fun n => n, []⟩ sampleNow rfl rfl rfl rfl
  refine ⟨pc1, sys1, bus1, added, h1, h2, h3, ?_, h5, ?_, ?_⟩
  · rw [h4]
    decide
  · rw [h6]
  · rw [h6]
    rfl

/-! ## Deleting instruments -/

theorem byIDLoop_spec (id : Int) (pcs : List ParticleCounter) :
    match getParticleCounterByIDLoop pcs id with
    | none => pcs.eraseP (fun pc => decide (pc.m_id = id)) = pcs
    | some i => (∃ pc, pcs[i]? = some pc) ∧
        pcs.eraseIdx i = pcs.eraseP (fun pc => decide (pc.m_id = id)) := by
  induction pcs with
  | nil => simp [getParticleCounterByIDLoop]
  | cons x rest ih =>
    unfold getParticleCounterByIDLoop
    by_cases hx : x.m_id = id
    · rw [if_pos hx]
      simp [hx]
    · rw [if_neg hx]
      cases h : getParticleCounterByIDLoop rest id with
      | none =>
        rw [h] at ih
        have ih1 : rest.eraseP (fun pc => decide (pc.m_id = id)) = rest := ih
        show (x :: rest).eraseP (fun pc => decide (pc.m_id = id)) = x :: rest
        rw [List.eraseP_cons_of_neg (by simpa using hx), ih1]
      | some i =>
        rw [h] at ih
        have ih1 : (∃ pc, rest[i]? = some pc) ∧
            rest.eraseIdx i = rest.eraseP (fun pc => decide (pc.m_id = id)) := ih
        show (∃ pc, (x :: rest)[i + 1]? = some pc) ∧
          (x :: rest).eraseIdx (i + 1) = (x :: rest).eraseP (fun pc => decide (pc.m_id = id))
        refine ⟨by simpa using ih1.1, ?_⟩
        rw [List.eraseP_cons_of_neg (by simpa using hx), List.eraseIdx_cons_succ, ih1.2]

theorem deleteParticleCounter_list (db : ParticleCounterDatabase) (id : Int) :
    (db.deleteParticleCounter id).db.m_particlecounters =
      db.m_particlecounters.eraseP (fun pc => decide (pc.m_id = id)) := by
  have h := byIDLoop_spec id db.m_particlecounters
  unfold ParticleCounterDatabase.deleteParticleCounter
  cases hl : getParticleCounterByIDLoop db.m_particlecounters id with
  | none =>
    rw [hl] at h
    simp only []
    exact h.symm
  | some i =>
    rw [hl] at h
    obtain ⟨⟨pc, hpc⟩, he⟩ := h
    simp only [hpc]
    exact he

theorem deleteByIds_list (ids : List Int) :
    ∀ db : ParticleCounterDatabase,
      (deleteByIds db ids).db.m_particlecounters =
        ids.foldl (fun l id => l.eraseP (fun pc => decide (pc.m_id = id))) db.m_particlecounters := by
  induction ids with
  | nil => intro db; rfl
  | cons id rest ih =>
    intro db
    show (deleteByIds (db.deleteParticleCounter id).db rest).db.m_particlecounters = _
    rw [ih, deleteParticleCounter_list]
    rfl

theorem foldl_erase_keeps_head (x : ParticleCounter) (ids : List Int) :
    ∀ l : List ParticleCounter, x.m_id ∉ ids →
      ids.foldl (fun l id => l.eraseP (fun pc => decide (pc.m_id = id))) (x :: l) =
        x :: ids.foldl (fun l id => l.eraseP (fun pc => decide (pc.m_id = id))) l := by
  induction ids with
  | nil => intro l _; rfl
  | cons i rest ih =>
    intro l h
    have hi : ¬ x.m_id = i := fun e => h (e ▸ List.mem_cons_self _ _)
    have hr : x.m_id ∉ rest := fun hm => h (List.mem_cons_of_mem _ hm)
    simp only [List.foldl_cons]
    rw [List.eraseP_cons_of_neg (by simpa using hi)]
    exact ih _ hr

/-- Deleting, one id after the other, the ids of the instruments that satisfy `p` removes
exactly those instruments when the ids of the registry are pairwise distinct. -/
theorem foldl_erase_filter (p : ParticleCounter → Bool) (pcs : List ParticleCounter)
    (hnd : (pcs.map (fun pc => pc.m_id)).Nodup) :
    ((pcs.filter p).map (fun pc => pc.m_id)).foldl
        (fun l id => l.eraseP (fun pc => decide (pc.m_id = id))) pcs =
      pcs.filter (fun pc => !p pc) := by
  induction pcs with
  | nil => rfl
  | cons x rest ih =>
    have hx : x.m_id ∉ rest.map (fun pc => pc.m_id) := (List.nodup_cons.mp hnd).1
    have hr : (rest.map (fun pc => pc.m_id)).Nodup := (List.nodup_cons.mp hnd).2
    cases hp : p x
    · rw [List.filter_cons, hp]
      simp only [Bool.false_eq_true, if_false]
      rw [foldl_erase_keeps_head x _ rest ?_, ih hr]
      · simp [List.filter_cons, hp]
      · intro hm
        apply hx
        obtain ⟨q, hq, he⟩ := List.mem_map.mp hm
        exact List.mem_map.mpr ⟨q, (List.mem_filter.mp hq).1, he⟩
    · rw [List.filter_cons, hp]
      simp only [if_true, List.map_cons, List.foldl_cons]
      rw [List.eraseP_cons_of_pos (by simp), ih hr]
      simp [List.filter_cons, hp]

/-- C24 (as stated) fails for B = -1: `getParticleCounters(-1)` returns every instrument,
so the bus-scoped delete with bus -1 removes an instrument whose bus index is 0. -/
theorem C24_bus_minus_one_counterexample :
    sampleCounter.m_busID = 0 ∧
    ((⟨[sampleCounter]⟩ : ParticleCounterDatabase).deleteOnBus (-1)).db.m_particlecounters.length
      = 0 := by
  refine ⟨rfl, ?_⟩
  decide

/-- C24 (amended): in a registry whose instrument ids are pairwise distinct, a bus-scoped
delete for an integer B other than -1 removes exactly the instruments whose bus index is
B and leaves every other instrument, in the original order; for B = -1 it removes every
instrument. -/
theorem C24_bus_delete (db : ParticleCounterDatabase) (B : Int)
    (hnd : (db.m_particlecounters.map (fun pc => pc.m_id)).Nodup) :
    (B ≠ -1 → (db.deleteOnBus B).db.m_particlecounters =
      db.m_particlecounters.filter (fun pc => !decide (pc.m_busID = B))) ∧
    (B = -1 → (db.deleteOnBus B).db.m_particlecounters = []) := by
  constructor
  · intro hB
    unfold ParticleCounterDatabase.deleteOnBus ParticleCounterDatabase.getParticleCounters
    rw [if_neg hB, deleteByIds_list]
    exact foldl_erase_filter (fun pc => decide (pc.m_busID = B)) _ hnd
  · intro hB
    unfold ParticleCounterDatabase.deleteOnBus ParticleCounterDatabase.getParticleCounters
    rw [if_pos hB, deleteByIds_list]
    have h := foldl_erase_filter (fun _ => true) db.m_particlecounters hnd
    simp only [List.filter_true] at h
    rw [h]
    simp

/-- C24 (amended) at a registry with instruments 7 (bus 0), 8 (bus 1) and 9 (bus 0): the
delete for bus 0 leaves instrument 8. -/
theorem C24_bus_delete_witness :
    ((⟨[sampleCounter, { sampleCounter with m_id := 8, m_busID := 1 },
        { sampleCounter with m_id := 9 }]⟩ : ParticleCounterDatabase).deleteOnBus
          0).db.m_particlecounters =
      [sampleCounter, { sampleCounter with m_id := 8, m_busID := 1 },
        { sampleCounter with m_id := 9 }].filter (fun pc => !decide (pc.m_busID = 0)) :=
  (C24_bus_delete ⟨[sampleCounter, { sampleCounter with m_id := 8, m_busID := 1 },
    { sampleCounter with m_id := 9 }]⟩ 0 (by decide)).1 (by decide)

/-! ## Responses with a foreign unit address -/

/-- C37: a holding- or input-register response whose unit address differs from the unit
address of the instrument changes nothing in the instrument (so `online`, `lastSeen`, the
configuration, the live data, the status and error flags and the three strings stay as they
were) and emits no signal, in particular no `ActualDataReceived` and no
`ArchiveDataReceived`. -/
theorem C37_foreign_address (pc : ParticleCounter) (now : QDateTime) (uninit : ArchiveDataset)
    (tid adr reg : Nat) (data : List Nat) (hadr : (adr : Int) ≠ pc.m_modbusAddress) :
    pc.slot_receivedInputRegisterData now uninit tid adr reg data = (pc, []) ∧
    pc.slot_receivedHoldingRegisterData now tid adr reg data = (pc, []) ∧
    actualEmissions (pc.slot_receivedInputRegisterData now uninit tid adr reg data).2 = [] ∧
    archiveEmissions (pc.slot_receivedInputRegisterData now uninit tid adr reg data).2 = [] ∧
    actualEmissions (pc.slot_receivedHoldingRegisterData now tid adr reg data).2 = [] ∧
    archiveEmissions (pc.slot_receivedHoldingRegisterData now tid adr reg data).2 = [] := by
  have h1 : pc.slot_receivedInputRegisterData now uninit tid adr reg data = (pc, []) := by
    unfold ParticleCounter.slot_receivedInputRegisterData
    rw [if_pos hadr]
  have h2 : pc.slot_receivedHoldingRegisterData now tid adr reg data = (pc, []) := by
    unfold ParticleCounter.slot_receivedHoldingRegisterData
    rw [if_pos hadr]
  refine ⟨h1, h2, ?_, ?_, ?_, ?_⟩
  · rw [h1]; rfl
  · rw [h1]; rfl
  · rw [h2]; rfl
  · rw [h2]; rfl

/-- C37 at a full live read and a configuration response addressed to unit 4, handled by
the instrument with unit address 3. -/
theorem C37_foreign_address_witness :
    sampleCounter.slot_receivedInputRegisterData sampleNow sampleUninit 0 4 256
        [30, 15, 10, 1, 3, 24, 1, 5, 0, 1, 0, 0, 1, 0, 0, 1, 0, 0, 1, 0, 0, 1, 0, 0, 1, 0, 0,
          1, 0, 0] = (sampleCounter, []) ∧
    sampleCounter.slot_receivedHoldingRegisterData sampleNow 0 4 0 [1, 2, 3] =
      (sampleCounter, []) :=
  ⟨(C37_foreign_address sampleCounter sampleNow sampleUninit 0 4 256
      [30, 15, 10, 1, 3, 24, 1, 5, 0, 1, 0, 0, 1, 0, 0, 1, 0, 0, 1, 0, 0, 1, 0, 0, 1, 0, 0,
        1, 0, 0] (by decide)).1,
    (C37_foreign_address sampleCounter sampleNow sampleUninit 0 4 0 [1, 2, 3] (by decide)).2.1⟩

/-! ## The keys of the live data -/

/-- C35: evaluation of the code at the failing inputs. Ten of the fourteen keys that
`getActualKeys` returns (`statusString`, `countChannel_1` to `countChannel_8` and
`timestamp`) have no branch in `getData`: for each of them, and for every instrument,
`getData` returns the text "Error[Particle Counter]: Key <key> not available". -/
theorem C35_actual_keys_not_served (pc : ParticleCounter) :
    ∀ key ∈ ["statusString".toList, "countChannel_1".toList, "countChannel_2".toList,
        "countChannel_3".toList, "countChannel_4".toList, "countChannel_5".toList,
        "countChannel_6".toList, "countChannel_7".toList, "countChannel_8".toList,
        "timestamp".toList],
      key ∈ ParticleCounter.getActualKeys ∧
      pc.getData key =
        "Error[Particle Counter]: Key ".toList ++ key ++ " not available".toList := by
  intro key hk
  simp only [List.mem_cons, List.mem_singleton, List.not_mem_nil, or_false] at hk
  rcases hk with h | h | h | h | h | h | h | h | h | h <;> subst h <;>
    exact ⟨by decide, by rfl⟩

/-- C35 at the keys `statusString` and `timestamp` of the sample instrument. -/
theorem C35_actual_keys_not_served_witness :
    sampleCounter.getData "statusString".toList =
      "Error[Particle Counter]: Key statusString not available".toList ∧
    sampleCounter.getData "timestamp".toList =
      "Error[Particle Counter]: Key timestamp not available".toList :=
  ⟨(C35_actual_keys_not_served sampleCounter "statusString".toList (by decide)).2,
    (C35_actual_keys_not_served sampleCounter "timestamp".toList (by decide)).2⟩

/-! ## The channel status -/

/-- C33: evaluation of the code at the failing input. The status word is stored as it
arrives, by a cast to the enumeration without a range check. A live response that delivers
the word 7 for register 262 leaves the value 7, which is none of OFF, OK, WARNING and
ALARM, in `channelData[0].status`; a full live read and a full archive read whose first
status word is 7 emit datasets with that value. -/
theorem C33_status_word_not_checked :
    ((sampleCounter.slot_receivedInputRegisterData sampleNow sampleUninit 0 3 262
        [7]).1.m_actualData.channelData 0).status = 7 ∧
    7 ∉ [ChannelStatus.OFF, ChannelStatus.OK, ChannelStatus.WARNING, ChannelStatus.ALARM] ∧
    (∃ d, actualEmissions (sampleCounter.slot_receivedInputRegisterData sampleNow sampleUninit
        0 3 256 [30, 15, 10, 1, 3, 24, 7, 5, 0, 1, 0, 0, 1, 0, 0, 1, 0, 0, 1, 0, 0, 1, 0, 0, 1,
          0, 0, 1, 0, 0]).2 = [(7, d)] ∧ (d.channelData 0).status = 7) ∧
    (∃ d, archiveEmissions (sampleCounter.slot_receivedInputRegisterData sampleNow sampleUninit
        0 3 512 [30, 15, 10, 1, 3, 24, 59, 5, 7, 5, 0, 1, 0, 0, 1, 0, 0, 1, 0, 0, 1, 0, 0, 1,
          0, 0, 1, 0, 0, 1, 0, 0]).2 = [(7, d)] ∧ (d.channelData 0).status = 7) :=
  ⟨rfl, by decide, ⟨_, rfl, rfl⟩, ⟨_, rfl, rfl⟩⟩
/-! ## The output-format word of an archive dataset -/

theorem addupCount_bits (raw : Nat) : (raw &&& 0xff) >>> 2 = (raw >>> 2) &&& 0x3F := by
  have h1 : raw &&& 0xff = raw % 2 ^ 8 := Nat.and_pow_two_sub_one_eq_mod raw 8
  have h2 : (raw >>> 2) &&& 0x3F = (raw >>> 2) % 2 ^ 6 := Nat.and_pow_two_sub_one_eq_mod _ 6
  rw [h1, h2, Nat.shiftRight_eq_div_pow, Nat.shiftRight_eq_div_pow]
  omega

theorem ofBit_toNat (raw : Nat) : (OutputDataFormat.ofBit (raw &&& 0x01)).toNat = raw &&& 1 := by
  have h1 : raw &&& 1 = raw % 2 ^ 1 := Nat.and_pow_two_sub_one_eq_mod raw 1
  unfold OutputDataFormat.ofBit
  by_cases h : raw &&& 1 = 1
  · rw [if_pos h, h]; rfl
  · rw [if_neg h]
    have : raw &&& 1 = 0 := by omega
    rw [this]; rfl

theorem outputWord_parts (addupCount format : Nat) (ha : addupCount ≤ 63) (hf : format ≤ 1) :
    ((addupCount <<< 2) ||| format) &&& 1 = format ∧
    (((addupCount <<< 2) ||| format) >>> 2) &&& 0x3F = addupCount := by
  interval_cases addupCount <;> interval_cases format <;> exact ⟨rfl, rfl⟩

theorem inputDispatch_archiveFormat (st : InputLoopState) (c : InputCase) (w : Nat)
    (h : c ≠ InputCase.archiveOutputDataFormat) :
    (inputDispatch st c w).archiveDataset.outputDataFormat = st.archiveDataset.outputDataFormat ∧
    (inputDispatch st c w).archiveDataset.addupCount = st.archiveDataset.addupCount := by
  cases c with
  | liveTime f =>
    simp only [inputDispatch]
    split <;> cases f <;> exact ⟨rfl, rfl⟩
  | archiveTime f =>
    simp only [inputDispatch]
    split <;> cases f <;> exact ⟨rfl, rfl⟩
  | liveChannel k part =>
    simp only [inputDispatch]
    split <;> exact ⟨rfl, rfl⟩
  | archiveChannel k part =>
    simp only [inputDispatch]
    split
    · split <;> exact ⟨rfl, rfl⟩
    · exact ⟨rfl, rfl⟩
  | errorstateRegister =>
    simp only [inputDispatch, inputErrorstate]
    split <;> exact ⟨rfl, rfl⟩
  | archiveOutputDataFormat => exact absurd rfl h
  | _ => exact ⟨rfl, rfl⟩

theorem inputStep_archiveFormat (st : InputLoopState) (reg w : Nat) (h : reg ≠ 519) :
    ((inputStep st reg w).archiveDataset.outputDataFormat,
      (inputStep st reg w).archiveDataset.addupCount) =
    (st.archiveDataset.outputDataFormat, st.archiveDataset.addupCount) := by
  refine inputStep_cases (fun s => (s.archiveDataset.outputDataFormat,
    s.archiveDataset.addupCount) =
    (st.archiveDataset.outputDataFormat, st.archiveDataset.addupCount)) st reg w ?_
  intro c hc
  show ((inputDispatch (inputClearStrings st reg) c w).archiveDataset.outputDataFormat,
    (inputDispatch (inputClearStrings st reg) c w).archiveDataset.addupCount) = _
  have hne : c ≠ InputCase.archiveOutputDataFormat := by
    rintro rfl
    exact h hc
  rw [(inputDispatch_archiveFormat _ c w hne).1, (inputDispatch_archiveFormat _ c w hne).2,
    inputClearStrings_archiveDataset]

/-- The archive emissions of a response that starts at register 519 and ends at register
543: at most one dataset is emitted, and it carries the output format and the addup count
that the first word of the response was decoded to. -/
theorem formatRead_emission (st : InputLoopState) (raw : Nat) (mid : List Nat) (last : Nat)
    (hmid : mid.length = 23) :
    ∀ e ∈ archiveEmissions (inputLoop st 519 (raw :: (mid ++ [last]))).signals,
      e ∈ archiveEmissions st.signals ∨
      (e.2.outputDataFormat = OutputDataFormat.ofBit (raw &&& 0x01) ∧
        e.2.addupCount = (raw &&& 0xff) >>> 2) := by
  have e1 : inputLoop st 519 (raw :: (mid ++ [last])) =
      inputStep (inputLoop (inputStep st 519 raw) 520 mid) 543 last := by
    rw [inputLoop_cons]
    show inputLoop (inputStep st 519 raw) 520 (mid ++ [last]) = _
    rw [inputLoop_append _ 520 (by decide), hmid]
    rfl
  have hp1 : archiveEmissions (inputLoop (inputStep st 519 raw) 520 mid).signals =
      archiveEmissions st.signals := by
    rw [inputLoop_preserves (fun s => archiveEmissions s.signals) (fun r => r ≠ 543)
      (fun s r w hr => inputStep_archiveEmissions_of_ne s r w hr) mid _ 520 (by decide)
      (by intro i hi; rw [hmid] at hi; show (520 + i) % 65536 ≠ 543; omega)]
    exact inputStep_archiveEmissions_of_ne st 519 raw (by decide)
  have hp2 : ((inputLoop (inputStep st 519 raw) 520 mid).archiveDataset.outputDataFormat,
      (inputLoop (inputStep st 519 raw) 520 mid).archiveDataset.addupCount) =
      (OutputDataFormat.ofBit (raw &&& 0x01), (raw &&& 0xff) >>> 2) := by
    rw [inputLoop_preserves (fun s => (s.archiveDataset.outputDataFormat,
      s.archiveDataset.addupCount)) (fun r => r ≠ 519)
      (fun s r w hr => inputStep_archiveFormat s r w hr) mid _ 520 (by decide)
      (by intro i hi; rw [hmid] at hi; show (520 + i) % 65536 ≠ 519; omega)]
    rw [inputStep_519]
  rw [e1, inputStep_543]
  generalize inputLoop (inputStep st 519 raw) 520 mid = S at hp1 hp2
  intro e he
  split at he
  · have he2 : e ∈ archiveEmissions (S.signals ++
        [Signal.ArchiveDataReceived S.pc.m_id
          (S.setArchive (fun cd => addCountHigh cd 7 last)).archiveDataset]) := he
    rw [archiveEmissions_append, hp1] at he2
    rcases List.mem_append.mp he2 with h | h
    · exact Or.inl h
    · right
      have h3 : e = (S.pc.m_id, (S.setArchive (fun cd => addCountHigh cd 7 last)).archiveDataset) := by
        simpa [archiveEmissions] using h
      rw [h3]
      exact ⟨congrArg Prod.fst hp2, congrArg Prod.snd hp2⟩
  · left
    have he2 : e ∈ archiveEmissions S.signals := he
    rwa [hp1] at he2

/-- C31: for every word `raw` received at archive register 519, the decoded output format
is `raw & 1` and the decoded addup count is `(raw >> 2) & 0x3F`; so for every addup count
in 0..63 and both formats, decoding `(addupCount << 2) | format` returns exactly that addup
count and that format. A dataset emitted by a response that starts at register 519 and
ends at register 543 carries the two decoded values. -/
theorem C31_outputDataFormat_decode (st : InputLoopState) (raw : Nat) :
    (inputStep st 519 raw).archiveDataset.outputDataFormat.toNat = raw &&& 1 ∧
    (inputStep st 519 raw).archiveDataset.addupCount = (raw >>> 2) &&& 0x3F ∧
    (∀ addupCount format : Nat, addupCount ≤ 63 → format ≤ 1 →
      (inputStep st 519 ((addupCount <<< 2) ||| format)).archiveDataset.outputDataFormat.toNat =
        format ∧
      (inputStep st 519 ((addupCount <<< 2) ||| format)).archiveDataset.addupCount =
        addupCount) ∧
    (∀ (mid : List Nat) (last : Nat), mid.length = 23 →
      ∀ e ∈ archiveEmissions (inputLoop st 519 (raw :: (mid ++ [last]))).signals,
        e ∈ archiveEmissions st.signals ∨
        (e.2.outputDataFormat.toNat = raw &&& 1 ∧ e.2.addupCount = (raw >>> 2) &&& 0x3F)) := by
  have h1 : ∀ w : Nat, (inputStep st 519 w).archiveDataset.outputDataFormat.toNat = w &&& 1 := by
    intro w
    rw [inputStep_519]
    exact ofBit_toNat w
  have h2 : ∀ w : Nat, (inputStep st 519 w).archiveDataset.addupCount = (w >>> 2) &&& 0x3F := by
    intro w
    rw [inputStep_519]
    exact addupCount_bits w
  refine ⟨h1 raw, h2 raw, ?_, ?_⟩
  · intro a f ha hf
    rw [h1, h2]
    exact outputWord_parts a f ha hf
  · intro mid last hmid e he
    rcases formatRead_emission st raw mid last hmid e he with h | ⟨h3, h4⟩
    · exact Or.inl h
    · right
      rw [h3, h4]
      exact ⟨ofBit_toNat raw, addupCount_bits raw⟩

/-- C31 at the word 0x00A5 = (41 << 2) | 1: format 1 (cumulative) and addup count 41. -/
theorem C31_outputDataFormat_decode_witness :
    (inputStep (inputLoopStart sampleCounter sampleNow sampleUninit) 519
      ((41 <<< 2) ||| 1)).archiveDataset.outputDataFormat.toNat = 1 ∧
    (inputStep (inputLoopStart sampleCounter sampleNow sampleUninit) 519
      ((41 <<< 2) ||| 1)).archiveDataset.addupCount = 41 :=
  (C31_outputDataFormat_decode (inputLoopStart sampleCounter sampleNow sampleUninit) 0).2.2.1
    41 1 (by decide) (by decide)
/-! ## The error-state register -/

theorem errorstring_cases (pc : ParticleCounter) :
    (pc.m_errorstateRegister =
        { temperatureError := false, sdCardError := false, counterSettings := false,
          acquisitionSettings := false, remoteSettings := false, filterSettings := false,
          detectorLoop := false, laserError := false, flowError := false } ∧
      pc.errorstring = "noError".toList) ∨
    (pc.m_errorstateRegister ≠
        { temperatureError := false, sdCardError := false, counterSettings := false,
          acquisitionSettings := false, remoteSettings := false, filterSettings := false,
          detectorLoop := false, laserError := false, flowError := false } ∧
      pc.errorstring ≠ "noError".toList ∧ pc.errorstring.take 6 = "error_".toList) := by
  unfold ParticleCounter.errorstring
  generalize pc.m_errorstateRegister = r
  obtain ⟨a, b, c, d, e, f, g, h, i⟩ := r
  cases a <;> cases b <;> cases c <;> cases d <;> cases e <;> cases f <;> cases g <;>
    cases h <;> cases i <;> decide

theorem and_two_pow_eq_zero (raw k : Nat) : raw &&& 2 ^ k = 0 ↔ raw.testBit k = false := by
  constructor
  · intro h
    have h1 := Nat.testBit_and raw (2 ^ k) k
    rw [h, Nat.zero_testBit, Nat.testBit_two_pow] at h1
    simpa using h1.symm
  · intro h
    apply Nat.zero_of_testBit_eq_false
    intro i
    rw [Nat.testBit_and, Nat.testBit_two_pow]
    by_cases hik : k = i
    · subst hik
      simp [h]
    · simp [hik]

theorem and_mask_eq_zero (raw : Nat) :
    raw &&& 0x2FF = 0 ↔
      (raw.testBit 0 = false ∧ raw.testBit 1 = false ∧ raw.testBit 2 = false ∧
        raw.testBit 3 = false ∧ raw.testBit 4 = false ∧ raw.testBit 5 = false ∧
        raw.testBit 6 = false ∧ raw.testBit 7 = false ∧ raw.testBit 9 = false) := by
  have key : ∀ i, (raw &&& 0x2FF).testBit i = (raw.testBit i && Nat.testBit 0x2FF i) :=
    fun i => Nat.testBit_and raw 0x2FF i
  constructor
  · intro h
    have hz : ∀ i, (raw.testBit i && Nat.testBit 0x2FF i) = false := by
      intro i
      rw [← key i, h, Nat.zero_testBit]
    have h0 := hz 0
    have h1 := hz 1
    have h2 := hz 2
    have h3 := hz 3
    have h4 := hz 4
    have h5 := hz 5
    have h6 := hz 6
    have h7 := hz 7
    have h9 := hz 9
    have t0 : Nat.testBit 0x2FF 0 = true := by decide
    have t1 : Nat.testBit 0x2FF 1 = true := by decide
    have t2 : Nat.testBit 0x2FF 2 = true := by decide
    have t3 : Nat.testBit 0x2FF 3 = true := by decide
    have t4 : Nat.testBit 0x2FF 4 = true := by decide
    have t5 : Nat.testBit 0x2FF 5 = true := by decide
    have t6 : Nat.testBit 0x2FF 6 = true := by decide
    have t7 : Nat.testBit 0x2FF 7 = true := by decide
    have t9 : Nat.testBit 0x2FF 9 = true := by decide
    rw [t0, Bool.and_true] at h0
    rw [t1, Bool.and_true] at h1
    rw [t2, Bool.and_true] at h2
    rw [t3, Bool.and_true] at h3
    rw [t4, Bool.and_true] at h4
    rw [t5, Bool.and_true] at h5
    rw [t6, Bool.and_true] at h6
    rw [t7, Bool.and_true] at h7
    rw [t9, Bool.and_true] at h9
    exact ⟨h0, h1, h2, h3, h4, h5, h6, h7, h9⟩
  · rintro ⟨h0, h1, h2, h3, h4, h5, h6, h7, h9⟩
    apply Nat.zero_of_testBit_eq_false
    intro i
    rw [key i]
    by_cases hi : i < 10
    · interval_cases i
      · rw [h0]; rfl
      · rw [h1]; rfl
      · rw [h2]; rfl
      · rw [h3]; rfl
      · rw [h4]; rfl
      · rw [h5]; rfl
      · rw [h6]; rfl
      · rw [h7]; rfl
      · have t8 : Nat.testBit 0x2FF 8 = false := by decide
        rw [t8, Bool.and_false]
      · rw [h9]; rfl
    · have : Nat.testBit 0x2FF i = false := by
        apply Nat.testBit_lt_two_pow
        calc 0x2FF < 2 ^ 10 := by decide
          _ ≤ 2 ^ i := Nat.pow_le_pow_right (by decide) (by omega)
      rw [this, Bool.and_false]

theorem flag_eq_testBit (raw k : Nat) : ((raw &&& (1 <<< k)) != 0) = raw.testBit k := by
  rw [Nat.one_shiftLeft]
  by_cases h : raw.testBit k = false
  · rw [h, (and_two_pow_eq_zero raw k).mpr h]
    rfl
  · have h2 : raw &&& 2 ^ k ≠ 0 := fun h3 => h ((and_two_pow_eq_zero raw k).mp h3)
    have h4 : raw.testBit k = true := by simpa using h
    rw [h4]
    simpa using h2

theorem decodeErrorstateRegister_none (raw : Nat) :
    decodeErrorstateRegister raw =
        { temperatureError := false, sdCardError := false, counterSettings := false,
          acquisitionSettings := false, remoteSettings := false, filterSettings := false,
          detectorLoop := false, laserError := false, flowError := false } ↔
      raw &&& 0x2FF = 0 := by
  rw [and_mask_eq_zero]
  unfold decodeErrorstateRegister
  simp only [flag_eq_testBit, ErrorstateRegister.mk.injEq]

theorem getData_errorstring (pc : ParticleCounter) :
    pc.getData "errorstring".toList = pc.errorstring := by
  unfold ParticleCounter.getData
  rfl

theorem inputStep_95 (st : InputLoopState) (w : Nat) :
    inputStep st 95 w = inputErrorstate st w := rfl

theorem inputErrorstate_register (st : InputLoopState) (w : Nat) :
    (inputErrorstate st w).pc.m_errorstateRegister = decodeErrorstateRegister w := by
  unfold inputErrorstate
  split <;> rfl

theorem inputErrorstate_statusString (st : InputLoopState) (w : Nat) :
    (inputErrorstate st w).pc.m_actualData.statusString =
      if w = 0 then "healthy" else "problem" := by
  unfold inputErrorstate
  split <;> rfl

/-- C36 (as stated) fails for a word whose only set bit is none of the nine decoded ones:
after the word 0x0100 (bit 8) for the error-state register, `statusString` is "problem"
although all nine decoded flags are false and `getData("errorstring")` returns
"noError". -/
theorem C36_undecoded_bit_counterexample :
    (sampleCounter.slot_receivedInputRegisterData sampleNow sampleUninit 0 3 95
        [0x0100]).1.m_actualData.statusString = "problem" ∧
    (sampleCounter.slot_receivedInputRegisterData sampleNow sampleUninit 0 3 95
        [0x0100]).1.m_errorstateRegister =
      { temperatureError := false, sdCardError := false, counterSettings := false,
        acquisitionSettings := false, remoteSettings := false, filterSettings := false,
        detectorLoop := false, laserError := false, flowError := false } ∧
    (sampleCounter.slot_receivedInputRegisterData sampleNow sampleUninit 0 3 95
        [0x0100]).1.getData "errorstring".toList = "noError".toList :=
  ⟨rfl, by decide, by decide⟩

/-- C36 (amended): after a word `raw` for the error-state register (register 95),
`statusString` is "healthy" exactly when `raw` is 0 and "problem" otherwise;
`getData("errorstring")` returns "noError" exactly when all nine decoded flags are false,
which is exactly when `raw & 0x02FF` is 0 (the flags are bits 0 to 7 and bit 9). So the word
0 gives "healthy" with "noError", and a word with a decoded flag set gives "problem" with an
errorstring that is not "noError" and starts with the name of an error. -/
theorem C36_errorstate (st : InputLoopState) (raw : Nat) :
    ((inputStep st 95 raw).pc.m_actualData.statusString = "healthy" ↔ raw = 0) ∧
    (raw ≠ 0 → (inputStep st 95 raw).pc.m_actualData.statusString = "problem") ∧
    ((inputStep st 95 raw).pc.getData "errorstring".toList = "noError".toList ↔
      (inputStep st 95 raw).pc.m_errorstateRegister =
        { temperatureError := false, sdCardError := false, counterSettings := false,
          acquisitionSettings := false, remoteSettings := false, filterSettings := false,
          detectorLoop := false, laserError := false, flowError := false }) ∧
    ((inputStep st 95 raw).pc.m_errorstateRegister =
        { temperatureError := false, sdCardError := false, counterSettings := false,
          acquisitionSettings := false, remoteSettings := false, filterSettings := false,
          detectorLoop := false, laserError := false, flowError := false } ↔
      raw &&& 0x02FF = 0) ∧
    (raw = 0 →
      (inputStep st 95 raw).pc.getData "errorstring".toList = "noError".toList) ∧
    (raw &&& 0x02FF ≠ 0 →
      (inputStep st 95 raw).pc.m_actualData.statusString = "problem" ∧
      (inputStep st 95 raw).pc.getData "errorstring".toList ≠ "noError".toList ∧
      ((inputStep st 95 raw).pc.getData "errorstring".toList).take 6 = "error_".toList) := by
  have hget : (inputStep st 95 raw).pc.getData "errorstring".toList =
      (inputStep st 95 raw).pc.errorstring := getData_errorstring _
  have hreg : (inputStep st 95 raw).pc.m_errorstateRegister = decodeErrorstateRegister raw := by
    rw [inputStep_95]
    exact inputErrorstate_register st raw
  have hstat : (inputStep st 95 raw).pc.m_actualData.statusString =
      if raw = 0 then "healthy" else "problem" := by
    rw [inputStep_95]
    exact inputErrorstate_statusString st raw
  have hmask := decodeErrorstateRegister_none raw
  have hcases := errorstring_cases (inputStep st 95 raw).pc
  rw [hget, hreg, hstat]
  rw [hreg] at hcases
  refine ⟨?_, ?_, ?_, hmask, ?_, ?_⟩
  · by_cases h : raw = 0
    · rw [if_pos h]
      exact ⟨fun _ => h, fun _ => rfl⟩
    · rw [if_neg h]
      exact ⟨fun h2 => absurd h2 (by decide), fun h2 => absurd h2 h⟩
  · intro h
    rw [if_neg h]
  · rcases hcases with ⟨h1, h2⟩ | ⟨h1, h2, _⟩
    · exact ⟨fun _ => h1, fun _ => h2⟩
    · exact ⟨fun h3 => absurd h3 h2, fun h3 => absurd h3 h1⟩
  · intro h
    rcases hcases with ⟨_, h2⟩ | ⟨h1, _, _⟩
    · exact h2
    · exact absurd (hmask.mpr (by rw [h]; rfl)) h1
  · intro h
    have hne : raw ≠ 0 := by
      rintro rfl
      exact h rfl
    rw [if_neg hne]
    rcases hcases with ⟨h1, _⟩ | ⟨_, h2, h3⟩
    · exact absurd (hmask.mp h1) h
    · exact ⟨rfl, h2, h3⟩

/-- C36 (amended) at three words handled by the sample instrument: 0 (healthy, noError),
0x0202 (SD-card and flow error) and 0x0100 (no decoded flag). -/
theorem C36_errorstate_witness :
    (inputStep (inputLoopStart sampleCounter sampleNow sampleUninit) 95
      0).pc.m_actualData.statusString = "healthy" ∧
    (inputStep (inputLoopStart sampleCounter sampleNow sampleUninit) 95 0).pc.getData
      "errorstring".toList = "noError".toList ∧
    ((inputStep (inputLoopStart sampleCounter sampleNow sampleUninit) 95
      0x0202).pc.m_actualData.statusString = "problem" ∧
      (inputStep (inputLoopStart sampleCounter sampleNow sampleUninit) 95 0x0202).pc.getData
        "errorstring".toList ≠ "noError".toList ∧
      ((inputStep (inputLoopStart sampleCounter sampleNow sampleUninit) 95 0x0202).pc.getData
        "errorstring".toList).take 6 = "error_".toList) ∧
    (inputStep (inputLoopStart sampleCounter sampleNow sampleUninit) 95
      0x0100).pc.m_actualData.statusString = "problem" :=
  ⟨(C36_errorstate (inputLoopStart sampleCounter sampleNow sampleUninit) 0).1.mpr rfl,
    (C36_errorstate (inputLoopStart sampleCounter sampleNow sampleUninit) 0).2.2.2.2.1 rfl,
    (C36_errorstate (inputLoopStart sampleCounter sampleNow sampleUninit) 0x0202).2.2.2.2.2
      (by decide),
    (C36_errorstate (inputLoopStart sampleCounter sampleNow sampleUninit) 0x0100).2.1
      (by decide)⟩
/-! ## The three strings -/

theorem inputClearStrings_strings (st : InputLoopState) (reg : Nat) :
    (inputClearStrings st reg).pc.m_deviceInfo.deviceInfoString =
      (if reg = 0 then [] else st.pc.m_deviceInfo.deviceInfoString) ∧
    (inputClearStrings st reg).pc.m_deviceInfo.deviceIdString =
      (if reg = 64 then [] else st.pc.m_deviceInfo.deviceIdString) ∧
    (inputClearStrings st reg).pc.m_physicalUnit =
      (if reg = 96 then [] else st.pc.m_physicalUnit) := by
  unfold inputClearStrings
  by_cases h0 : reg = 0
  · subst h0
    exact ⟨rfl, rfl, rfl⟩
  · by_cases h64 : reg = 64
    · subst h64
      exact ⟨rfl, rfl, rfl⟩
    · by_cases h96 : reg = 96
      · subst h96
        exact ⟨rfl, rfl, rfl⟩
      · simp only [if_neg h0, if_neg h64, if_neg h96]
        exact ⟨trivial, trivial, trivial⟩

theorem inputDispatch_strings_other (st : InputLoopState) (c : InputCase) (w : Nat)
    (h1 : c ≠ InputCase.deviceInfoString) (h2 : c ≠ InputCase.deviceIDString)
    (h3 : c ≠ InputCase.physicalUnitString) :
    (inputDispatch st c w).pc.m_deviceInfo.deviceInfoString =
      st.pc.m_deviceInfo.deviceInfoString ∧
    (inputDispatch st c w).pc.m_deviceInfo.deviceIdString = st.pc.m_deviceInfo.deviceIdString ∧
    (inputDispatch st c w).pc.m_physicalUnit = st.pc.m_physicalUnit := by
  cases c with
  | liveTime f =>
    simp only [inputDispatch]
    split
    · rw [show (inputTimeField st f w).pc = st.pc from inputTimeField_pc st f w]
      exact ⟨rfl, rfl, rfl⟩
    · rw [inputTimeField_pc st f w]
      exact ⟨rfl, rfl, rfl⟩
  | archiveTime f =>
    simp only [inputDispatch]
    split
    · rw [show (inputTimeField st f w).pc = st.pc from inputTimeField_pc st f w]
      exact ⟨rfl, rfl, rfl⟩
    · rw [inputTimeField_pc st f w]
      exact ⟨rfl, rfl, rfl⟩
  | liveChannel k part =>
    simp only [inputDispatch]
    split <;> exact ⟨rfl, rfl, rfl⟩
  | archiveChannel k part =>
    simp only [inputDispatch]
    split
    · split <;> exact ⟨rfl, rfl, rfl⟩
    · exact ⟨rfl, rfl, rfl⟩
  | errorstateRegister =>
    simp only [inputDispatch, inputErrorstate]
    split <;> exact ⟨rfl, rfl, rfl⟩
  | deviceInfoString => exact absurd rfl h1
  | deviceIDString => exact absurd rfl h2
  | physicalUnitString => exact absurd rfl h3
  | _ => exact ⟨rfl, rfl, rfl⟩

theorem covers_not_string (c : InputCase) (reg : Nat) (hc : c.covers reg)
    (h1 : c ≠ InputCase.deviceInfoString) (h2 : c ≠ InputCase.deviceIDString)
    (h3 : c ≠ InputCase.physicalUnitString) :
    ¬ reg ≤ 47 ∧ ¬ (64 ≤ reg ∧ reg ≤ 79) ∧ ¬ (96 ≤ reg ∧ reg ≤ 111) := by
  cases c with
  | deviceInfoString => exact absurd rfl h1
  | deviceIDString => exact absurd rfl h2
  | physicalUnitString => exact absurd rfl h3
  | other =>
    obtain ⟨a, _, _, _, b, c, _, _⟩ := hc
    exact ⟨by omega, b, c⟩
  | registersetVersion => have e : reg = 81 := hc; omega
  | statusRegister => have e : reg = 88 := hc; omega
  | errorstateRegister => have e : reg = 95 := hc; omega
  | liveTime f => have e : reg = 256 + f.toIndex := hc; omega
  | liveChannel k part => have e : reg = 262 + 3 * k.val + part.toIndex := hc; omega
  | archiveTime f => have e : reg = 512 + f.toIndex := hc; omega
  | archiveSamplingTime => have e : reg = 518 := hc; omega
  | archiveOutputDataFormat => have e : reg = 519 := hc; omega
  | archiveChannel k part => have e : reg = 520 + 3 * k.val + part.toIndex := hc; omega

/-- The three strings after one pass through the loop body: a word for a register of a
string range is appended to that string, which is cleared first if the register is the
first one of the range; the other strings stay. -/
theorem inputStep_strings (st : InputLoopState) (reg w : Nat) :
    (inputStep st reg w).pc.m_deviceInfo.deviceInfoString =
      (if reg ≤ 47 then
        (if reg = 0 then [] else st.pc.m_deviceInfo.deviceInfoString) ++ [w]
      else st.pc.m_deviceInfo.deviceInfoString) ∧
    (inputStep st reg w).pc.m_deviceInfo.deviceIdString =
      (if 64 ≤ reg ∧ reg ≤ 79 then
        (if reg = 64 then [] else st.pc.m_deviceInfo.deviceIdString) ++ [w]
      else st.pc.m_deviceInfo.deviceIdString) ∧
    (inputStep st reg w).pc.m_physicalUnit =
      (if 96 ≤ reg ∧ reg ≤ 111 then (if reg = 96 then [] else st.pc.m_physicalUnit) ++ [w]
      else st.pc.m_physicalUnit) := by
  refine inputStep_cases (fun s =>
    s.pc.m_deviceInfo.deviceInfoString =
      (if reg ≤ 47 then
        (if reg = 0 then [] else st.pc.m_deviceInfo.deviceInfoString) ++ [w]
      else st.pc.m_deviceInfo.deviceInfoString) ∧
    s.pc.m_deviceInfo.deviceIdString =
      (if 64 ≤ reg ∧ reg ≤ 79 then
        (if reg = 64 then [] else st.pc.m_deviceInfo.deviceIdString) ++ [w]
      else st.pc.m_deviceInfo.deviceIdString) ∧
    s.pc.m_physicalUnit =
      (if 96 ≤ reg ∧ reg ≤ 111 then (if reg = 96 then [] else st.pc.m_physicalUnit) ++ [w]
      else st.pc.m_physicalUnit)) st reg w ?_
  intro c hc
  obtain ⟨k1, k2, k3⟩ := inputClearStrings_strings st reg
  by_cases h1 : c = InputCase.deviceInfoString
  · subst h1
    have hr : reg ≤ 47 := hc
    rw [if_pos hr, if_neg (show ¬ (64 ≤ reg ∧ reg ≤ 79) by omega),
      if_neg (show ¬ (96 ≤ reg ∧ reg ≤ 111) by omega), ← k1]
    have e2 : (if reg = 64 then [] else st.pc.m_deviceInfo.deviceIdString) =
        st.pc.m_deviceInfo.deviceIdString := if_neg (show ¬ reg = 64 by omega)
    have e3 : (if reg = 96 then [] else st.pc.m_physicalUnit) = st.pc.m_physicalUnit :=
      if_neg (show ¬ reg = 96 by omega)
    rw [e2] at k2
    rw [e3] at k3
    exact ⟨rfl, k2, k3⟩
  · by_cases h2 : c = InputCase.deviceIDString
    · subst h2
      have hr : 64 ≤ reg ∧ reg ≤ 79 := hc
      rw [if_neg (show ¬ reg ≤ 47 by omega), if_pos hr,
        if_neg (show ¬ (96 ≤ reg ∧ reg ≤ 111) by omega), ← k2]
      have e1 : (if reg = 0 then [] else st.pc.m_deviceInfo.deviceInfoString) =
          st.pc.m_deviceInfo.deviceInfoString := if_neg (show ¬ reg = 0 by omega)
      have e3 : (if reg = 96 then [] else st.pc.m_physicalUnit) = st.pc.m_physicalUnit :=
        if_neg (show ¬ reg = 96 by omega)
      rw [e1] at k1
      rw [e3] at k3
      exact ⟨k1, rfl, k3⟩
    · by_cases h3 : c = InputCase.physicalUnitString
      · subst h3
        have hr : 96 ≤ reg ∧ reg ≤ 111 := hc
        rw [if_neg (show ¬ reg ≤ 47 by omega),
          if_neg (show ¬ (64 ≤ reg ∧ reg ≤ 79) by omega), if_pos hr, ← k3]
        have e1 : (if reg = 0 then [] else st.pc.m_deviceInfo.deviceInfoString) =
            st.pc.m_deviceInfo.deviceInfoString := if_neg (show ¬ reg = 0 by omega)
        have e2 : (if reg = 64 then [] else st.pc.m_deviceInfo.deviceIdString) =
            st.pc.m_deviceInfo.deviceIdString := if_neg (show ¬ reg = 64 by omega)
        rw [e1] at k1
        rw [e2] at k2
        exact ⟨k1, k2, rfl⟩
      · obtain ⟨n1, n2, n3⟩ := covers_not_string c reg hc h1 h2 h3
        obtain ⟨d1, d2, d3⟩ := inputDispatch_strings_other (inputClearStrings st reg) c w h1 h2 h3
        have e1 : (if reg = 0 then [] else st.pc.m_deviceInfo.deviceInfoString) =
            st.pc.m_deviceInfo.deviceInfoString := if_neg (show ¬ reg = 0 by omega)
        have e2 : (if reg = 64 then [] else st.pc.m_deviceInfo.deviceIdString) =
            st.pc.m_deviceInfo.deviceIdString := if_neg (show ¬ reg = 64 by omega)
        have e3 : (if reg = 96 then [] else st.pc.m_physicalUnit) = st.pc.m_physicalUnit :=
          if_neg (show ¬ reg = 96 by omega)
        rw [e1] at k1
        rw [e2] at k2
        rw [e3] at k3
        rw [if_neg n1, if_neg n2, if_neg n3]
        exact ⟨d1.trans k1, d2.trans k2, d3.trans k3⟩

/-- A run of words inside a string range, after its first register, is appended to the
string. -/
theorem inputLoop_string_append (f : InputLoopState → List Nat) (lo hi : Nat)
    (hhi : hi < 65535)
    (hstep : ∀ st r w, lo < r → r ≤ hi → f (inputStep st r w) = f st ++ [w])
    (data : List Nat) :
    ∀ (st : InputLoopState) (reg : Nat), lo < reg → reg + data.length ≤ hi + 1 →
      f (inputLoop st reg data) = f st ++ data := by
  induction data with
  | nil => intro st reg _ _; simp [inputLoop]
  | cons w rest ih =>
    intro st reg h1 h2
    have hlen : reg + (rest.length + 1) ≤ hi + 1 := by simpa using h2
    rw [inputLoop_cons]
    have e : (reg + 1) % 65536 = reg + 1 := Nat.mod_eq_of_lt (by omega)
    rw [e, ih (inputStep st reg w) (reg + 1) (by omega) (by omega),
      hstep st reg w h1 (by omega)]
    simp

theorem inputStep_unit_inside (st : InputLoopState) (r w : Nat) (h1 : 96 < r) (h2 : r ≤ 111) :
    (inputStep st r w).pc.m_physicalUnit = st.pc.m_physicalUnit ++ [w] := by
  rw [(inputStep_strings st r w).2.2, if_pos (show 96 ≤ r ∧ r ≤ 111 by omega),
    if_neg (show ¬ r = 96 by omega)]

theorem inputStep_info_inside (st : InputLoopState) (r w : Nat) (h1 : 0 < r) (h2 : r ≤ 47) :
    (inputStep st r w).pc.m_deviceInfo.deviceInfoString =
      st.pc.m_deviceInfo.deviceInfoString ++ [w] := by
  rw [(inputStep_strings st r w).1, if_pos h2, if_neg (show ¬ r = 0 by omega)]

theorem inputStep_id_inside (st : InputLoopState) (r w : Nat) (h1 : 64 < r) (h2 : r ≤ 79) :
    (inputStep st r w).pc.m_deviceInfo.deviceIdString =
      st.pc.m_deviceInfo.deviceIdString ++ [w] := by
  rw [(inputStep_strings st r w).2.1, if_pos (show 64 ≤ r ∧ r ≤ 79 by omega),
    if_neg (show ¬ r = 64 by omega)]

/-- A read of a whole string range: the string afterwards is the list of the words. -/
theorem inputLoop_full_strings (st : InputLoopState) (data : List Nat) :
    (data.length = 16 → (inputLoop st 96 data).pc.m_physicalUnit = data) ∧
    (data.length = 48 → (inputLoop st 0 data).pc.m_deviceInfo.deviceInfoString = data) ∧
    (data.length = 16 → (inputLoop st 64 data).pc.m_deviceInfo.deviceIdString = data) := by
  cases data with
  | nil => exact ⟨fun h => by simp at h, fun h => by simp at h, fun h => by simp at h⟩
  | cons w rest =>
    refine ⟨?_, ?_, ?_⟩
    · intro h
      have hl : rest.length = 15 := by simpa using h
      rw [inputLoop_cons]
      show (inputLoop (inputStep st 96 w) 97 rest).pc.m_physicalUnit = _
      rw [inputLoop_string_append (fun s => s.pc.m_physicalUnit) 96 111 (by decide)
        inputStep_unit_inside rest _ 97 (by decide) (by omega), (inputStep_strings st 96 w).2.2]
      rfl
    · intro h
      have hl : rest.length = 47 := by simpa using h
      rw [inputLoop_cons]
      show (inputLoop (inputStep st 0 w) 1 rest).pc.m_deviceInfo.deviceInfoString = _
      rw [inputLoop_string_append (fun s => s.pc.m_deviceInfo.deviceInfoString) 0 47 (by decide)
        inputStep_info_inside rest _ 1 (by decide) (by omega), (inputStep_strings st 0 w).1]
      rfl
    · intro h
      have hl : rest.length = 15 := by simpa using h
      rw [inputLoop_cons]
      show (inputLoop (inputStep st 64 w) 65 rest).pc.m_deviceInfo.deviceIdString = _
      rw [inputLoop_string_append (fun s => s.pc.m_deviceInfo.deviceIdString) 64 79 (by decide)
        inputStep_id_inside rest _ 65 (by decide) (by omega), (inputStep_strings st 64 w).2.1]
      rfl

theorem inputClearStrings_address (st : InputLoopState) (reg : Nat) :
    (inputClearStrings st reg).pc.m_modbusAddress = st.pc.m_modbusAddress := by
  unfold inputClearStrings
  split <;> split <;> split <;> rfl

theorem inputDispatch_address (st : InputLoopState) (c : InputCase) (w : Nat) :
    (inputDispatch st c w).pc.m_modbusAddress = st.pc.m_modbusAddress := by
  cases c with
  | liveTime f =>
    simp only [inputDispatch]
    split
    · exact congrArg (fun p => p.m_modbusAddress) (inputTimeField_pc st f w)
    · exact congrArg (fun p => p.m_modbusAddress) (inputTimeField_pc st f w)
  | archiveTime f =>
    simp only [inputDispatch]
    split
    · exact congrArg (fun p => p.m_modbusAddress) (inputTimeField_pc st f w)
    · exact congrArg (fun p => p.m_modbusAddress) (inputTimeField_pc st f w)
  | liveChannel k part =>
    simp only [inputDispatch]
    split <;> rfl
  | archiveChannel k part =>
    simp only [inputDispatch]
    split
    · split <;> rfl
    · rfl
  | errorstateRegister =>
    simp only [inputDispatch, inputErrorstate]
    split <;> rfl
  | _ => rfl

theorem inputStep_address (st : InputLoopState) (reg w : Nat) :
    (inputStep st reg w).pc.m_modbusAddress = st.pc.m_modbusAddress := by
  refine inputStep_cases (fun s => s.pc.m_modbusAddress = st.pc.m_modbusAddress) st reg w ?_
  intro c _
  show (inputDispatch (inputClearStrings st reg) c w).pc.m_modbusAddress = _
  rw [inputDispatch_address, inputClearStrings_address]

theorem inputLoop_address (data : List Nat) :
    ∀ (st : InputLoopState) (reg : Nat),
      (inputLoop st reg data).pc.m_modbusAddress = st.pc.m_modbusAddress := by
  induction data with
  | nil => intro st reg; rfl
  | cons w rest ih =>
    intro st reg
    rw [inputLoop_cons, ih, inputStep_address]

theorem markAsOnline_address (pc : ParticleCounter) (now : QDateTime) :
    (pc.markAsOnline now).1.m_modbusAddress = pc.m_modbusAddress := by
  unfold ParticleCounter.markAsOnline
  split <;> rfl

theorem slot_input_address (pc : ParticleCounter) (now : QDateTime) (uninit : ArchiveDataset)
    (tid adr reg : Nat) (data : List Nat) :
    (pc.slot_receivedInputRegisterData now uninit tid adr reg data).1.m_modbusAddress =
      pc.m_modbusAddress := by
  unfold ParticleCounter.slot_receivedInputRegisterData
  split
  · rfl
  · show (inputLoop (inputLoopStart pc now uninit) reg data).pc.m_modbusAddress = _
    rw [inputLoop_address]
    exact markAsOnline_address pc now

theorem slot_input_state (pc : ParticleCounter) (now : QDateTime) (uninit : ArchiveDataset)
    (tid adr reg : Nat) (data : List Nat) (hadr : (adr : Int) = pc.m_modbusAddress) :
    (pc.slot_receivedInputRegisterData now uninit tid adr reg data).1 =
      (inputLoop (inputLoopStart pc now uninit) reg data).pc := by
  unfold ParticleCounter.slot_receivedInputRegisterData
  rw [if_neg (by simpa using hadr)]

/-- C32: a read of 16 words that starts at register 96 leaves exactly those 16 code points,
in order, in the physical-unit string, whatever the string was before; likewise 48 words at
register 0 give the device-info string and 16 words at register 64 the device-id string.
Handling the same full response a second time gives the same string as handling it
once. -/
theorem C32_string_reads (pc : ParticleCounter) (now : QDateTime) (uninit : ArchiveDataset)
    (tid adr : Nat) (data : List Nat) (hadr : (adr : Int) = pc.m_modbusAddress) :
    (data.length = 16 →
      (pc.slot_receivedInputRegisterData now uninit tid adr 96 data).1.m_physicalUnit = data) ∧
    (data.length = 48 →
      (pc.slot_receivedInputRegisterData now uninit tid adr 0
        data).1.m_deviceInfo.deviceInfoString = data) ∧
    (data.length = 16 →
      (pc.slot_receivedInputRegisterData now uninit tid adr 64
        data).1.m_deviceInfo.deviceIdString = data) ∧
    (∀ (now2 : QDateTime) (uninit2 : ArchiveDataset) (tid2 : Nat),
      (data.length = 16 →
        ((pc.slot_receivedInputRegisterData now uninit tid adr 96
          data).1.slot_receivedInputRegisterData now2 uninit2 tid2 adr 96 data).1.m_physicalUnit =
        (pc.slot_receivedInputRegisterData now uninit tid adr 96 data).1.m_physicalUnit) ∧
      (data.length = 48 →
        ((pc.slot_receivedInputRegisterData now uninit tid adr 0
          data).1.slot_receivedInputRegisterData now2 uninit2 tid2 adr 0
            data).1.m_deviceInfo.deviceInfoString =
        (pc.slot_receivedInputRegisterData now uninit tid adr 0
          data).1.m_deviceInfo.deviceInfoString) ∧
      (data.length = 16 →
        ((pc.slot_receivedInputRegisterData now uninit tid adr 64
          data).1.slot_receivedInputRegisterData now2 uninit2 tid2 adr 64
            data).1.m_deviceInfo.deviceIdString =
        (pc.slot_receivedInputRegisterData now uninit tid adr 64
          data).1.m_deviceInfo.deviceIdString)) := by
  have once : ∀ (p : ParticleCounter) (n : QDateTime) (u : ArchiveDataset) (t : Nat),
      (adr : Int) = p.m_modbusAddress →
      (data.length = 16 →
        (p.slot_receivedInputRegisterData n u t adr 96 data).1.m_physicalUnit = data) ∧
      (data.length = 48 →
        (p.slot_receivedInputRegisterData n u t adr 0
          data).1.m_deviceInfo.deviceInfoString = data) ∧
      (data.length = 16 →
        (p.slot_receivedInputRegisterData n u t adr 64
          data).1.m_deviceInfo.deviceIdString = data) := by
    intro p n u t hp
    refine ⟨?_, ?_, ?_⟩
    · intro h
      rw [slot_input_state p n u t adr 96 data hp]
      exact (inputLoop_full_strings _ data).1 h
    · intro h
      rw [slot_input_state p n u t adr 0 data hp]
      exact (inputLoop_full_strings _ data).2.1 h
    · intro h
      rw [slot_input_state p n u t adr 64 data hp]
      exact (inputLoop_full_strings _ data).2.2 h
  obtain ⟨a1, a2, a3⟩ := once pc now uninit tid hadr
  refine ⟨a1, a2, a3, ?_⟩
  intro now2 uninit2 tid2
  refine ⟨?_, ?_, ?_⟩
  · intro h
    rw [a1 h]
    exact (once _ now2 uninit2 tid2 (by rw [slot_input_address]; exact hadr)).1 h
  · intro h
    rw [a2 h]
    exact (once _ now2 uninit2 tid2 (by rw [slot_input_address]; exact hadr)).2.1 h
  · intro h
    rw [a3 h]
    exact (once _ now2 uninit2 tid2 (by rw [slot_input_address]; exact hadr)).2.2 h

/-- C32 at a read of the physical unit "1/ft^3" padded with zero words, handled once and
twice by the sample instrument. -/
theorem C32_string_reads_witness :
    (sampleCounter.slot_receivedInputRegisterData sampleNow sampleUninit 0 3 96
      [49, 47, 102, 116, 94, 51, 0, 0, 0, 0, 0, 0, 0, 0, 0, 0]).1.m_physicalUnit =
      [49, 47, 102, 116, 94, 51, 0, 0, 0, 0, 0, 0, 0, 0, 0, 0] ∧
    ((sampleCounter.slot_receivedInputRegisterData sampleNow sampleUninit 0 3 96
      [49, 47, 102, 116, 94, 51, 0, 0, 0, 0, 0, 0, 0, 0, 0, 0]).1.slot_receivedInputRegisterData
        sampleNow sampleUninit 1 3 96
        [49, 47, 102, 116, 94, 51, 0, 0, 0, 0, 0, 0, 0, 0, 0, 0]).1.m_physicalUnit =
      (sampleCounter.slot_receivedInputRegisterData sampleNow sampleUninit 0 3 96
        [49, 47, 102, 116, 94, 51, 0, 0, 0, 0, 0, 0, 0, 0, 0, 0]).1.m_physicalUnit :=
  ⟨(C32_string_reads sampleCounter sampleNow sampleUninit 0 3
      [49, 47, 102, 116, 94, 51, 0, 0, 0, 0, 0, 0, 0, 0, 0, 0] (by decide)).1 (by decide),
    ((C32_string_reads sampleCounter sampleNow sampleUninit 0 3
      [49, 47, 102, 116, 94, 51, 0, 0, 0, 0, 0, 0, 0, 0, 0, 0] (by decide)).2.2.2
        sampleNow sampleUninit 1).1 (by decide)⟩

theorem inputStep_stringInvariant (st : InputLoopState) (reg w : Nat) (hreg : reg < 65536)
    (h : stringInvariant st reg) : stringInvariant (inputStep st reg w) ((reg + 1) % 65536) := by
  obtain ⟨e1, e2, e3⟩ := inputStep_strings st reg w
  obtain ⟨a1, a2, b1, b2, c1, c2⟩ := h
  unfold stringInvariant
  rw [e1, e2, e3]
  refine ⟨?_, ?_, ?_, ?_, ?_, ?_⟩
  · split_ifs <;>
      (try simp only [List.length_append, List.length_singleton, List.length_nil]) <;> omega
  · intro hr
    split_ifs <;>
      (try simp only [List.length_append, List.length_singleton, List.length_nil]) <;> omega
  · split_ifs <;>
      (try simp only [List.length_append, List.length_singleton, List.length_nil]) <;> omega
  · intro hr
    split_ifs <;>
      (try simp only [List.length_append, List.length_singleton, List.length_nil]) <;> omega
  · split_ifs <;>
      (try simp only [List.length_append, List.length_singleton, List.length_nil]) <;> omega
  · intro hr
    split_ifs <;>
      (try simp only [List.length_append, List.length_singleton, List.length_nil]) <;> omega

theorem inputLoop_stringInvariant (data : List Nat) :
    ∀ (st : InputLoopState) (reg : Nat), reg < 65536 → stringInvariant st reg →
      (inputLoop st reg data).pc.stringsBounded := by
  induction data with
  | nil =>
    intro st reg _ h
    exact ⟨h.1, h.2.2.1, h.2.2.2.2.1⟩
  | cons w rest ih =>
    intro st reg hreg h
    rw [inputLoop_cons]
    exact ih _ _ (Nat.mod_lt _ (by decide)) (inputStep_stringInvariant st reg w hreg h)

theorem markAsOnline_strings (pc : ParticleCounter) (now : QDateTime) :
    (pc.markAsOnline now).1.m_deviceInfo = pc.m_deviceInfo ∧
    (pc.markAsOnline now).1.m_physicalUnit = pc.m_physicalUnit := by
  unfold ParticleCounter.markAsOnline
  split <;> exact ⟨rfl, rfl⟩

theorem slot_input_stringsBounded (pc : ParticleCounter) (now : QDateTime)
    (uninit : ArchiveDataset) (tid adr reg : Nat) (data : List Nat)
    (hpc : pc.stringsBounded) (hreg : reg < 65536) (hstart : entersStringsAtStart reg) :
    (pc.slot_receivedInputRegisterData now uninit tid adr reg data).1.stringsBounded := by
  unfold ParticleCounter.slot_receivedInputRegisterData
  split
  · exact hpc
  · show (inputLoop (inputLoopStart pc now uninit) reg data).pc.stringsBounded
    apply inputLoop_stringInvariant data _ reg hreg
    obtain ⟨m1, m2⟩ := markAsOnline_strings pc now
    obtain ⟨b1, b2, b3⟩ := hpc
    obtain ⟨s1, s2, s3⟩ := hstart
    show (pc.markAsOnline now).1.m_deviceInfo.deviceInfoString.length ≤ 48 ∧
      (1 ≤ reg ∧ reg ≤ 47 → (pc.markAsOnline now).1.m_deviceInfo.deviceInfoString.length ≤ reg) ∧
      (pc.markAsOnline now).1.m_deviceInfo.deviceIdString.length ≤ 16 ∧
      (65 ≤ reg ∧ reg ≤ 79 →
        (pc.markAsOnline now).1.m_deviceInfo.deviceIdString.length ≤ reg - 64) ∧
      (pc.markAsOnline now).1.m_physicalUnit.length ≤ 16 ∧
      (97 ≤ reg ∧ reg ≤ 111 → (pc.markAsOnline now).1.m_physicalUnit.length ≤ reg - 96)
    rw [m1, m2]
    exact ⟨b1, fun h => absurd h s1, b2, fun h => absurd h s2, b3, fun h => absurd h s3⟩

/-- C38 (as stated) fails for a response that starts inside a string range: its words are
appended to the string without a clear. After a full read of the physical unit (16 words
at register 96) a response with one word for register 97 leaves 17 characters in the
physical-unit string; in the same way the device-id string reaches 17 and the device-info
string 49 characters. -/
theorem C38_string_grows_counterexample :
    ((sampleCounter.slot_receivedInputRegisterData sampleNow sampleUninit 0 3 96
        (List.replicate 16 65)).1.slot_receivedInputRegisterData sampleNow sampleUninit 1 3 97
        [66]).1.m_physicalUnit.length = 17 ∧
    ((sampleCounter.slot_receivedInputRegisterData sampleNow sampleUninit 0 3 64
        (List.replicate 16 65)).1.slot_receivedInputRegisterData sampleNow sampleUninit 1 3 65
        [66]).1.m_deviceInfo.deviceIdString.length = 17 ∧
    ((sampleCounter.slot_receivedInputRegisterData sampleNow sampleUninit 0 3 0
        (List.replicate 48 65)).1.slot_receivedInputRegisterData sampleNow sampleUninit 1 3 1
        [66]).1.m_deviceInfo.deviceInfoString.length = 49 ∧
    ¬ ((sampleCounter.slot_receivedInputRegisterData sampleNow sampleUninit 0 3 96
        (List.replicate 16 65)).1.slot_receivedInputRegisterData sampleNow sampleUninit 1 3 97
        [66]).1.stringsBounded := by
  have h1 : ((sampleCounter.slot_receivedInputRegisterData sampleNow sampleUninit 0 3 96
        (List.replicate 16 65)).1.slot_receivedInputRegisterData sampleNow sampleUninit 1 3 97
        [66]).1.m_physicalUnit.length = 17 := by decide
  refine ⟨h1, by decide, by decide, ?_⟩
  intro h
  have h2 := h.2.2
  rw [h1] at h2
  exact absurd h2 (by decide)

/-- C38 (amended): if the three strings of an instrument are within their bounds (48, 16
and 16 characters), they are within their bounds after every sequence of input-register
responses, of any lengths and for any unit addresses, whose start registers do not lie
inside a string range behind its first register (registers 1 to 47, 65 to 79 and 97 to
111); a new instrument has empty strings. -/
theorem C38_strings_bounded (pc : ParticleCounter) (responses : List InputResponse)
    (hpc : pc.stringsBounded)
    (hresp : ∀ r ∈ responses, r.reg < 65536 ∧ entersStringsAtStart r.reg) :
    (pc.afterInputResponses responses).stringsBounded ∧
    ParticleCounter.new.stringsBounded := by
  refine ⟨?_, by decide⟩
  induction responses generalizing pc with
  | nil => exact hpc
  | cons r rest ih =>
    show (ParticleCounter.afterInputResponses
      (pc.slot_receivedInputRegisterData r.now r.uninit r.telegramID r.adr r.reg r.data).1
      rest).stringsBounded
    apply ih
    · exact slot_input_stringsBounded pc r.now r.uninit r.telegramID r.adr r.reg r.data hpc
        (hresp r (List.mem_cons_self _ _)).1 (hresp r (List.mem_cons_self _ _)).2
    · intro r2 hr2
      exact hresp r2 (List.mem_cons_of_mem _ hr2)

/-- C38 (amended) at a full read of the physical unit followed by a status read that starts
at register 88 and runs through the whole range of the physical unit. -/
theorem C38_strings_bounded_witness :
    (sampleCounter.afterInputResponses
      [{ now := sampleNow, uninit := sampleUninit, telegramID := 0, adr := 3, reg := 96,
         data := List.replicate 16 65 },
       { now := sampleNow, uninit := sampleUninit, telegramID := 1, adr := 3, reg := 88,
         data := List.replicate 24 66 }]).stringsBounded :=
  (C38_strings_bounded sampleCounter _ (by decide) (by
    intro r hr
    simp only [List.mem_cons, List.mem_singleton, List.not_mem_nil, or_false] at hr
    rcases hr with h | h <;> subst h <;> exact ⟨by decide, by decide⟩)).1
/-! ## Parsing of a command line -/

theorem split_word_sep (sep : Char) (w x : List Char) (hw : sep ∉ w) :
    QString.split sep (w ++ sep :: x) = w :: QString.split sep x := by
  induction w with
  | nil => simp [QString.split]
  | cons c rest ih =>
    have hc : c ≠ sep := fun h => hw (by rw [h]; exact List.mem_cons_self _ _)
    have hr : sep ∉ rest := fun h => hw (List.mem_cons_of_mem _ h)
    show QString.split sep (c :: (rest ++ sep :: x)) = _
    rw [QString.split, if_neg hc, ih hr]

theorem split_word (sep : Char) (w : List Char) (hw : sep ∉ w) :
    QString.split sep w = [w] := by
  induction w with
  | nil => rfl
  | cons c rest ih =>
    have hc : c ≠ sep := fun h => hw (by rw [h]; exact List.mem_cons_self _ _)
    have hr : sep ∉ rest := fun h => hw (List.mem_cons_of_mem _ h)
    rw [QString.split, if_neg hc, ih hr]

theorem splitSkip_nil (sep : Char) : QString.splitSkipEmptyParts sep [] = [] := rfl

theorem splitSkip_sep (sep : Char) (x : List Char) :
    QString.splitSkipEmptyParts sep (sep :: x) = QString.splitSkipEmptyParts sep x := by
  unfold QString.splitSkipEmptyParts
  rw [QString.split, if_pos rfl]
  rfl

theorem splitSkip_replicate (sep : Char) (n : Nat) (x : List Char) :
    QString.splitSkipEmptyParts sep (List.replicate n sep ++ x) =
      QString.splitSkipEmptyParts sep x := by
  induction n with
  | zero => rfl
  | succ n ih =>
    show QString.splitSkipEmptyParts sep (sep :: (List.replicate n sep ++ x)) = _
    rw [splitSkip_sep, ih]

/-- The chunks of a word followed by a text that is empty or starts with the separator. -/
theorem splitSkip_word (sep : Char) (w y : List Char) (hw : sep ∉ w)
    (hy : y = [] ∨ ∃ r, y = sep :: r) :
    QString.splitSkipEmptyParts sep (w ++ y) =
      [w].filter (fun p => decide (p ≠ [])) ++ QString.splitSkipEmptyParts sep y := by
  rcases hy with rfl | ⟨r, rfl⟩
  · rw [List.append_nil, splitSkip_nil, List.append_nil]
    unfold QString.splitSkipEmptyParts
    rw [split_word sep w hw]
  · rw [splitSkip_sep]
    unfold QString.splitSkipEmptyParts
    rw [split_word_sep sep w r hw]
    exact List.filter_append [w] (QString.split sep r)

theorem flagsText_tail_blank (flags : List (Nat × List Char)) (trailing : Nat) :
    flagsText flags ++ List.replicate trailing ' ' = [] ∨
      ∃ r, flagsText flags ++ List.replicate trailing ' ' = ' ' :: r := by
  cases flags with
  | nil =>
    cases trailing with
    | zero => exact Or.inl rfl
    | succ n => exact Or.inr ⟨List.replicate n ' ', rfl⟩
  | cons f rest =>
    obtain ⟨gap, flag⟩ := f
    exact Or.inr ⟨List.replicate gap ' ' ++ flag ++ flagsText rest ++ List.replicate trailing ' ',
      by simp [flagsText, List.replicate_succ]⟩

theorem splitSkip_flagsText (flags : List (Nat × List Char)) (trailing : Nat)
    (hflags : ∀ f ∈ flags, ' ' ∉ f.2) :
    QString.splitSkipEmptyParts ' ' (flagsText flags ++ List.replicate trailing ' ') =
      (flags.map Prod.snd).filter (fun p => decide (p ≠ [])) := by
  induction flags with
  | nil =>
    show QString.splitSkipEmptyParts ' ' (List.replicate trailing ' ') = []
    have := splitSkip_replicate ' ' trailing []
    rw [List.append_nil] at this
    rw [this]
    rfl
  | cons f rest ih =>
    obtain ⟨gap, flag⟩ := f
    have hf : ' ' ∉ flag := hflags (gap, flag) (List.mem_cons_self _ _)
    have hrest : ∀ f ∈ rest, ' ' ∉ f.2 := fun f hf => hflags f (List.mem_cons_of_mem _ hf)
    have e : flagsText ((gap, flag) :: rest) ++ List.replicate trailing ' ' =
        List.replicate (gap + 1) ' ' ++ (flag ++ (flagsText rest ++ List.replicate trailing ' ')) := by
      simp [flagsText]
    rw [e, splitSkip_replicate, splitSkip_word ' ' flag _ hf (flagsText_tail_blank rest trailing),
      ih hrest]
    exact (List.filter_append [flag] (rest.map Prod.snd)).symm

theorem splitSkip_drop_one (y : List Char) (hy : y = [] ∨ ∃ r, y = ' ' :: r) :
    QString.splitSkipEmptyParts ' ' (y.drop 1) = QString.splitSkipEmptyParts ' ' y := by
  rcases hy with rfl | ⟨r, rfl⟩
  · rfl
  · rw [splitSkip_sep]
    rfl

theorem indexOf_word_sep (sep : Char) (w x : List Char) (hw : sep ∉ w) :
    QString.indexOf sep (w ++ sep :: x) = (w.length : Int) := by
  induction w with
  | nil => simp [QString.indexOf]
  | cons c rest ih =>
    have hc : c ≠ sep := fun h => hw (by rw [h]; exact List.mem_cons_self _ _)
    have hr : sep ∉ rest := fun h => hw (List.mem_cons_of_mem _ h)
    show QString.indexOf sep (c :: (rest ++ sep :: x)) = _
    rw [QString.indexOf, if_neg hc, ih hr, if_neg (by omega)]
    simp

theorem indexOf_word (sep : Char) (w : List Char) (hw : sep ∉ w) :
    QString.indexOf sep w = -1 := by
  induction w with
  | nil => rfl
  | cons c rest ih =>
    have hc : c ≠ sep := fun h => hw (by rw [h]; exact List.mem_cons_self _ _)
    have hr : sep ∉ rest := fun h => hw (List.mem_cons_of_mem _ h)
    rw [QString.indexOf, if_neg hc, ih hr, if_pos rfl]

theorem commandLength_word (w y : List Char) (hw : ' ' ∉ w)
    (hy : y = [] ∨ ∃ r, y = ' ' :: r) :
    commandLength (w ++ y) = (w.length : Int) := by
  unfold commandLength
  rcases hy with rfl | ⟨r, rfl⟩
  · rw [List.append_nil, indexOf_word ' ' w hw, if_pos rfl]
  · rw [indexOf_word_sep ' ' w r hw, if_neg (by omega)]

theorem flagsText_chars (flags : List (Nat × List Char)) (c : Char) (hc : c ∈ flagsText flags) :
    c = ' ' ∨ ∃ f ∈ flags, c ∈ f.2 := by
  induction flags with
  | nil => simp [flagsText] at hc
  | cons f rest ih =>
    obtain ⟨gap, flag⟩ := f
    simp only [flagsText, List.mem_append] at hc
    rcases hc with (h | h) | h
    · exact Or.inl (List.eq_of_mem_replicate h)
    · exact Or.inr ⟨(gap, flag), List.mem_cons_self _ _, h⟩
    · rcases ih h with h2 | ⟨f, hf, hcf⟩
      · exact Or.inl h2
      · exact Or.inr ⟨f, List.mem_cons_of_mem _ hf, hcf⟩

theorem removeNewlines_commandLine (command : List Char) (flags : List (Nat × List Char))
    (trailing : Nat) (eol : List Char)
    (hcmd : ∀ c ∈ command, c ≠ ' ' ∧ c ≠ '\r' ∧ c ≠ '\n')
    (hflags : ∀ f ∈ flags, ∀ c ∈ f.2, c ≠ ' ' ∧ c ≠ '\r' ∧ c ≠ '\n')
    (heol : ∀ c ∈ eol, c = '\r' ∨ c = '\n') :
    removeNewlines (commandLine command flags trailing eol) =
      command ++ (flagsText flags ++ List.replicate trailing ' ') := by
  unfold removeNewlines commandLine
  rw [List.filter_append, List.filter_append, List.filter_append]
  have h1 : command.filter (fun c => decide (¬ (c = '\r' ∨ c = '\n'))) = command := by
    rw [List.filter_eq_self]
    intro c hc
    have := hcmd c hc
    simp [this.2.1, this.2.2]
  have h2 : (flagsText flags).filter (fun c => decide (¬ (c = '\r' ∨ c = '\n'))) =
      flagsText flags := by
    rw [List.filter_eq_self]
    intro c hc
    rcases flagsText_chars flags c hc with h | ⟨f, hf, hcf⟩
    · rw [h]; decide
    · have := hflags f hf c hcf
      simp [this.2.1, this.2.2]
  have h3 : (List.replicate trailing ' ').filter (fun c => decide (¬ (c = '\r' ∨ c = '\n'))) =
      List.replicate trailing ' ' := by
    rw [List.filter_eq_self]
    intro c hc
    rw [List.eq_of_mem_replicate hc]; decide
  have h4 : eol.filter (fun c => decide (¬ (c = '\r' ∨ c = '\n'))) = [] := by
    rw [List.filter_eq_nil_iff]
    intro c hc
    rcases heol c hc with h | h <;> simp [h]
  rw [h1, h2, h3, h4, List.append_nil, List.append_assoc]

theorem QMap.insert_new (m : QMap) (k v : List Char) (h : k ∉ m.keys) :
    QMap.insert m k v = m ++ [(k, v)] := by
  unfold QMap.insert
  rw [if_neg]
  intro hany
  apply h
  rw [List.any_eq_true] at hany
  obtain ⟨e, he, hk⟩ := hany
  have hk2 : e.1 = k := by simpa using hk
  rw [← hk2]
  exact List.mem_map_of_mem _ he

theorem parseChunk_cases (s : ParseState) (chunk : List Char) :
    (chunkEntries chunk = [] ∧ (parseChunk s chunk).data = s.data) ∨
    (∃ k v, chunkEntries chunk = [(k, v)] ∧
      (parseChunk s chunk).data = QMap.insert s.data k v) := by
  unfold chunkEntries parseChunk
  simp only []
  split_ifs
  · exact Or.inl ⟨rfl, rfl⟩
  · exact Or.inr ⟨_, _, rfl, rfl⟩
  · exact Or.inr ⟨_, _, rfl, rfl⟩
  · exact Or.inl ⟨rfl, rfl⟩

theorem foldl_parseChunk_data (chunks : List (List Char)) :
    ∀ s : ParseState, ((chunks.flatMap chunkEntries).map Prod.fst).Nodup →
      (∀ k ∈ (chunks.flatMap chunkEntries).map Prod.fst, k ∉ s.data.keys) →
      (chunks.foldl parseChunk s).data = s.data ++ chunks.flatMap chunkEntries := by
  induction chunks with
  | nil => intro s _ _; simp
  | cons c rest ih =>
    intro s hnd hdis
    rw [List.foldl_cons, List.flatMap_cons]
    rw [List.flatMap_cons, List.map_append, List.nodup_append] at hnd
    obtain ⟨_, hnd2, hdj⟩ := hnd
    rcases parseChunk_cases s c with ⟨h1, h2⟩ | ⟨k, v, h1, h2⟩
    · rw [ih (parseChunk s c) hnd2 ?_, h2, h1, List.nil_append]
      intro k hk
      rw [h2]
      apply hdis
      rw [List.flatMap_cons, List.map_append]
      exact List.mem_append_right _ hk
    · have hk : k ∉ s.data.keys := by
        apply hdis
        rw [List.flatMap_cons, h1]
        simp
      have h3 : (parseChunk s c).data = s.data ++ [(k, v)] := by
        rw [h2, QMap.insert_new s.data k v hk]
      rw [ih (parseChunk s c) hnd2 ?_, h3, h1, List.append_assoc]
      intro k2 hk2
      rw [h3]
      have hne : k2 ≠ k := by
        rintro rfl
        rw [h1] at hdj
        exact hdj (by simp) hk2
      have hk3 : k2 ∉ s.data.keys := by
        apply hdis
        rw [List.flatMap_cons, List.map_append]
        exact List.mem_append_right _ hk2
      intro hmem
      unfold QMap.keys at hmem hk3
      rw [List.map_append, List.mem_append] at hmem
      rcases hmem with h | h
      · exact hk3 h
      · simp at h
        exact hne h

theorem flatMap_chunkEntries_filter (l : List (List Char)) :
    (l.filter (fun p => decide (p ≠ []))).flatMap chunkEntries = l.flatMap chunkEntries := by
  induction l with
  | nil => rfl
  | cons a rest ih =>
    by_cases h : a = []
    · subst h
      rw [List.filter_cons_of_neg (by simp), ih, List.flatMap_cons]
      rfl
    · rw [List.filter_cons_of_pos (by simpa using h), List.flatMap_cons, List.flatMap_cons, ih]

/-- The result of parsing a command line whose flags have pairwise distinct keys: the
command word, and one entry per flag in the order of the flags. -/
theorem parseLine_commandLine (command : List Char) (flags : List (Nat × List Char))
    (trailing : Nat) (eol : List Char)
    (hcmd : ∀ c ∈ command, c ≠ ' ' ∧ c ≠ '\r' ∧ c ≠ '\n')
    (hflags : ∀ f ∈ flags, ∀ c ∈ f.2, c ≠ ' ' ∧ c ≠ '\r' ∧ c ≠ '\n')
    (heol : ∀ c ∈ eol, c = '\r' ∨ c = '\n')
    (hkeys : (((flags.map Prod.snd).flatMap chunkEntries).map Prod.fst).Nodup) :
    (parseLine (commandLine command flags trailing eol)).command = command ∧
    (parseLine (commandLine command flags trailing eol)).data =
      (flags.map Prod.snd).flatMap chunkEntries := by
  have hline := removeNewlines_commandLine command flags trailing eol hcmd hflags heol
  have hw : ' ' ∉ command := fun h => (hcmd ' ' h).1 rfl
  have hblank := flagsText_tail_blank flags trailing
  have hlen := commandLength_word command _ hw hblank
  have hchunks : QString.splitSkipEmptyParts ' '
      ((command ++ (flagsText flags ++ List.replicate trailing ' ')).drop
        ((command.length : Int) + 1).toNat) =
      (flags.map Prod.snd).filter (fun p => decide (p ≠ [])) := by
    have e : ((command.length : Int) + 1).toNat = command.length + 1 := by omega
    rw [e, List.drop_append, splitSkip_drop_one _ hblank]
    exact splitSkip_flagsText flags trailing (fun f hf h => (hflags f hf ' ' h).1 rfl)
  unfold parseLine
  simp only []
  rw [hline, hlen, hchunks]
  constructor
  · show (command ++ (flagsText flags ++ List.replicate trailing ' ')).take
      ((command.length : Int)).toNat = command
    rw [Int.toNat_ofNat, List.take_left']
    rfl
  · have hfold := foldl_parseChunk_data
      ((flags.map Prod.snd).filter (fun p => decide (p ≠ []))) { data := [], written := [] }
      (by rw [flatMap_chunkEntries_filter]; exact hkeys)
      (by intro k _ h; simp [QMap.keys] at h)
    rw [hfold, flatMap_chunkEntries_filter]
    rfl

theorem chunkEntries_query (key : List Char) (hkey : '=' ∉ key) :
    chunkEntries ('-' :: '-' :: key) = [(key, "query".toList)] := by
  have hs : QString.split '=' ('-' :: '-' :: key) = ['-' :: '-' :: key] := by
    apply split_word
    intro h
    rcases List.mem_cons.mp h with h1 | h1
    · exact absurd h1 (by decide)
    · rcases List.mem_cons.mp h1 with h2 | h2
      · exact absurd h2 (by decide)
      · exact hkey h2
  unfold chunkEntries parseChunk
  simp only [hs]
  rfl

/-- C34: the command word and the key/value map parsed from a command line depend neither
on the order of the flags, if their keys are pairwise distinct, nor on the number of spaces
between the command and the flags, between the flags and after the last flag. For a command
word and flags free of spaces and line ends, two lines with the same command word, flags
that are permutations of each other and any numbers of spaces in these places give the same
command word and maps with the same entries (a map is determined by its entries; their
keys are pairwise distinct); a flag `--key` without `=` is mapped to the value "query". -/
theorem C34_parse_order_and_spacing (command : List Char) (flags flags2 : List (Nat × List Char))
    (trailing trailing2 : Nat) (eol eol2 : List Char)
    (hcmd : ∀ c ∈ command, c ≠ ' ' ∧ c ≠ '\r' ∧ c ≠ '\n')
    (hflags : ∀ f ∈ flags, ∀ c ∈ f.2, c ≠ ' ' ∧ c ≠ '\r' ∧ c ≠ '\n')
    (heol : ∀ c ∈ eol, c = '\r' ∨ c = '\n') (heol2 : ∀ c ∈ eol2, c = '\r' ∨ c = '\n')
    (hperm : (flags2.map Prod.snd).Perm (flags.map Prod.snd))
    (hkeys : (((flags.map Prod.snd).flatMap chunkEntries).map Prod.fst).Nodup) :
    (parseLine (commandLine command flags trailing eol)).command = command ∧
    (parseLine (commandLine command flags2 trailing2 eol2)).command = command ∧
    (parseLine (commandLine command flags2 trailing2 eol2)).data.Perm
      (parseLine (commandLine command flags trailing eol)).data ∧
    (parseLine (commandLine command flags trailing eol)).data.keys.Nodup ∧
    (parseLine (commandLine command flags2 trailing2 eol2)).data.keys.Nodup ∧
    (∀ key value : List Char,
      (key, value) ∈ (parseLine (commandLine command flags2 trailing2 eol2)).data ↔
        (key, value) ∈ (parseLine (commandLine command flags trailing eol)).data) ∧
    (∀ (gap : Nat) (key : List Char), (gap, '-' :: '-' :: key) ∈ flags → '=' ∉ key →
      (key, "query".toList) ∈ (parseLine (commandLine command flags trailing eol)).data) := by
  have hflags2 : ∀ f ∈ flags2, ∀ c ∈ f.2, c ≠ ' ' ∧ c ≠ '\r' ∧ c ≠ '\n' := by
    intro f hf c hc
    have h1 : f.2 ∈ flags.map Prod.snd := hperm.mem_iff.mp (List.mem_map_of_mem _ hf)
    obtain ⟨g, hg, hgf⟩ := List.mem_map.mp h1
    exact hflags g hg c (by rw [hgf]; exact hc)
  have hp : ((flags2.map Prod.snd).flatMap chunkEntries).Perm
      ((flags.map Prod.snd).flatMap chunkEntries) := hperm.flatMap_right chunkEntries
  have hkeys2 : (((flags2.map Prod.snd).flatMap chunkEntries).map Prod.fst).Nodup :=
    (hp.map Prod.fst).nodup_iff.mpr hkeys
  obtain ⟨c1, d1⟩ := parseLine_commandLine command flags trailing eol hcmd hflags heol hkeys
  obtain ⟨c2, d2⟩ := parseLine_commandLine command flags2 trailing2 eol2 hcmd hflags2 heol2 hkeys2
  rw [d1, d2]
  refine ⟨c1, c2, hp, hkeys, hkeys2, fun key value => hp.mem_iff, ?_⟩
  intro gap key hmem hkey
  rw [List.mem_flatMap]
  refine ⟨'-' :: '-' :: key, List.mem_map.mpr ⟨(gap, '-' :: '-' :: key), hmem, rfl⟩, ?_⟩
  rw [chunkEntries_query key hkey]
  exact List.mem_singleton.mpr rfl

/-- C34 at the lines "get-data --id=7 --actual" and "get-data   --actual  --id=7 ", the
first ended by a line feed, the second by carriage return and line feed. -/
theorem C34_parse_order_and_spacing_witness :
    (parseLine "get-data --id=7 --actual\n".toList).command = "get-data".toList ∧
    (parseLine "get-data   --actual  --id=7 \r\n".toList).command = "get-data".toList ∧
    (parseLine "get-data   --actual  --id=7 \r\n".toList).data.Perm
      (parseLine "get-data --id=7 --actual\n".toList).data ∧
    ("actual".toList, "query".toList) ∈ (parseLine "get-data --id=7 --actual\n".toList).data :=
  have h := C34_parse_order_and_spacing "get-data".toList
    [(0, "--id=7".toList), (0, "--actual".toList)]
    [(2, "--actual".toList), (1, "--id=7".toList)] 0 1 "\n".toList "\r\n".toList
    (by decide) (by decide) (by decide) (by decide) (by decide) (by decide)
  ⟨h.1, h.2.1, h.2.2.1, h.2.2.2.2.2.2 0 "actual".toList (by decide) (by decide)⟩
